import Mathlib

/-!
Verification of fwupd: PixArt RF OTA updater and Synaptics RMI (V5 / PS/2) updater

A shallow embedding of

* `plugins/pixart-rf/fu-pxi-device.c`
* `plugins/synaptics-rmi/fu-synaptics-rmi-v5-device.c`
* `plugins/synaptics-rmi/fu-synaptics-rmi-ps2-device.c`

Bytes are natural numbers; a byte that comes from outside (a device response, a
firmware image) is reduced modulo 256 where the C code stores it in a `guint8`.
Every function returns a `Run`: the `gboolean` result, the content of the
`GError **error` out-parameter, the device object after the call and the
sequence of externally visible events the call produced, in order.
-/

set_option autoImplicit false

/-! ## GLib conventions shared by the three drivers -/

/-- Error codes that occur in the embedded sources. `COLLABORATOR` stands for
whatever code a callee outside the embedded sources put in the error. -/
inductive ErrorCode
  | FWUPD_ERROR_READ
  | FWUPD_ERROR_NOT_SUPPORTED
  | G_IO_ERROR_FAILED
  | G_IO_ERROR_TIMED_OUT
  | COLLABORATOR
  deriving DecidableEq, Repr

/-- A `GError`: code, printf format of the message (prefixes prepended) and the
printf arguments in order. -/
structure GError where
  code : ErrorCode
  message : String
  args : List Nat
  deriving DecidableEq, Repr

/-- The function `g_prefix_error`: prepends to the message of an error that is
set and does nothing when no error is set. -/
def g_prefix_error (error : Option GError) (pfx : String) (args : List Nat) : Option GError :=
  match error with
  | none => none
  | some e => some { e with message := pfx ++ e.message, args := args ++ e.args }

/-- Result of running one function of a driver. -/
structure Run (σ ε : Type) where
  ok : Bool
  error : Option GError
  self : σ
  trace : List ε

/-- Sequencing with the early return of C: `if (!first) return FALSE; return next;`. -/
def Run.and_then {σ ε : Type} (r : Run σ ε) (next : σ → Run σ ε) : Run σ ε :=
  if r.ok then
    let n := next r.self
    { n with trace := r.trace ++ n.trace }
  else r

/-- The `g_prefix_error (error, ...); return FALSE;` of a failure branch: a run
that succeeded is left alone. -/
def Run.prefix_error {σ ε : Type} (r : Run σ ε) (pfx : String) (args : List Nat) : Run σ ε :=
  if r.ok then r else { r with error := g_prefix_error r.error pfx args }

/-- Little-endian encoding of the low 32 bits of a number
(`fu_byte_array_append_uint32 (..., G_LITTLE_ENDIAN)`). -/
def le32 (v : Nat) : List Nat :=
  [v % 256, v / 256 % 256, v / 65536 % 256, v / 16777216 % 256]

/-- Little-endian encoding of the low 16 bits of a number. -/
def le16 (v : Nat) : List Nat :=
  [v % 256, v / 256 % 256]

/-- The function `fu_common_read_uint16 (buf + off, G_LITTLE_ENDIAN)`. -/
def read_uint16_le (buf : List Nat) (off : Nat) : Nat :=
  buf.getD off 0 % 256 + 256 * (buf.getD (off + 1) 0 % 256)

/-- A read of `bufsz` bytes into `buf`: the bytes delivered replace the start of
the buffer, what is not delivered keeps its content. -/
def fill_buffer (buf : List Nat) (bufsz : Nat) (data : List Nat) : List Nat :=
  (data.take bufsz).map (fun b => b % 256) ++ buf.drop (min bufsz data.length)

/-- A `FuChunk`. -/
structure FuChunk where
  idx : Nat
  address : Nat
  data : List Nat
  deriving DecidableEq, Repr

/-- The chunk size `data_sz` of a chunk. -/
def FuChunk.data_sz (chk : FuChunk) : Nat := chk.data.length

/-- Splitting loop of `fu_chunk_array_new`; `fuel` bounds the number of chunks. -/
def fu_chunk_array_go (packet_sz : Nat) : Nat → Nat → Nat → List Nat → List FuChunk
  | 0, _, _, _ => []
  | fuel + 1, idx, addr, data =>
    match data with
    | [] => []
    | b :: bs =>
      if packet_sz = 0 then [⟨idx, addr % 4294967296, b :: bs⟩]
      else ⟨idx, addr % 4294967296, (b :: bs).take packet_sz⟩ ::
        fu_chunk_array_go packet_sz fuel (idx + 1) (addr + packet_sz) ((b :: bs).drop packet_sz)

/-- Modelled from the spec: `fu_chunk_array_new` with page size 0 (libfwupdplugin,
`fu-chunk.c`, is not among the sources). "Split blob into objects of 4096 bytes",
"Split object into payloads of 20 bytes": consecutive chunks of `packet_sz` bytes,
only the last one may be shorter, chunk `i` has index `i` and address
`addr_start + i * packet_sz`. -/
def fu_chunk_array_new (data : List Nat) (addr_start packet_sz : Nat) : List FuChunk :=
  fu_chunk_array_go packet_sz data.length 0 addr_start data

/-! ## PixArt RF (`fu-pxi-device.c`) -/

namespace Pxi

def PXI_HID_DEV_OTA_INPUT_REPORT_ID : Nat := 0x05
def PXI_HID_DEV_OTA_OUTPUT_REPORT_ID : Nat := 0x06
def PXI_HID_DEV_OTA_FEATURE_REPORT_ID : Nat := 0x07

def FU_PXI_DEVICE_CMD_FW_OTA_INIT : Nat := 0x10
def FU_PXI_DEVICE_CMD_FW_WRITE : Nat := 0x17
def FU_PXI_DEVICE_CMD_FW_UPGRADE : Nat := 0x18
def FU_PXI_DEVICE_CMD_FW_MCU_RESET : Nat := 0x22
def FU_PXI_DEVICE_CMD_FW_OBJECT_CREATE : Nat := 0x25
def FU_PXI_DEVICE_CMD_FW_OTA_INIT_NEW : Nat := 0x27

def FU_PXI_DEVICE_OBJECT_SIZE_MAX : Nat := 4096
def FU_PXI_DEVICE_OTA_PAYLOAD_SZ : Nat := 20
def FU_PXI_DEVICE_OTA_BUF_SZ : Nat := 32

/-- The place in `fu-pxi-device.c` that issued a transport operation. The
checksum notification carries the value of the local `checksum` of
`fu_pxi_device_write_chunk` it is compared with (both are printed by the
`g_debug` that follows the read). -/
inductive Site
  | ota_init
  | ota_init_new
  | ota_init_new_feature
  | object_create
  | object_create_reply
  | payload
  | prn_notify
  | checksum_notify (table_checksum : Nat)
  | upgrade
  | upgrade_notify
  | reset
  deriving DecidableEq, Repr

/-- A transport operation on the hidraw device. -/
inductive HidOp
  | pwrite (port : Nat) (data : List Nat)
  | pread (port : Nat) (bufsz : Nat)
  | get_feature (bufsz : Nat)
  deriving DecidableEq, Repr

/-- What the transport answers to one operation: it fails, or it succeeds (for a
read: with these bytes). -/
inductive HidResp
  | fail
  | ok (data : List Nat)
  deriving DecidableEq, Repr

/-- User-visible status values set by this driver. -/
inductive FwupdStatus
  | DEVICE_BUSY
  | DEVICE_WRITE
  | DEVICE_VERIFY
  | DEVICE_RESTART
  deriving DecidableEq, Repr

/-- Externally visible events of the PixArt driver. -/
inductive Event
  | io (site : Site) (op : HidOp) (resp : HidResp)
  | set_status (status : FwupdStatus)
  | set_progress (i n : Nat)
  deriving DecidableEq, Repr

/-- The struct `_FuPxiDevice`, with the answers the transport is going to give
to the operations still to come (`script`; once it is used up every operation
fails). -/
structure FuPxiDevice where
  status : Nat
  new_flow : Nat
  offset : Nat
  checksum : Nat
  max_object_size : Nat
  mtu_size : Nat
  prn_threshold : Nat
  spec_check_result : Nat
  script : List HidResp
  deriving DecidableEq, Repr

/-- A parsed firmware as this driver reads it: the default image, if any, and
the version string (its bytes up to the terminating NUL). -/
structure FuFirmware where
  image_default : Option (List Nat)
  version : List Nat
  deriving DecidableEq, Repr

abbrev PxiRun := Run FuPxiDevice Event

/-- The error a failing transport call leaves behind. -/
def transport_error : GError := ⟨ErrorCode.COLLABORATOR, "transport", []⟩

/-- One transport operation: takes the next answer of the script. -/
def transport (self : FuPxiDevice) (site : Site) (op : HidOp) : PxiRun × List Nat :=
  match self.script with
  | [] => (⟨false, some transport_error, self, [Event.io site op HidResp.fail]⟩, [])
  | HidResp.fail :: rest =>
    (⟨false, some transport_error, { self with script := rest }, [Event.io site op HidResp.fail]⟩, [])
  | HidResp.ok data :: rest =>
    (⟨true, none, { self with script := rest }, [Event.io site op (HidResp.ok data)]⟩, data)

/-- The function `fu_udev_device_pwrite_full`. -/
def fu_udev_device_pwrite_full (self : FuPxiDevice) (site : Site) (port : Nat)
    (data : List Nat) : PxiRun :=
  (transport self site (HidOp.pwrite port data)).1

/-- The function `fu_pxi_device_calculate_checksum`. -/
def fu_pxi_device_calculate_checksum (data : List Nat) : Nat :=
  data.foldl (fun checksum b => (checksum + b % 256) % 65536) 0

/-- The buffer `res` of `fu_pxi_device_wait_notify` before the read. -/
def notify_buffer : List Nat :=
  PXI_HID_DEV_OTA_INPUT_REPORT_ID :: List.replicate (FU_PXI_DEVICE_OTA_BUF_SZ - 1) 0

/-- The status (opcode) byte of a notification buffer. -/
def notify_status (res : List Nat) : Nat := res.getD 0x01 0

/-- The checksum field of a notification buffer. -/
def notify_checksum (res : List Nat) : Nat := read_uint16_le res 0x02

/-- The function `fu_pxi_device_wait_notify`: returns the run and the buffer
`res` after the read (the caller takes `status` and/or `checksum` from it). -/
def fu_pxi_device_wait_notify (self : FuPxiDevice) (site : Site) (port : Nat) :
    PxiRun × List Nat :=
  let bufsz := FU_PXI_DEVICE_OTA_BUF_SZ - port
  let r := transport self site (HidOp.pread port bufsz)
  if r.1.ok then (r.1, fill_buffer notify_buffer bufsz r.2) else (r.1, notify_buffer)

/-- The function `fu_pxi_device_fw_object_create`. -/
def fu_pxi_device_fw_object_create (self : FuPxiDevice) (chk : FuChunk) : PxiRun :=
  let req := [PXI_HID_DEV_OTA_OUTPUT_REPORT_ID, FU_PXI_DEVICE_CMD_FW_OBJECT_CREATE]
    ++ le32 chk.address ++ le32 chk.data_sz
  let w := fu_udev_device_pwrite_full self Site.object_create 0x0 req
  if !w.ok then w else
  let r := (transport w.self Site.object_create_reply
    (HidOp.pread 0x0 FU_PXI_DEVICE_OTA_BUF_SZ)).1
  { r with trace := w.trace ++ r.trace }

/-- The function `fu_pxi_device_write_payload`. -/
def fu_pxi_device_write_payload (self : FuPxiDevice) (chk : FuChunk) : PxiRun :=
  fu_udev_device_pwrite_full self Site.payload 0x0
    (PXI_HID_DEV_OTA_OUTPUT_REPORT_ID :: chk.data)

/-- The payload loop of `fu_pxi_device_write_chunk` (`prn` is the `guint32`
counter). -/
def write_chunk_payloads (self : FuPxiDevice) (prn : Nat) : List FuChunk → PxiRun
  | [] => ⟨true, none, self, []⟩
  | chk2 :: rest =>
    let w := fu_pxi_device_write_payload self chk2
    if !w.ok then w else
    let prn := (prn + 1) % 4294967296
    if prn ≥ w.self.prn_threshold then
      let n := fu_pxi_device_wait_notify w.self Site.prn_notify 0x1
      if !n.1.ok then { n.1 with trace := w.trace ++ n.1.trace } else
      let opcode := notify_status n.2
      if opcode ≠ FU_PXI_DEVICE_CMD_FW_WRITE then
        ⟨false, some ⟨ErrorCode.FWUPD_ERROR_READ, "FwWrite opcode invalid %02x", [opcode]⟩,
          n.1.self, w.trace ++ n.1.trace⟩
      else
        let l := write_chunk_payloads n.1.self 0 rest
        { l with trace := w.trace ++ n.1.trace ++ l.trace }
    else
      let l := write_chunk_payloads w.self prn rest
      { l with trace := w.trace ++ l.trace }

/-- The function `fu_pxi_device_write_chunk`. -/
def fu_pxi_device_write_chunk (self : FuPxiDevice) (chk : FuChunk) : PxiRun :=
  let checksum := fu_pxi_device_calculate_checksum chk.data
  let c := fu_pxi_device_fw_object_create self chk
  if !c.ok then c else
  let chunks := fu_chunk_array_new chk.data chk.address FU_PXI_DEVICE_OTA_PAYLOAD_SZ
  let l := write_chunk_payloads c.self 0 chunks
  if !l.ok then { l with trace := c.trace ++ l.trace } else
  let n := fu_pxi_device_wait_notify l.self (Site.checksum_notify checksum) 0x0
  if !n.1.ok then { n.1 with trace := c.trace ++ l.trace ++ n.1.trace } else
  let checksum_tmp := notify_checksum n.2
  if checksum_tmp ≠ checksum then
    ⟨false, some ⟨ErrorCode.FWUPD_ERROR_READ, "checksum fail, got %x, expected %x",
      [checksum_tmp, checksum]⟩, n.1.self, c.trace ++ l.trace ++ n.1.trace⟩
  else
    ⟨true, none, n.1.self, c.trace ++ l.trace ++ n.1.trace⟩

/-- The function `fu_pxi_device_reset`. -/
def fu_pxi_device_reset (self : FuPxiDevice) (fw_sz : Nat) : PxiRun :=
  let req := [PXI_HID_DEV_OTA_OUTPUT_REPORT_ID, FU_PXI_DEVICE_CMD_FW_MCU_RESET, fw_sz % 256]
    ++ List.replicate (FU_PXI_DEVICE_OTA_BUF_SZ - 3) 0
  let w := fu_udev_device_pwrite_full self Site.reset 0 req
  if !w.ok then
    { w with error := g_prefix_error w.error "failed to reset: " [],
             trace := Event.set_status FwupdStatus.DEVICE_RESTART :: w.trace }
  else { w with trace := Event.set_status FwupdStatus.DEVICE_RESTART :: w.trace }

/-- The function `fu_pxi_device_fw_ota_init`. -/
def fu_pxi_device_fw_ota_init (self : FuPxiDevice) : PxiRun :=
  fu_udev_device_pwrite_full self Site.ota_init 0
    [PXI_HID_DEV_OTA_OUTPUT_REPORT_ID, FU_PXI_DEVICE_CMD_FW_OTA_INIT]

/-- The function `fu_pxi_device_fw_ota_init_new`. The part of `res` the ioctl
does not fill is uninitialised in C and taken as zero here. -/
def fu_pxi_device_fw_ota_init_new (self : FuPxiDevice) (fw_sz : Nat) : PxiRun :=
  let req := [PXI_HID_DEV_OTA_OUTPUT_REPORT_ID, FU_PXI_DEVICE_CMD_FW_OTA_INIT_NEW]
    ++ le32 fw_sz ++ [0x0] ++ List.replicate 10 0
  let w := fu_udev_device_pwrite_full self Site.ota_init_new 0x0 req
  if !w.ok then w else
  let g := transport w.self Site.ota_init_new_feature
    (HidOp.get_feature FU_PXI_DEVICE_OTA_BUF_SZ)
  if !g.1.ok then { g.1 with trace := w.trace ++ g.1.trace } else
  let res := fill_buffer
    ([PXI_HID_DEV_OTA_FEATURE_REPORT_ID, FU_PXI_DEVICE_CMD_FW_OTA_INIT_NEW]
      ++ List.replicate (FU_PXI_DEVICE_OTA_BUF_SZ - 2) 0) FU_PXI_DEVICE_OTA_BUF_SZ g.2
  let self1 : FuPxiDevice :=
    { g.1.self with
      status := res.getD 0x2 0
      new_flow := res.getD 0x3 0
      offset := read_uint16_le res 0x4
      checksum := read_uint16_le res 0x6
      max_object_size := read_uint16_le res 0x8 + 65536 * read_uint16_le res 0xa
      mtu_size := read_uint16_le res 0xc
      prn_threshold := read_uint16_le res 0xe
      spec_check_result := res.getD 0x10 0 }
  ⟨true, none, self1, w.trace ++ g.1.trace⟩

/-- The request built by `fu_pxi_device_fw_upgrade` for an image `fw_buf` and a
version of at most 10 bytes. The local `checksum` is a `guint8`. -/
def fw_upgrade_req (fw_buf version : List Nat) : List Nat :=
  let checksum := fu_pxi_device_calculate_checksum fw_buf % 256
  [PXI_HID_DEV_OTA_OUTPUT_REPORT_ID, FU_PXI_DEVICE_CMD_FW_UPGRADE]
    ++ le32 fw_buf.length ++ le32 checksum
    ++ (version ++ List.replicate (10 - version.length) 0)

/-- The function `fu_pxi_device_fw_upgrade`. -/
def fu_pxi_device_fw_upgrade (self : FuPxiDevice) (firmware : FuFirmware) : PxiRun :=
  match firmware.image_default with
  | none => ⟨false, some ⟨ErrorCode.COLLABORATOR, "no default image", []⟩, self, []⟩
  | some fw_buf =>
    if firmware.version.length ≤ 10 then
      let req := fw_upgrade_req fw_buf firmware.version
      let w := fu_udev_device_pwrite_full self Site.upgrade 0 req
      if !w.ok then { w with trace := Event.set_status FwupdStatus.DEVICE_VERIFY :: w.trace } else
      let n := fu_pxi_device_wait_notify w.self Site.upgrade_notify 0x1
      if !n.1.ok then
        { n.1 with trace := Event.set_status FwupdStatus.DEVICE_VERIFY :: w.trace ++ n.1.trace }
      else
      let opcode := notify_status n.2
      if opcode ≠ FU_PXI_DEVICE_CMD_FW_UPGRADE then
        ⟨false, some ⟨ErrorCode.FWUPD_ERROR_READ, "FwUpgrade opcode invalid %02x", [opcode]⟩,
          n.1.self, Event.set_status FwupdStatus.DEVICE_VERIFY :: w.trace ++ n.1.trace⟩
      else
        ⟨true, none, n.1.self, Event.set_status FwupdStatus.DEVICE_VERIFY :: w.trace ++ n.1.trace⟩
    else
      ⟨false, some ⟨ErrorCode.COLLABORATOR, "fu_memcpy_safe", []⟩, self, []⟩

/-- The object loop of `fu_pxi_device_write_firmware`; `len` is `chunks->len`. -/
def write_firmware_objects (self : FuPxiDevice) (len : Nat) : Nat → List FuChunk → PxiRun
  | _, [] => ⟨true, none, self, []⟩
  | i, chk :: rest =>
    let c := fu_pxi_device_write_chunk self chk
    if !c.ok then c else
    let l := write_firmware_objects c.self len (i + 1) rest
    { l with trace := c.trace ++ Event.set_progress i len :: l.trace }

/-- The function `fu_pxi_device_write_firmware`. -/
def fu_pxi_device_write_firmware (self : FuPxiDevice) (firmware : FuFirmware) : PxiRun :=
  match firmware.image_default with
  | none => ⟨false, some ⟨ErrorCode.COLLABORATOR, "no default image", []⟩, self, []⟩
  | some fw =>
    let t0 := [Event.set_status FwupdStatus.DEVICE_BUSY]
    let a := fu_pxi_device_fw_ota_init self
    if !a.ok then { a with trace := t0 ++ a.trace } else
    let b := fu_pxi_device_fw_ota_init_new a.self fw.length
    if !b.ok then { b with trace := t0 ++ a.trace ++ b.trace } else
    let t1 := t0 ++ a.trace ++ b.trace ++ [Event.set_status FwupdStatus.DEVICE_WRITE]
    let chunks := fu_chunk_array_new fw 0x0 FU_PXI_DEVICE_OBJECT_SIZE_MAX
    let l := write_firmware_objects b.self chunks.length 0 chunks
    if !l.ok then { l with trace := t1 ++ l.trace } else
    let u := fu_pxi_device_fw_upgrade l.self firmware
    if !u.ok then { u with trace := t1 ++ l.trace ++ u.trace } else
    let r := fu_pxi_device_reset u.self fw.length
    { r with trace := t1 ++ l.trace ++ u.trace ++ r.trace }

end Pxi

/-! ## Synaptics RMI over PS/2 (`fu-synaptics-rmi-ps2-device.c`) -/

namespace Ps2

/-- Modelled from the spec: the response token `ACK` (`edpsAcknowledge` of
`fu-synaptics-rmi-ps2-device.h`, which is not among the sources). -/
def edpsAcknowledge : Nat := 0xFA
/-- Modelled from the spec: the response token `RESEND`. -/
def edpsResend : Nat := 0xFE
/-- Modelled from the spec: the response token `ERROR`. -/
def edpsError : Nat := 0xFC
/-- Modelled from the spec: the command byte `RESET`. -/
def edpAuxReset : Nat := 0xFF
/-- Modelled from the spec: the command byte `DISABLE`. -/
def edpAuxDisable : Nat := 0xF5
/-- Modelled from the spec: the command byte `SET_SAMPLE_RATE`. -/
def edpAuxSetSampleRate : Nat := 0xF3
/-- Modelled from the spec: the command byte `SET_RESOLUTION`. -/
def edpAuxSetResolution : Nat := 0xE8
/-- Modelled from the spec: the command byte `SET_SCALING_1TO1`. -/
def edpAuxSetScaling1To1 : Nat := 0xE6
/-- Modelled from the spec: the command byte `SET_SCALING_2TO1`. -/
def edpAuxSetScaling2To1 : Nat := 0xE7
/-- Modelled from the spec: the command byte `STATUS_REQUEST`. -/
def edpAuxStatusRequest : Nat := 0xE9
/-- Modelled from the spec: the command byte `READ_SECONDARY_ID`. -/
def edpAuxIBMReadSecondaryID : Nat := 0xE1

/-- The one-byte device constants of `fu-synaptics-rmi-ps2-device.h` whose value
the sources at hand do not give; the driver is embedded for any value of them. -/
structure Tokens where
  edpAuxFullRMIBackDoor : Nat
  essrSetModeByte2 : Nat
  esrIdentifySynaptics : Nat
  esrReadExtraCapabilities2 : Nat
  esrReadCapabilities : Nat
  esdrTouchPad : Nat
  esdtJYTSyna : Nat
  esdtSynaptics : Nat
  deriving DecidableEq, Repr

/-- Outcome of one `fu_io_channel_read_raw` of a single byte. -/
inductive ReadResp
  | byte (b : Nat)
  | timed_out
  | error
  deriving DecidableEq, Repr

/-- Externally visible events of the PS/2 driver: the bytes handed to the serial
channel and the reads made on it. -/
inductive Event
  | write_raw (b : Nat) (timeout : Nat) (ok : Bool)
  | read_raw (timeout : Nat) (resp : ReadResp)
  deriving DecidableEq, Repr

/-- The struct `_FuSynapticsRmiPs2Device`, with the outcomes of the channel
operations still to come: `writes` for the successive `fu_io_channel_write_raw`
calls (once used up every write succeeds) and `reads` for the successive
`fu_io_channel_read_raw` calls (once used up the device is silent and every read
times out). -/
structure FuSynapticsRmiPs2Device where
  in_backdoor : Bool
  writes : List Bool
  reads : List ReadResp
  deriving DecidableEq, Repr

abbrev Ps2Run := Run FuSynapticsRmiPs2Device Event

/-- The error a failing channel operation leaves behind. -/
def channel_error (code : ErrorCode) : GError := ⟨code, "io channel", []⟩

/-- The call `fu_io_channel_write_raw (self->io_channel, &buf, 1, timeout, ...)`. -/
def fu_io_channel_write_raw (self : FuSynapticsRmiPs2Device) (buf timeout : Nat) : Ps2Run :=
  match self.writes with
  | [] => ⟨true, none, self, [Event.write_raw buf timeout true]⟩
  | true :: rest => ⟨true, none, { self with writes := rest }, [Event.write_raw buf timeout true]⟩
  | false :: rest =>
    ⟨false, some (channel_error ErrorCode.COLLABORATOR), { self with writes := rest },
      [Event.write_raw buf timeout false]⟩

/-- The call `fu_io_channel_read_raw (self->io_channel, pbuf, 1, NULL, timeout, ...)`:
the run and the byte stored in `*pbuf` (`pbuf` is the value before the call). -/
def fu_io_channel_read_raw (self : FuSynapticsRmiPs2Device) (pbuf timeout : Nat) :
    Ps2Run × Nat :=
  match self.reads with
  | [] =>
    (⟨false, some (channel_error ErrorCode.G_IO_ERROR_TIMED_OUT), self,
      [Event.read_raw timeout ReadResp.timed_out]⟩, pbuf)
  | ReadResp.byte b :: rest =>
    (⟨true, none, { self with reads := rest }, [Event.read_raw timeout (ReadResp.byte b)]⟩,
      b % 256)
  | ReadResp.timed_out :: rest =>
    (⟨false, some (channel_error ErrorCode.G_IO_ERROR_TIMED_OUT), { self with reads := rest },
      [Event.read_raw timeout ReadResp.timed_out]⟩, pbuf)
  | ReadResp.error :: rest =>
    (⟨false, some (channel_error ErrorCode.COLLABORATOR), { self with reads := rest },
      [Event.read_raw timeout ReadResp.error]⟩, pbuf)

/-- The loop of `fu_synaptics_rmi_ps2_device_read_ack`; `n` is the number of
polls left (60 at the start). -/
def read_ack_loop (pbuf : Nat) : Nat → FuSynapticsRmiPs2Device → Ps2Run × Nat
  | 0, self => (⟨false, some ⟨ErrorCode.G_IO_ERROR_FAILED, "failed", []⟩, self, []⟩, pbuf)
  | n + 1, self =>
    let r := fu_io_channel_read_raw self pbuf 60
    if r.1.ok then r
    else if r.1.error = some (channel_error ErrorCode.G_IO_ERROR_TIMED_OUT) then
      let l := read_ack_loop pbuf n r.1.self
      ({ l.1 with trace := r.1.trace ++ l.1.trace }, l.2)
    else r

/-- The function `fu_synaptics_rmi_ps2_device_read_ack`. -/
def fu_synaptics_rmi_ps2_device_read_ack (self : FuSynapticsRmiPs2Device) (pbuf : Nat) :
    Ps2Run × Nat :=
  read_ack_loop pbuf 60 self

/-- The function `fu_synaptics_rmi_ps2_device_read_byte`. -/
def fu_synaptics_rmi_ps2_device_read_byte (self : FuSynapticsRmiPs2Device)
    (pbuf timeout : Nat) : Ps2Run × Nat :=
  if timeout > 0 then fu_io_channel_read_raw self pbuf timeout
  else (⟨false, none, self, []⟩, pbuf)

/-- The loop of `fu_synaptics_rmi_ps2_device_write_byte`: `do_write` and the
`guint i` are the loop variables; `none` when `fuel` iterations did not reach a
`return`. -/
def write_byte_loop (buf timeout : Nat) :
    Nat → FuSynapticsRmiPs2Device → Bool → Nat → Option Ps2Run
  | 0, _, _, _ => none
  | fuel + 1, self, do_write, i =>
    let w : Ps2Run :=
      if do_write then fu_io_channel_write_raw self buf timeout else ⟨true, none, self, []⟩
    if !w.ok then some w else
    let a := fu_synaptics_rmi_ps2_device_read_ack w.self 0
    let res := a.2
    let seen := w.trace ++ a.1.trace
    let continue_with (do_write : Bool) : Option Ps2Run :=
      (write_byte_loop buf timeout fuel a.1.self do_write ((i + 1) % 4294967296)).map
        (fun l => { l with trace := seen ++ l.trace })
    if !a.1.ok then
      if i > 3 then
        some ⟨false, g_prefix_error a.1.error "read ack failed: " [], a.1.self, seen⟩
      else continue_with false
    else if res = edpsAcknowledge then some ⟨true, none, a.1.self, seen⟩
    else if res = edpsResend then continue_with true
    else if res = edpsError then continue_with true
    else continue_with false

/-- Number of iterations after which the loop of `write_byte` has returned,
whatever the device does (see `write_byte_loop_returns`). -/
def write_byte_fuel (self : FuSynapticsRmiPs2Device) : Nat :=
  5 * self.reads.length + 5

/-- The function `fu_synaptics_rmi_ps2_device_write_byte`. -/
def fu_synaptics_rmi_ps2_device_write_byte (self : FuSynapticsRmiPs2Device)
    (buf timeout : Nat) : Ps2Run :=
  if timeout > 0 then
    match write_byte_loop buf timeout (write_byte_fuel self) self true 0 with
    | some r => r
    | none => ⟨false, none, self, []⟩
  else ⟨false, none, self, []⟩

/-- The second loop of `fu_synaptics_rmi_ps2_device_set_resolution_sequence`;
`n` is `i + 1` for the loop variable `i` (3 at the start). -/
def set_resolution_pairs (arg : Nat) : Nat → FuSynapticsRmiPs2Device → Ps2Run
  | 0, self => ⟨true, none, self, []⟩
  | i + 1, self =>
    let ucTwoBitArg := (arg / 2 ^ (i * 2)) % 4
    ((fu_synaptics_rmi_ps2_device_write_byte self edpAuxSetResolution 50).and_then
      (fun s => fu_synaptics_rmi_ps2_device_write_byte s ucTwoBitArg 50)).and_then
      (set_resolution_pairs arg i)

/-- The first loop of `fu_synaptics_rmi_ps2_device_set_resolution_sequence`. -/
def set_scaling_1to1 : Nat → FuSynapticsRmiPs2Device → Ps2Run
  | 0, self => ⟨true, none, self, []⟩
  | i + 1, self =>
    (fu_synaptics_rmi_ps2_device_write_byte self edpAuxSetScaling1To1 50).and_then
      (set_scaling_1to1 i)

/-- The function `fu_synaptics_rmi_ps2_device_set_resolution_sequence`. -/
def fu_synaptics_rmi_ps2_device_set_resolution_sequence (self : FuSynapticsRmiPs2Device)
    (arg : Nat) (send_e6s : Bool) : Ps2Run :=
  (set_scaling_1to1 (if send_e6s then 2 else 1) self).and_then (set_resolution_pairs arg 4)

/-- One pass through the body of the loop of
`fu_synaptics_rmi_ps2_device_sample_rate_sequence`. -/
def sample_rate_attempt (self : FuSynapticsRmiPs2Device) (param arg : Nat)
    (send_e6s : Bool) : Ps2Run :=
  ((fu_synaptics_rmi_ps2_device_set_resolution_sequence self arg send_e6s).and_then
    (fun s => fu_synaptics_rmi_ps2_device_write_byte s edpAuxSetSampleRate 50)).and_then
    (fun s => fu_synaptics_rmi_ps2_device_write_byte s param 50)

/-- The loop of `fu_synaptics_rmi_ps2_device_sample_rate_sequence` with its
`guint i`; `none` when `fuel` iterations did not reach a `return`. -/
def sample_rate_loop (param arg : Nat) :
    Nat → Nat → FuSynapticsRmiPs2Device → Bool → Option Ps2Run
  | 0, _, _, _ => none
  | fuel + 1, i, self, send_e6s =>
    let send_e6s := if i > 0 then true else send_e6s
    let a := sample_rate_attempt self param arg send_e6s
    if !a.ok then
      if i > 3 then some a
      else (sample_rate_loop param arg fuel (i + 1) a.self send_e6s).map
        (fun l => { l with trace := a.trace ++ l.trace })
    else some a

/-- The function `fu_synaptics_rmi_ps2_device_sample_rate_sequence`: the loop
returns within 5 iterations (see `sample_rate_loop_returns`). -/
def fu_synaptics_rmi_ps2_device_sample_rate_sequence (self : FuSynapticsRmiPs2Device)
    (param arg : Nat) (send_e6s : Bool) : Ps2Run :=
  match sample_rate_loop param arg 5 0 self send_e6s with
  | some r => r
  | none => ⟨false, none, self, []⟩

/-- The function `fu_synaptics_rmi_ps2_device_enable_rmi_backdoor`. -/
def fu_synaptics_rmi_ps2_device_enable_rmi_backdoor (k : Tokens)
    (self : FuSynapticsRmiPs2Device) : Ps2Run :=
  if self.in_backdoor then ⟨true, none, self, []⟩ else
  ((fu_synaptics_rmi_ps2_device_write_byte self edpAuxDisable 50).prefix_error
      "failed to disable stream mode: " []).and_then
    (fun s => (fu_synaptics_rmi_ps2_device_sample_rate_sequence s
      k.essrSetModeByte2 k.edpAuxFullRMIBackDoor false).prefix_error
      "failed to enter RMI mode: " [])

/-- The `for` loop of `fu_synaptics_rmi_ps2_device_write_rmi_register` over the
bytes still to send; `i` is the `guint8` loop variable. -/
def write_rmi_register_bytes (timeout : Nat) :
    List Nat → Nat → FuSynapticsRmiPs2Device → Ps2Run
  | [], _, self => ⟨true, none, self, []⟩
  | b :: rest, i, self =>
    (((fu_synaptics_rmi_ps2_device_write_byte self edpAuxSetSampleRate timeout).prefix_error
        "failed to set byte %u: " [i]).and_then
      (fun s => (fu_synaptics_rmi_ps2_device_write_byte s b timeout).prefix_error
        "failed to write byte %u: " [i])).and_then
      (write_rmi_register_bytes timeout rest (i + 1))

/-- The function `fu_synaptics_rmi_ps2_device_write_rmi_register`; `buflen` is a
`guint8`. -/
def fu_synaptics_rmi_ps2_device_write_rmi_register (k : Tokens)
    (self : FuSynapticsRmiPs2Device) (addr : Nat) (buf : List Nat) (buflen timeout : Nat) :
    Ps2Run :=
  if timeout > 0 then
    (((((fu_synaptics_rmi_ps2_device_enable_rmi_backdoor k self).prefix_error
        "failed to enable RMI backdoor: " []).and_then
      (fun s => (fu_synaptics_rmi_ps2_device_write_byte s edpAuxSetScaling2To1 timeout).prefix_error
        "failed to edpAuxSetScaling2To1: " [])).and_then
      (fun s => (fu_synaptics_rmi_ps2_device_write_byte s edpAuxSetSampleRate timeout).prefix_error
        "failed to edpAuxSetSampleRate: " [])).and_then
      (fun s => (fu_synaptics_rmi_ps2_device_write_byte s (addr % 256) timeout).prefix_error
        "failed to write address: " [])).and_then
      (write_rmi_register_bytes timeout (buf.take (buflen % 256)) 0)
  else ⟨false, none, self, []⟩

/-- The read loop of `fu_synaptics_rmi_ps2_device_read_rmi_register`: `n` reads
are left, `i` is the loop variable, `response` the word assembled so far. -/
def read_rmi_register_bytes :
    Nat → Nat → Nat → FuSynapticsRmiPs2Device → Ps2Run × Nat
  | 0, _, response, self => (⟨true, none, self, []⟩, response)
  | n + 1, i, response, self =>
    let r := fu_synaptics_rmi_ps2_device_read_byte self 0 500
    if !r.1.ok then
      ({ r.1 with error := g_prefix_error r.1.error "failed to read byte %u: " [i] }, response)
    else
      let l := read_rmi_register_bytes n (i + 1)
        (Nat.lor response ((r.2 * 2 ^ (8 * i)) % 4294967296)) r.1.self
      ({ l.1 with trace := r.1.trace ++ l.1.trace }, l.2)

/-- The function `fu_synaptics_rmi_ps2_device_read_rmi_register`: the run and
the byte stored in `*buf` (`buf` is the value before the call). -/
def fu_synaptics_rmi_ps2_device_read_rmi_register (k : Tokens)
    (self : FuSynapticsRmiPs2Device) (addr buf : Nat) : Ps2Run × Nat :=
  let e := (fu_synaptics_rmi_ps2_device_enable_rmi_backdoor k self).prefix_error
    "failed to enable RMI backdoor: " []
  if !e.ok then (e, buf) else
  let c := ((((fu_synaptics_rmi_ps2_device_write_byte e.self edpAuxSetScaling2To1 50).and_then
      (fun s => fu_synaptics_rmi_ps2_device_write_byte s edpAuxSetSampleRate 50)).and_then
      (fun s => fu_synaptics_rmi_ps2_device_write_byte s (addr % 256) 50)).and_then
      (fun s => fu_synaptics_rmi_ps2_device_write_byte s edpAuxStatusRequest 50)).prefix_error
    "failed to write command in Read RMI register: " []
  if !c.ok then ({ c with trace := e.trace ++ c.trace }, buf) else
  let r := read_rmi_register_bytes 3 0 0 c.self
  if !r.1.ok then ({ r.1 with trace := e.trace ++ c.trace ++ r.1.trace }, buf) else
  ({ r.1 with trace := e.trace ++ c.trace ++ r.1.trace }, r.2 % 256)

end Ps2

/-! ## Synaptics RMI V5 flash engine (`fu-synaptics-rmi-v5-device.c`) -/

namespace RmiV5

def RMI_F34_BLOCK_SIZE_OFFSET : Nat := 1
def RMI_F34_FW_BLOCKS_OFFSET : Nat := 3
def RMI_F34_CONFIG_BLOCKS_OFFSET : Nat := 5
def RMI_F34_BLOCK_DATA_OFFSET : Nat := 2
def RMI_F34_BLOCK_DATA_V1_OFFSET : Nat := 1
def RMI_F34_IDLE_WAIT_MS : Nat := 500
def RMI_V5_FLASH_CMD_ERASE_WAIT_MS : Nat := 5 * 1000
def RMI_DEVICE_WAIT_FOR_IDLE_FLAG_NONE : Nat := 0
def RMI_DEVICE_WAIT_FOR_IDLE_FLAG_REFRESH_F34 : Nat := 1

/-- Modelled from the spec: the RMI function record `FuSynapticsRmiFunction`
(`fu-synaptics-rmi-common.h` is not among the sources): "function_number,
query_base, data_base, command_base, control_base, function_version,
interrupt_source_mask". -/
structure FuSynapticsRmiFunction where
  function_number : Nat
  query_base : Nat
  data_base : Nat
  command_base : Nat
  control_base : Nat
  function_version : Nat
  interrupt_source_mask : Nat
  deriving DecidableEq, Repr

/-- The struct `FuSynapticsRmiFlash` of `fu-synaptics-rmi-device.h`. -/
structure FuSynapticsRmiFlash where
  block_count_cfg : Nat
  block_count_fw : Nat
  block_size : Nat
  config_length : Nat
  payload_length : Nat
  build_id : Nat
  bootloader_id : Nat × Nat
  status_addr : Nat
  deriving DecidableEq, Repr

/-- A parsed RMI firmware as the V5 engine reads it: the images `ui` and
`config`, if present, and the two sizes of the header (`guint32` values). -/
structure FuSynapticsRmiFirmware where
  ui : Option (List Nat)
  config : Option (List Nat)
  signature_size : Nat
  firmware_size : Nat
  deriving DecidableEq, Repr

/-- The operations of the RMI device object (`fu-synaptics-rmi-device.c`, not
among the sources) that the V5 engine calls. -/
inductive Op
  | enter_backdoor
  | wait_for_idle (timeout_ms flags : Nat)
  | write (addr : Nat) (req : List Nat)
  | read (addr req_sz : Nat)
  | read_packet_register (addr req_sz : Nat)
  deriving DecidableEq, Repr

/-- What the device object answers to one operation: it fails (and sets an
error), it succeeds (for a read: with these bytes), or, for an idle wait that
refreshes F34, it succeeds having re-scanned the function table. -/
inductive Resp
  | fail
  | ok (data : List Nat)
  | rescanned (functions : List FuSynapticsRmiFunction)
  deriving DecidableEq, Repr

/-- Externally visible events of the V5 engine. -/
inductive Event
  | op (op : Op) (resp : Resp)
  | sleep_with_progress (secs : Nat)
  deriving DecidableEq, Repr

/-- The RMI device object as the V5 engine sees it (`rsa_keylen` is a `guint16`
value), with the answers to the operations still to come (`script`; once it is
used up every operation fails). -/
structure FuSynapticsRmiDevice where
  is_bootloader : Bool
  rsa_keylen : Nat
  flash : FuSynapticsRmiFlash
  functions : List FuSynapticsRmiFunction
  script : List Resp
  deriving DecidableEq, Repr

abbrev RmiRun := Run FuSynapticsRmiDevice Event

/-- The error a failing operation of the device object leaves behind. -/
def device_error : GError := ⟨ErrorCode.COLLABORATOR, "rmi device", []⟩

/-- One operation of the device object: takes the next answer of the script and
returns the bytes read (`none` for the `NULL` of a failed read). -/
def device_op (self : FuSynapticsRmiDevice) (op : Op) : RmiRun × Option (List Nat) :=
  match self.script with
  | [] => (⟨false, some device_error, self, [Event.op op Resp.fail]⟩, none)
  | Resp.fail :: rest =>
    (⟨false, some device_error, { self with script := rest }, [Event.op op Resp.fail]⟩, none)
  | Resp.ok data :: rest =>
    (⟨true, none, { self with script := rest }, [Event.op op (Resp.ok data)]⟩,
      some (data.map (fun b => b % 256)))
  | Resp.rescanned functions :: rest =>
    match op with
    | Op.wait_for_idle _ flags =>
      if flags % 2 = 1 then
        (⟨true, none, { self with script := rest, functions := functions },
          [Event.op op (Resp.rescanned functions)]⟩, some [])
      else
        (⟨true, none, { self with script := rest }, [Event.op op (Resp.rescanned functions)]⟩,
          some [])
    | _ =>
      (⟨true, none, { self with script := rest }, [Event.op op (Resp.rescanned functions)]⟩,
        some [])

/-- The function `fu_synaptics_rmi_device_enter_backdoor`. -/
def fu_synaptics_rmi_device_enter_backdoor (self : FuSynapticsRmiDevice) : RmiRun :=
  (device_op self Op.enter_backdoor).1

/-- The function `fu_synaptics_rmi_device_wait_for_idle`. -/
def fu_synaptics_rmi_device_wait_for_idle (self : FuSynapticsRmiDevice)
    (timeout_ms flags : Nat) : RmiRun :=
  (device_op self (Op.wait_for_idle timeout_ms flags)).1

/-- The function `fu_synaptics_rmi_device_write`; `addr` is a `guint16`. -/
def fu_synaptics_rmi_device_write (self : FuSynapticsRmiDevice) (addr : Nat)
    (req : List Nat) : RmiRun :=
  (device_op self (Op.write (addr % 65536) req)).1

/-- The function `fu_synaptics_rmi_device_read_packet_register`; `addr` is a
`guint16`. -/
def fu_synaptics_rmi_device_read_packet_register (self : FuSynapticsRmiDevice)
    (addr req_sz : Nat) : RmiRun × Option (List Nat) :=
  device_op self (Op.read_packet_register (addr % 65536) req_sz)

/-- The function `fu_synaptics_rmi_device_get_function`: `NULL` with an error
when the table has no such function. -/
def fu_synaptics_rmi_device_get_function (self : FuSynapticsRmiDevice)
    (function_number : Nat) : Option FuSynapticsRmiFunction :=
  self.functions.find? (fun f => f.function_number = function_number)

/-- The error of a failed `fu_synaptics_rmi_device_get_function`. -/
def no_function_error : GError := ⟨ErrorCode.COLLABORATOR, "no function", []⟩

/-- The error of a failed `fu_firmware_get_image_by_id_bytes`. -/
def no_image_error : GError := ⟨ErrorCode.COLLABORATOR, "no image", []⟩

/-- How a function that uses a pointer without checking it ends: it returns, or
its behaviour is undefined after the events already produced (it dereferences
the `NULL` of a failed read, or dumps the `NULL` signature slice with an
uninitialised length). -/
inductive Outcome
  | returned (r : RmiRun)
  | crashed (trace : List Event)

/-- The events of an outcome. -/
def Outcome.trace : Outcome → List Event
  | Outcome.returned r => r.trace
  | Outcome.crashed t => t

/-- The key loop of `fu_synaptics_rmi_v5_device_secure_check`: `n` blocks are
left, `blockNum` is the loop variable, `rsadump` the key assembled so far, `trace`
the events so far. Returns the device, the events and `rsadump` after the loop,
or the events up to a dereference of `NULL`. -/
def secure_check_blocks (addr RSAKeyBlockCount RSAKeyBlockRemain : Nat) :
    Nat → Nat → List Nat → FuSynapticsRmiDevice → List Event →
      Except (List Event) (FuSynapticsRmiDevice × List Event × List Nat)
  | 0, _, rsadump, self, trace => Except.ok (self, trace, rsadump)
  | n + 1, blockNum, rsadump, self, trace =>
    let r := fu_synaptics_rmi_device_read_packet_register self addr 0x3
    let trace := trace ++ r.1.trace
    match r.2 with
    | none => Except.error trace
    | some seg =>
      let last := RSAKeyBlockRemain ≠ 0 ∧ blockNum + 1 = RSAKeyBlockCount
      if last ∧ seg.length < RSAKeyBlockRemain then Except.error trace else
      let seg := if last then seg.take RSAKeyBlockRemain else seg
      let seg := seg.reverse
      let rsadump := (if last then seg.take RSAKeyBlockRemain else seg) ++ rsadump
      secure_check_blocks addr RSAKeyBlockCount RSAKeyBlockRemain n (blockNum + 1) rsadump
        r.1.self trace

/-- GLib's `g_bytes_new_from_bytes (bytes, offset, length)`: the sub-range of
`bytes`, or `NULL` (`none`) when `offset` or `offset + length` lies beyond the
end of `bytes` (the two `g_return_val_if_fail` checks of the function; `gsize`
is wider than the 32-bit operands, so the sum does not wrap). -/
def g_bytes_new_from_bytes (bytes : List Nat) (offset length : Nat) : Option (List Nat) :=
  if offset ≤ bytes.length ∧ offset + length ≤ bytes.length then
    some ((bytes.drop offset).take length)
  else none

/-- The signature slice of `fu_synaptics_rmi_v5_device_secure_check`:
`signatureLength` is the `guint32` signature size, `fimrwareLength` the
`guint32` difference `firmware_size - signatureLength`, and `signature` the
range of the `ui` image `bytes_bin` that starts at `fimrwareLength` and has
`signatureLength` bytes (`none` for `NULL`). -/
def secure_check_signature (firmware : FuSynapticsRmiFirmware) (bytes_bin : List Nat) :
    Option (List Nat) :=
  let signatureLength := firmware.signature_size % 4294967296
  let fimrwareLength :=
    (firmware.firmware_size % 4294967296 + 4294967296 - signatureLength) % 4294967296
  g_bytes_new_from_bytes bytes_bin fimrwareLength signatureLength

/-- The function `fu_synaptics_rmi_v5_device_secure_check`, with the key it
assembled (`rsadump`, only written to the debug log by the C code). The
signature slice is taken before the backdoor entry and written to the debug
log after it: `g_bytes_get_data` of a `NULL` slice returns `NULL` and leaves
`sz` uninitialised, and `fu_common_dump_full (data, sz)` then has no defined
behaviour; the dump of a slice that exists has no effect on the device. -/
def fu_synaptics_rmi_v5_device_secure_check (self : FuSynapticsRmiDevice)
    (firmware : FuSynapticsRmiFirmware) : Outcome × List Nat :=
  let RSAPublicKeyLength := self.rsa_keylen / 8
  let RSAKeyBlockCount := RSAPublicKeyLength / 3
  let RSAKeyBlockRemain := RSAPublicKeyLength % 3
  match firmware.ui with
  | none => (Outcome.returned ⟨false, some no_image_error, self, []⟩, [])
  | some bytes_bin =>
    let signature := secure_check_signature firmware bytes_bin
    let b := (fu_synaptics_rmi_device_enter_backdoor self).prefix_error
      "failed to enable backdoor: " []
    if !b.ok then (Outcome.returned b, []) else
    match signature with
    | none => (Outcome.crashed b.trace, [])
    | some _ =>
    match fu_synaptics_rmi_device_get_function b.self 0x34 with
    | none => (Outcome.returned ⟨false, some no_function_error, b.self, b.trace⟩, [])
    | some f34 =>
      let RSAKeyBlockCount :=
        if RSAKeyBlockRemain ≠ 0 then RSAKeyBlockCount + 1 else RSAKeyBlockCount
      match secure_check_blocks (f34.query_base + 14) RSAKeyBlockCount RSAKeyBlockRemain
          RSAKeyBlockCount 0 [] b.self b.trace with
      | Except.error trace => (Outcome.crashed trace, [])
      | Except.ok (self1, trace, rsadump) =>
        (Outcome.returned ⟨true, none, self1, trace⟩, rsadump)

/-- The function `fu_synaptics_rmi_v5_device_write_firmware`. The statements
after the `return TRUE` that follows the secure check are never executed and
are not part of the embedding. -/
def fu_synaptics_rmi_v5_device_write_firmware (self : FuSynapticsRmiDevice)
    (firmware : FuSynapticsRmiFirmware) : Outcome :=
  let isFirmwareSecure := firmware.signature_size ≠ 0
  let isDeviceSecure := self.rsa_keylen ≠ 0
  if !self.is_bootloader then
    Outcome.returned ⟨false, some ⟨ErrorCode.FWUPD_ERROR_NOT_SUPPORTED,
      "not bootloader, perhaps need detach?!", []⟩, self, []⟩
  else
  let b := (fu_synaptics_rmi_device_enter_backdoor self).prefix_error
    "failed to enable backdoor: " []
  if !b.ok then Outcome.returned b else
  let w := (fu_synaptics_rmi_device_wait_for_idle b.self 0
    RMI_DEVICE_WAIT_FOR_IDLE_FLAG_REFRESH_F34).prefix_error "not idle: " []
  let t := b.trace ++ w.trace
  if !w.ok then Outcome.returned { w with trace := t } else
  if ¬isFirmwareSecure ∧ isDeviceSecure then
    Outcome.returned ⟨false, g_prefix_error none "firmware not secure: " [], w.self, t⟩
  else if isFirmwareSecure ∧ ¬isDeviceSecure then
    Outcome.returned ⟨false, g_prefix_error none "device not secure: " [], w.self, t⟩
  else
  match fu_synaptics_rmi_device_get_function w.self 0x34 with
  | none => Outcome.returned ⟨false, some no_function_error, w.self, t⟩
  | some _ =>
    match firmware.ui, firmware.config with
    | none, _ => Outcome.returned ⟨false, some no_image_error, w.self, t⟩
    | some _, none => Outcome.returned ⟨false, some no_image_error, w.self, t⟩
    | some _, some _ =>
      match (fu_synaptics_rmi_v5_device_secure_check w.self firmware).1 with
      | Outcome.crashed t2 => Outcome.crashed (t ++ t2)
      | Outcome.returned c =>
        let c := c.prefix_error "secure check failed: " []
        if !c.ok then Outcome.returned { c with trace := t ++ c.trace } else
        Outcome.returned ⟨true, none, c.self, t ++ c.trace ++ [Event.sleep_with_progress 5]⟩

end RmiV5

/-! ## Vocabulary of the statements -/

namespace Pxi

/-- The transport operation of an event did not fail. -/
def Event.transport_ok : Event → Bool
  | Event.io _ _ HidResp.fail => false
  | _ => true

/-- An intermediate (PRN) notification, when the event is one that was read,
carries the opcode `FU_PXI_DEVICE_CMD_FW_WRITE` (0x17). -/
def Event.prn_ok : Event → Bool
  | Event.io Site.prn_notify (HidOp.pread _ bufsz) (HidResp.ok data) =>
    notify_status (fill_buffer notify_buffer bufsz data) == FU_PXI_DEVICE_CMD_FW_WRITE
  | _ => true

/-- The terminal notification of an object, when the event is one that was read,
carries the checksum the driver computed for the object. -/
def Event.checksum_ok : Event → Bool
  | Event.io (Site.checksum_notify table_checksum) (HidOp.pread _ bufsz) (HidResp.ok data) =>
    notify_checksum (fill_buffer notify_buffer bufsz data) == table_checksum
  | _ => true

/-- The notification that answers the upgrade command, when the event is one
that was read, carries the opcode `FU_PXI_DEVICE_CMD_FW_UPGRADE` (0x18). -/
def Event.upgrade_ok : Event → Bool
  | Event.io Site.upgrade_notify (HidOp.pread _ bufsz) (HidResp.ok data) =>
    notify_status (fill_buffer notify_buffer bufsz data) == FU_PXI_DEVICE_CMD_FW_UPGRADE
  | _ => true

/-- The step an event records failed: a transport error, a PRN notification
whose opcode is not 0x17, a checksum mismatch, or an upgrade notification whose
opcode is not 0x18. -/
def Event.failed (e : Event) : Bool :=
  !(e.transport_ok && e.prn_ok && e.checksum_ok && e.upgrade_ok)

/-- The site of an event that is a transport operation. -/
def Event.site? : Event → Option Site
  | Event.io site _ _ => some site
  | _ => none

/-- The checksum of an object whose terminal notification the event records as
read and equal to the checksum computed by the driver. -/
def Event.verified? : Event → Option Nat
  | Event.io (Site.checksum_notify table_checksum) (HidOp.pread _ bufsz) (HidResp.ok data) =>
    if notify_checksum (fill_buffer notify_buffer bufsz data) = table_checksum
    then some table_checksum else none
  | _ => none

/-- The phase of `fu_pxi_device_write_firmware` a site belongs to: 1 for the two
init commands, 2 for the transfer of the objects, 3 for the upgrade command and
its notification, 4 for the reset command. -/
def Site.phase : Site → Nat
  | Site.ota_init => 1
  | Site.ota_init_new => 1
  | Site.ota_init_new_feature => 1
  | Site.object_create => 2
  | Site.object_create_reply => 2
  | Site.payload => 2
  | Site.prn_notify => 2
  | Site.checksum_notify _ => 2
  | Site.upgrade => 3
  | Site.upgrade_notify => 3
  | Site.reset => 4

/-- The phase of an event; 0 for a status or progress update. -/
def Event.phase : Event → Nat
  | Event.io site _ _ => site.phase
  | _ => 0

/-- No event of the trace records a failed step. -/
def Clean (t : List Event) : Prop := ∀ e ∈ t, e.failed = false

/-- Fail-stop shape of a run with result `ok` and trace `t`: a failed step can
only be the last event, and there is none when the result is success. -/
def Stops (ok : Bool) (t : List Event) : Prop :=
  (ok = true → Clean t) ∧ Clean t.dropLast

/-- A device whose transport answers every operation of the transfer of the
object `[1, 2]` with `prn_threshold = 1`, reporting the checksum 3. -/
def example_device : FuPxiDevice :=
  ⟨0, 0, 0, 0, 0, 0, 1, 0,
    [HidResp.ok [], HidResp.ok [], HidResp.ok [], HidResp.ok [5, 0x17], HidResp.ok [5, 0, 3, 0]]⟩

/-- A device that answers the PRN notification of the first payload with the
opcode 0x16 instead of 0x17 (the feature report sets `prn_threshold = 1`). -/
def wrong_ack_device : FuPxiDevice :=
  ⟨0, 0, 0, 0, 0, 0, 0, 0,
    [HidResp.ok [], HidResp.ok [], HidResp.ok (List.replicate 14 0 ++ [1, 0]),
     HidResp.ok [], HidResp.ok [], HidResp.ok [], HidResp.ok [5, 0x16], HidResp.ok [5, 0, 0, 1],
     HidResp.ok [], HidResp.ok [5, 0x18], HidResp.ok []]⟩

/-- A firmware whose image is the two bytes `0xFF 0x01` (they sum to 256), with
version "1". -/
def example_firmware : FuFirmware := ⟨some [0xFF, 0x01], [0x31]⟩

/-- A device that answers every operation of an update with `example_firmware`
as the protocol expects. -/
def good_device : FuPxiDevice :=
  ⟨0, 0, 0, 0, 0, 0, 0, 0,
    [HidResp.ok [], HidResp.ok [], HidResp.ok (List.replicate 14 0 ++ [1, 0]),
     HidResp.ok [], HidResp.ok [], HidResp.ok [], HidResp.ok [5, 0x17], HidResp.ok [5, 0, 0, 1],
     HidResp.ok [], HidResp.ok [5, 0x18], HidResp.ok []]⟩

/-- The upgrade request as the specification describes it: report id, command
0x18, the size, the 16-bit checksum of the whole image as a 32-bit field, and
the version padded with zeros to 10 bytes. -/
def spec_upgrade_req (fw_buf version : List Nat) : List Nat :=
  [0x06, 0x18] ++ le32 fw_buf.length ++ le32 (fu_pxi_device_calculate_checksum fw_buf)
    ++ (version ++ List.replicate (10 - version.length) 0)

/-- The packet an event wrote to the device as the upgrade command, if it is one. -/
def Event.upgrade_packet? : Event → Option (List Nat)
  | Event.io Site.upgrade (HidOp.pwrite _ data) _ => some data
  | _ => none

end Pxi

namespace RmiV5

/-- The event is a register read, a packet-register read or a register write
(erase commands and block writes are register writes). -/
def Event.is_register_access : Event → Bool
  | Event.op (Op.read _ _) _ => true
  | Event.op (Op.read_packet_register _ _) _ => true
  | Event.op (Op.write _ _) _ => true
  | _ => false

/-- The result and the error of a call that returned. -/
def Outcome.result? : Outcome → Option (Bool × Option GError)
  | Outcome.returned r => some (r.ok, r.error)
  | Outcome.crashed _ => none

/-- An F34 record with `query_base = 0x10`, `data_base = 0x20`, version 1. -/
def example_f34 : FuSynapticsRmiFunction := ⟨0x34, 0x10, 0x20, 0, 0, 1, 0⟩

/-- A flash state with block size 2. -/
def example_flash : FuSynapticsRmiFlash := ⟨1, 1, 2, 0, 0, 0, (0, 0), 0x24⟩

/-- A non-secure device in bootloader mode that answers every operation with
success. -/
def plain_device : FuSynapticsRmiDevice :=
  ⟨true, 0, example_flash, [example_f34], List.replicate 16 (Resp.ok [])⟩

/-- A secure device (RSA key of 2048 bits) in bootloader mode that answers every
operation with success. -/
def secure_device : FuSynapticsRmiDevice :=
  ⟨true, 2048, example_flash, [example_f34], List.replicate 16 (Resp.ok [])⟩

/-- A non-secure firmware with a `ui` image of two blocks and a `config` image
of one block. -/
def plain_firmware : FuSynapticsRmiFirmware := ⟨some [1, 2, 3, 4], some [5, 6], 0, 4⟩

end RmiV5

namespace Ps2

/-- The event is a byte handed to the channel. -/
def Event.is_write : Event → Bool
  | Event.write_raw _ _ _ => true
  | _ => false

/-- The event is a write that the channel rejected. -/
def Event.is_failed_write : Event → Bool
  | Event.write_raw _ _ ok => !ok
  | _ => false

/-- The bytes handed to the channel, in order. -/
def bytes_written (t : List Event) : List Nat :=
  t.filterMap (fun e => match e with
    | Event.write_raw b _ _ => some b
    | _ => none)

/-- The response makes `write_byte` transmit the byte again (`RESEND` or `ERROR`). -/
def is_resend (r : Nat) : Bool := r = edpsResend || r = edpsError

/-- The events of a `write_byte` of `buf` whose acknowledge reads are answered
by the bytes `rs` followed by `ACK`, all channel operations succeeding;
`do_write` tells whether the byte is (re)transmitted before the next read. -/
def ack_trace (buf timeout : Nat) : Bool → List Nat → List Event
  | do_write, [] =>
    (if do_write then [Event.write_raw buf timeout true] else [])
      ++ [Event.read_raw 60 (ReadResp.byte edpsAcknowledge)]
  | do_write, r :: rs =>
    (if do_write then [Event.write_raw buf timeout true] else [])
      ++ Event.read_raw 60 (ReadResp.byte r) :: ack_trace buf timeout (is_resend r) rs

/-- The tokens with the values `edpAuxFullRMIBackDoor = 0x7F` and
`essrSetModeByte2 = 0x14`; the other ones are not used by the backdoor entry. -/
def example_tokens : Tokens := ⟨0x7F, 0x14, 0, 0, 0, 0, 0, 0⟩

/-- A fresh device (`in_backdoor` false) that acknowledges every byte. -/
def acking_device : FuSynapticsRmiPs2Device :=
  ⟨false, [], List.replicate 40 (ReadResp.byte 0xFA)⟩

/-- The bytes of the backdoor prefix for `example_tokens`: `DISABLE`, then the
sample-rate sequence (one `SET_SCALING_1TO1`, four `SET_RESOLUTION` pairs that
encode 0x7F, `SET_SAMPLE_RATE`, 0x14). -/
def backdoor_prefix : List Nat :=
  [0xF5, 0xE6, 0xE8, 1, 0xE8, 3, 0xE8, 3, 0xE8, 3, 0xF3, 0x14]

end Ps2

/-! ## Synaptics RMI V5: `setup` -/

namespace RmiV5

/-- The function `fu_synaptics_rmi_device_read`; `addr` is a `guint16`. -/
def fu_synaptics_rmi_device_read (self : FuSynapticsRmiDevice) (addr req_sz : Nat) :
    RmiRun × Option (List Nat) :=
  device_op self (Op.read (addr % 65536) req_sz)

/-- The error of a failed `fu_common_read_uint8_safe` or
`fu_common_read_uint16_safe`. -/
def read_safe_error : GError := ⟨ErrorCode.COLLABORATOR, "read out of bounds", []⟩

/-- The last part of `fu_synaptics_rmi_v5_device_setup`, from the read of the
flash properties on; `trace` holds the events so far. A reply shorter than the 7
bytes the code indexes is read past its end, which ends the run like a
dereference of `NULL`. -/
def setup_flash_properties (self : FuSynapticsRmiDevice) (f34 : FuSynapticsRmiFunction)
    (trace : List Event) : Outcome :=
  let r := fu_synaptics_rmi_device_read self (f34.query_base + 0x2) 0x7
  match r.2 with
  | none => Outcome.returned { r.1 with trace := trace ++ r.1.trace }
  | some f34_data2 =>
    if f34_data2.length < 7 then Outcome.crashed (trace ++ r.1.trace) else
    let block_size := read_uint16_le f34_data2 RMI_F34_BLOCK_SIZE_OFFSET
    let flash : FuSynapticsRmiFlash :=
      { r.1.self.flash with
        block_size := block_size
        block_count_fw := read_uint16_le f34_data2 RMI_F34_FW_BLOCKS_OFFSET
        block_count_cfg := read_uint16_le f34_data2 RMI_F34_CONFIG_BLOCKS_OFFSET
        status_addr := (f34.data_base + RMI_F34_BLOCK_DATA_OFFSET + block_size) % 256 }
    Outcome.returned ⟨true, none, { r.1.self with flash := flash }, trace ++ r.1.trace⟩

/-- The middle part of `fu_synaptics_rmi_v5_device_setup`: the read of Flash
Properties 2 and of the RSA key length; `trace` holds the events so far. -/
def setup_rsa_keylen (self : FuSynapticsRmiDevice) (f34 : FuSynapticsRmiFunction)
    (trace : List Event) : Outcome :=
  let p := fu_synaptics_rmi_device_read self (f34.query_base + 0x9) 1
  match p.2 with
  | none =>
    Outcome.returned { (p.1.prefix_error "failed to read Flash Properties 2: " []) with
      trace := trace ++ p.1.trace }
  | some buf_flash_properties2 =>
    if buf_flash_properties2.length < 1 then
      Outcome.returned ⟨false,
        g_prefix_error (some read_safe_error) "failed to parse Flash Properties 2: " [],
        p.1.self, trace ++ p.1.trace⟩
    else
    let flash_properties2 := buf_flash_properties2.getD 0 0
    if flash_properties2 % 2 = 1 then
      let k := fu_synaptics_rmi_device_read p.1.self (f34.query_base + 0x9 + 0x1) 2
      match k.2 with
      | none =>
        Outcome.returned { (k.1.prefix_error "failed to read RSA key length: " []) with
          trace := trace ++ p.1.trace ++ k.1.trace }
      | some buf_rsa_key =>
        if buf_rsa_key.length < 2 then
          Outcome.returned ⟨false,
            g_prefix_error (some read_safe_error) "failed to parse RSA key length: " [],
            k.1.self, trace ++ p.1.trace ++ k.1.trace⟩
        else
          setup_flash_properties { k.1.self with rsa_keylen := read_uint16_le buf_rsa_key 0 }
            f34 (trace ++ p.1.trace ++ k.1.trace)
    else
      setup_flash_properties { p.1.self with rsa_keylen := 0 } f34 (trace ++ p.1.trace)

/-- The function `fu_synaptics_rmi_v5_device_setup`. A reply to the read of the
bootloader ID shorter than the 2 bytes the code indexes is read past its end. -/
def fu_synaptics_rmi_v5_device_setup (self : FuSynapticsRmiDevice) : Outcome :=
  match fu_synaptics_rmi_device_get_function self 0x34 with
  | none => Outcome.returned ⟨false, some no_function_error, self, []⟩
  | some f34 =>
    let r := fu_synaptics_rmi_device_read self f34.query_base 0x2
    match r.2 with
    | none => Outcome.returned (r.1.prefix_error "failed to read bootloader ID: " [])
    | some f34_data0 =>
      if f34_data0.length < 2 then Outcome.crashed r.1.trace else
      let flash : FuSynapticsRmiFlash :=
        { r.1.self.flash with bootloader_id := (f34_data0.getD 0 0, f34_data0.getD 1 0) }
      setup_rsa_keylen { r.1.self with flash := flash } f34 r.1.trace

end RmiV5

/-! ## Vocabulary of the statements about `setup` and the secure check -/

namespace RmiV5

/-- A device in bootloader mode whose F34 has `query_base = 0x10` and
`data_base = 0xF0`, and which answers the four reads of `setup` with the
bootloader ID `07 08`, Flash Properties 2 = `01`, the RSA key length `00 08`
(2048) and the flash properties `00 10 00 03 00 04 00` (block size 16). -/
def setup_device : FuSynapticsRmiDevice :=
  ⟨true, 0, example_flash, [⟨0x34, 0x10, 0xF0, 0, 0, 1, 0⟩],
    [Resp.ok [7, 8], Resp.ok [1], Resp.ok [0, 8], Resp.ok [0, 16, 0, 3, 0, 4, 0]]⟩

/-- The call returned `TRUE`. -/
def Outcome.succeeded : Outcome → Bool
  | Outcome.returned r => r.ok
  | Outcome.crashed _ => false

/-- The device after a call that returned. -/
def Outcome.self? : Outcome → Option FuSynapticsRmiDevice
  | Outcome.returned r => some r.self
  | Outcome.crashed _ => none

/-- The event is a packet-register read. -/
def Event.is_packet_read : Event → Bool
  | Event.op (Op.read_packet_register _ _) _ => true
  | _ => false

/-- The key assembled from the bursts `b_0 .. b_(n-1)`, in the order they were
read: `last_part b_(n-1) ++ rev b_(n-2) ++ ... ++ rev b_0`. -/
def key_from (last_part : List Nat → List Nat) : List (List Nat) → List Nat
  | [] => []
  | [b] => last_part b
  | b :: bs => key_from last_part bs ++ b.reverse

/-- The key as the specification describes it: every burst is reversed, and the
reversed final burst is then truncated to its first `remain` bytes when
`remain > 0`. -/
def spec_assembled_key (remain : Nat) (bursts : List (List Nat)) : List Nat :=
  key_from (fun b => if remain ≠ 0 then b.reverse.take remain else b.reverse) bursts

/-- The key with the final burst truncated to its first `remain` bytes (when
`remain > 0`) before it is reversed. -/
def assembled_key (remain : Nat) (bursts : List (List Nat)) : List Nat :=
  key_from (fun b => if remain ≠ 0 then (b.take remain).reverse else b.reverse) bursts

/-- A secure device with a key of 40 bits (5 bytes) that answers the backdoor
entry and then the two packet-register bursts `01 02 03` and `04 05 06`. -/
def key_device : FuSynapticsRmiDevice :=
  ⟨true, 40, example_flash, [example_f34], [Resp.ok [], Resp.ok [1, 2, 3], Resp.ok [4, 5, 6]]⟩

/-- A secure firmware: the `ui` image `01 02 03 04` of 4 bytes ends with the
signature `03 04` (`signature_size` 2). -/
def signed_firmware : FuSynapticsRmiFirmware := ⟨some [1, 2, 3, 4], some [5, 6], 2, 4⟩

/-- A device like `plain_device` that is not in bootloader mode. -/
def runtime_device : FuSynapticsRmiDevice := { plain_device with is_bootloader := false }

end RmiV5

/-! ## Vocabulary of the statements about the PS/2 sequences -/

namespace Ps2

/-- The bytes of a resolution sequence as the specification describes them:
`SET_SCALING_1TO1` once or twice, then four `SET_RESOLUTION` pairs carrying the
two-bit groups of `arg` from the most significant one down. -/
def resolution_sequence_bytes (arg : Nat) (send_e6s : Bool) : List Nat :=
  (if send_e6s then [0xE6, 0xE6] else [0xE6]) ++
    [0xE8, (arg >>> 6) &&& 3, 0xE8, (arg >>> 4) &&& 3, 0xE8, (arg >>> 2) &&& 3,
     0xE8, arg &&& 3]

end Ps2

/-! ## Vocabulary of the statements about the PixArt transfer -/

namespace Pxi

/-- The status an event sets, if it sets one. -/
def Event.status? : Event → Option FwupdStatus
  | Event.set_status status => some status
  | _ => none

/-- The transport operation of an event and the place that issued it, without
the answer of the transport. -/
def Event.op? : Event → Option (Site × HidOp)
  | Event.io site op _ => some (site, op)
  | _ => none

/-- The packet an event wrote to the device as a payload, if it is one. -/
def Event.payload? : Event → Option (List Nat)
  | Event.io Site.payload (HidOp.pwrite _ data) _ => some data
  | _ => none

/-- The packet an event wrote to the device as an object-create command, if it
is one. -/
def Event.object_create? : Event → Option (List Nat)
  | Event.io Site.object_create (HidOp.pwrite _ data) _ => some data
  | _ => none

/-- The event is the read of an intermediate (PRN) notification. -/
def Event.is_prn_read : Event → Bool
  | Event.io Site.prn_notify _ _ => true
  | _ => false

/-- The operations of the payload loop of `fu_pxi_device_write_chunk` when none
of them fails: `t` is the threshold, `prn` the counter. -/
def loop_ops (t : Nat) : Nat → List FuChunk → List (Site × HidOp)
  | _, [] => []
  | prn, chk2 :: rest =>
    (Site.payload, HidOp.pwrite 0 (0x06 :: chk2.data)) ::
      (if (prn + 1) % 4294967296 ≥ t then
        (Site.prn_notify, HidOp.pread 1 31) :: loop_ops t 0 rest
      else loop_ops t ((prn + 1) % 4294967296) rest)

/-- The operations of a transfer in which a PRN notification is read after each
`t`-th payload counted from the start of the object: `j` payloads were sent
before those of `chunks`. -/
def prn_schedule (t : Nat) : Nat → List FuChunk → List (Site × HidOp)
  | _, [] => []
  | j, chk2 :: rest =>
    (Site.payload, HidOp.pwrite 0 (0x06 :: chk2.data)) ::
      ((if (j + 1) % t = 0 then [(Site.prn_notify, HidOp.pread 1 31)] else [])
        ++ prn_schedule t (j + 1) rest)

/-- The operation is the read of a PRN notification. -/
def is_prn_op (x : Site × HidOp) : Bool :=
  match x.1 with
  | Site.prn_notify => true
  | _ => false

/-- A device with `prn_threshold = 2` that answers every operation of the
transfer of an object of two payloads, reporting the checksum 40. -/
def threshold_two_device : FuPxiDevice :=
  ⟨0, 0, 0, 0, 0, 0, 2, 0,
    [HidResp.ok [], HidResp.ok [], HidResp.ok [], HidResp.ok [], HidResp.ok [5, 0x17],
      HidResp.ok [5, 0, 40, 0]]⟩

/-- An object of 40 bytes, all of them 1, at address 0. -/
def forty_bytes : FuChunk := ⟨0, 0, List.replicate 40 1⟩

/-- A device with `prn_threshold = 1` that answers the first PRN notification
of an object with the opcode 0x16 instead of 0x17; no transport operation
fails. -/
def early_wrong_ack_device : FuPxiDevice :=
  ⟨0, 0, 0, 0, 0, 0, 1, 0,
    [HidResp.ok [], HidResp.ok [], HidResp.ok [], HidResp.ok [5, 0x16], HidResp.ok [],
      HidResp.ok [5, 0x17], HidResp.ok [5, 0, 40, 0]]⟩

/-- The packet of an operation that writes a payload. -/
def op_payload? : Site × HidOp → Option (List Nat)
  | (Site.payload, HidOp.pwrite _ data) => some data
  | _ => none

/-- The packet of an operation that writes an object-create command. -/
def op_object_create? : Site × HidOp → Option (List Nat)
  | (Site.object_create, HidOp.pwrite _ data) => some data
  | _ => none

end Pxi

/-! ## Vocabulary of the statements about error kinds and a zero threshold -/

/-! ## Synaptics RMI over PS/2: status requests, build id, register writes -/

/-- A callee's run as seen through an `error` location that may already hold an
error: `g_set_error` and `g_propagate_error` leave an error that is set in
place. -/
def Run.onto {σ ε : Type} (r : Run σ ε) (error : Option GError) : Run σ ε :=
  match error with
  | some e => { r with error := some e }
  | none => r

namespace Ps2

def RMI_DEVICE_PAGE_SELECT_REGISTER : Nat := 0xff

/-- One pass through the body of the retry loop of
`fu_synaptics_rmi_ps2_device_status_request_sequence`. -/
def status_request_attempt (self : FuSynapticsRmiPs2Device) (ucArgument : Nat) : Ps2Run :=
  (fu_synaptics_rmi_ps2_device_set_resolution_sequence self ucArgument false).and_then
    (fun s => fu_synaptics_rmi_ps2_device_write_byte s edpAuxStatusRequest 10)

/-- The retry loop of `fu_synaptics_rmi_ps2_device_status_request_sequence`:
`n` passes are left (3 at the start), `error` is the content of `*error`; the
result of the run is the local `success`. -/
def status_request_loop (ucArgument : Nat) :
    Nat → FuSynapticsRmiPs2Device → Option GError → Ps2Run
  | 0, self, error => ⟨false, error, self, []⟩
  | n + 1, self, error =>
    let a := (status_request_attempt self ucArgument).onto error
    if !a.ok then
      let l := status_request_loop ucArgument n a.self a.error
      { l with trace := a.trace ++ l.trace }
    else a

/-- The read loop of `fu_synaptics_rmi_ps2_device_status_request_sequence`: `n`
reads are left, `buf` is the content of `*buf`; returns the run and `*buf`. -/
def status_request_bytes :
    Nat → Nat → FuSynapticsRmiPs2Device → Option GError → Ps2Run × Nat
  | 0, buf, self, error => (⟨true, error, self, []⟩, buf)
  | n + 1, buf, self, error =>
    let r := fu_synaptics_rmi_ps2_device_read_byte self 0 10
    if !r.1.ok then
      ({ r.1 with error := g_prefix_error (r.1.onto error).error "failed to read byte: " [] },
        buf)
    else
      let l := status_request_bytes n (Nat.lor ((buf * 256) % 4294967296) r.2) r.1.self error
      ({ l.1 with trace := r.1.trace ++ l.1.trace }, l.2)

/-- The function `fu_synaptics_rmi_ps2_device_status_request_sequence`: `buf`
is the content of `*buf` and `error` the content of `*error` before the call;
returns the run and `*buf` after the call. -/
def fu_synaptics_rmi_ps2_device_status_request_sequence (self : FuSynapticsRmiPs2Device)
    (ucArgument buf : Nat) (error : Option GError) : Ps2Run × Nat :=
  let l := status_request_loop ucArgument 3 self error
  if !l.ok then (l, buf) else
  let r := status_request_bytes 3 buf l.self l.error
  ({ r.1 with trace := l.trace ++ r.1.trace }, r.2)

/-- The function `fu_synaptics_rmi_ps2_device_detect_synaptics_styk`: `result`
is the content of `*result` and `error` the content of `*error` before the
call; returns the run and `*result` after the call. The local `ucData` is not
initialised in C and taken as zero here. -/
def fu_synaptics_rmi_ps2_device_detect_synaptics_styk (k : Tokens)
    (self : FuSynapticsRmiPs2Device) (result : Bool) (error : Option GError) :
    Ps2Run × Bool :=
  let w := ((fu_synaptics_rmi_ps2_device_write_byte self edpAuxIBMReadSecondaryID 10).onto
    error).prefix_error "failed to write IBMReadSecondaryID(0xE1): " []
  if !w.ok then (w, result) else
  let r := fu_synaptics_rmi_ps2_device_read_byte w.self 0 10
  if !r.1.ok then
    ({ r.1 with
        error := g_prefix_error (r.1.onto w.error).error
          "failed to receive IBMReadSecondaryID: " [],
        trace := w.trace ++ r.1.trace }, result)
  else if r.2 = k.esdtJYTSyna ∨ r.2 = k.esdtSynaptics then
    (⟨true, w.error, r.1.self, w.trace ++ r.1.trace⟩, true)
  else
    (⟨false, w.error, r.1.self, w.trace ++ r.1.trace⟩, result)

/-- The function `fu_synaptics_rmi_ps2_device_query_build_id`, called with no
error set: returns the run and `*build_id` after the call. -/
def fu_synaptics_rmi_ps2_device_query_build_id (k : Tokens)
    (self : FuSynapticsRmiPs2Device) : Ps2Run × Nat :=
  let self0 : FuSynapticsRmiPs2Device := { self with in_backdoor := false }
  let s := fu_synaptics_rmi_ps2_device_status_request_sequence self0 k.esrIdentifySynaptics
    0 none
  if !s.1.ok then
    (s.1.prefix_error "failed to status request sequence for IdentifySynaptics: " [], 0)
  else
  let esdr := s.2 / 256 % 256
  let isTouchPad : Bool := esdr = k.esdrTouchPad
  let d := fu_synaptics_rmi_ps2_device_detect_synaptics_styk k s.1.self false s.1.error
  if !d.1.ok then
    ({ d.1 with
        error := g_prefix_error d.1.error "failed to detect Synaptics styk: " [],
        trace := s.1.trace ++ d.1.trace }, 0)
  else if isTouchPad ∨ d.2 then
    let c := fu_synaptics_rmi_ps2_device_status_request_sequence d.1.self
      k.esrReadExtraCapabilities2 0 d.1.error
    if !c.1.ok then
      ({ c.1 with
          error := g_prefix_error c.1.error
            "failed to status_request_sequence read extraCapabilities2: " [],
          trace := s.1.trace ++ d.1.trace ++ c.1.trace }, 0)
    else ({ c.1 with trace := s.1.trace ++ d.1.trace ++ c.1.trace }, c.2)
  else (⟨true, d.1.error, d.1.self, s.1.trace ++ d.1.trace⟩, 0)

/-- The function `fu_synaptics_rmi_ps2_device_set_page`; `page` is a `guint8`. -/
def fu_synaptics_rmi_ps2_device_set_page (k : Tokens) (self : FuSynapticsRmiPs2Device)
    (page : Nat) : Ps2Run :=
  (fu_synaptics_rmi_ps2_device_write_rmi_register k self RMI_DEVICE_PAGE_SELECT_REGISTER
    [page % 256] 1 20).prefix_error "failed to write page %u: " [page % 256]

/-- The function `fu_synaptics_rmi_ps2_device_write`; `addr` is a `guint16`.
The page is selected through `fu_synaptics_rmi_device_set_page` of the parent
class (`fu-synaptics-rmi-device.c`, not among the sources), which is the
parameter `set_page`; it reaches `fu_synaptics_rmi_ps2_device_set_page`. -/
def fu_synaptics_rmi_ps2_device_write (k : Tokens)
    (set_page : FuSynapticsRmiPs2Device → Nat → Ps2Run)
    (self : FuSynapticsRmiPs2Device) (addr : Nat) (req : List Nat) : Ps2Run :=
  ((set_page self (addr % 65536 / 256)).prefix_error "failed to set RMI page: " []).and_then
    (fun s => (fu_synaptics_rmi_ps2_device_write_rmi_register k s (addr % 256) req
      req.length 999).prefix_error "failed to write register %x: " [addr % 65536])

end Ps2

/-! ## Vocabulary of the statements about the PS/2 sequences -/

namespace Ps2

/-- The successive `write_byte` calls for the bytes `cmds`, stopping at the
first one that fails. -/
def write_bytes (timeout : Nat) : List Nat → FuSynapticsRmiPs2Device → Ps2Run
  | [], self => ⟨true, none, self, []⟩
  | b :: rest, self =>
    (fu_synaptics_rmi_ps2_device_write_byte self b timeout).and_then (write_bytes timeout rest)

/-- The commands of a register write of the bytes `req` at `addr` as
`fu_synaptics_rmi_ps2_device_write` issues them: `SET_SCALING_2TO1`,
`SET_SAMPLE_RATE`, the low byte of the address, then `SET_SAMPLE_RATE` and the
byte for each of the first `len mod 256` bytes of `req`. -/
def register_write_commands (addr : Nat) (req : List Nat) : List Nat :=
  [0xE7, 0xF3, addr % 256] ++ (req.take (req.length % 256)).flatMap (fun b => [0xF3, b])

/-- The event is a read of a response byte: a read that is not one of the
acknowledge reads, which use the timeout 60. -/
def Event.is_response_read : Event → Bool
  | Event.read_raw timeout _ => timeout != 60
  | _ => false

/-- The outcome of a read delivered a byte. -/
def ReadResp.is_byte : ReadResp → Bool
  | ReadResp.byte _ => true
  | _ => false

/-- Two runs agree in result, device and events (the errors may differ). -/
def Same (r1 r2 : Ps2Run) : Prop :=
  r1.ok = r2.ok ∧ r1.self = r2.self ∧ r1.trace = r2.trace

/-- A fresh device (`in_backdoor` false) that acknowledges 28 bytes (the
backdoor prefix twice and the four commands of a register read) and then
delivers the response bytes `12 34 56`. -/
def register_device : FuSynapticsRmiPs2Device :=
  ⟨false, [], List.replicate 28 (ReadResp.byte 0xFA)
    ++ [ReadResp.byte 0x12, ReadResp.byte 0x34, ReadResp.byte 0x56]⟩

/-- Tokens with `esrIdentifySynaptics = 0x00`, `esrReadExtraCapabilities2 = 0x0A`,
`esrReadCapabilities = 0x02`, `esdrTouchPad = 0x47`, `esdtJYTSyna = 0x05` and
`esdtSynaptics = 0x06`. -/
def build_id_tokens : Tokens := ⟨0x7F, 0x14, 0x00, 0x0A, 0x02, 0x47, 0x05, 0x06⟩

/-- The acknowledges of one status request sequence (a `SET_SCALING_1TO1`,
four `SET_RESOLUTION` pairs and the `STATUS_REQUEST`) followed by the three
response bytes `b0 b1 b2`. -/
def status_response (b0 b1 b2 : Nat) : List ReadResp :=
  List.replicate 10 (ReadResp.byte 0xFA)
    ++ [ReadResp.byte b0, ReadResp.byte b1, ReadResp.byte b2]

/-- A touchpad (`IDENTIFY_SYNAPTICS` answered `01 47 18`) that acknowledges
`READ_SECONDARY_ID` and answers it with 0x00, which is no Synaptics stick
value; its `READ_EXTRA_CAPABILITIES_2` would be answered `12 34 56`. -/
def touchpad_device : FuSynapticsRmiPs2Device :=
  ⟨true, [], status_response 0x01 0x47 0x18 ++ [ReadResp.byte 0xFA, ReadResp.byte 0x00]
    ++ status_response 0x12 0x34 0x56⟩

/-- A device that is no touchpad (`IDENTIFY_SYNAPTICS` answered `00 00 00`) and
whose secondary ID 0x01 is no Synaptics stick value. -/
def other_stick_device : FuSynapticsRmiPs2Device :=
  ⟨false, [], status_response 0 0 0 ++ [ReadResp.byte 0xFA, ReadResp.byte 0x01]⟩

/-- A Synaptics stick: no touchpad, secondary ID 0x06; its
`READ_EXTRA_CAPABILITIES_2` is answered `12 34 56`. -/
def synaptics_stick_device : FuSynapticsRmiPs2Device :=
  ⟨false, [], status_response 0 0 0 ++ [ReadResp.byte 0xFA, ReadResp.byte 0x06]
    ++ status_response 0x12 0x34 0x56⟩

end Ps2

/-- The error kinds of the specification's taxonomy. -/
inductive ErrorKind
  | ReadError
  | WriteError
  | ProtocolError
  | SecurityError
  | NotSupported
  | NotBootloader
  deriving DecidableEq, Repr

/-- The kind of the taxonomy an error code of the sources stands for by its
name; the sources have no code for the other kinds. -/
def ErrorCode.kind? : ErrorCode → Option ErrorKind
  | ErrorCode.FWUPD_ERROR_READ => some ErrorKind.ReadError
  | ErrorCode.FWUPD_ERROR_NOT_SUPPORTED => some ErrorKind.NotSupported
  | _ => none

namespace Pxi

/-- The checksum the device reported and the checksum the driver computed, when
the event is the read of a terminal notification in which the two differ. -/
def Event.checksum_mismatch? : Event → Option (Nat × Nat)
  | Event.io (Site.checksum_notify table_checksum) (HidOp.pread _ bufsz) (HidResp.ok data) =>
    if notify_checksum (fill_buffer notify_buffer bufsz data) = table_checksum then none
    else some (notify_checksum (fill_buffer notify_buffer bufsz data), table_checksum)
  | _ => none

/-- A device that answers every operation of the transfer of the object `[1, 2]`
with `prn_threshold = 1`, but reports the checksum 4 instead of 3. -/
def bad_checksum_chunk_device : FuPxiDevice :=
  ⟨0, 0, 0, 0, 0, 0, 1, 0,
    [HidResp.ok [], HidResp.ok [], HidResp.ok [], HidResp.ok [5, 0x17], HidResp.ok [5, 0, 4, 0]]⟩

/-- A device that answers an update with `example_firmware` as `good_device`
does, but reports the checksum 257 instead of 256 for the object. -/
def bad_checksum_device : FuPxiDevice :=
  ⟨0, 0, 0, 0, 0, 0, 0, 0,
    [HidResp.ok [], HidResp.ok [], HidResp.ok (List.replicate 14 0 ++ [1, 0]),
     HidResp.ok [], HidResp.ok [], HidResp.ok [], HidResp.ok [5, 0x17], HidResp.ok [5, 0, 1, 1],
     HidResp.ok [], HidResp.ok [5, 0x18], HidResp.ok []]⟩

/-- The device with its `prn_threshold` replaced. -/
def with_threshold (self : FuPxiDevice) (t : Nat) : FuPxiDevice :=
  { self with prn_threshold := t }

/-- The run with the `prn_threshold` of its device replaced. -/
def retarget (t : Nat) (r : PxiRun) : PxiRun :=
  { r with self := with_threshold r.self t }

/-- The answers to the transfer of an object of 40 bytes with a PRN
notification after each of its two payloads, reporting the checksum 40. -/
def two_ack_script : List HidResp :=
  [HidResp.ok [], HidResp.ok [], HidResp.ok [], HidResp.ok [5, 0x17], HidResp.ok [],
    HidResp.ok [5, 0x17], HidResp.ok [5, 0, 40, 0]]

/-- A device whose feature report answers `OTA_INIT_NEW` with
`prn_threshold = 0`, and that then answers with `two_ack_script`. -/
def zero_threshold_device : FuPxiDevice :=
  ⟨0, 0, 0, 0, 0, 0, 7, 0,
    HidResp.ok [] :: HidResp.ok (List.replicate 16 0) :: two_ack_script⟩

/-- The device `zero_threshold_device` after `OTA_INIT_NEW`. -/
def zero_threshold_ready : FuPxiDevice :=
  ⟨0, 0, 0, 0, 0, 0, 0, 0, two_ack_script⟩

end Pxi

/-! ## Vocabulary of the statement about the secure check -/

namespace RmiV5

/-- A secure device with a key of 40 bits that lets the backdoor entry succeed
and then fails the first packet-register read of the key. -/
def failing_key_device : FuSynapticsRmiDevice :=
  ⟨true, 40, example_flash, [example_f34], [Resp.ok [], Resp.fail]⟩

/-- A firmware with the sizes of `plain_firmware` and other bytes in its `ui`
image. -/
def other_firmware : FuSynapticsRmiFirmware := ⟨some [9, 9, 9, 9], some [5, 6], 0, 4⟩

/-- A firmware with the sizes of `signed_firmware`, another body (`07 08`) and
another signature (`09 0A`). -/
def other_signed_firmware : FuSynapticsRmiFirmware := ⟨some [7, 8, 9, 10], some [5, 6], 2, 4⟩

/-- A firmware whose header announces a signature of 8 bytes while its `ui`
image has 4 bytes and `firmware_size` is 4: the offset `4 - 8` wraps to
4294967292 and the signature slice is outside the image. -/
def oversigned_firmware : FuSynapticsRmiFirmware := ⟨some [1, 2, 3, 4], some [5, 6], 8, 4⟩

end RmiV5

/-! ## PixArt RF: checksum and object transfer -/

namespace Pxi

theorem checksum_foldl (d : List Nat) (a : Nat) :
    d.foldl (fun checksum b => (checksum + b % 256) % 65536) (a % 65536)
      = (a + (d.map (fun b => b % 256)).sum) % 65536 := by
  induction d generalizing a with
  | nil => simp
  | cons b bs ih =>
    simp only [List.foldl_cons, List.map_cons, List.sum_cons]
    rw [ih (a % 65536 + b % 256)]
    omega

theorem calculate_checksum_eq (d : List Nat) :
    fu_pxi_device_calculate_checksum d = (d.map (fun b => b % 256)).sum % 65536 := by
  have h := checksum_foldl d 0
  simpa [fu_pxi_device_calculate_checksum] using h

theorem map_mod_of_bytes (d : List Nat) (hb : ∀ b ∈ d, b < 256) :
    d.map (fun b => b % 256) = d := by
  induction d with
  | nil => rfl
  | cons b bs ih =>
    have h1 : b < 256 := hb b (List.mem_cons_self _ _)
    have h2 : ∀ x ∈ bs, x < 256 := fun x hx => hb x (List.mem_cons_of_mem _ hx)
    simp [ih h2, Nat.mod_eq_of_lt h1]

/-- C2: for every byte sequence `d` the result of
`fu_pxi_device_calculate_checksum` is the sum of all bytes of `d` modulo 2^16,
and the checksum of the empty sequence is 0. -/
theorem calculate_checksum_is_wraparound_sum (d : List Nat) (hb : ∀ b ∈ d, b < 256) :
    fu_pxi_device_calculate_checksum d = d.sum % 2 ^ 16 ∧
      fu_pxi_device_calculate_checksum [] = 0 := by
  refine ⟨?_, rfl⟩
  rw [calculate_checksum_eq, map_mod_of_bytes d hb]
  norm_num

/-- Witness of C2: 300 bytes 0xFF sum to 76500, which wraps to 10964. -/
theorem calculate_checksum_is_wraparound_sum_witness :
    (∀ b ∈ List.replicate 300 255, b < 256) ∧
      fu_pxi_device_calculate_checksum (List.replicate 300 255) = 10964 := by
  have hb : ∀ b ∈ List.replicate 300 255, b < 256 := by
    intro b h
    rw [List.eq_of_mem_replicate h]
    decide
  refine ⟨hb, ?_⟩
  rw [(calculate_checksum_is_wraparound_sum (List.replicate 300 255) hb).1,
    List.sum_replicate]
  norm_num

theorem transport_spec (self : FuPxiDevice) (site : Site) (op : HidOp) :
    ((transport self site op).1.ok = false ∧
        (transport self site op).1.trace = [Event.io site op HidResp.fail]) ∨
      ∃ data, (transport self site op).1.ok = true ∧
        (transport self site op).1.trace = [Event.io site op (HidResp.ok data)] ∧
        (transport self site op).2 = data := by
  unfold transport
  split
  · left; exact ⟨rfl, rfl⟩
  · left; exact ⟨rfl, rfl⟩
  · rename_i data rest _
    right; exact ⟨data, rfl, rfl, rfl⟩

theorem wait_notify_spec (self : FuPxiDevice) (site : Site) (port : Nat) :
    ((fu_pxi_device_wait_notify self site port).1.ok = false ∧
        (fu_pxi_device_wait_notify self site port).1.trace
          = [Event.io site (HidOp.pread port (32 - port)) HidResp.fail]) ∨
      ∃ data, (fu_pxi_device_wait_notify self site port).1.ok = true ∧
        (fu_pxi_device_wait_notify self site port).1.trace
          = [Event.io site (HidOp.pread port (32 - port)) (HidResp.ok data)] ∧
        (fu_pxi_device_wait_notify self site port).2
          = fill_buffer notify_buffer (32 - port) data := by
  unfold fu_pxi_device_wait_notify
  simp only [FU_PXI_DEVICE_OTA_BUF_SZ]
  rcases transport_spec self site (HidOp.pread port (32 - port)) with ⟨h1, h2⟩ | ⟨data, h1, h2, h3⟩
  · left; simp [h1, h2]
  · right; exact ⟨data, by simp [h1], by simp [h1, h2], by simp [h1, h3]⟩

theorem pwrite_spec (self : FuPxiDevice) (site : Site) (port : Nat) (data : List Nat) :
    ((fu_udev_device_pwrite_full self site port data).ok = false ∧
        (fu_udev_device_pwrite_full self site port data).trace
          = [Event.io site (HidOp.pwrite port data) HidResp.fail]) ∨
      ∃ d, (fu_udev_device_pwrite_full self site port data).ok = true ∧
        (fu_udev_device_pwrite_full self site port data).trace
          = [Event.io site (HidOp.pwrite port data) (HidResp.ok d)] := by
  unfold fu_udev_device_pwrite_full
  rcases transport_spec self site (HidOp.pwrite port data) with h | ⟨d, h1, h2, _⟩
  · exact Or.inl h
  · exact Or.inr ⟨d, h1, h2⟩

/-- A failing object-create leaves a failed transport operation in the trace. -/
theorem object_create_fail (self : FuPxiDevice) (chk : FuChunk)
    (h : (fu_pxi_device_fw_object_create self chk).ok = false) :
    ∃ e ∈ (fu_pxi_device_fw_object_create self chk).trace, e.transport_ok = false := by
  unfold fu_pxi_device_fw_object_create at h ⊢
  simp only [] at h ⊢
  generalize ([PXI_HID_DEV_OTA_OUTPUT_REPORT_ID, FU_PXI_DEVICE_CMD_FW_OBJECT_CREATE]
        ++ le32 chk.address ++ le32 chk.data_sz) = req at h ⊢
  have hw := pwrite_spec self Site.object_create 0x0 req
  generalize fu_udev_device_pwrite_full self Site.object_create 0x0 req = w at h hw ⊢
  rcases hw with ⟨h1, h2⟩ | ⟨d, h1, h2⟩
  · simp only [h1, Bool.not_false, if_true, h2]
    exact ⟨_, List.mem_singleton_self _, rfl⟩
  · simp only [h1, Bool.not_true, Bool.false_eq_true, if_false] at h ⊢
    have hr := transport_spec w.self Site.object_create_reply
      (HidOp.pread 0x0 FU_PXI_DEVICE_OTA_BUF_SZ)
    generalize transport w.self Site.object_create_reply
      (HidOp.pread 0x0 FU_PXI_DEVICE_OTA_BUF_SZ) = r at h hr ⊢
    rcases hr with ⟨_, h4⟩ | ⟨d2, h3, _, _⟩
    · refine ⟨Event.io Site.object_create_reply (HidOp.pread 0x0 FU_PXI_DEVICE_OTA_BUF_SZ)
        HidResp.fail, ?_, rfl⟩
      exact List.mem_append_right _ (by rw [h4]; exact List.mem_singleton_self _)
    · rw [h3] at h; exact absurd h (by decide)

/-- A failing payload loop leaves a failed transport operation or a PRN
notification with a wrong opcode in the trace. -/
theorem write_chunk_payloads_fail (chunks : List FuChunk) (self : FuPxiDevice) (prn : Nat)
    (h : (write_chunk_payloads self prn chunks).ok = false) :
    ∃ e ∈ (write_chunk_payloads self prn chunks).trace,
      e.transport_ok = false ∨ e.prn_ok = false := by
  induction chunks generalizing self prn with
  | nil => simp [write_chunk_payloads] at h
  | cons chk2 rest ih =>
    unfold write_chunk_payloads at h ⊢
    simp only [] at h ⊢
    unfold fu_pxi_device_write_payload at h ⊢
    have hw := pwrite_spec self Site.payload 0x0 (PXI_HID_DEV_OTA_OUTPUT_REPORT_ID :: chk2.data)
    generalize fu_udev_device_pwrite_full self Site.payload 0x0
      (PXI_HID_DEV_OTA_OUTPUT_REPORT_ID :: chk2.data) = w at h hw ⊢
    rcases hw with ⟨h1, h2⟩ | ⟨d, h1, h2⟩
    · simp only [h1, Bool.not_false, if_true, h2]
      exact ⟨_, List.mem_singleton_self _, Or.inl rfl⟩
    · simp only [h1, Bool.not_true, Bool.false_eq_true, if_false] at h ⊢
      by_cases hthr : (prn + 1) % 4294967296 ≥ w.self.prn_threshold
      · simp only [hthr, if_true] at h ⊢
        have hn := wait_notify_spec w.self Site.prn_notify 0x1
        generalize fu_pxi_device_wait_notify w.self Site.prn_notify 0x1 = n at h hn ⊢
        rcases hn with ⟨h3, h4⟩ | ⟨data, h3, h4, h5⟩
        · simp only [h3, Bool.not_false, if_true, h4]
          exact ⟨Event.io Site.prn_notify (HidOp.pread 0x1 (32 - 0x1)) HidResp.fail,
            List.mem_append_right _ (List.mem_singleton_self _), Or.inl rfl⟩
        · simp only [h3, Bool.not_true, Bool.false_eq_true, if_false] at h ⊢
          by_cases hop : notify_status n.2 ≠ FU_PXI_DEVICE_CMD_FW_WRITE
          · rw [if_pos hop]
            simp only [h4]
            refine ⟨Event.io Site.prn_notify (HidOp.pread 0x1 (32 - 0x1)) (HidResp.ok data),
              List.mem_append_right _ (List.mem_singleton_self _), Or.inr ?_⟩
            rw [h5] at hop
            simpa [Event.prn_ok] using hop
          · rw [if_neg hop] at h ⊢
            obtain ⟨e, he, hbad⟩ := ih _ _ h
            exact ⟨e, List.mem_append_right _ he, hbad⟩
      · simp only [hthr, if_false] at h ⊢
        obtain ⟨e, he, hbad⟩ := ih _ _ h
        exact ⟨e, List.mem_append_right _ he, hbad⟩

/-- C1: for every object whose object-create, payload writes, PRN
acknowledgements and terminal notification read all succeed, the last event of
`fu_pxi_device_write_chunk` is the read of the terminal notification, and
`write_chunk` returns success if and only if the 16-bit little-endian checksum
in that notification equals the sum of the object's bytes modulo 2^16;
otherwise it returns failure. -/
theorem write_chunk_success_iff_checksum (self : FuPxiDevice) (chk : FuChunk)
    (hio : ∀ e ∈ (fu_pxi_device_write_chunk self chk).trace, e.transport_ok = true)
    (hprn : ∀ e ∈ (fu_pxi_device_write_chunk self chk).trace, e.prn_ok = true) :
    ∃ pre data,
      (fu_pxi_device_write_chunk self chk).trace
        = pre ++ [Event.io (Site.checksum_notify (fu_pxi_device_calculate_checksum chk.data))
            (HidOp.pread 0 32) (HidResp.ok data)] ∧
      ((fu_pxi_device_write_chunk self chk).ok = true ↔
        read_uint16_le (fill_buffer notify_buffer 32 data) 2
          = (chk.data.map (fun b => b % 256)).sum % 65536) ∧
      ((fu_pxi_device_write_chunk self chk).ok = false ↔
        read_uint16_le (fill_buffer notify_buffer 32 data) 2
          ≠ (chk.data.map (fun b => b % 256)).sum % 65536) := by
  rw [← calculate_checksum_eq]
  unfold fu_pxi_device_write_chunk at hio hprn ⊢
  simp only [] at hio hprn ⊢
  have hcf := object_create_fail self chk
  generalize fu_pxi_device_fw_object_create self chk = c at hio hprn hcf ⊢
  cases hc : c.ok with
  | false =>
    exfalso
    obtain ⟨e, he, hbad⟩ := hcf hc
    simp only [hc, Bool.not_false, if_true] at hio
    rw [hio e he] at hbad
    exact absurd hbad (by decide)
  | true =>
    simp only [hc, Bool.not_true, Bool.false_eq_true, if_false] at hio hprn ⊢
    have hlf := write_chunk_payloads_fail
      (fu_chunk_array_new chk.data chk.address FU_PXI_DEVICE_OTA_PAYLOAD_SZ) c.self 0
    generalize write_chunk_payloads c.self 0
      (fu_chunk_array_new chk.data chk.address FU_PXI_DEVICE_OTA_PAYLOAD_SZ) = l
      at hio hprn hlf ⊢
    cases hl : l.ok with
    | false =>
      exfalso
      obtain ⟨e, he, hbad⟩ := hlf hl
      simp only [hl, Bool.not_false, if_true] at hio hprn
      have h1 := hio e (List.mem_append_right _ he)
      have h2 := hprn e (List.mem_append_right _ he)
      rw [h1, h2] at hbad
      simp at hbad
    | true =>
      simp only [hl, Bool.not_true, Bool.false_eq_true, if_false] at hio hprn ⊢
      have hn := wait_notify_spec l.self
        (Site.checksum_notify (fu_pxi_device_calculate_checksum chk.data)) 0x0
      generalize fu_pxi_device_wait_notify l.self
        (Site.checksum_notify (fu_pxi_device_calculate_checksum chk.data)) 0x0 = n
        at hio hprn hn ⊢
      rcases hn with ⟨h3, h4⟩ | ⟨data, h3, h4, h5⟩
      · exfalso
        simp only [h3, Bool.not_false, if_true, h4] at hio
        have := hio (Event.io (Site.checksum_notify (fu_pxi_device_calculate_checksum chk.data))
          (HidOp.pread 0x0 (32 - 0x0)) HidResp.fail)
          (List.mem_append_right _ (List.mem_singleton_self _))
        simp [Event.transport_ok] at this
      · simp only [h3, Bool.not_true, Bool.false_eq_true, if_false, h4, h5, notify_checksum]
        refine ⟨c.trace ++ l.trace, data, ?_, ?_, ?_⟩
        · split <;> rfl
        · split <;> simp_all
        · split <;> simp_all

/-- Witness of C1: the object `[1, 2]`, acknowledged after its only payload and
reported with checksum 3, is written successfully. -/
theorem write_chunk_success_iff_checksum_witness :
    (∀ e ∈ (fu_pxi_device_write_chunk example_device ⟨0, 0, [1, 2]⟩).trace,
        e.transport_ok = true) ∧
    (∀ e ∈ (fu_pxi_device_write_chunk example_device ⟨0, 0, [1, 2]⟩).trace,
        e.prn_ok = true) ∧
    (fu_pxi_device_write_chunk example_device ⟨0, 0, [1, 2]⟩).ok = true ∧
    ∃ pre data,
      (fu_pxi_device_write_chunk example_device ⟨0, 0, [1, 2]⟩).trace
        = pre ++ [Event.io (Site.checksum_notify (fu_pxi_device_calculate_checksum [1, 2]))
            (HidOp.pread 0 32) (HidResp.ok data)] ∧
      ((fu_pxi_device_write_chunk example_device ⟨0, 0, [1, 2]⟩).ok = true ↔
        read_uint16_le (fill_buffer notify_buffer 32 data) 2
          = ([1, 2].map (fun b => b % 256)).sum % 65536) ∧
      ((fu_pxi_device_write_chunk example_device ⟨0, 0, [1, 2]⟩).ok = false ↔
        read_uint16_le (fill_buffer notify_buffer 32 data) 2
          ≠ ([1, 2].map (fun b => b % 256)).sum % 65536) :=
  ⟨by decide, by decide, by decide,
    write_chunk_success_iff_checksum example_device ⟨0, 0, [1, 2]⟩ (by decide) (by decide)⟩

/-! ### Fail-stop shape of the runs -/

theorem clean_nil : Clean [] := by
  intro e he; cases he

theorem clean_append {t1 t2 : List Event} (h1 : Clean t1) (h2 : Clean t2) :
    Clean (t1 ++ t2) := by
  intro e he
  rcases List.mem_append.mp he with h | h
  · exact h1 e h
  · exact h2 e h

theorem clean_single {e : Event} (h : e.failed = false) : Clean [e] := by
  intro x hx
  rw [List.mem_singleton.mp hx]; exact h

theorem clean_dropLast {t : List Event} (h : Clean t) : Clean t.dropLast :=
  fun e he => h e (List.dropLast_subset t he)

theorem stops_clean {ok : Bool} {t : List Event} (h : Clean t) : Stops ok t :=
  ⟨fun _ => h, clean_dropLast h⟩

theorem stops_single_false (e : Event) : Stops false [e] :=
  ⟨fun h => absurd h (by decide), by simpa using clean_nil⟩

theorem stops_append {ok : Bool} {t1 t2 : List Event} (h1 : Clean t1) (h2 : Stops ok t2) :
    Stops ok (t1 ++ t2) := by
  refine ⟨fun h => clean_append h1 (h2.1 h), ?_⟩
  by_cases hnil : t2 = []
  · subst hnil
    simpa using clean_dropLast h1
  · rw [List.dropLast_append_of_ne_nil _ hnil]
    exact clean_append h1 h2.2

theorem stops_cons {ok : Bool} {e : Event} {t : List Event} (h1 : e.failed = false)
    (h2 : Stops ok t) : Stops ok (e :: t) :=
  stops_append (clean_single h1) h2

theorem pwrite_stops (self : FuPxiDevice) (site : Site) (port : Nat) (data : List Nat) :
    Stops (fu_udev_device_pwrite_full self site port data).ok
      (fu_udev_device_pwrite_full self site port data).trace := by
  rcases pwrite_spec self site port data with ⟨h1, h2⟩ | ⟨d, h1, h2⟩
  · rw [h1, h2]; exact stops_single_false _
  · rw [h2]
    apply stops_clean
    apply clean_single
    cases site <;> rfl

theorem transport_stops (self : FuPxiDevice) (site : Site) (op : HidOp)
    (h : ∀ d, (Event.io site op (HidResp.ok d)).failed = false) :
    Stops (transport self site op).1.ok (transport self site op).1.trace := by
  rcases transport_spec self site op with ⟨h1, h2⟩ | ⟨d, h1, h2, _⟩
  · rw [h1, h2]; exact stops_single_false _
  · rw [h2]; exact stops_clean (clean_single (h d))

theorem object_create_stops (self : FuPxiDevice) (chk : FuChunk) :
    Stops (fu_pxi_device_fw_object_create self chk).ok
      (fu_pxi_device_fw_object_create self chk).trace := by
  unfold fu_pxi_device_fw_object_create
  simp only []
  generalize ([PXI_HID_DEV_OTA_OUTPUT_REPORT_ID, FU_PXI_DEVICE_CMD_FW_OBJECT_CREATE]
        ++ le32 chk.address ++ le32 chk.data_sz) = req
  have hw := pwrite_stops self Site.object_create 0x0 req
  generalize fu_udev_device_pwrite_full self Site.object_create 0x0 req = w at hw ⊢
  cases hok : w.ok with
  | false => simpa [hok] using hw
  | true =>
    simp only [Bool.not_true, Bool.false_eq_true, if_false]
    rw [hok] at hw
    exact stops_append (hw.1 rfl) (transport_stops _ _ _ (fun _ => rfl))

theorem write_chunk_payloads_stops (chunks : List FuChunk) (self : FuPxiDevice) (prn : Nat) :
    Stops (write_chunk_payloads self prn chunks).ok
      (write_chunk_payloads self prn chunks).trace := by
  induction chunks generalizing self prn with
  | nil => exact stops_clean clean_nil
  | cons chk2 rest ih =>
    unfold write_chunk_payloads
    simp only []
    unfold fu_pxi_device_write_payload
    have hw := pwrite_stops self Site.payload 0x0 (PXI_HID_DEV_OTA_OUTPUT_REPORT_ID :: chk2.data)
    generalize fu_udev_device_pwrite_full self Site.payload 0x0
      (PXI_HID_DEV_OTA_OUTPUT_REPORT_ID :: chk2.data) = w at hw ⊢
    cases hok : w.ok with
    | false => simpa [hok] using hw
    | true =>
      simp only [Bool.not_true, Bool.false_eq_true, if_false]
      rw [hok] at hw
      have hcw : Clean w.trace := hw.1 rfl
      by_cases hthr : (prn + 1) % 4294967296 ≥ w.self.prn_threshold
      · rw [if_pos hthr]
        have hn := wait_notify_spec w.self Site.prn_notify 0x1
        generalize fu_pxi_device_wait_notify w.self Site.prn_notify 0x1 = n at hn ⊢
        rcases hn with ⟨h3, h4⟩ | ⟨data, h3, h4, h5⟩
        · simp only [h3, Bool.not_false, if_true, h4]
          exact stops_append hcw (stops_single_false _)
        · simp only [h3, Bool.not_true, Bool.false_eq_true, if_false]
          by_cases hop : notify_status n.2 ≠ FU_PXI_DEVICE_CMD_FW_WRITE
          · rw [if_pos hop]
            simp only [h4]
            exact stops_append hcw (stops_single_false _)
          · rw [if_neg hop]
            simp only [h4, List.append_assoc]
            refine stops_append hcw (stops_append (clean_single ?_) (ih _ _))
            rw [h5] at hop
            simpa [Event.failed, Event.transport_ok, Event.prn_ok, Event.checksum_ok,
              Event.upgrade_ok] using hop
      · rw [if_neg hthr]
        exact stops_append hcw (ih _ _)

theorem write_chunk_stops (self : FuPxiDevice) (chk : FuChunk) :
    Stops (fu_pxi_device_write_chunk self chk).ok (fu_pxi_device_write_chunk self chk).trace := by
  unfold fu_pxi_device_write_chunk
  simp only []
  have hc := object_create_stops self chk
  generalize fu_pxi_device_fw_object_create self chk = c at hc ⊢
  cases hcok : c.ok with
  | false => simpa [hcok] using hc
  | true =>
    simp only [Bool.not_true, Bool.false_eq_true, if_false]
    rw [hcok] at hc
    have hl := write_chunk_payloads_stops
      (fu_chunk_array_new chk.data chk.address FU_PXI_DEVICE_OTA_PAYLOAD_SZ) c.self 0
    generalize write_chunk_payloads c.self 0
      (fu_chunk_array_new chk.data chk.address FU_PXI_DEVICE_OTA_PAYLOAD_SZ) = l at hl ⊢
    cases hlok : l.ok with
    | false =>
      simp only [Bool.not_false, if_true]
      rw [hlok] at hl
      exact stops_append (hc.1 rfl) hl
    | true =>
      simp only [Bool.not_true, Bool.false_eq_true, if_false]
      rw [hlok] at hl
      have hn := wait_notify_spec l.self
        (Site.checksum_notify (fu_pxi_device_calculate_checksum chk.data)) 0x0
      generalize fu_pxi_device_wait_notify l.self
        (Site.checksum_notify (fu_pxi_device_calculate_checksum chk.data)) 0x0 = n at hn ⊢
      rcases hn with ⟨h3, h4⟩ | ⟨data, h3, h4, h5⟩
      · simp only [h3, Bool.not_false, if_true, h4, List.append_assoc]
        exact stops_append (hc.1 rfl) (stops_append (hl.1 rfl) (stops_single_false _))
      · simp only [h3, Bool.not_true, Bool.false_eq_true, if_false]
        by_cases hsum : notify_checksum n.2 ≠ fu_pxi_device_calculate_checksum chk.data
        · rw [if_pos hsum]
          simp only [h4, List.append_assoc]
          exact stops_append (hc.1 rfl) (stops_append (hl.1 rfl) (stops_single_false _))
        · rw [if_neg hsum]
          simp only [h4, List.append_assoc]
          refine stops_append (hc.1 rfl) (stops_append (hl.1 rfl)
            (stops_clean (clean_single ?_)))
          rw [h5] at hsum
          simpa [Event.failed, Event.transport_ok, Event.prn_ok, Event.checksum_ok,
            Event.upgrade_ok] using hsum

theorem write_firmware_objects_stops (chunks : List FuChunk) (self : FuPxiDevice)
    (len i : Nat) :
    Stops (write_firmware_objects self len i chunks).ok
      (write_firmware_objects self len i chunks).trace := by
  induction chunks generalizing self i with
  | nil => exact stops_clean clean_nil
  | cons chk rest ih =>
    unfold write_firmware_objects
    simp only []
    have hc := write_chunk_stops self chk
    generalize fu_pxi_device_write_chunk self chk = c at hc ⊢
    cases hcok : c.ok with
    | false => simpa [hcok] using hc
    | true =>
      simp only [Bool.not_true, Bool.false_eq_true, if_false]
      rw [hcok] at hc
      exact stops_append (hc.1 rfl) (stops_cons rfl (ih _ _))

theorem ota_init_new_stops (self : FuPxiDevice) (fw_sz : Nat) :
    Stops (fu_pxi_device_fw_ota_init_new self fw_sz).ok
      (fu_pxi_device_fw_ota_init_new self fw_sz).trace := by
  unfold fu_pxi_device_fw_ota_init_new
  simp only []
  generalize ([PXI_HID_DEV_OTA_OUTPUT_REPORT_ID, FU_PXI_DEVICE_CMD_FW_OTA_INIT_NEW]
    ++ le32 fw_sz ++ [0x0] ++ List.replicate 10 0) = req
  have hw := pwrite_stops self Site.ota_init_new 0x0 req
  generalize fu_udev_device_pwrite_full self Site.ota_init_new 0x0 req = w at hw ⊢
  cases hok : w.ok with
  | false => simpa [hok] using hw
  | true =>
    simp only [Bool.not_true, Bool.false_eq_true, if_false]
    rw [hok] at hw
    have hg := transport_stops w.self Site.ota_init_new_feature
      (HidOp.get_feature FU_PXI_DEVICE_OTA_BUF_SZ) (fun _ => rfl)
    generalize transport w.self Site.ota_init_new_feature
      (HidOp.get_feature FU_PXI_DEVICE_OTA_BUF_SZ) = g at hg ⊢
    cases hgok : g.1.ok with
    | false =>
      simp only [Bool.not_false, if_true]
      rw [hgok] at hg
      exact stops_append (hw.1 rfl) hg
    | true =>
      simp only [Bool.not_true, Bool.false_eq_true, if_false]
      rw [hgok] at hg
      exact stops_append (hw.1 rfl) (stops_clean (hg.1 rfl))

theorem reset_stops (self : FuPxiDevice) (fw_sz : Nat) :
    Stops (fu_pxi_device_reset self fw_sz).ok (fu_pxi_device_reset self fw_sz).trace := by
  unfold fu_pxi_device_reset
  simp only []
  generalize ([PXI_HID_DEV_OTA_OUTPUT_REPORT_ID, FU_PXI_DEVICE_CMD_FW_MCU_RESET, fw_sz % 256]
    ++ List.replicate (FU_PXI_DEVICE_OTA_BUF_SZ - 3) 0) = req
  have hw := pwrite_stops self Site.reset 0 req
  generalize fu_udev_device_pwrite_full self Site.reset 0 req = w at hw ⊢
  cases hok : w.ok with
  | false =>
    simp only [Bool.not_false, if_true]
    rw [hok] at hw
    exact stops_cons rfl hw
  | true =>
    simp only [Bool.not_true, Bool.false_eq_true, if_false, hok]
    rw [hok] at hw
    exact stops_cons rfl hw

theorem fw_upgrade_stops (self : FuPxiDevice) (firmware : FuFirmware) :
    Stops (fu_pxi_device_fw_upgrade self firmware).ok
      (fu_pxi_device_fw_upgrade self firmware).trace := by
  unfold fu_pxi_device_fw_upgrade
  cases firmware.image_default with
  | none => exact stops_clean clean_nil
  | some fw_buf =>
    simp only []
    by_cases hv : firmware.version.length ≤ 10
    · rw [if_pos hv]
      have hw := pwrite_stops self Site.upgrade 0 (fw_upgrade_req fw_buf firmware.version)
      generalize fu_udev_device_pwrite_full self Site.upgrade 0
        (fw_upgrade_req fw_buf firmware.version) = w at hw ⊢
      cases hok : w.ok with
      | false =>
        simp only [Bool.not_false, if_true]
        rw [hok] at hw
        exact stops_cons rfl hw
      | true =>
        simp only [Bool.not_true, Bool.false_eq_true, if_false]
        rw [hok] at hw
        have hn := wait_notify_spec w.self Site.upgrade_notify 0x1
        generalize fu_pxi_device_wait_notify w.self Site.upgrade_notify 0x1 = n at hn ⊢
        rcases hn with ⟨h3, h4⟩ | ⟨data, h3, h4, h5⟩
        · simp only [h3, Bool.not_false, if_true, h4]
          exact stops_cons rfl (stops_append (hw.1 rfl) (stops_single_false _))
        · simp only [h3, Bool.not_true, Bool.false_eq_true, if_false]
          by_cases hop : notify_status n.2 ≠ FU_PXI_DEVICE_CMD_FW_UPGRADE
          · rw [if_pos hop]
            simp only [h4]
            exact stops_cons rfl (stops_append (hw.1 rfl) (stops_single_false _))
          · rw [if_neg hop]
            simp only [h4]
            refine stops_cons rfl (stops_append (hw.1 rfl) (stops_clean (clean_single ?_)))
            rw [h5] at hop
            simpa [Event.failed, Event.transport_ok, Event.prn_ok, Event.checksum_ok,
              Event.upgrade_ok] using hop
    · rw [if_neg hv]
      exact stops_clean clean_nil

theorem write_firmware_stops (self : FuPxiDevice) (firmware : FuFirmware) :
    Stops (fu_pxi_device_write_firmware self firmware).ok
      (fu_pxi_device_write_firmware self firmware).trace := by
  unfold fu_pxi_device_write_firmware
  cases firmware.image_default with
  | none => exact stops_clean clean_nil
  | some fw =>
    simp only []
    have ha : Stops (fu_pxi_device_fw_ota_init self).ok (fu_pxi_device_fw_ota_init self).trace :=
      pwrite_stops _ _ _ _
    generalize fu_pxi_device_fw_ota_init self = a at ha ⊢
    cases haok : a.ok with
    | false =>
      simp only [Bool.not_false, if_true]
      rw [haok] at ha
      exact stops_append (clean_single rfl) ha
    | true =>
      simp only [Bool.not_true, Bool.false_eq_true, if_false]
      rw [haok] at ha
      have hb := ota_init_new_stops a.self fw.length
      generalize fu_pxi_device_fw_ota_init_new a.self fw.length = b at hb ⊢
      cases hbok : b.ok with
      | false =>
        simp only [Bool.not_false, if_true, List.append_assoc]
        rw [hbok] at hb
        exact stops_append (clean_single rfl) (stops_append (ha.1 rfl) hb)
      | true =>
        simp only [Bool.not_true, Bool.false_eq_true, if_false]
        rw [hbok] at hb
        have ht1 : Clean ([Event.set_status FwupdStatus.DEVICE_BUSY] ++ a.trace ++ b.trace
            ++ [Event.set_status FwupdStatus.DEVICE_WRITE]) :=
          clean_append (clean_append (clean_append (clean_single rfl) (ha.1 rfl)) (hb.1 rfl))
            (clean_single rfl)
        generalize [Event.set_status FwupdStatus.DEVICE_BUSY] ++ a.trace ++ b.trace
            ++ [Event.set_status FwupdStatus.DEVICE_WRITE] = t1 at ht1 ⊢
        have hl := write_firmware_objects_stops
          (fu_chunk_array_new fw 0x0 FU_PXI_DEVICE_OBJECT_SIZE_MAX) b.self
          (fu_chunk_array_new fw 0x0 FU_PXI_DEVICE_OBJECT_SIZE_MAX).length 0
        generalize write_firmware_objects b.self
          (fu_chunk_array_new fw 0x0 FU_PXI_DEVICE_OBJECT_SIZE_MAX).length 0
          (fu_chunk_array_new fw 0x0 FU_PXI_DEVICE_OBJECT_SIZE_MAX) = l at hl ⊢
        cases hlok : l.ok with
        | false =>
          simp only [Bool.not_false, if_true]
          rw [hlok] at hl
          exact stops_append ht1 hl
        | true =>
          simp only [Bool.not_true, Bool.false_eq_true, if_false]
          rw [hlok] at hl
          have hu := fw_upgrade_stops l.self firmware
          generalize fu_pxi_device_fw_upgrade l.self firmware = u at hu ⊢
          cases huok : u.ok with
          | false =>
            simp only [Bool.not_false, if_true, List.append_assoc]
            rw [huok] at hu
            exact stops_append ht1 (stops_append (hl.1 rfl) hu)
          | true =>
            simp only [Bool.not_true, Bool.false_eq_true, if_false, List.append_assoc]
            rw [huok] at hu
            exact stops_append ht1 (stops_append (hl.1 rfl)
              (stops_append (hu.1 rfl) (reset_stops _ _)))

/-! ### Which events each function produces -/

theorem transport_events (self : FuPxiDevice) (site : Site) (op : HidOp) (P : Event → Prop)
    (h : ∀ resp, P (Event.io site op resp)) :
    ∀ e ∈ (transport self site op).1.trace, P e := by
  intro e he
  rcases transport_spec self site op with ⟨_, h2⟩ | ⟨d, _, h2, _⟩
  · rw [h2] at he; rw [List.mem_singleton.mp he]; exact h _
  · rw [h2] at he; rw [List.mem_singleton.mp he]; exact h _

theorem pwrite_events (self : FuPxiDevice) (site : Site) (port : Nat) (data : List Nat)
    (P : Event → Prop) (h : ∀ resp, P (Event.io site (HidOp.pwrite port data) resp)) :
    ∀ e ∈ (fu_udev_device_pwrite_full self site port data).trace, P e :=
  transport_events self site _ P h

theorem wait_notify_events (self : FuPxiDevice) (site : Site) (port : Nat) (P : Event → Prop)
    (h : ∀ resp, P (Event.io site (HidOp.pread port (32 - port)) resp)) :
    ∀ e ∈ (fu_pxi_device_wait_notify self site port).1.trace, P e := by
  intro e he
  rcases wait_notify_spec self site port with ⟨_, h2⟩ | ⟨d, _, h2, _⟩
  · rw [h2] at he; rw [List.mem_singleton.mp he]; exact h _
  · rw [h2] at he; rw [List.mem_singleton.mp he]; exact h _

theorem filterMap_none {α β : Type} (f : α → Option β) (t : List α)
    (h : ∀ e ∈ t, f e = none) : t.filterMap f = [] := by
  induction t with
  | nil => rfl
  | cons x xs ih =>
    rw [List.filterMap_cons, h x (List.mem_cons_self _ _)]
    exact ih (fun e he => h e (List.mem_cons_of_mem _ he))

theorem verified_none_of_phase (e : Event) (h : e.phase ≠ 2) : e.verified? = none := by
  cases e with
  | io site op resp =>
    cases site <;> first | rfl | exact absurd rfl h
  | set_status _ => rfl
  | set_progress _ _ => rfl

theorem object_create_events (self : FuPxiDevice) (chk : FuChunk) :
    ∀ e ∈ (fu_pxi_device_fw_object_create self chk).trace,
      e.phase = 2 ∧ e.verified? = none := by
  unfold fu_pxi_device_fw_object_create
  simp only []
  generalize ([PXI_HID_DEV_OTA_OUTPUT_REPORT_ID, FU_PXI_DEVICE_CMD_FW_OBJECT_CREATE]
        ++ le32 chk.address ++ le32 chk.data_sz) = req
  have hw := pwrite_events self Site.object_create 0x0 req
    (fun e => e.phase = 2 ∧ e.verified? = none) (fun _ => ⟨rfl, rfl⟩)
  generalize fu_udev_device_pwrite_full self Site.object_create 0x0 req = w at hw ⊢
  cases hok : w.ok with
  | false => simpa [hok] using hw
  | true =>
    simp only [Bool.not_true, Bool.false_eq_true, if_false]
    exact List.forall_mem_append.mpr ⟨hw, transport_events _ _ _ _ (fun _ => ⟨rfl, rfl⟩)⟩

theorem write_chunk_payloads_events (chunks : List FuChunk) (self : FuPxiDevice) (prn : Nat) :
    ∀ e ∈ (write_chunk_payloads self prn chunks).trace,
      e.phase = 2 ∧ e.verified? = none := by
  induction chunks generalizing self prn with
  | nil => intro e he; cases he
  | cons chk2 rest ih =>
    unfold write_chunk_payloads
    simp only []
    unfold fu_pxi_device_write_payload
    have hw := pwrite_events self Site.payload 0x0 (PXI_HID_DEV_OTA_OUTPUT_REPORT_ID :: chk2.data)
      (fun e => e.phase = 2 ∧ e.verified? = none) (fun _ => ⟨rfl, rfl⟩)
    generalize fu_udev_device_pwrite_full self Site.payload 0x0
      (PXI_HID_DEV_OTA_OUTPUT_REPORT_ID :: chk2.data) = w at hw ⊢
    cases hok : w.ok with
    | false => simpa [hok] using hw
    | true =>
      simp only [Bool.not_true, Bool.false_eq_true, if_false]
      by_cases hthr : (prn + 1) % 4294967296 ≥ w.self.prn_threshold
      · rw [if_pos hthr]
        have hn := wait_notify_events w.self Site.prn_notify 0x1
          (fun e => e.phase = 2 ∧ e.verified? = none) (fun _ => ⟨rfl, rfl⟩)
        generalize fu_pxi_device_wait_notify w.self Site.prn_notify 0x1 = n at hn ⊢
        cases hnok : n.1.ok with
        | false =>
          simp only [Bool.not_false, if_true]
          exact List.forall_mem_append.mpr ⟨hw, hn⟩
        | true =>
          simp only [Bool.not_true, Bool.false_eq_true, if_false]
          by_cases hop : notify_status n.2 ≠ FU_PXI_DEVICE_CMD_FW_WRITE
          · rw [if_pos hop]
            exact List.forall_mem_append.mpr ⟨hw, hn⟩
          · rw [if_neg hop]
            exact List.forall_mem_append.mpr ⟨List.forall_mem_append.mpr ⟨hw, hn⟩, ih _ _⟩
      · rw [if_neg hthr]
        exact List.forall_mem_append.mpr ⟨hw, ih _ _⟩

/-- The events of `fu_pxi_device_write_chunk` belong to the object phase, and a
successful call verified exactly the checksum of its object. -/
theorem write_chunk_events (self : FuPxiDevice) (chk : FuChunk) :
    (∀ e ∈ (fu_pxi_device_write_chunk self chk).trace, e.phase = 2) ∧
    ((fu_pxi_device_write_chunk self chk).ok = true →
      (fu_pxi_device_write_chunk self chk).trace.filterMap Event.verified?
        = [fu_pxi_device_calculate_checksum chk.data]) := by
  unfold fu_pxi_device_write_chunk
  simp only []
  have hc := object_create_events self chk
  generalize fu_pxi_device_fw_object_create self chk = c at hc ⊢
  cases hcok : c.ok with
  | false =>
    simp only [Bool.not_false, if_true, hcok]
    exact ⟨fun e he => (hc e he).1, fun h => absurd h (by decide)⟩
  | true =>
    simp only [Bool.not_true, Bool.false_eq_true, if_false]
    have hl := write_chunk_payloads_events
      (fu_chunk_array_new chk.data chk.address FU_PXI_DEVICE_OTA_PAYLOAD_SZ) c.self 0
    generalize write_chunk_payloads c.self 0
      (fu_chunk_array_new chk.data chk.address FU_PXI_DEVICE_OTA_PAYLOAD_SZ) = l at hl ⊢
    have hcl : ∀ e ∈ c.trace ++ l.trace, e.phase = 2 ∧ e.verified? = none :=
      List.forall_mem_append.mpr ⟨hc, hl⟩
    cases hlok : l.ok with
    | false =>
      simp only [Bool.not_false, if_true, hlok]
      exact ⟨fun e he => (hcl e he).1, fun h => absurd h (by decide)⟩
    | true =>
      simp only [Bool.not_true, Bool.false_eq_true, if_false]
      have hn := wait_notify_spec l.self
        (Site.checksum_notify (fu_pxi_device_calculate_checksum chk.data)) 0x0
      generalize fu_pxi_device_wait_notify l.self
        (Site.checksum_notify (fu_pxi_device_calculate_checksum chk.data)) 0x0 = n at hn ⊢
      rcases hn with ⟨h3, h4⟩ | ⟨data, h3, h4, h5⟩
      · simp only [h3, Bool.not_false, if_true, h4]
        refine ⟨List.forall_mem_append.mpr ⟨fun e he => (hcl e he).1, ?_⟩,
          fun h => absurd h (by decide)⟩
        intro e he; rw [List.mem_singleton.mp he]; rfl
      · simp only [h3, Bool.not_true, Bool.false_eq_true, if_false]
        by_cases hsum : notify_checksum n.2 ≠ fu_pxi_device_calculate_checksum chk.data
        · rw [if_pos hsum]
          simp only [h4]
          refine ⟨List.forall_mem_append.mpr ⟨fun e he => (hcl e he).1, ?_⟩,
            fun h => absurd h (by decide)⟩
          intro e he; rw [List.mem_singleton.mp he]; rfl
        · rw [if_neg hsum]
          simp only [h4]
          refine ⟨List.forall_mem_append.mpr ⟨fun e he => (hcl e he).1, ?_⟩, fun _ => ?_⟩
          · intro e he; rw [List.mem_singleton.mp he]; rfl
          · rw [List.filterMap_append, filterMap_none _ _ (fun e he => (hcl e he).2)]
            rw [h5] at hsum
            have hsum2 := not_not.mp hsum
            simp [Event.verified?, hsum2]

theorem write_firmware_objects_events (chunks : List FuChunk) (self : FuPxiDevice)
    (len i : Nat) :
    (∀ e ∈ (write_firmware_objects self len i chunks).trace, e.phase = 2 ∨ e.phase = 0) ∧
    ((write_firmware_objects self len i chunks).ok = true →
      (write_firmware_objects self len i chunks).trace.filterMap Event.verified?
        = chunks.map (fun chk => fu_pxi_device_calculate_checksum chk.data)) := by
  induction chunks generalizing self i with
  | nil =>
    exact ⟨fun e he => (nomatch he), fun _ => rfl⟩
  | cons chk rest ih =>
    unfold write_firmware_objects
    simp only []
    have hc := write_chunk_events self chk
    generalize fu_pxi_device_write_chunk self chk = c at hc ⊢
    cases hcok : c.ok with
    | false =>
      simp only [Bool.not_false, if_true, hcok]
      exact ⟨fun e he => Or.inl (hc.1 e he), fun h => absurd h (by decide)⟩
    | true =>
      simp only [Bool.not_true, Bool.false_eq_true, if_false]
      obtain ⟨ih1, ih2⟩ := ih c.self (i + 1)
      refine ⟨List.forall_mem_append.mpr ⟨fun e he => Or.inl (hc.1 e he), ?_⟩, fun h => ?_⟩
      · intro e he
        rcases List.mem_cons.mp he with h | h
        · rw [h]; exact Or.inr rfl
        · exact ih1 e h
      · rw [List.filterMap_append, hc.2 hcok, List.filterMap_cons]
        simp only [Event.verified?, List.map_cons, List.singleton_append]
        rw [ih2 h]

theorem ota_init_new_events (self : FuPxiDevice) (fw_sz : Nat) :
    ∀ e ∈ (fu_pxi_device_fw_ota_init_new self fw_sz).trace, e.phase ≤ 1 := by
  unfold fu_pxi_device_fw_ota_init_new
  simp only []
  generalize ([PXI_HID_DEV_OTA_OUTPUT_REPORT_ID, FU_PXI_DEVICE_CMD_FW_OTA_INIT_NEW]
    ++ le32 fw_sz ++ [0x0] ++ List.replicate 10 0) = req
  have hw := pwrite_events self Site.ota_init_new 0x0 req (fun e => e.phase ≤ 1)
    (fun _ => Nat.le_refl _)
  generalize fu_udev_device_pwrite_full self Site.ota_init_new 0x0 req = w at hw ⊢
  cases hok : w.ok with
  | false => simpa [hok] using hw
  | true =>
    simp only [Bool.not_true, Bool.false_eq_true, if_false]
    have hg := transport_events w.self Site.ota_init_new_feature
      (HidOp.get_feature FU_PXI_DEVICE_OTA_BUF_SZ) (fun e => e.phase ≤ 1) (fun _ => Nat.le_refl _)
    generalize transport w.self Site.ota_init_new_feature
      (HidOp.get_feature FU_PXI_DEVICE_OTA_BUF_SZ) = g at hg ⊢
    cases hgok : g.1.ok with
    | false =>
      simp only [Bool.not_false, if_true]
      exact List.forall_mem_append.mpr ⟨hw, hg⟩
    | true =>
      simp only [Bool.not_true, Bool.false_eq_true, if_false]
      exact List.forall_mem_append.mpr ⟨hw, hg⟩

theorem reset_events (self : FuPxiDevice) (fw_sz : Nat) :
    ∀ e ∈ (fu_pxi_device_reset self fw_sz).trace, e.phase = 4 ∨ e.phase = 0 := by
  unfold fu_pxi_device_reset
  simp only []
  generalize ([PXI_HID_DEV_OTA_OUTPUT_REPORT_ID, FU_PXI_DEVICE_CMD_FW_MCU_RESET, fw_sz % 256]
    ++ List.replicate (FU_PXI_DEVICE_OTA_BUF_SZ - 3) 0) = req
  have hw := pwrite_events self Site.reset 0 req (fun e => e.phase = 4 ∨ e.phase = 0)
    (fun _ => Or.inl rfl)
  generalize fu_udev_device_pwrite_full self Site.reset 0 req = w at hw ⊢
  have hs : ∀ e ∈ Event.set_status FwupdStatus.DEVICE_RESTART :: w.trace,
      e.phase = 4 ∨ e.phase = 0 := by
    intro e he
    rcases List.mem_cons.mp he with h | h
    · rw [h]; exact Or.inr rfl
    · exact hw e h
  cases hok : w.ok with
  | false => simpa [hok] using hs
  | true => simpa [hok] using hs

/-- The events of `fu_pxi_device_fw_upgrade` are status updates or belong to the
upgrade phase, and a successful call read an upgrade notification that carries
the opcode 0x18. -/
theorem fw_upgrade_events (self : FuPxiDevice) (firmware : FuFirmware) :
    (∀ e ∈ (fu_pxi_device_fw_upgrade self firmware).trace, e.phase = 3 ∨ e.phase = 0) ∧
    ((fu_pxi_device_fw_upgrade self firmware).ok = true →
      ∃ data, Event.io Site.upgrade_notify (HidOp.pread 1 31) (HidResp.ok data)
          ∈ (fu_pxi_device_fw_upgrade self firmware).trace ∧
        notify_status (fill_buffer notify_buffer 31 data) = FU_PXI_DEVICE_CMD_FW_UPGRADE) := by
  unfold fu_pxi_device_fw_upgrade
  cases firmware.image_default with
  | none =>
    refine ⟨fun e he => (nomatch he), fun h => ?_⟩
    simp at h
  | some fw_buf =>
    simp only []
    by_cases hv : firmware.version.length ≤ 10
    · rw [if_pos hv]
      have hw := pwrite_events self Site.upgrade 0 (fw_upgrade_req fw_buf firmware.version)
        (fun e => e.phase = 3 ∨ e.phase = 0) (fun _ => Or.inl rfl)
      generalize fu_udev_device_pwrite_full self Site.upgrade 0
        (fw_upgrade_req fw_buf firmware.version) = w at hw ⊢
      have hs : ∀ t : List Event, (∀ e ∈ t, e.phase = 3 ∨ e.phase = 0) →
          ∀ e ∈ Event.set_status FwupdStatus.DEVICE_VERIFY :: t, e.phase = 3 ∨ e.phase = 0 := by
        intro t ht e he
        rcases List.mem_cons.mp he with h | h
        · rw [h]; exact Or.inr rfl
        · exact ht e h
      cases hok : w.ok with
      | false =>
        simp only [Bool.not_false, if_true, hok]
        exact ⟨hs _ hw, fun h => absurd h (by decide)⟩
      | true =>
        simp only [Bool.not_true, Bool.false_eq_true, if_false]
        have hn := wait_notify_spec w.self Site.upgrade_notify 0x1
        generalize fu_pxi_device_wait_notify w.self Site.upgrade_notify 0x1 = n at hn ⊢
        have hone : ∀ resp, ∀ e ∈ w.trace ++
            [Event.io Site.upgrade_notify (HidOp.pread 0x1 (32 - 0x1)) resp],
            e.phase = 3 ∨ e.phase = 0 := by
          intro resp
          refine List.forall_mem_append.mpr ⟨hw, ?_⟩
          intro e he; rw [List.mem_singleton.mp he]; exact Or.inl rfl
        rcases hn with ⟨h3, h4⟩ | ⟨data, h3, h4, h5⟩
        · simp only [h3, Bool.not_false, if_true, h4]
          exact ⟨hs _ (hone _), fun h => absurd h (by decide)⟩
        · simp only [h3, Bool.not_true, Bool.false_eq_true, if_false]
          by_cases hop : notify_status n.2 ≠ FU_PXI_DEVICE_CMD_FW_UPGRADE
          · rw [if_pos hop]
            simp only [h4]
            exact ⟨hs _ (hone _), fun h => absurd h (by decide)⟩
          · rw [if_neg hop]
            simp only [h4]
            refine ⟨hs _ (hone _), fun _ => ⟨data, ?_, ?_⟩⟩
            · exact List.mem_cons_of_mem _
                (List.mem_append_right _ (List.mem_singleton_self _))
            · rw [h5] at hop
              exact not_not.mp hop
    · rw [if_neg hv]
      refine ⟨fun e he => (nomatch he), fun h => ?_⟩
      simp at h

theorem verified_nil_of_phase (t : List Event) (h : ∀ e ∈ t, e.phase ≠ 2) :
    t.filterMap Event.verified? = [] :=
  filterMap_none _ _ (fun e he => verified_none_of_phase e (h e he))

/-- In the trace of `fu_pxi_device_write_firmware`, an event of the upgrade or
reset phase comes only after every object was verified, and an event of the
reset phase only after an upgrade notification with opcode 0x18. -/
theorem write_firmware_events (self : FuPxiDevice) (firmware : FuFirmware) :
    ((∃ e ∈ (fu_pxi_device_write_firmware self firmware).trace, 3 ≤ e.phase) →
      (fu_pxi_device_write_firmware self firmware).trace.filterMap Event.verified?
        = (fu_chunk_array_new (firmware.image_default.getD []) 0x0
            FU_PXI_DEVICE_OBJECT_SIZE_MAX).map
            (fun chk => fu_pxi_device_calculate_checksum chk.data)) ∧
    ((∃ e ∈ (fu_pxi_device_write_firmware self firmware).trace, e.phase = 4) →
      ∃ data, Event.io Site.upgrade_notify (HidOp.pread 1 31) (HidResp.ok data)
          ∈ (fu_pxi_device_write_firmware self firmware).trace ∧
        notify_status (fill_buffer notify_buffer 31 data) = FU_PXI_DEVICE_CMD_FW_UPGRADE) := by
  have early : ∀ t : List Event, (∀ e ∈ t, e.phase ≤ 2) →
      ∀ (A B : Prop), ((∃ e ∈ t, 3 ≤ e.phase) → A) ∧ ((∃ e ∈ t, e.phase = 4) → B) := by
    intro t ht A B
    constructor
    · rintro ⟨e, he, h⟩; have := ht e he; omega
    · rintro ⟨e, he, h⟩; have := ht e he; omega
  unfold fu_pxi_device_write_firmware
  cases hfw : firmware.image_default with
  | none => exact early [] (fun e he => (nomatch he)) _ _
  | some fw =>
    simp only [Option.getD_some]
    have ha : ∀ e ∈ (fu_pxi_device_fw_ota_init self).trace, e.phase ≤ 1 :=
      pwrite_events _ _ _ _ (fun e => e.phase ≤ 1) (fun _ => Nat.le_refl _)
    generalize fu_pxi_device_fw_ota_init self = a at ha ⊢
    have h0 : ∀ e ∈ [Event.set_status FwupdStatus.DEVICE_BUSY], e.phase ≤ 1 := by
      intro e he; rw [List.mem_singleton.mp he]; exact Nat.zero_le _
    cases haok : a.ok with
    | false =>
      simp only [Bool.not_false, if_true]
      exact early _ (fun e he => Nat.le_succ_of_le
        (List.forall_mem_append.mpr ⟨h0, ha⟩ e he)) _ _
    | true =>
      simp only [Bool.not_true, Bool.false_eq_true, if_false]
      have hb := ota_init_new_events a.self fw.length
      generalize fu_pxi_device_fw_ota_init_new a.self fw.length = b at hb ⊢
      cases hbok : b.ok with
      | false =>
        simp only [Bool.not_false, if_true]
        exact early _ (fun e he => Nat.le_succ_of_le
          (List.forall_mem_append.mpr ⟨List.forall_mem_append.mpr ⟨h0, ha⟩, hb⟩ e he)) _ _
      | true =>
        simp only [Bool.not_true, Bool.false_eq_true, if_false]
        have ht1 : ∀ e ∈ [Event.set_status FwupdStatus.DEVICE_BUSY] ++ a.trace ++ b.trace
            ++ [Event.set_status FwupdStatus.DEVICE_WRITE], e.phase ≤ 1 := by
          refine List.forall_mem_append.mpr
            ⟨List.forall_mem_append.mpr ⟨List.forall_mem_append.mpr ⟨h0, ha⟩, hb⟩, ?_⟩
          intro e he; rw [List.mem_singleton.mp he]; exact Nat.zero_le _
        generalize [Event.set_status FwupdStatus.DEVICE_BUSY] ++ a.trace ++ b.trace
            ++ [Event.set_status FwupdStatus.DEVICE_WRITE] = t1 at ht1 ⊢
        have hl := write_firmware_objects_events
          (fu_chunk_array_new fw 0x0 FU_PXI_DEVICE_OBJECT_SIZE_MAX) b.self
          (fu_chunk_array_new fw 0x0 FU_PXI_DEVICE_OBJECT_SIZE_MAX).length 0
        generalize write_firmware_objects b.self
          (fu_chunk_array_new fw 0x0 FU_PXI_DEVICE_OBJECT_SIZE_MAX).length 0
          (fu_chunk_array_new fw 0x0 FU_PXI_DEVICE_OBJECT_SIZE_MAX) = l at hl ⊢
        have hl2 : ∀ e ∈ l.trace, e.phase ≤ 2 := by
          intro e he; rcases hl.1 e he with h | h <;> omega
        have hv1 : t1.filterMap Event.verified? = [] :=
          verified_nil_of_phase t1 (fun e he => by have := ht1 e he; omega)
        cases hlok : l.ok with
        | false =>
          simp only [Bool.not_false, if_true]
          exact early _ (List.forall_mem_append.mpr
            ⟨fun e he => Nat.le_succ_of_le (ht1 e he), hl2⟩) _ _
        | true =>
          simp only [Bool.not_true, Bool.false_eq_true, if_false]
          have hu := fw_upgrade_events l.self firmware
          generalize fu_pxi_device_fw_upgrade l.self firmware = u at hu ⊢
          have hvu : u.trace.filterMap Event.verified? = [] :=
            verified_nil_of_phase u.trace
              (fun e he => by rcases hu.1 e he with h | h <;> omega)
          cases huok : u.ok with
          | false =>
            simp only [Bool.not_false, if_true]
            constructor
            · intro _
              rw [List.filterMap_append, List.filterMap_append, hv1, hvu, hl.2 hlok]
              simp
            · rintro ⟨e, he, h⟩
              exfalso
              rcases List.mem_append.mp he with he | he
              · rcases List.mem_append.mp he with he | he
                · have := ht1 e he; omega
                · have := hl2 e he; omega
              · rcases hu.1 e he with h' | h' <;> omega
          | true =>
            simp only [Bool.not_true, Bool.false_eq_true, if_false]
            have hr := reset_events u.self fw.length
            generalize fu_pxi_device_reset u.self fw.length = r at hr ⊢
            have hvr : r.trace.filterMap Event.verified? = [] :=
              verified_nil_of_phase r.trace
                (fun e he => by rcases hr e he with h | h <;> omega)
            constructor
            · intro _
              rw [List.filterMap_append, List.filterMap_append, List.filterMap_append, hv1, hvu,
                hvr, hl.2 hlok]
              simp
            · intro _
              obtain ⟨data, hmem, hop⟩ := hu.2 huok
              exact ⟨data, List.mem_append_left _ (List.mem_append_right _ hmem), hop⟩

/-- C4 (the code departs from the claim): for the image `0xFF 0x01`, whose
16-bit checksum is 256, and the version "1", a complete and successful
`fu_pxi_device_write_firmware` writes one upgrade request, and it carries the
checksum field `00 00 00 00` (the local `checksum` of
`fu_pxi_device_fw_upgrade` is a `guint8`), whereas the request of the
specification carries `00 01 00 00`. -/
theorem fw_upgrade_checksum_truncated :
    fu_pxi_device_calculate_checksum [0xFF, 0x01] = 256 ∧
    (fu_pxi_device_write_firmware good_device example_firmware).ok = true ∧
    (fu_pxi_device_write_firmware good_device example_firmware).trace.filterMap
        Event.upgrade_packet?
      = [[0x06, 0x18, 2, 0, 0, 0, 0, 0, 0, 0, 0x31, 0, 0, 0, 0, 0, 0, 0, 0, 0]] ∧
    spec_upgrade_req [0xFF, 0x01] [0x31]
      = [0x06, 0x18, 2, 0, 0, 0, 0, 1, 0, 0, 0x31, 0, 0, 0, 0, 0, 0, 0, 0, 0] ∧
    (fu_pxi_device_write_firmware good_device example_firmware).trace.filterMap
        Event.upgrade_packet?
      ≠ [spec_upgrade_req [0xFF, 0x01] [0x31]] := by
  refine ⟨by decide, by decide, by decide, by decide, by decide⟩

end Pxi

/-! ## Synaptics RMI V5: `write_firmware` -/

namespace RmiV5

theorem device_op_trace (self : FuSynapticsRmiDevice) (op : Op) :
    ∃ resp, (device_op self op).1.trace = [Event.op op resp] := by
  unfold device_op
  split
  · exact ⟨_, rfl⟩
  · exact ⟨_, rfl⟩
  · exact ⟨_, rfl⟩
  · split
    · split <;> exact ⟨_, rfl⟩
    · exact ⟨_, rfl⟩

/-- C5 (the code departs from the claim): on a non-secure device in bootloader
mode that answers every operation with success, with block size 2, a `ui` image
of two blocks and a `config` image of one block,
`fu_synaptics_rmi_v5_device_write_firmware` returns success after the secure
check (the `return TRUE` marked "Currently for implementation breakpoint"):
the device received the backdoor entry, the idle wait and the backdoor entry of
the secure check only, no erase command, no write of the block address and no
block write. -/
theorem write_firmware_returns_before_flashing :
    (fu_synaptics_rmi_v5_device_write_firmware plain_device plain_firmware).result?
      = some (true, none) ∧
    (fu_synaptics_rmi_v5_device_write_firmware plain_device plain_firmware).trace
      = [Event.op Op.enter_backdoor (Resp.ok []),
         Event.op (Op.wait_for_idle 0 1) (Resp.ok []),
         Event.op Op.enter_backdoor (Resp.ok []),
         Event.sleep_with_progress 5] ∧
    (∀ e ∈ (fu_synaptics_rmi_v5_device_write_firmware plain_device plain_firmware).trace,
      e.is_register_access = false) := by
  refine ⟨by decide, by decide, by decide⟩

/-- C6: for a device in bootloader mode on which entering the backdoor and the
idle wait succeed, if exactly one of `rsa_keylen != 0` (device secure) and
`signature_size != 0` (firmware secure) holds, then
`fu_synaptics_rmi_v5_device_write_firmware` returns failure and the only
operations it issued are the backdoor entry and the idle wait: no register
read, no packet-register read of the secure check, no erase and no block
write. -/
theorem write_firmware_security_mismatch (self : FuSynapticsRmiDevice)
    (firmware : FuSynapticsRmiFirmware)
    (hboot : self.is_bootloader = true)
    (hbd : (fu_synaptics_rmi_device_enter_backdoor self).ok = true)
    (hidle : (fu_synaptics_rmi_device_wait_for_idle
      (fu_synaptics_rmi_device_enter_backdoor self).self 0
      RMI_DEVICE_WAIT_FOR_IDLE_FLAG_REFRESH_F34).ok = true)
    (hx : (self.rsa_keylen ≠ 0 ∧ firmware.signature_size = 0) ∨
      (self.rsa_keylen = 0 ∧ firmware.signature_size ≠ 0)) :
    ∃ r resp1 resp2,
      fu_synaptics_rmi_v5_device_write_firmware self firmware = Outcome.returned r ∧
      r.ok = false ∧
      r.trace = [Event.op Op.enter_backdoor resp1,
        Event.op (Op.wait_for_idle 0 RMI_DEVICE_WAIT_FOR_IDLE_FLAG_REFRESH_F34) resp2] ∧
      ∀ e ∈ r.trace, e.is_register_access = false := by
  obtain ⟨resp1, h1⟩ := device_op_trace self Op.enter_backdoor
  obtain ⟨resp2, h2⟩ := device_op_trace (fu_synaptics_rmi_device_enter_backdoor self).self
    (Op.wait_for_idle 0 RMI_DEVICE_WAIT_FOR_IDLE_FLAG_REFRESH_F34)
  have hacc : ∀ e ∈ [Event.op Op.enter_backdoor resp1,
      Event.op (Op.wait_for_idle 0 RMI_DEVICE_WAIT_FOR_IDLE_FLAG_REFRESH_F34) resp2],
      e.is_register_access = false := by
    intro e he
    simp only [List.mem_cons, List.mem_singleton, List.not_mem_nil, or_false] at he
    rcases he with h | h <;> rw [h] <;> rfl
  have ht : (fu_synaptics_rmi_device_enter_backdoor self).trace ++
      (fu_synaptics_rmi_device_wait_for_idle (fu_synaptics_rmi_device_enter_backdoor self).self 0
        RMI_DEVICE_WAIT_FOR_IDLE_FLAG_REFRESH_F34).trace
      = [Event.op Op.enter_backdoor resp1,
        Event.op (Op.wait_for_idle 0 RMI_DEVICE_WAIT_FOR_IDLE_FLAG_REFRESH_F34) resp2] := by
    unfold fu_synaptics_rmi_device_enter_backdoor fu_synaptics_rmi_device_wait_for_idle
    unfold fu_synaptics_rmi_device_enter_backdoor at h2
    rw [h1, h2]; rfl
  unfold fu_synaptics_rmi_v5_device_write_firmware
  simp only [hboot, Run.prefix_error, hbd, hidle, Bool.not_true, Bool.false_eq_true, if_false,
    if_true, ht]
  rcases hx with ⟨hd, hf⟩ | ⟨hd, hf⟩
  · rw [if_pos ⟨by simp [hf], hd⟩]
    exact ⟨_, resp1, resp2, rfl, rfl, rfl, hacc⟩
  · rw [if_neg (fun h => h.2 hd), if_pos ⟨hf, by simp [hd]⟩]
    exact ⟨_, resp1, resp2, rfl, rfl, rfl, hacc⟩

/-- Witness of C6: a secure device (2048-bit key) and a non-secure firmware. -/
theorem write_firmware_security_mismatch_witness :
    ∃ r resp1 resp2,
      fu_synaptics_rmi_v5_device_write_firmware secure_device plain_firmware
        = Outcome.returned r ∧
      r.ok = false ∧
      r.trace = [Event.op Op.enter_backdoor resp1,
        Event.op (Op.wait_for_idle 0 RMI_DEVICE_WAIT_FOR_IDLE_FLAG_REFRESH_F34) resp2] ∧
      ∀ e ∈ r.trace, e.is_register_access = false :=
  write_firmware_security_mismatch secure_device plain_firmware (by decide) (by decide)
    (by decide) (Or.inl ⟨by decide, by decide⟩)

/-- C7 (the code departs from the claim): with a secure device (2048-bit key)
and a non-secure firmware, and with a non-secure device and a secure firmware,
`fu_synaptics_rmi_v5_device_write_firmware` returns `FALSE` and leaves the
error unset: the failure branch only calls `g_prefix_error`, which does nothing
when no error is set, so the caller receives no error of any kind. -/
theorem write_firmware_security_mismatch_no_error :
    (fu_synaptics_rmi_v5_device_write_firmware secure_device plain_firmware).result?
      = some (false, none) ∧
    (fu_synaptics_rmi_v5_device_write_firmware plain_device
        { plain_firmware with signature_size := 256 }).result?
      = some (false, none) := by
  refine ⟨by decide, by decide⟩

end RmiV5

/-! ## Synaptics RMI over PS/2: the byte protocol -/

namespace Ps2

theorem read_raw_spec (self : FuSynapticsRmiPs2Device) (pbuf timeout : Nat) :
    (∃ b, (fu_io_channel_read_raw self pbuf timeout).1.ok = true ∧
        (fu_io_channel_read_raw self pbuf timeout).1.trace
          = [Event.read_raw timeout (ReadResp.byte b)] ∧
        (fu_io_channel_read_raw self pbuf timeout).2 = b % 256 ∧
        self.reads = ReadResp.byte b :: (fu_io_channel_read_raw self pbuf timeout).1.self.reads) ∨
    (∃ resp, (fu_io_channel_read_raw self pbuf timeout).1.ok = false ∧
        (fu_io_channel_read_raw self pbuf timeout).1.trace = [Event.read_raw timeout resp] ∧
        (fu_io_channel_read_raw self pbuf timeout).1.self.reads.length ≤ self.reads.length) := by
  unfold fu_io_channel_read_raw
  split
  · right; exact ⟨_, rfl, rfl, Nat.le_refl _⟩
  · rename_i b rest h
    left; exact ⟨b, rfl, rfl, rfl, h⟩
  · rename_i rest h
    right; refine ⟨_, rfl, rfl, ?_⟩
    simp [h]
  · rename_i rest h
    right; refine ⟨_, rfl, rfl, ?_⟩
    simp [h]

theorem read_raw_frame (self : FuSynapticsRmiPs2Device) (pbuf timeout : Nat) :
    (fu_io_channel_read_raw self pbuf timeout).1.self.writes = self.writes ∧
    (fu_io_channel_read_raw self pbuf timeout).1.self.in_backdoor = self.in_backdoor := by
  unfold fu_io_channel_read_raw
  split <;> exact ⟨rfl, rfl⟩

/-- What `read_ack` leaves behind: only reads; on success the last one
delivered the byte returned and the script of reads got shorter. -/
theorem read_ack_loop_spec (pbuf : Nat) (n : Nat) (self : FuSynapticsRmiPs2Device) :
    (∀ e ∈ (read_ack_loop pbuf n self).1.trace, e.is_write = false) ∧
    (read_ack_loop pbuf n self).1.self.writes = self.writes ∧
    (read_ack_loop pbuf n self).1.self.in_backdoor = self.in_backdoor ∧
    (read_ack_loop pbuf n self).1.self.reads.length ≤ self.reads.length ∧
    ((read_ack_loop pbuf n self).1.ok = true →
      (read_ack_loop pbuf n self).1.self.reads.length < self.reads.length ∧
      ∃ pre b, (read_ack_loop pbuf n self).1.trace
          = pre ++ [Event.read_raw 60 (ReadResp.byte b)] ∧
        (read_ack_loop pbuf n self).2 = b % 256) := by
  induction n generalizing self with
  | zero =>
    refine ⟨fun e he => (nomatch he), rfl, rfl, Nat.le_refl _, fun h => ?_⟩
    simp [read_ack_loop] at h
  | succ n ih =>
    unfold read_ack_loop
    simp only []
    have hs := read_raw_spec self pbuf 60
    have hf := read_raw_frame self pbuf 60
    generalize fu_io_channel_read_raw self pbuf 60 = r at hs hf ⊢
    rcases hs with ⟨b, h1, h2, h3, h4⟩ | ⟨resp, h1, h2, h3⟩
    · simp only [h1, if_true]
      refine ⟨?_, hf.1, hf.2, ?_, fun _ => ⟨?_, [], b, ?_, h3⟩⟩
      · intro e he; rw [h2] at he; rw [List.mem_singleton.mp he]; rfl
      · rw [h4]; simp
      · rw [h4]; simp
      · rw [h2]; rfl
    · simp only [h1, Bool.false_eq_true, if_false]
      have hr : ∀ e ∈ r.1.trace, e.is_write = false := by
        intro e he; rw [h2] at he; rw [List.mem_singleton.mp he]; rfl
      split
      · obtain ⟨i1, i2, i3, i4, i5⟩ := ih r.1.self
        refine ⟨List.forall_mem_append.mpr ⟨hr, i1⟩, i2.trans hf.1, i3.trans hf.2,
          Nat.le_trans i4 h3, fun h => ?_⟩
        obtain ⟨j1, pre, b, j2, j3⟩ := i5 h
        exact ⟨Nat.lt_of_lt_of_le j1 h3, r.1.trace ++ pre, b, by rw [j2, List.append_assoc], j3⟩
      · refine ⟨hr, hf.1, hf.2, h3, fun h => ?_⟩
        rw [h1] at h; exact absurd h (by decide)

theorem write_raw_spec (self : FuSynapticsRmiPs2Device) (buf timeout : Nat) :
    (fu_io_channel_write_raw self buf timeout).self.reads = self.reads ∧
    (fu_io_channel_write_raw self buf timeout).self.in_backdoor = self.in_backdoor ∧
    (fu_io_channel_write_raw self buf timeout).trace
      = [Event.write_raw buf timeout (fu_io_channel_write_raw self buf timeout).ok] := by
  unfold fu_io_channel_write_raw
  split <;> exact ⟨rfl, rfl, rfl⟩

/-- The write at the head of an iteration of the loop of `write_byte`. -/
theorem loop_write_spec (self : FuSynapticsRmiPs2Device) (buf timeout : Nat) (do_write : Bool) :
    let w : Ps2Run :=
      if do_write then fu_io_channel_write_raw self buf timeout else ⟨true, none, self, []⟩
    w.self.reads = self.reads ∧ w.self.in_backdoor = self.in_backdoor ∧
      (∀ e ∈ w.trace, e.is_failed_write = !w.ok) := by
  cases do_write with
  | false =>
    exact ⟨rfl, rfl, fun e he => (nomatch he)⟩
  | true =>
    simp only [if_true]
    obtain ⟨h1, h2, h3⟩ := write_raw_spec self buf timeout
    refine ⟨h1, h2, fun e he => ?_⟩
    rw [h3] at he
    rw [List.mem_singleton.mp he]; rfl

/-- Every run of the loop of `write_byte` that returns leaves `in_backdoor` as
it was; when it returns success, the last event is an acknowledge read that
delivered `ACK` and no write of the run was rejected. -/
theorem write_byte_loop_spec (buf timeout : Nat) (fuel : Nat) :
    ∀ (self : FuSynapticsRmiPs2Device) (do_write : Bool) (i : Nat) (r : Ps2Run),
      write_byte_loop buf timeout fuel self do_write i = some r →
        r.self.in_backdoor = self.in_backdoor ∧
        (r.ok = true →
          (∃ pre b, r.trace = pre ++ [Event.read_raw 60 (ReadResp.byte b)] ∧
            b % 256 = edpsAcknowledge) ∧
          ∀ e ∈ r.trace, e.is_failed_write = false) := by
  induction fuel with
  | zero => intro self do_write i r h; simp [write_byte_loop] at h
  | succ fuel ih =>
    intro self do_write i r h
    unfold write_byte_loop at h
    simp only [] at h
    obtain ⟨hw1, hw2, hw3⟩ := loop_write_spec self buf timeout do_write
    generalize (if do_write = true then fu_io_channel_write_raw self buf timeout
      else (⟨true, none, self, []⟩ : Ps2Run)) = w at h hw1 hw2 hw3
    cases hwok : w.ok with
    | false =>
      simp only [hwok, Bool.not_false, if_true, Option.some.injEq] at h
      subst h
      exact ⟨hw2, fun h => by rw [hwok] at h; exact absurd h (by decide)⟩
    | true =>
      simp only [hwok, Bool.not_true, Bool.false_eq_true, if_false] at h
      rw [hwok] at hw3
      obtain ⟨ha1, _, ha3, _, ha5⟩ := read_ack_loop_spec 0 60 w.self
      unfold fu_synaptics_rmi_ps2_device_read_ack at h
      generalize read_ack_loop 0 60 w.self = a at h ha1 ha3 ha5
      have hseen : ∀ e ∈ w.trace ++ a.1.trace, e.is_failed_write = false := by
        refine List.forall_mem_append.mpr ⟨hw3, fun e he => ?_⟩
        have := ha1 e he
        cases e with
        | write_raw _ _ _ => simp [Event.is_write] at this
        | read_raw _ _ => rfl
      have hrec : ∀ dw : Bool,
          Option.map (fun l : Ps2Run => ({ l with trace := w.trace ++ a.1.trace ++ l.trace } : Ps2Run))
            (write_byte_loop buf timeout fuel a.1.self dw ((i + 1) % 4294967296)) = some r →
          r.self.in_backdoor = self.in_backdoor ∧
          (r.ok = true →
            (∃ pre b, r.trace = pre ++ [Event.read_raw 60 (ReadResp.byte b)] ∧
              b % 256 = edpsAcknowledge) ∧
            ∀ e ∈ r.trace, e.is_failed_write = false) := by
        intro dw hm
        obtain ⟨l, hl, hlr⟩ := Option.map_eq_some'.mp hm
        obtain ⟨i1, i2⟩ := ih a.1.self dw _ l hl
        subst hlr
        refine ⟨by rw [i1, ha3, hw2], fun hok => ?_⟩
        obtain ⟨⟨pre, b, j1, j2⟩, j3⟩ := i2 hok
        refine ⟨⟨w.trace ++ a.1.trace ++ pre, b, ?_, j2⟩, ?_⟩
        · show w.trace ++ a.1.trace ++ l.trace = _
          rw [j1, List.append_assoc (w.trace ++ a.1.trace)]
        · exact List.forall_mem_append.mpr ⟨hseen, j3⟩
      cases haok : a.1.ok with
      | false =>
        simp only [haok, Bool.not_false, if_true] at h
        by_cases hi : i > 3
        · rw [if_pos hi] at h
          simp only [Option.some.injEq] at h
          subst h
          exact ⟨by rw [ha3, hw2], fun h => absurd h Bool.false_ne_true⟩
        · rw [if_neg hi] at h
          exact hrec false h
      | true =>
        simp only [haok, Bool.not_true, Bool.false_eq_true, if_false] at h
        by_cases hack : a.2 = edpsAcknowledge
        · rw [if_pos hack] at h
          simp only [Option.some.injEq] at h
          subst h
          refine ⟨by rw [ha3, hw2], fun _ => ⟨?_, hseen⟩⟩
          obtain ⟨_, pre, b, j1, j2⟩ := ha5 haok
          exact ⟨w.trace ++ pre, b, by rw [j1, List.append_assoc], by rw [← j2]; exact hack⟩
        · rw [if_neg hack] at h
          by_cases hres : a.2 = edpsResend
          · rw [if_pos hres] at h
            exact hrec true h
          · rw [if_neg hres] at h
            by_cases herr : a.2 = edpsError
            · rw [if_pos herr] at h
              exact hrec true h
            · rw [if_neg herr] at h
              exact hrec false h

/-- The loop of `write_byte` returns within `5 * reads + 5` iterations, whatever
the device answers. -/
theorem write_byte_loop_returns (buf timeout : Nat) (fuel : Nat) :
    ∀ (self : FuSynapticsRmiPs2Device) (do_write : Bool) (i : Nat),
      5 * self.reads.length + (4 - min i 4) + 1 ≤ fuel →
        (write_byte_loop buf timeout fuel self do_write i).isSome = true := by
  induction fuel with
  | zero => intro self do_write i h; omega
  | succ fuel ih =>
    intro self do_write i h
    unfold write_byte_loop
    simp only []
    obtain ⟨hw1, _, _⟩ := loop_write_spec self buf timeout do_write
    generalize (if do_write = true then fu_io_channel_write_raw self buf timeout
      else (⟨true, none, self, []⟩ : Ps2Run)) = w at hw1 ⊢
    cases hwok : w.ok with
    | false => simp
    | true =>
      simp only [Bool.not_true, Bool.false_eq_true, if_false]
      obtain ⟨_, _, _, ha4, ha5⟩ := read_ack_loop_spec 0 60 w.self
      unfold fu_synaptics_rmi_ps2_device_read_ack
      generalize read_ack_loop 0 60 w.self = a at ha4 ha5 ⊢
      rw [hw1] at ha4 ha5
      have hrec : ∀ (dw : Bool) (j : Nat),
          5 * a.1.self.reads.length + (4 - min j 4) + 1 ≤ fuel →
          (Option.map (fun l : Ps2Run =>
              ({ l with trace := w.trace ++ a.1.trace ++ l.trace } : Ps2Run))
            (write_byte_loop buf timeout fuel a.1.self dw j)).isSome = true := by
        intro dw j hj
        have := ih a.1.self dw j hj
        cases hl : write_byte_loop buf timeout fuel a.1.self dw j with
        | none => rw [hl] at this; exact absurd this (by decide)
        | some l => rfl
      cases haok : a.1.ok with
      | false =>
        simp only [Bool.not_false, if_true]
        by_cases hi : i > 3
        · rw [if_pos hi]; rfl
        · rw [if_neg hi]
          apply hrec
          have h1 : (i + 1) % 4294967296 = i + 1 := Nat.mod_eq_of_lt (by omega)
          rw [h1]
          omega
      | true =>
        simp only [Bool.not_true, Bool.false_eq_true, if_false]
        have hlt := (ha5 haok).1
        have hfuel : ∀ j, 5 * a.1.self.reads.length + (4 - min j 4) + 1 ≤ fuel := by
          intro j; omega
        by_cases hack : a.2 = edpsAcknowledge
        · rw [if_pos hack]; rfl
        · rw [if_neg hack]
          by_cases hres : a.2 = edpsResend
          · rw [if_pos hres]; exact hrec _ _ (hfuel _)
          · rw [if_neg hres]
            by_cases herr : a.2 = edpsError
            · rw [if_pos herr]; exact hrec _ _ (hfuel _)
            · rw [if_neg herr]; exact hrec _ _ (hfuel _)

/-- The function `write_byte` always gets a result from its loop. -/
theorem write_byte_returns (self : FuSynapticsRmiPs2Device) (buf timeout : Nat) :
    ∃ r, write_byte_loop buf timeout (write_byte_fuel self) self true 0 = some r := by
  have h := write_byte_loop_returns buf timeout (write_byte_fuel self) self true 0
    (by unfold write_byte_fuel; omega)
  exact Option.isSome_iff_exists.mp h

/-- C9: for every byte, every timeout and every sequence of device responses,
if `fu_synaptics_rmi_ps2_device_write_byte` returns success then the timeout is
positive, the last event of the call is an acknowledge read that delivered
`ACK` (0xFA), and no write of the call was rejected by the channel; so it does
not return success after a RESEND, an ERROR or any other final response, nor
after a failed write. -/
theorem write_byte_success_ack (self : FuSynapticsRmiPs2Device) (buf timeout : Nat)
    (h : (fu_synaptics_rmi_ps2_device_write_byte self buf timeout).ok = true) :
    timeout > 0 ∧
    (∃ pre b, (fu_synaptics_rmi_ps2_device_write_byte self buf timeout).trace
        = pre ++ [Event.read_raw 60 (ReadResp.byte b)] ∧ b % 256 = 0xFA) ∧
    ∀ e ∈ (fu_synaptics_rmi_ps2_device_write_byte self buf timeout).trace,
      e.is_failed_write = false := by
  unfold fu_synaptics_rmi_ps2_device_write_byte at h ⊢
  by_cases ht : timeout > 0
  · rw [if_pos ht] at h ⊢
    obtain ⟨r, hr⟩ := write_byte_returns self buf timeout
    rw [hr] at h ⊢
    simp only [] at h ⊢
    obtain ⟨_, h2⟩ := write_byte_loop_spec buf timeout _ self true 0 r hr
    exact ⟨ht, h2 h⟩
  · rw [if_neg ht] at h
    exact absurd h Bool.false_ne_true

/-- Witness of C9: a device that acknowledges at once. -/
theorem write_byte_success_ack_witness :
    (fu_synaptics_rmi_ps2_device_write_byte acking_device 0x11 50).ok = true ∧
    (50 > 0 ∧
    (∃ pre b, (fu_synaptics_rmi_ps2_device_write_byte acking_device 0x11 50).trace
        = pre ++ [Event.read_raw 60 (ReadResp.byte b)] ∧ b % 256 = 0xFA) ∧
    ∀ e ∈ (fu_synaptics_rmi_ps2_device_write_byte acking_device 0x11 50).trace,
      e.is_failed_write = false) :=
  ⟨by decide, write_byte_success_ack acking_device 0x11 50 (by decide)⟩

/-! ### Resend behaviour of `write_byte` -/

theorem write_raw_accepting (self : FuSynapticsRmiPs2Device) (buf timeout : Nat)
    (hw : ∀ w ∈ self.writes, w = true) :
    (fu_io_channel_write_raw self buf timeout).ok = true ∧
    (fu_io_channel_write_raw self buf timeout).trace = [Event.write_raw buf timeout true] ∧
    (fu_io_channel_write_raw self buf timeout).self.reads = self.reads ∧
    (∀ w ∈ (fu_io_channel_write_raw self buf timeout).self.writes, w = true) := by
  unfold fu_io_channel_write_raw
  split
  · exact ⟨rfl, rfl, rfl, hw⟩
  · rename_i rest h
    refine ⟨rfl, rfl, rfl, fun w hmem => hw w ?_⟩
    rw [h]; exact List.mem_cons_of_mem _ hmem
  · rename_i rest h
    have := hw false (by rw [h]; exact List.mem_cons_self _ _)
    exact absurd this (by decide)

theorem read_ack_byte (self : FuSynapticsRmiPs2Device) (b : Nat) (rest : List ReadResp)
    (h : self.reads = ReadResp.byte b :: rest) :
    fu_synaptics_rmi_ps2_device_read_ack self 0
      = (⟨true, none, { self with reads := rest }, [Event.read_raw 60 (ReadResp.byte b)]⟩,
          b % 256) := by
  unfold fu_synaptics_rmi_ps2_device_read_ack read_ack_loop fu_io_channel_read_raw
  simp [h]

/-- The loop of `write_byte` against a device that answers the acknowledge
reads with the bytes `rs`, none of them `ACK`, and then with `ACK`. -/
theorem write_byte_loop_script (buf timeout : Nat) (rs : List Nat) :
    ∀ (fuel : Nat) (self : FuSynapticsRmiPs2Device) (do_write : Bool) (i : Nat)
      (rest : List ReadResp),
      rs.length + 1 ≤ fuel →
      self.reads = rs.map ReadResp.byte ++ ReadResp.byte edpsAcknowledge :: rest →
      (∀ w ∈ self.writes, w = true) →
      (∀ r ∈ rs, r < 256 ∧ r ≠ edpsAcknowledge) →
      ∃ r, write_byte_loop buf timeout fuel self do_write i = some r ∧ r.ok = true ∧
        r.trace = ack_trace buf timeout do_write rs := by
  induction rs with
  | nil =>
    intro fuel self do_write i rest hfuel hreads hw _
    obtain ⟨fuel, rfl⟩ : ∃ f, fuel = f + 1 := ⟨fuel - 1, by simp at hfuel; omega⟩
    simp only [List.map_nil, List.nil_append] at hreads
    unfold write_byte_loop
    simp only []
    have hack : edpsAcknowledge % 256 = edpsAcknowledge := by decide
    cases do_write with
    | false =>
      simp only [Bool.false_eq_true, if_false, Bool.not_true]
      rw [read_ack_byte self _ rest hreads]
      simp only [Bool.not_true, Bool.false_eq_true, if_false, hack, if_true]
      exact ⟨_, rfl, rfl, rfl⟩
    | true =>
      obtain ⟨h1, h2, h3, _⟩ := write_raw_accepting self buf timeout hw
      simp only [if_true, h1, Bool.not_true, Bool.false_eq_true, if_false]
      rw [read_ack_byte _ _ rest (h3.trans hreads)]
      simp only [Bool.not_true, Bool.false_eq_true, if_false, hack, if_true]
      refine ⟨_, rfl, rfl, ?_⟩
      simp [h2, ack_trace]
  | cons x rs ih =>
    intro fuel self do_write i rest hfuel hreads hw hrs
    obtain ⟨fuel, rfl⟩ : ∃ f, fuel = f + 1 := ⟨fuel - 1, by simp at hfuel; omega⟩
    simp only [List.map_cons, List.cons_append] at hreads
    have hx := hrs x (List.mem_cons_self _ _)
    have hxm : x % 256 = x := Nat.mod_eq_of_lt hx.1
    have hrs2 : ∀ r ∈ rs, r < 256 ∧ r ≠ edpsAcknowledge :=
      fun r hr => hrs r (List.mem_cons_of_mem _ hr)
    have hfuel2 : rs.length + 1 ≤ fuel := by simp at hfuel; omega
    unfold write_byte_loop
    simp only []
    have key : ∀ (w : Ps2Run), w.ok = true → w.self.reads = self.reads →
        (∀ v ∈ w.self.writes, v = true) →
        w.trace = (if do_write = true then [Event.write_raw buf timeout true] else []) →
        ∃ r, (if (!w.ok) = true then some w else
            (let a := fu_synaptics_rmi_ps2_device_read_ack w.self 0
             let res := a.2
             let seen := w.trace ++ a.1.trace
             let continue_with := fun (do_write : Bool) =>
               (write_byte_loop buf timeout fuel a.1.self do_write ((i + 1) % 4294967296)).map
                 (fun l => ({ l with trace := seen ++ l.trace } : Ps2Run))
             if (!a.1.ok) = true then
               if i > 3 then
                 some ⟨false, g_prefix_error a.1.error "read ack failed: " [], a.1.self, seen⟩
               else continue_with false
             else if res = edpsAcknowledge then some ⟨true, none, a.1.self, seen⟩
             else if res = edpsResend then continue_with true
             else if res = edpsError then continue_with true
             else continue_with false)) = some r ∧ r.ok = true ∧
          r.trace = ack_trace buf timeout do_write (x :: rs) := by
      intro w hwok hwr hww hwt
      simp only [hwok, Bool.not_true, Bool.false_eq_true, if_false]
      rw [read_ack_byte w.self x _ (hwr.trans hreads)]
      simp only [Bool.not_true, Bool.false_eq_true, if_false, hxm, if_neg hx.2]
      have hnext : ∀ dw : Bool, dw = is_resend x →
          ∃ r, Option.map (fun l : Ps2Run =>
              ({ l with trace := w.trace ++ [Event.read_raw 60 (ReadResp.byte x)] ++ l.trace }
                : Ps2Run))
            (write_byte_loop buf timeout fuel
              { w.self with reads := rs.map ReadResp.byte ++ ReadResp.byte edpsAcknowledge :: rest }
              dw ((i + 1) % 4294967296)) = some r ∧ r.ok = true ∧
            r.trace = ack_trace buf timeout do_write (x :: rs) := by
        intro dw hdw
        obtain ⟨l, hl1, hl2, hl3⟩ := ih fuel
          { w.self with reads := rs.map ReadResp.byte ++ ReadResp.byte edpsAcknowledge :: rest }
          dw ((i + 1) % 4294967296) rest hfuel2 rfl hww hrs2
        refine ⟨{ l with trace := w.trace ++ [Event.read_raw 60 (ReadResp.byte x)] ++ l.trace },
          by rw [hl1]; rfl, hl2, ?_⟩
        show w.trace ++ [Event.read_raw 60 (ReadResp.byte x)] ++ l.trace = _
        rw [hl3, hwt, hdw]
        simp [ack_trace]
      by_cases hres : x = edpsResend
      · rw [if_pos hres]
        exact hnext true (by simp [is_resend, hres])
      · rw [if_neg hres]
        by_cases herr : x = edpsError
        · rw [if_pos herr]
          exact hnext true (by simp [is_resend, herr])
        · rw [if_neg herr]
          exact hnext false (by simp [is_resend, hres, herr])
    cases do_write with
    | false =>
      exact key ⟨true, none, self, []⟩ rfl rfl hw rfl
    | true =>
      obtain ⟨h1, h2, h3, h4⟩ := write_raw_accepting self buf timeout hw
      exact key _ h1 h3 h4 h2

theorem bytes_written_append (t1 t2 : List Event) :
    bytes_written (t1 ++ t2) = bytes_written t1 ++ bytes_written t2 := by
  unfold bytes_written
  exact List.filterMap_append _ _ _

theorem bytes_written_ack_trace (buf timeout : Nat) (rs : List Nat) :
    ∀ do_write : Bool, bytes_written (ack_trace buf timeout do_write rs)
      = List.replicate (rs.countP is_resend + (if do_write then 1 else 0)) buf := by
  induction rs with
  | nil =>
    intro do_write
    cases do_write <;> simp [ack_trace, bytes_written]
  | cons r rs ih =>
    intro do_write
    have hstep : bytes_written (ack_trace buf timeout do_write (r :: rs))
        = (if do_write then [buf] else []) ++ bytes_written (ack_trace buf timeout (is_resend r) rs) := by
      cases do_write <;> simp [ack_trace, bytes_written]
    rw [hstep, ih, List.countP_cons]
    cases do_write with
    | false => simp
    | true =>
      simp only [if_true, List.singleton_append]
      rfl

theorem reads_ack_trace (buf timeout : Nat) (rs : List Nat) :
    ∀ do_write : Bool,
      ((ack_trace buf timeout do_write rs).filter (fun e => !e.is_write)).length
        = rs.length + 1 := by
  induction rs with
  | nil =>
    intro do_write
    cases do_write <;> rfl
  | cons r rs ih =>
    intro do_write
    have := ih (is_resend r)
    cases do_write with
    | false =>
      show (List.filter (fun e => !e.is_write) (Event.read_raw 60 (ReadResp.byte r) ::
        ack_trace buf timeout (is_resend r) rs)).length = _
      rw [List.filter_cons_of_pos (by rfl), List.length_cons, this, List.length_cons]
    | true =>
      show (List.filter (fun e => !e.is_write) (Event.write_raw buf timeout true ::
        Event.read_raw 60 (ReadResp.byte r) :: ack_trace buf timeout (is_resend r) rs)).length = _
      rw [List.filter_cons_of_neg (by simp [Event.is_write]), List.filter_cons_of_pos (by rfl),
        List.length_cons, this, List.length_cons]

theorem countP_resend_all (rs : List Nat)
    (h : ∀ r ∈ rs, r = edpsResend ∨ r = edpsError) : rs.countP is_resend = rs.length := by
  rw [List.countP_eq_length]
  intro r hr
  rcases h r hr with h | h <;> simp [is_resend, h]

/-- C10: if the device answers the acknowledge reads of a `write_byte` with the
bytes `rs`, none of them `ACK`, and then with `ACK`, all reads and writes
succeeding, then `fu_synaptics_rmi_ps2_device_write_byte` returns success, it
transmits the byte once plus once for every `RESEND` (0xFE) or `ERROR` (0xFC)
among `rs`, and it makes one acknowledge read per response; a response that is
none of ACK / RESEND / ERROR is followed by another read without a
transmission. In particular `k` responses that are all `RESEND` or `ERROR`
give exactly `k + 1` transmissions. -/
theorem write_byte_resend (self : FuSynapticsRmiPs2Device) (buf timeout : Nat)
    (rs : List Nat) (rest : List ReadResp)
    (ht : timeout > 0)
    (hreads : self.reads = rs.map ReadResp.byte ++ ReadResp.byte 0xFA :: rest)
    (hw : ∀ w ∈ self.writes, w = true)
    (hrs : ∀ r ∈ rs, r < 256 ∧ r ≠ 0xFA) :
    (fu_synaptics_rmi_ps2_device_write_byte self buf timeout).ok = true ∧
    (fu_synaptics_rmi_ps2_device_write_byte self buf timeout).trace
      = ack_trace buf timeout true rs ∧
    bytes_written (fu_synaptics_rmi_ps2_device_write_byte self buf timeout).trace
      = List.replicate (1 + rs.countP (fun r => r = 0xFE || r = 0xFC)) buf ∧
    ((fu_synaptics_rmi_ps2_device_write_byte self buf timeout).trace.filter
      (fun e => !e.is_write)).length = rs.length + 1 ∧
    ((∀ r ∈ rs, r = 0xFE ∨ r = 0xFC) →
      bytes_written (fu_synaptics_rmi_ps2_device_write_byte self buf timeout).trace
        = List.replicate (rs.length + 1) buf) := by
  have hfuel : rs.length + 1 ≤ write_byte_fuel self := by
    unfold write_byte_fuel
    rw [hreads]
    simp only [List.length_append, List.length_map, List.length_cons]
    omega
  obtain ⟨r, h1, h2, h3⟩ := write_byte_loop_script buf timeout rs (write_byte_fuel self) self
    true 0 rest hfuel hreads hw hrs
  have hrun : fu_synaptics_rmi_ps2_device_write_byte self buf timeout = r := by
    unfold fu_synaptics_rmi_ps2_device_write_byte
    rw [if_pos ht, h1]
  have hbytes := bytes_written_ack_trace buf timeout rs true
  rw [hrun, h3]
  refine ⟨h2, rfl, ?_, reads_ack_trace buf timeout rs true, fun hall => ?_⟩
  · rw [hbytes, Nat.add_comm]; rfl
  · rw [hbytes, countP_resend_all rs hall]
    rfl

/-- Witness of C10: `RESEND` twice and then `ACK` gives three transmissions. -/
theorem write_byte_resend_witness :
    (fu_synaptics_rmi_ps2_device_write_byte
      ⟨false, [], [ReadResp.byte 0xFE, ReadResp.byte 0xFE, ReadResp.byte 0xFA]⟩ 0x11 50).ok
        = true ∧
    bytes_written (fu_synaptics_rmi_ps2_device_write_byte
      ⟨false, [], [ReadResp.byte 0xFE, ReadResp.byte 0xFE, ReadResp.byte 0xFA]⟩ 0x11 50).trace
        = [0x11, 0x11, 0x11] :=
  have h := write_byte_resend
    ⟨false, [], [ReadResp.byte 0xFE, ReadResp.byte 0xFE, ReadResp.byte 0xFA]⟩ 0x11 50
    [0xFE, 0xFE] [] (by decide) rfl (by decide) (by decide)
  ⟨h.1, h.2.2.2.2 (by decide)⟩

/-! ### The RMI backdoor -/

theorem and_then_flag (r : Ps2Run) (next : FuSynapticsRmiPs2Device → Ps2Run)
    (h : ∀ s, (next s).self.in_backdoor = s.in_backdoor) :
    (r.and_then next).self.in_backdoor = r.self.in_backdoor := by
  unfold Run.and_then
  split
  · exact h _
  · rfl

theorem prefix_error_self (r : Ps2Run) (pfx : String) (args : List Nat) :
    (r.prefix_error pfx args).self = r.self := by
  unfold Run.prefix_error
  split <;> rfl

theorem write_byte_flag (self : FuSynapticsRmiPs2Device) (buf timeout : Nat) :
    (fu_synaptics_rmi_ps2_device_write_byte self buf timeout).self.in_backdoor
      = self.in_backdoor := by
  unfold fu_synaptics_rmi_ps2_device_write_byte
  split
  · split
    · rename_i r hr
      exact (write_byte_loop_spec buf timeout _ self true 0 r hr).1
    · rfl
  · rfl

theorem set_scaling_1to1_flag (n : Nat) (self : FuSynapticsRmiPs2Device) :
    (set_scaling_1to1 n self).self.in_backdoor = self.in_backdoor := by
  induction n generalizing self with
  | zero => rfl
  | succ n ih =>
    unfold set_scaling_1to1
    rw [and_then_flag _ _ ih, write_byte_flag]

theorem set_resolution_pairs_flag (arg n : Nat) (self : FuSynapticsRmiPs2Device) :
    (set_resolution_pairs arg n self).self.in_backdoor = self.in_backdoor := by
  induction n generalizing self with
  | zero => rfl
  | succ n ih =>
    unfold set_resolution_pairs
    simp only []
    rw [and_then_flag _ _ ih, and_then_flag _ _ (fun s => write_byte_flag s _ _),
      write_byte_flag]

theorem set_resolution_sequence_flag (self : FuSynapticsRmiPs2Device) (arg : Nat)
    (send_e6s : Bool) :
    (fu_synaptics_rmi_ps2_device_set_resolution_sequence self arg send_e6s).self.in_backdoor
      = self.in_backdoor := by
  unfold fu_synaptics_rmi_ps2_device_set_resolution_sequence
  rw [and_then_flag _ _ (set_resolution_pairs_flag arg 4), set_scaling_1to1_flag]

theorem sample_rate_attempt_flag (self : FuSynapticsRmiPs2Device) (param arg : Nat)
    (send_e6s : Bool) :
    (sample_rate_attempt self param arg send_e6s).self.in_backdoor = self.in_backdoor := by
  unfold sample_rate_attempt
  rw [and_then_flag _ _ (fun s => write_byte_flag s _ _),
    and_then_flag _ _ (fun s => write_byte_flag s _ _), set_resolution_sequence_flag]

theorem sample_rate_loop_flag (param arg : Nat) (fuel : Nat) :
    ∀ (i : Nat) (self : FuSynapticsRmiPs2Device) (send_e6s : Bool) (r : Ps2Run),
      sample_rate_loop param arg fuel i self send_e6s = some r →
        r.self.in_backdoor = self.in_backdoor := by
  induction fuel with
  | zero => intro i self send_e6s r h; simp [sample_rate_loop] at h
  | succ fuel ih =>
    intro i self send_e6s r h
    unfold sample_rate_loop at h
    simp only [] at h
    have ha := sample_rate_attempt_flag self param arg (if i > 0 then true else send_e6s)
    generalize sample_rate_attempt self param arg (if i > 0 then true else send_e6s) = a
      at h ha
    cases haok : a.ok with
    | true =>
      simp only [haok, Bool.not_true, Bool.false_eq_true, if_false, Option.some.injEq] at h
      rw [← h]; exact ha
    | false =>
      simp only [haok, Bool.not_false, if_true] at h
      by_cases hi : i > 3
      · rw [if_pos hi] at h
        simp only [Option.some.injEq] at h
        rw [← h]; exact ha
      · rw [if_neg hi] at h
        obtain ⟨l, hl, hlr⟩ := Option.map_eq_some'.mp h
        rw [← hlr]
        exact (ih _ _ _ l hl).trans ha

theorem sample_rate_sequence_flag (self : FuSynapticsRmiPs2Device) (param arg : Nat)
    (send_e6s : Bool) :
    (fu_synaptics_rmi_ps2_device_sample_rate_sequence self param arg send_e6s).self.in_backdoor
      = self.in_backdoor := by
  unfold fu_synaptics_rmi_ps2_device_sample_rate_sequence
  split
  · rename_i r hr
    exact sample_rate_loop_flag param arg 5 0 self send_e6s r hr
  · rfl

/-- The function `fu_synaptics_rmi_ps2_device_enable_rmi_backdoor` never changes
`in_backdoor`, whatever the device answers. -/
theorem enable_rmi_backdoor_flag (k : Tokens) (self : FuSynapticsRmiPs2Device) :
    (fu_synaptics_rmi_ps2_device_enable_rmi_backdoor k self).self.in_backdoor
      = self.in_backdoor := by
  unfold fu_synaptics_rmi_ps2_device_enable_rmi_backdoor
  split
  · rfl
  · have hnext : ∀ s : FuSynapticsRmiPs2Device,
        ((fu_synaptics_rmi_ps2_device_sample_rate_sequence s k.essrSetModeByte2
          k.edpAuxFullRMIBackDoor false).prefix_error
          "failed to enter RMI mode: " []).self.in_backdoor = s.in_backdoor := by
      intro s
      rw [prefix_error_self]
      exact sample_rate_sequence_flag s _ _ _
    rw [and_then_flag _ _ hnext, prefix_error_self, write_byte_flag]

/-- The loop of `sample_rate_sequence` returns within 5 iterations. -/
theorem sample_rate_loop_returns (param arg : Nat) (fuel : Nat) :
    ∀ (i : Nat) (self : FuSynapticsRmiPs2Device) (send_e6s : Bool),
      1 ≤ fuel → 5 ≤ fuel + i →
        (sample_rate_loop param arg fuel i self send_e6s).isSome = true := by
  induction fuel with
  | zero => intro i self send_e6s h; omega
  | succ fuel ih =>
    intro i self send_e6s _ h5
    unfold sample_rate_loop
    simp only []
    generalize sample_rate_attempt self param arg (if i > 0 then true else send_e6s) = a
    cases haok : a.ok with
    | true => rfl
    | false =>
      simp only [Bool.not_false, if_true]
      by_cases hi : i > 3
      · rw [if_pos hi]; rfl
      · rw [if_neg hi]
        have := ih (i + 1) a.self (if i > 0 then true else send_e6s) (by omega) (by omega)
        cases hl : sample_rate_loop param arg fuel (i + 1) a.self
            (if i > 0 then true else send_e6s) with
        | none => rw [hl] at this; exact absurd this (by decide)
        | some l => rfl

/-- The function `sample_rate_sequence` always gets a result from its loop. -/
theorem sample_rate_sequence_returns (self : FuSynapticsRmiPs2Device) (param arg : Nat)
    (send_e6s : Bool) :
    ∃ r, sample_rate_loop param arg 5 0 self send_e6s = some r :=
  Option.isSome_iff_exists.mp
    (sample_rate_loop_returns param arg 5 0 self send_e6s (by decide) (by decide))

/-- C8 (the code departs from the claim):
`fu_synaptics_rmi_ps2_device_enable_rmi_backdoor` never changes `in_backdoor`
(the function does not assign the field), whatever the device answers. So on a
fresh device that acknowledges every byte, a successful call leaves
`in_backdoor` false, a second consecutive call transmits the backdoor prefix
again, and so does a `read_rmi_register` that follows: across two consecutive
successful calls the prefix is emitted twice. -/
theorem enable_rmi_backdoor_emits_prefix_again :
    (∀ (k : Tokens) (self : FuSynapticsRmiPs2Device),
      (fu_synaptics_rmi_ps2_device_enable_rmi_backdoor k self).self.in_backdoor
        = self.in_backdoor) ∧
    (fu_synaptics_rmi_ps2_device_enable_rmi_backdoor example_tokens acking_device).ok = true ∧
    (fu_synaptics_rmi_ps2_device_enable_rmi_backdoor example_tokens acking_device).self.in_backdoor
      = false ∧
    bytes_written
      (fu_synaptics_rmi_ps2_device_enable_rmi_backdoor example_tokens acking_device).trace
      = backdoor_prefix ∧
    (fu_synaptics_rmi_ps2_device_enable_rmi_backdoor example_tokens
      (fu_synaptics_rmi_ps2_device_enable_rmi_backdoor example_tokens acking_device).self).ok
      = true ∧
    bytes_written (fu_synaptics_rmi_ps2_device_enable_rmi_backdoor example_tokens
      (fu_synaptics_rmi_ps2_device_enable_rmi_backdoor example_tokens acking_device).self).trace
      = backdoor_prefix ∧
    bytes_written (fu_synaptics_rmi_ps2_device_read_rmi_register example_tokens
      (fu_synaptics_rmi_ps2_device_enable_rmi_backdoor example_tokens acking_device).self
      0x10 0).1.trace
      = backdoor_prefix ++ [0xE7, 0xF3, 0x10, 0xE9] := by
  refine ⟨enable_rmi_backdoor_flag, by decide, by decide, by decide, by decide, by decide,
    by decide⟩

end Ps2

/-! ## Synaptics RMI V5: `setup` -/

namespace RmiV5

/-- A read of the device object: it fails, or it delivers the bytes of an `ok`
answer, or (an answer that is a re-scan) it delivers nothing. The flash state,
the key length and the function table are left alone. -/
theorem device_read_spec (self : FuSynapticsRmiDevice) (addr req_sz : Nat) :
    ((fu_synaptics_rmi_device_read self addr req_sz).1.self.functions = self.functions ∧
      (fu_synaptics_rmi_device_read self addr req_sz).1.self.flash = self.flash ∧
      (fu_synaptics_rmi_device_read self addr req_sz).1.self.rsa_keylen = self.rsa_keylen ∧
      (fu_synaptics_rmi_device_read self addr req_sz).1.self.is_bootloader
        = self.is_bootloader) ∧
    (((fu_synaptics_rmi_device_read self addr req_sz).2 = none ∧
        (fu_synaptics_rmi_device_read self addr req_sz).1.ok = false) ∨
      ((fu_synaptics_rmi_device_read self addr req_sz).2 = some [] ∧
        (fu_synaptics_rmi_device_read self addr req_sz).1.ok = true) ∨
      ∃ raw, (fu_synaptics_rmi_device_read self addr req_sz).2
          = some (raw.map (fun b => b % 256)) ∧
        (fu_synaptics_rmi_device_read self addr req_sz).1.ok = true ∧
        (fu_synaptics_rmi_device_read self addr req_sz).1.trace
          = [Event.op (Op.read (addr % 65536) req_sz) (Resp.ok raw)]) := by
  unfold fu_synaptics_rmi_device_read device_op
  split
  · exact ⟨⟨rfl, rfl, rfl, rfl⟩, Or.inl ⟨rfl, rfl⟩⟩
  · exact ⟨⟨rfl, rfl, rfl, rfl⟩, Or.inl ⟨rfl, rfl⟩⟩
  · rename_i data rest _
    exact ⟨⟨rfl, rfl, rfl, rfl⟩, Or.inr (Or.inr ⟨data, rfl, rfl, rfl⟩)⟩
  · exact ⟨⟨rfl, rfl, rfl, rfl⟩, Or.inr (Or.inl ⟨rfl, rfl⟩)⟩

theorem setup_flash_properties_success (self : FuSynapticsRmiDevice)
    (f34 : FuSynapticsRmiFunction) (trace : List Event) (r : RmiRun)
    (h : setup_flash_properties self f34 trace = Outcome.returned r) (hok : r.ok = true) :
    ∃ raw2, r.trace = trace ++
        [Event.op (Op.read ((f34.query_base + 2) % 65536) 7) (Resp.ok raw2)] ∧
      r.self.flash.block_size = read_uint16_le (raw2.map (fun b => b % 256)) 1 ∧
      r.self.flash.status_addr = (f34.data_base + 2 + r.self.flash.block_size) % 256 ∧
      r.self.flash.bootloader_id = self.flash.bootloader_id ∧
      r.self.rsa_keylen = self.rsa_keylen ∧
      r.self.functions = self.functions := by
  unfold setup_flash_properties at h
  simp only [] at h
  obtain ⟨⟨f1, f2, f3, _⟩, hs⟩ := device_read_spec self (f34.query_base + 0x2) 0x7
  generalize fu_synaptics_rmi_device_read self (f34.query_base + 0x2) 0x7 = rd at h f1 f2 f3 hs
  rcases hs with ⟨h1, h2⟩ | ⟨h1, _⟩ | ⟨raw, h1, _, h3⟩
  · simp only [h1, Outcome.returned.injEq] at h
    rw [← h] at hok
    rw [h2] at hok
    exact absurd hok Bool.false_ne_true
  · simp [h1] at h
  · simp only [h1] at h
    split at h
    · exact Outcome.noConfusion h
    · simp only [Outcome.returned.injEq] at h
      subst h
      refine ⟨raw, by simp [h3], rfl, rfl, ?_, f3, f1⟩
      simp [f2]

theorem setup_rsa_keylen_success (self : FuSynapticsRmiDevice)
    (f34 : FuSynapticsRmiFunction) (trace : List Event) (r : RmiRun)
    (h : setup_rsa_keylen self f34 trace = Outcome.returned r) (hok : r.ok = true) :
    ∃ raw9 raw2,
      r.self.flash.block_size = read_uint16_le (raw2.map (fun b => b % 256)) 1 ∧
      r.self.flash.status_addr = (f34.data_base + 2 + r.self.flash.block_size) % 256 ∧
      r.self.flash.bootloader_id = self.flash.bootloader_id ∧
      r.self.functions = self.functions ∧
      (((raw9.map (fun b => b % 256)).getD 0 0 % 2 = 1 ∧
        ∃ raw10, r.trace = trace ++
            [Event.op (Op.read ((f34.query_base + 9) % 65536) 1) (Resp.ok raw9),
             Event.op (Op.read ((f34.query_base + 10) % 65536) 2) (Resp.ok raw10),
             Event.op (Op.read ((f34.query_base + 2) % 65536) 7) (Resp.ok raw2)] ∧
          r.self.rsa_keylen = read_uint16_le (raw10.map (fun b => b % 256)) 0) ∨
       ((raw9.map (fun b => b % 256)).getD 0 0 % 2 = 0 ∧
        r.trace = trace ++
            [Event.op (Op.read ((f34.query_base + 9) % 65536) 1) (Resp.ok raw9),
             Event.op (Op.read ((f34.query_base + 2) % 65536) 7) (Resp.ok raw2)] ∧
        r.self.rsa_keylen = 0)) := by
  unfold setup_rsa_keylen at h
  simp only [] at h
  obtain ⟨⟨f1, f2, _, _⟩, hs⟩ := device_read_spec self (f34.query_base + 0x9) 1
  generalize fu_synaptics_rmi_device_read self (f34.query_base + 0x9) 1 = p at h f1 f2 hs
  rcases hs with ⟨h1, h2⟩ | ⟨h1, _⟩ | ⟨raw9, h1, _, h3⟩
  · simp only [h1, Outcome.returned.injEq] at h
    rw [← h] at hok
    simp [Run.prefix_error, h2] at hok
  · simp only [h1, List.length_nil, Nat.lt_one_iff, if_true, Outcome.returned.injEq] at h
    rw [← h] at hok
    exact absurd hok Bool.false_ne_true
  · simp only [h1] at h
    split at h
    · simp only [Outcome.returned.injEq] at h
      rw [← h] at hok
      exact absurd hok Bool.false_ne_true
    · by_cases hbit : (raw9.map (fun b => b % 256)).getD 0 0 % 2 = 1
      · rw [if_pos hbit] at h
        obtain ⟨⟨g1, g2, _, _⟩, hk⟩ := device_read_spec p.1.self (f34.query_base + 0x9 + 0x1) 2
        generalize fu_synaptics_rmi_device_read p.1.self (f34.query_base + 0x9 + 0x1) 2 = k
          at h g1 g2 hk
        rcases hk with ⟨k1, k2⟩ | ⟨k1, _⟩ | ⟨raw10, k1, _, k3⟩
        · simp only [k1, Outcome.returned.injEq] at h
          rw [← h] at hok
          simp [Run.prefix_error, k2] at hok
        · simp only [k1, List.length_nil, Nat.lt_irrefl, Nat.zero_lt_succ, if_true,
            Outcome.returned.injEq] at h
          rw [← h] at hok
          exact absurd hok Bool.false_ne_true
        · simp only [k1] at h
          split at h
          · simp only [Outcome.returned.injEq] at h
            rw [← h] at hok
            exact absurd hok Bool.false_ne_true
          · obtain ⟨raw2, t1, t2, t3, t4, t5, t6⟩ :=
              setup_flash_properties_success _ f34 _ r h hok
            refine ⟨raw9, raw2, t2, t3, ?_, ?_, Or.inl ⟨hbit, raw10, ?_, t5⟩⟩
            · rw [t4]; simp [g2, f2]
            · rw [t6]; simp [g1, f1]
            · rw [t1, h3, k3]; simp [Nat.add_assoc]
      · rw [if_neg hbit] at h
        obtain ⟨raw2, t1, t2, t3, t4, t5, t6⟩ :=
          setup_flash_properties_success _ f34 _ r h hok
        refine ⟨raw9, raw2, t2, t3, ?_, ?_, Or.inr ⟨by omega, ?_, t5⟩⟩
        · rw [t4]; simp [f2]
        · rw [t6]; simp [f1]
        · rw [t1, h3]; simp

/-- What a successful `fu_synaptics_rmi_v5_device_setup` read and stored. -/
theorem setup_success (self : FuSynapticsRmiDevice)
    (h : (fu_synaptics_rmi_v5_device_setup self).succeeded = true) :
    ∃ r f34 raw0 raw9 raw2,
      fu_synaptics_rmi_v5_device_setup self = Outcome.returned r ∧
      fu_synaptics_rmi_device_get_function self 0x34 = some f34 ∧
      r.self.flash.block_size = read_uint16_le (raw2.map (fun b => b % 256)) 1 ∧
      r.self.flash.status_addr = (f34.data_base + 2 + r.self.flash.block_size) % 256 ∧
      r.self.flash.bootloader_id
        = ((raw0.map (fun b => b % 256)).getD 0 0, (raw0.map (fun b => b % 256)).getD 1 0) ∧
      (((raw9.map (fun b => b % 256)).getD 0 0 % 2 = 1 ∧
        ∃ raw10, r.trace =
            [Event.op (Op.read (f34.query_base % 65536) 2) (Resp.ok raw0),
             Event.op (Op.read ((f34.query_base + 9) % 65536) 1) (Resp.ok raw9),
             Event.op (Op.read ((f34.query_base + 10) % 65536) 2) (Resp.ok raw10),
             Event.op (Op.read ((f34.query_base + 2) % 65536) 7) (Resp.ok raw2)] ∧
          r.self.rsa_keylen = read_uint16_le (raw10.map (fun b => b % 256)) 0) ∨
       ((raw9.map (fun b => b % 256)).getD 0 0 % 2 = 0 ∧
        r.trace =
            [Event.op (Op.read (f34.query_base % 65536) 2) (Resp.ok raw0),
             Event.op (Op.read ((f34.query_base + 9) % 65536) 1) (Resp.ok raw9),
             Event.op (Op.read ((f34.query_base + 2) % 65536) 7) (Resp.ok raw2)] ∧
        r.self.rsa_keylen = 0)) := by
  unfold fu_synaptics_rmi_v5_device_setup at h ⊢
  cases hf : fu_synaptics_rmi_device_get_function self 0x34 with
  | none =>
    rw [hf] at h
    exact absurd h Bool.false_ne_true
  | some f34 =>
    rw [hf] at h
    simp only [] at h ⊢
    obtain ⟨⟨f1, f2, _, _⟩, hs⟩ := device_read_spec self f34.query_base 0x2
    generalize fu_synaptics_rmi_device_read self f34.query_base 0x2 = rd at h f1 f2 hs ⊢
    rcases hs with ⟨h1, h2⟩ | ⟨h1, _⟩ | ⟨raw0, h1, _, h3⟩
    · simp [h1, Outcome.succeeded, Run.prefix_error, h2] at h
    · simp [h1, Outcome.succeeded] at h
    · simp only [h1] at h ⊢
      split at h
      · exact absurd h Bool.false_ne_true
      · rename_i hlen
        rw [if_neg hlen]
        generalize hrun : setup_rsa_keylen
          { rd.1.self with flash := { rd.1.self.flash with
              bootloader_id := ((raw0.map (fun b => b % 256)).getD 0 0,
                (raw0.map (fun b => b % 256)).getD 1 0) } } f34 rd.1.trace = out at h ⊢
        cases out with
        | crashed t => exact absurd h Bool.false_ne_true
        | returned r =>
          have hok : r.ok = true := h
          obtain ⟨raw9, raw2, t1, t2, t3, t4, t5⟩ :=
            setup_rsa_keylen_success _ f34 _ r hrun hok
          refine ⟨r, f34, raw0, raw9, raw2, rfl, rfl, t1, t2, t3, ?_⟩
          rw [h3] at t5
          rcases t5 with ⟨hb, raw10, u1, u2⟩ | ⟨hb, u1, u2⟩
          · exact Or.inl ⟨hb, raw10, u1, u2⟩
          · exact Or.inr ⟨hb, u1, u2⟩

/-- C12 (counterexample): with `f34.data_base = 0xF0` and a device-reported
block size of 16, a successful `fu_synaptics_rmi_v5_device_setup` stores
`status_addr = 2`, not `0xF0 + 2 + 16 = 258`. -/
theorem setup_status_addr_truncated :
    (fu_synaptics_rmi_v5_device_setup setup_device).succeeded = true ∧
    (fu_synaptics_rmi_device_get_function setup_device 0x34).map
        (fun f34 => f34.data_base) = some 0xF0 ∧
    (fu_synaptics_rmi_v5_device_setup setup_device).self?.map
        (fun d => d.flash.block_size) = some 16 ∧
    (fu_synaptics_rmi_v5_device_setup setup_device).self?.map
        (fun d => d.flash.status_addr) = some 2 ∧
    (fu_synaptics_rmi_v5_device_setup setup_device).self?.map
        (fun d => d.flash.status_addr) ≠ some (0xF0 + 2 + 16) := by
  refine ⟨by decide, by decide, by decide, by decide, by decide⟩

/-- C12 (amended): after every successful `fu_synaptics_rmi_v5_device_setup`
the stored `status_addr`, an 8-bit field, equals
`(f34.data_base + 2 + block_size) mod 256` for the block size the device
reported; it equals `f34.data_base + 2 + block_size` itself whenever that sum is
below 256. -/
theorem setup_status_addr (self : FuSynapticsRmiDevice)
    (h : (fu_synaptics_rmi_v5_device_setup self).succeeded = true) :
    ∃ r f34,
      fu_synaptics_rmi_v5_device_setup self = Outcome.returned r ∧
      fu_synaptics_rmi_device_get_function self 0x34 = some f34 ∧
      r.self.flash.status_addr = (f34.data_base + 2 + r.self.flash.block_size) % 256 ∧
      (f34.data_base + 2 + r.self.flash.block_size < 256 →
        r.self.flash.status_addr = f34.data_base + 2 + r.self.flash.block_size) := by
  obtain ⟨r, f34, _, _, _, h1, h2, _, h4, _, _⟩ := setup_success self h
  exact ⟨r, f34, h1, h2, h4, fun hlt => by rw [h4, Nat.mod_eq_of_lt hlt]⟩

/-- Witness of C12 (amended): the device of the counterexample. -/
theorem setup_status_addr_witness :
    (fu_synaptics_rmi_v5_device_setup setup_device).succeeded = true ∧
    ∃ r f34,
      fu_synaptics_rmi_v5_device_setup setup_device = Outcome.returned r ∧
      fu_synaptics_rmi_device_get_function setup_device 0x34 = some f34 ∧
      r.self.flash.status_addr = (f34.data_base + 2 + r.self.flash.block_size) % 256 ∧
      (f34.data_base + 2 + r.self.flash.block_size < 256 →
        r.self.flash.status_addr = f34.data_base + 2 + r.self.flash.block_size) :=
  ⟨by decide, setup_status_addr setup_device (by decide)⟩

/-- C13: after a successful `fu_synaptics_rmi_v5_device_setup`, `bootloader_id`
is the 2 bytes read at `f34.query_base`; if bit 0 of the Flash Properties 2 byte
read at `f34.query_base + 9` is set then a read of 2 bytes at
`f34.query_base + 10` followed and `rsa_keylen` is their little-endian 16-bit
value; otherwise `rsa_keylen` is 0 and the reads issued are those at
`f34.query_base`, `+ 9` and `+ 2` only, none at `f34.query_base + 10`. -/
theorem setup_rsa_keylen_and_bootloader_id (self : FuSynapticsRmiDevice)
    (h : (fu_synaptics_rmi_v5_device_setup self).succeeded = true) :
    ∃ r f34 raw0 raw9 raw2,
      fu_synaptics_rmi_v5_device_setup self = Outcome.returned r ∧
      fu_synaptics_rmi_device_get_function self 0x34 = some f34 ∧
      r.self.flash.bootloader_id
        = ((raw0.map (fun b => b % 256)).getD 0 0, (raw0.map (fun b => b % 256)).getD 1 0) ∧
      (((raw9.map (fun b => b % 256)).getD 0 0 % 2 = 1 ∧
        ∃ raw10, r.trace =
            [Event.op (Op.read (f34.query_base % 65536) 2) (Resp.ok raw0),
             Event.op (Op.read ((f34.query_base + 9) % 65536) 1) (Resp.ok raw9),
             Event.op (Op.read ((f34.query_base + 10) % 65536) 2) (Resp.ok raw10),
             Event.op (Op.read ((f34.query_base + 2) % 65536) 7) (Resp.ok raw2)] ∧
          r.self.rsa_keylen
            = raw10.getD 0 0 % 256 + 256 * (raw10.getD 1 0 % 256)) ∨
       ((raw9.map (fun b => b % 256)).getD 0 0 % 2 = 0 ∧
        r.trace =
            [Event.op (Op.read (f34.query_base % 65536) 2) (Resp.ok raw0),
             Event.op (Op.read ((f34.query_base + 9) % 65536) 1) (Resp.ok raw9),
             Event.op (Op.read ((f34.query_base + 2) % 65536) 7) (Resp.ok raw2)] ∧
        (∀ n resp, Event.op (Op.read ((f34.query_base + 10) % 65536) n) resp ∉ r.trace) ∧
        r.self.rsa_keylen = 0)) := by
  obtain ⟨r, f34, raw0, raw9, raw2, h1, h2, _, _, h5, h6⟩ := setup_success self h
  refine ⟨r, f34, raw0, raw9, raw2, h1, h2, h5, ?_⟩
  rcases h6 with ⟨hb, raw10, u1, u2⟩ | ⟨hb, u1, u2⟩
  · refine Or.inl ⟨hb, raw10, u1, ?_⟩
    rw [u2]
    unfold read_uint16_le
    have hmod : ∀ (l : List Nat) (i : Nat),
        (l.map (fun b => b % 256)).getD i 0 % 256 = l.getD i 0 % 256 := by
      intro l i
      simp only [List.getD_eq_getElem?_getD, List.getElem?_map]
      cases l[i]? <;> simp
    rw [hmod, hmod]
  · refine Or.inr ⟨hb, u1, ?_, u2⟩
    intro n resp hmem
    rw [u1] at hmem
    simp only [List.mem_cons, Event.op.injEq, Op.read.injEq, List.mem_singleton,
      List.not_mem_nil, or_false] at hmem
    rcases hmem with ⟨⟨ha, _⟩, _⟩ | ⟨⟨ha, _⟩, _⟩ | ⟨⟨ha, _⟩, _⟩ <;> omega

/-- Witness of C13: Flash Properties 2 = 0x01 and the bytes `00 08` give
`rsa_keylen = 2048`. -/
theorem setup_rsa_keylen_and_bootloader_id_witness :
    (fu_synaptics_rmi_v5_device_setup setup_device).succeeded = true ∧
    (fu_synaptics_rmi_v5_device_setup setup_device).self?.map (fun d => d.rsa_keylen)
      = some 2048 ∧
    ∃ r f34 raw0 raw9 raw2,
      fu_synaptics_rmi_v5_device_setup setup_device = Outcome.returned r ∧
      fu_synaptics_rmi_device_get_function setup_device 0x34 = some f34 ∧
      r.self.flash.bootloader_id
        = ((raw0.map (fun b => b % 256)).getD 0 0, (raw0.map (fun b => b % 256)).getD 1 0) ∧
      (((raw9.map (fun b => b % 256)).getD 0 0 % 2 = 1 ∧
        ∃ raw10, r.trace =
            [Event.op (Op.read (f34.query_base % 65536) 2) (Resp.ok raw0),
             Event.op (Op.read ((f34.query_base + 9) % 65536) 1) (Resp.ok raw9),
             Event.op (Op.read ((f34.query_base + 10) % 65536) 2) (Resp.ok raw10),
             Event.op (Op.read ((f34.query_base + 2) % 65536) 7) (Resp.ok raw2)] ∧
          r.self.rsa_keylen
            = raw10.getD 0 0 % 256 + 256 * (raw10.getD 1 0 % 256)) ∨
       ((raw9.map (fun b => b % 256)).getD 0 0 % 2 = 0 ∧
        r.trace =
            [Event.op (Op.read (f34.query_base % 65536) 2) (Resp.ok raw0),
             Event.op (Op.read ((f34.query_base + 9) % 65536) 1) (Resp.ok raw9),
             Event.op (Op.read ((f34.query_base + 2) % 65536) 7) (Resp.ok raw2)] ∧
        (∀ n resp, Event.op (Op.read ((f34.query_base + 10) % 65536) n) resp ∉ r.trace) ∧
        r.self.rsa_keylen = 0)) :=
  ⟨by decide, by decide, setup_rsa_keylen_and_bootloader_id setup_device (by decide)⟩

/-! ## Synaptics RMI V5: `write_firmware` and the secure check -/

/-- C16: if the device does not have the IS_BOOTLOADER flag,
`fu_synaptics_rmi_v5_device_write_firmware` returns failure (with the error
"not bootloader, perhaps need detach?!") without having issued any operation,
and the device object, its flash state included, is unchanged. -/
theorem write_firmware_requires_bootloader (self : FuSynapticsRmiDevice)
    (firmware : FuSynapticsRmiFirmware) (h : self.is_bootloader = false) :
    ∃ r, fu_synaptics_rmi_v5_device_write_firmware self firmware = Outcome.returned r ∧
      r.ok = false ∧
      r.error = some ⟨ErrorCode.FWUPD_ERROR_NOT_SUPPORTED,
        "not bootloader, perhaps need detach?!", []⟩ ∧
      r.trace = [] ∧ r.self = self := by
  unfold fu_synaptics_rmi_v5_device_write_firmware
  simp only [h, Bool.not_false, if_true]
  exact ⟨_, rfl, rfl, rfl, rfl, rfl⟩

/-- Witness of C16: a device in runtime mode. -/
theorem write_firmware_requires_bootloader_witness :
    runtime_device.is_bootloader = false ∧
    ∃ r, fu_synaptics_rmi_v5_device_write_firmware runtime_device plain_firmware
        = Outcome.returned r ∧
      r.ok = false ∧
      r.error = some ⟨ErrorCode.FWUPD_ERROR_NOT_SUPPORTED,
        "not bootloader, perhaps need detach?!", []⟩ ∧
      r.trace = [] ∧ r.self = runtime_device :=
  ⟨rfl, write_firmware_requires_bootloader runtime_device plain_firmware rfl⟩

theorem read_packet_register_ok (self : FuSynapticsRmiDevice) (addr : Nat) (data : List Nat)
    (rest : List Resp) (h : self.script = Resp.ok data :: rest) :
    fu_synaptics_rmi_device_read_packet_register self addr 0x3
      = (⟨true, none, { self with script := rest },
          [Event.op (Op.read_packet_register (addr % 65536) 3) (Resp.ok data)]⟩,
        some (data.map (fun b => b % 256))) := by
  unfold fu_synaptics_rmi_device_read_packet_register device_op
  rw [h]

/-- The key loop of the secure check against a device that answers every
packet-register read with a burst of 3 bytes. -/
theorem secure_check_blocks_scripted (addr count remain : Nat) (hrem : remain < 3) :
    ∀ (bursts : List (List Nat)) (blockNum : Nat) (rsadump : List Nat)
      (self : FuSynapticsRmiDevice) (trace : List Event) (rest : List Resp),
      self.script = bursts.map Resp.ok ++ rest →
      (∀ b ∈ bursts, b.length = 3) →
      blockNum + bursts.length = count →
      secure_check_blocks addr count remain bursts.length blockNum rsadump self trace
        = Except.ok ({ self with script := rest },
            trace ++ bursts.map
              (fun b => Event.op (Op.read_packet_register (addr % 65536) 3) (Resp.ok b)),
            assembled_key remain (bursts.map (fun b => b.map (fun x => x % 256)))
              ++ rsadump) := by
  intro bursts
  induction bursts with
  | nil =>
    intro blockNum rsadump self trace rest hs _ _
    simp only [List.map_nil, List.nil_append] at hs
    cases self
    simp only at hs
    subst hs
    simp [secure_check_blocks, assembled_key, key_from]
  | cons b bs ih =>
    intro blockNum rsadump self trace rest hs hlen hcount
    simp only [List.map_cons, List.cons_append] at hs
    have hb : b.length = 3 := hlen b (List.mem_cons_self _ _)
    have hbs : ∀ x ∈ bs, x.length = 3 := fun x hx => hlen x (List.mem_cons_of_mem _ hx)
    simp only [List.length_cons] at hcount ⊢
    unfold secure_check_blocks
    simp only []
    rw [read_packet_register_ok self addr b _ hs]
    simp only [List.length_map, hb]
    have hnocrash : ¬((remain ≠ 0 ∧ blockNum + 1 = count) ∧ 3 < remain) := by
      intro h; omega
    rw [if_neg hnocrash]
    cases bs with
    | nil =>
      simp only [List.length_nil] at hcount ⊢
      have hlast : blockNum + 1 = count := by omega
      unfold secure_check_blocks
      simp only [List.map_nil, List.nil_append] at hs ⊢
      by_cases hr : remain = 0
      · simp [hr, assembled_key, key_from]
      · have htake : ((List.map (fun b => b % 256) b).take remain).reverse.take remain
            = ((List.map (fun b => b % 256) b).take remain).reverse := by
          apply List.take_of_length_le
          simp
        simp [hr, hlast, assembled_key, key_from, htake]
    | cons b2 bs2 =>
      have hnotlast : ¬(remain ≠ 0 ∧ blockNum + 1 = count) := by
        intro h
        simp only [List.length_cons] at hcount
        omega
      simp only [hnotlast, if_false]
      have := ih (blockNum + 1) ((List.map (fun b => b % 256) b).reverse ++ rsadump)
        { self with script := List.map Resp.ok (b2 :: bs2) ++ rest }
        (trace ++ [Event.op (Op.read_packet_register (addr % 65536) 3) (Resp.ok b)]) rest
        rfl hbs (by simp only [List.length_cons] at hcount ⊢; omega)
      rw [this]
      simp [assembled_key, key_from]

/-- An operation of the device object leaves the key length, the bootloader flag
and the flash state alone; only an idle wait can change the function table. -/
theorem device_op_frame (self : FuSynapticsRmiDevice) (op : Op) :
    (device_op self op).1.self.rsa_keylen = self.rsa_keylen ∧
    (device_op self op).1.self.is_bootloader = self.is_bootloader ∧
    (device_op self op).1.self.flash = self.flash ∧
    ((∀ t f, op ≠ Op.wait_for_idle t f) →
      (device_op self op).1.self.functions = self.functions) := by
  unfold device_op
  split
  · exact ⟨rfl, rfl, rfl, fun _ => rfl⟩
  · exact ⟨rfl, rfl, rfl, fun _ => rfl⟩
  · exact ⟨rfl, rfl, rfl, fun _ => rfl⟩
  · split
    · split
      · rename_i t f _
        exact ⟨rfl, rfl, rfl, fun h => absurd rfl (h t f)⟩
      · exact ⟨rfl, rfl, rfl, fun _ => rfl⟩
    · exact ⟨rfl, rfl, rfl, fun _ => rfl⟩

/-- The backdoor entry against a first answer that is not a failure. -/
theorem enter_backdoor_ok (self : FuSynapticsRmiDevice) (b0 : Resp) (rest : List Resp)
    (hs : self.script = b0 :: rest) (hb0 : b0 ≠ Resp.fail) :
    (fu_synaptics_rmi_device_enter_backdoor self).ok = true ∧
    (fu_synaptics_rmi_device_enter_backdoor self).trace = [Event.op Op.enter_backdoor b0] ∧
    (fu_synaptics_rmi_device_enter_backdoor self).self = { self with script := rest } := by
  unfold fu_synaptics_rmi_device_enter_backdoor device_op
  rw [hs]
  cases b0 with
  | fail => exact absurd rfl hb0
  | ok data => exact ⟨rfl, rfl, rfl⟩
  | rescanned fs => exact ⟨rfl, rfl, rfl⟩

/-- The secure check against a device that lets the backdoor entry succeed and
answers every packet-register read with a burst of 3 bytes. -/
theorem secure_check_scripted (self : FuSynapticsRmiDevice)
    (firmware : FuSynapticsRmiFirmware) (ui : List Nat) (f34 : FuSynapticsRmiFunction)
    (b0 : Resp) (bursts : List (List Nat)) (rest : List Resp)
    (hui : firmware.ui = some ui)
    (hsl : (secure_check_signature firmware ui).isSome = true)
    (hs : self.script = b0 :: (bursts.map Resp.ok ++ rest)) (hb0 : b0 ≠ Resp.fail)
    (hf : fu_synaptics_rmi_device_get_function self 0x34 = some f34)
    (hn : bursts.length = (self.rsa_keylen / 8 + 2) / 3)
    (h3 : ∀ b ∈ bursts, b.length = 3) :
    fu_synaptics_rmi_v5_device_secure_check self firmware
      = (Outcome.returned ⟨true, none, { self with script := rest },
          Event.op Op.enter_backdoor b0 :: bursts.map
            (fun b => Event.op
              (Op.read_packet_register ((f34.query_base + 14) % 65536) 3) (Resp.ok b))⟩,
        assembled_key (self.rsa_keylen / 8 % 3)
          (bursts.map (fun b => b.map (fun x => x % 256)))) := by
  obtain ⟨e1, e2, e3⟩ := enter_backdoor_ok self b0 _ hs hb0
  unfold fu_synaptics_rmi_v5_device_secure_check
  rw [hui]
  obtain ⟨sig, hsig⟩ := Option.isSome_iff_exists.mp hsl
  simp only [Run.prefix_error, e1, if_true, Bool.not_true, Bool.false_eq_true, if_false, hsig]
  have hf2 : fu_synaptics_rmi_device_get_function
      (fu_synaptics_rmi_device_enter_backdoor self).self 0x34 = some f34 := by
    rw [e3]; exact hf
  rw [hf2]
  simp only []
  have hcount : (if self.rsa_keylen / 8 % 3 ≠ 0 then self.rsa_keylen / 8 / 3 + 1
      else self.rsa_keylen / 8 / 3) = bursts.length := by
    rw [hn]; split <;> omega
  rw [hcount, e2, e3]
  rw [secure_check_blocks_scripted (f34.query_base + 14) bursts.length
    (self.rsa_keylen / 8 % 3) (Nat.mod_lt _ (by decide)) bursts 0 []
    { self with script := bursts.map Resp.ok ++ rest } _ rest rfl h3 (by omega)]
  simp

theorem key_from_length (last_part : List Nat → List Nat) (m : Nat)
    (hl : ∀ b, b.length = 3 → (last_part b).length = m) :
    ∀ (b : List Nat) (bs : List (List Nat)), (∀ x ∈ b :: bs, x.length = 3) →
      (key_from last_part (b :: bs)).length = 3 * bs.length + m := by
  intro b bs
  induction bs generalizing b with
  | nil =>
    intro h
    simpa [key_from] using hl b (h b (List.mem_cons_self _ _))
  | cons b2 bs2 ih =>
    intro h
    have hb : b.length = 3 := h b (List.mem_cons_self _ _)
    have := ih b2 (fun x hx => h x (List.mem_cons_of_mem _ hx))
    simp only [key_from, List.length_append, List.length_reverse, this, hb, List.length_cons]
    omega

/-- The key assembled from `ceil(len / 3)` bursts of 3 bytes has `len` bytes. -/
theorem assembled_key_length (len : Nat) (bursts : List (List Nat))
    (hn : bursts.length = (len + 2) / 3) (h3 : ∀ b ∈ bursts, b.length = 3) :
    (assembled_key (len % 3) bursts).length = len := by
  cases bursts with
  | nil =>
    simp only [List.length_nil] at hn
    have : len = 0 := by omega
    subst this
    rfl
  | cons b bs =>
    unfold assembled_key
    simp only [List.length_cons] at hn
    by_cases hr : len % 3 = 0
    · rw [key_from_length _ 3 (fun x hx => by simp [hr, hx]) b bs h3]
      omega
    · rw [key_from_length _ (len % 3) (fun x hx => by
        simp only [ne_eq, hr, not_false_eq_true, if_true, List.length_reverse,
          List.length_take, hx]
        omega) b bs h3]
      omega

/-- C14: for every `rsa_keylen`, when the call reaches the key loop (the `ui`
image exists, the signature slice taken from it is inside the image, the
backdoor entry succeeds and F34 is present) and every packet-register burst
returns 3 bytes, `fu_synaptics_rmi_v5_device_secure_check` succeeds having
performed exactly `ceil((rsa_keylen / 8) / 3)` bursts, and the key it assembled
has exactly `rsa_keylen / 8` bytes, also when `rsa_keylen / 8` is not a multiple
of 3. -/
theorem secure_check_key_length (self : FuSynapticsRmiDevice)
    (firmware : FuSynapticsRmiFirmware) (ui : List Nat) (f34 : FuSynapticsRmiFunction)
    (b0 : Resp) (bursts : List (List Nat)) (rest : List Resp)
    (hui : firmware.ui = some ui)
    (hsl : (secure_check_signature firmware ui).isSome = true)
    (hs : self.script = b0 :: (bursts.map Resp.ok ++ rest)) (hb0 : b0 ≠ Resp.fail)
    (hf : fu_synaptics_rmi_device_get_function self 0x34 = some f34)
    (hn : bursts.length = (self.rsa_keylen / 8 + 2) / 3)
    (h3 : ∀ b ∈ bursts, b.length = 3) :
    (fu_synaptics_rmi_v5_device_secure_check self firmware).1.succeeded = true ∧
    ((fu_synaptics_rmi_v5_device_secure_check self firmware).1.trace.filter
      Event.is_packet_read).length = (self.rsa_keylen / 8 + 2) / 3 ∧
    (fu_synaptics_rmi_v5_device_secure_check self firmware).2.length
      = self.rsa_keylen / 8 := by
  rw [secure_check_scripted self firmware ui f34 b0 bursts rest hui hsl hs hb0 hf hn h3]
  refine ⟨rfl, ?_, ?_⟩
  · simp only [Outcome.trace]
    rw [List.filter_cons_of_neg (by simp [Event.is_packet_read]), ← hn]
    have : ∀ l : List (List Nat), (List.filter Event.is_packet_read (l.map
        (fun b => Event.op
          (Op.read_packet_register ((f34.query_base + 14) % 65536) 3) (Resp.ok b)))).length
        = l.length := by
      intro l
      induction l with
      | nil => rfl
      | cons x xs ih =>
        rw [List.map_cons, List.filter_cons_of_pos (by rfl), List.length_cons, ih,
          List.length_cons]
    exact this bursts
  · apply assembled_key_length
    · simpa using hn
    · intro b hb
      obtain ⟨x, hx, rfl⟩ := List.mem_map.mp hb
      simpa using h3 x hx

/-- Witness of C14: a key of 40 bits (5 bytes) takes 2 bursts; the firmware
carries the signature `03 04` at the end of its `ui` image. -/
theorem secure_check_key_length_witness :
    (signed_firmware.ui = some [1, 2, 3, 4] ∧
      secure_check_signature signed_firmware [1, 2, 3, 4] = some [3, 4]) ∧
    (fu_synaptics_rmi_v5_device_secure_check key_device signed_firmware).1.succeeded = true ∧
    ((fu_synaptics_rmi_v5_device_secure_check key_device signed_firmware).1.trace.filter
      Event.is_packet_read).length = 2 ∧
    (fu_synaptics_rmi_v5_device_secure_check key_device signed_firmware).2.length = 5 :=
  ⟨⟨rfl, by decide⟩,
    secure_check_key_length key_device signed_firmware [1, 2, 3, 4] example_f34 (Resp.ok [])
      [[1, 2, 3], [4, 5, 6]] [] rfl (by decide) rfl (by decide) (by decide) (by decide)
      (by decide)⟩

/-- C15 (counterexample): for a key of 5 bytes and the bursts `01 02 03` and
`04 05 06`, `fu_synaptics_rmi_v5_device_secure_check` assembles
`05 04 03 02 01`: the final burst is cut to `04 05` and then reversed. Reversing
first and truncating afterwards, as the claim says, would give
`06 05 03 02 01`. -/
theorem secure_check_truncates_before_reversing :
    (fu_synaptics_rmi_v5_device_secure_check key_device plain_firmware).2 = [5, 4, 3, 2, 1] ∧
    spec_assembled_key 2 [[1, 2, 3], [4, 5, 6]] = [6, 5, 3, 2, 1] ∧
    (fu_synaptics_rmi_v5_device_secure_check key_device plain_firmware).2
      ≠ spec_assembled_key (key_device.rsa_keylen / 8 % 3) [[1, 2, 3], [4, 5, 6]] := by
  refine ⟨by decide, by decide, by decide⟩

/-- C15 (amended): for bursts `b_0 .. b_(n-1)` of 3 bytes each and remainder
`r = key_bytes mod 3`, the assembled key equals
`rev(T(b_(n-1))) ++ rev(b_(n-2)) ++ ... ++ rev(b_0)`, where `rev` reverses a
burst and `T` keeps the first `r` bytes of the final burst as it was read when
`r > 0` (and is the identity when `r = 0`): the final burst is truncated first
and reversed afterwards. The bursts are those of a call that reaches the key
loop: the `ui` image exists, the signature slice taken from it is inside the
image, the backdoor entry succeeds and F34 is present. -/
theorem secure_check_assembled_key (self : FuSynapticsRmiDevice)
    (firmware : FuSynapticsRmiFirmware) (ui : List Nat) (f34 : FuSynapticsRmiFunction)
    (b0 : Resp) (bursts : List (List Nat)) (rest : List Resp)
    (hui : firmware.ui = some ui)
    (hsl : (secure_check_signature firmware ui).isSome = true)
    (hs : self.script = b0 :: (bursts.map Resp.ok ++ rest)) (hb0 : b0 ≠ Resp.fail)
    (hf : fu_synaptics_rmi_device_get_function self 0x34 = some f34)
    (hn : bursts.length = (self.rsa_keylen / 8 + 2) / 3)
    (h3 : ∀ b ∈ bursts, b.length = 3) :
    (fu_synaptics_rmi_v5_device_secure_check self firmware).2
      = key_from (fun b => if self.rsa_keylen / 8 % 3 ≠ 0
          then (b.take (self.rsa_keylen / 8 % 3)).reverse else b.reverse)
        (bursts.map (fun b => b.map (fun x => x % 256))) := by
  rw [secure_check_scripted self firmware ui f34 b0 bursts rest hui hsl hs hb0 hf hn h3]
  rfl

/-- Witness of C15 (amended): the bursts `01 02 03`, `04 05 06` for a key of 5
bytes give `rev(04 05) ++ rev(01 02 03)`. -/
theorem secure_check_assembled_key_witness :
    (plain_firmware.ui = some [1, 2, 3, 4] ∧
      secure_check_signature plain_firmware [1, 2, 3, 4] = some []) ∧
    (fu_synaptics_rmi_v5_device_secure_check key_device plain_firmware).2
      = [5, 4] ++ [3, 2, 1] :=
  ⟨⟨rfl, by decide⟩,
    (secure_check_assembled_key key_device plain_firmware [1, 2, 3, 4] example_f34
      (Resp.ok []) [[1, 2, 3], [4, 5, 6]] [] rfl (by decide) rfl (by decide) (by decide)
      (by decide) (by decide)).trans (by decide)⟩

/-- With a key length of 0 the secure check issues no packet-register read;
when the `ui` image exists its only operation is a backdoor entry. -/
theorem secure_check_no_key (self : FuSynapticsRmiDevice) (firmware : FuSynapticsRmiFirmware)
    (hk : self.rsa_keylen = 0) :
    (∀ e ∈ (fu_synaptics_rmi_v5_device_secure_check self firmware).1.trace,
      e.is_packet_read = false) ∧
    (firmware.ui.isSome = true → ∃ resp,
      (fu_synaptics_rmi_v5_device_secure_check self firmware).1.trace
        = [Event.op Op.enter_backdoor resp]) := by
  obtain ⟨resp, htr⟩ := device_op_trace self Op.enter_backdoor
  have hclean : ∀ e ∈ [Event.op Op.enter_backdoor resp], e.is_packet_read = false := by
    intro e he; rw [List.mem_singleton.mp he]; rfl
  unfold fu_synaptics_rmi_v5_device_secure_check
  cases hu : firmware.ui with
  | none =>
    exact ⟨fun e he => (nomatch he), fun h => absurd h (by decide)⟩
  | some ui =>
    simp only [hk]
    unfold fu_synaptics_rmi_device_enter_backdoor
    generalize device_op self Op.enter_backdoor = b at htr
    cases hbok : b.1.ok with
    | false =>
      simp only [Run.prefix_error, hbok, Bool.false_eq_true, if_false, Bool.not_false, if_true,
        Outcome.trace]
      exact ⟨by simpa [htr] using hclean, fun _ => ⟨resp, htr⟩⟩
    | true =>
      simp only [Run.prefix_error, hbok, if_true, Bool.not_true, Bool.false_eq_true, if_false]
      cases secure_check_signature firmware ui with
      | none =>
        simp only [Outcome.trace]
        exact ⟨by simpa [htr] using hclean, fun _ => ⟨resp, htr⟩⟩
      | some sig =>
        simp only []
        cases fu_synaptics_rmi_device_get_function b.1.self 0x34 with
        | none =>
          simp only [Outcome.trace]
          exact ⟨by simpa [htr] using hclean, fun _ => ⟨resp, htr⟩⟩
        | some f34 =>
          simp only [secure_check_blocks, Outcome.trace]
          exact ⟨by simpa [htr] using hclean, fun _ => ⟨resp, htr⟩⟩

/-- C17 (counterexample): with `rsa_keylen = 0` and `signature_size = 0`,
`fu_synaptics_rmi_v5_device_write_firmware` still runs the secure check, which
enters the backdoor on its own behalf: the run has two backdoor entries, the
second one issued by `fu_synaptics_rmi_v5_device_secure_check`. -/
theorem write_firmware_runs_secure_check_when_not_secure :
    plain_device.rsa_keylen = 0 ∧ plain_firmware.signature_size = 0 ∧
    (fu_synaptics_rmi_v5_device_secure_check
      (fu_synaptics_rmi_device_wait_for_idle
        (fu_synaptics_rmi_device_enter_backdoor plain_device).self 0
        RMI_DEVICE_WAIT_FOR_IDLE_FLAG_REFRESH_F34).self plain_firmware).1.trace
      = [Event.op Op.enter_backdoor (Resp.ok [])] ∧
    (fu_synaptics_rmi_v5_device_write_firmware plain_device plain_firmware).trace
      = (fu_synaptics_rmi_device_enter_backdoor plain_device).trace
        ++ (fu_synaptics_rmi_device_wait_for_idle
            (fu_synaptics_rmi_device_enter_backdoor plain_device).self 0
            RMI_DEVICE_WAIT_FOR_IDLE_FLAG_REFRESH_F34).trace
        ++ [Event.op Op.enter_backdoor (Resp.ok [])]
        ++ [Event.sleep_with_progress 5] := by
  refine ⟨rfl, rfl, by decide, by decide⟩

/-- C17 (amended): in `fu_synaptics_rmi_v5_device_write_firmware` with
`rsa_keylen = 0` and `signature_size = 0` no key packet-register read is ever
issued; the secure check itself is not skipped: once the device is in
bootloader mode and the backdoor entry, the idle wait, the lookup of F34 and
of the two images succeeded, it runs and enters the backdoor a second time. -/
theorem write_firmware_secure_check_without_key (self : FuSynapticsRmiDevice)
    (firmware : FuSynapticsRmiFirmware)
    (hk : self.rsa_keylen = 0) (hsig : firmware.signature_size = 0) :
    (∀ e ∈ (fu_synaptics_rmi_v5_device_write_firmware self firmware).trace,
      e.is_packet_read = false) ∧
    (self.is_bootloader = true →
      (fu_synaptics_rmi_device_enter_backdoor self).ok = true →
      (fu_synaptics_rmi_device_wait_for_idle
        (fu_synaptics_rmi_device_enter_backdoor self).self 0
        RMI_DEVICE_WAIT_FOR_IDLE_FLAG_REFRESH_F34).ok = true →
      (fu_synaptics_rmi_device_get_function (fu_synaptics_rmi_device_wait_for_idle
        (fu_synaptics_rmi_device_enter_backdoor self).self 0
        RMI_DEVICE_WAIT_FOR_IDLE_FLAG_REFRESH_F34).self 0x34).isSome = true →
      firmware.ui.isSome = true → firmware.config.isSome = true →
      ∃ resp1 resp2 resp3 tail,
        (fu_synaptics_rmi_v5_device_write_firmware self firmware).trace
          = [Event.op Op.enter_backdoor resp1,
             Event.op (Op.wait_for_idle 0 RMI_DEVICE_WAIT_FOR_IDLE_FLAG_REFRESH_F34) resp2,
             Event.op Op.enter_backdoor resp3] ++ tail) := by
  obtain ⟨resp1, h1⟩ := device_op_trace self Op.enter_backdoor
  obtain ⟨resp2, h2⟩ := device_op_trace (fu_synaptics_rmi_device_enter_backdoor self).self
    (Op.wait_for_idle 0 RMI_DEVICE_WAIT_FOR_IDLE_FLAG_REFRESH_F34)
  have hk2 : (fu_synaptics_rmi_device_wait_for_idle
      (fu_synaptics_rmi_device_enter_backdoor self).self 0
      RMI_DEVICE_WAIT_FOR_IDLE_FLAG_REFRESH_F34).self.rsa_keylen = 0 := by
    unfold fu_synaptics_rmi_device_wait_for_idle fu_synaptics_rmi_device_enter_backdoor
    rw [(device_op_frame _ _).1, (device_op_frame _ _).1, hk]
  obtain ⟨hc2, hc3⟩ := secure_check_no_key _ firmware hk2
  have hb : (fu_synaptics_rmi_device_enter_backdoor self).trace
      = [Event.op Op.enter_backdoor resp1] := h1
  have hw : (fu_synaptics_rmi_device_wait_for_idle
      (fu_synaptics_rmi_device_enter_backdoor self).self 0
      RMI_DEVICE_WAIT_FOR_IDLE_FLAG_REFRESH_F34).trace
      = [Event.op (Op.wait_for_idle 0 RMI_DEVICE_WAIT_FOR_IDLE_FLAG_REFRESH_F34) resp2] := h2
  unfold fu_synaptics_rmi_v5_device_write_firmware
  simp only [hk, hsig, ne_eq, not_true_eq_false, and_false, false_and, if_false]
  generalize fu_synaptics_rmi_device_enter_backdoor self = b at hb hw hc2 hc3 ⊢
  have hpre0 : ∀ e ∈ b.trace, e.is_packet_read = false := by
    intro e he
    rw [hb] at he
    rw [List.mem_singleton.mp he]; rfl
  cases hboot : self.is_bootloader with
  | false =>
    simp only [Bool.not_false, if_true]
    exact ⟨fun e he => (nomatch he), fun h => absurd h (by decide)⟩
  | true =>
    simp only [Bool.not_true, Bool.false_eq_true, if_false]
    cases hbok : b.ok with
    | false =>
      simp only [Run.prefix_error, hbok, Bool.false_eq_true, if_false, Bool.not_false, if_true]
      exact ⟨hpre0, fun _ h => absurd h (by decide)⟩
    | true =>
      simp only [Run.prefix_error, hbok, if_true, Bool.not_true, Bool.false_eq_true, if_false]
      generalize fu_synaptics_rmi_device_wait_for_idle b.self 0
        RMI_DEVICE_WAIT_FOR_IDLE_FLAG_REFRESH_F34 = w at hw hc2 hc3 ⊢
      have hpre : ∀ e ∈ b.trace ++ w.trace, e.is_packet_read = false := by
        refine List.forall_mem_append.mpr ⟨hpre0, fun e he => ?_⟩
        rw [hw] at he
        rw [List.mem_singleton.mp he]; rfl
      cases hwok : w.ok with
      | false =>
        simp only [hwok, Bool.false_eq_true, if_false, Bool.not_false, if_true]
        exact ⟨hpre, fun _ _ h => absurd h (by decide)⟩
      | true =>
        simp only [hwok, if_true, Bool.not_true, Bool.false_eq_true, if_false]
        cases hf : fu_synaptics_rmi_device_get_function w.self 0x34 with
        | none => exact ⟨hpre, fun _ _ _ h => absurd h (by decide)⟩
        | some f34 =>
          cases hui : firmware.ui with
          | none => exact ⟨hpre, fun _ _ _ _ h => absurd h (by decide)⟩
          | some ui =>
            cases hcfg : firmware.config with
            | none => exact ⟨hpre, fun _ _ _ _ _ h => absurd h (by decide)⟩
            | some cfg =>
              obtain ⟨resp3, hc4⟩ := hc3 (by rw [hui]; rfl)
              generalize (fu_synaptics_rmi_v5_device_secure_check w.self firmware).1 = o
                at hc2 hc4 ⊢
              cases o with
              | crashed t2 =>
                simp only [Outcome.trace] at hc2 hc4 ⊢
                refine ⟨List.forall_mem_append.mpr ⟨hpre, hc2⟩, fun _ _ _ _ _ _ => ?_⟩
                exact ⟨resp1, resp2, resp3, [], by rw [hb, hw, hc4]; rfl⟩
              | returned c =>
                simp only [Outcome.trace] at hc2 hc4 ⊢
                cases hcok : c.ok with
                | false =>
                  simp only [Run.prefix_error, hcok, Bool.false_eq_true, if_false,
                    Bool.not_false, if_true, Outcome.trace]
                  refine ⟨List.forall_mem_append.mpr ⟨hpre, hc2⟩, fun _ _ _ _ _ _ => ?_⟩
                  exact ⟨resp1, resp2, resp3, [], by rw [hb, hw, hc4]; rfl⟩
                | true =>
                  simp only [Run.prefix_error, hcok, if_true, Bool.not_true,
                    Bool.false_eq_true, if_false, Outcome.trace]
                  refine ⟨List.forall_mem_append.mpr
                    ⟨List.forall_mem_append.mpr ⟨hpre, hc2⟩, ?_⟩, fun _ _ _ _ _ _ => ?_⟩
                  · intro e he; rw [List.mem_singleton.mp he]; rfl
                  · exact ⟨resp1, resp2, resp3, [Event.sleep_with_progress 5],
                      by rw [hb, hw, hc4]; rfl⟩

/-- Witness of C17 (amended): the non-secure device and firmware of the
counterexample. -/
theorem write_firmware_secure_check_without_key_witness :
    (∀ e ∈ (fu_synaptics_rmi_v5_device_write_firmware plain_device plain_firmware).trace,
      e.is_packet_read = false) ∧
    ∃ resp1 resp2 resp3 tail,
      (fu_synaptics_rmi_v5_device_write_firmware plain_device plain_firmware).trace
        = [Event.op Op.enter_backdoor resp1,
           Event.op (Op.wait_for_idle 0 RMI_DEVICE_WAIT_FOR_IDLE_FLAG_REFRESH_F34) resp2,
           Event.op Op.enter_backdoor resp3] ++ tail :=
  ⟨(write_firmware_secure_check_without_key plain_device plain_firmware rfl rfl).1,
    (write_firmware_secure_check_without_key plain_device plain_firmware rfl rfl).2
      (by decide) (by decide) (by decide) (by decide) (by decide) (by decide)⟩

end RmiV5

/-! ## Synaptics RMI over PS/2: the resolution sequence -/

namespace Ps2

theorem and_then_of_ok (r : Ps2Run) (next : FuSynapticsRmiPs2Device → Ps2Run)
    (h : r.ok = true) :
    (r.and_then next).ok = (next r.self).ok ∧
    (r.and_then next).self = (next r.self).self ∧
    (r.and_then next).trace = r.trace ++ (next r.self).trace := by
  unfold Run.and_then
  rw [if_pos h]
  exact ⟨rfl, rfl, rfl⟩

/-- A `write_byte` that the device acknowledges at once. -/
theorem write_byte_acked (self : FuSynapticsRmiPs2Device) (buf timeout : Nat)
    (rest : List ReadResp) (ht : timeout > 0)
    (hreads : self.reads = ReadResp.byte 0xFA :: rest)
    (hw : ∀ w ∈ self.writes, w = true) :
    (fu_synaptics_rmi_ps2_device_write_byte self buf timeout).ok = true ∧
    (fu_synaptics_rmi_ps2_device_write_byte self buf timeout).trace
      = [Event.write_raw buf timeout true, Event.read_raw 60 (ReadResp.byte 0xFA)] ∧
    (fu_synaptics_rmi_ps2_device_write_byte self buf timeout).self.reads = rest ∧
    (∀ w ∈ (fu_synaptics_rmi_ps2_device_write_byte self buf timeout).self.writes,
      w = true) := by
  obtain ⟨h1, h2, h3, h4⟩ := write_raw_accepting self buf timeout hw
  unfold fu_synaptics_rmi_ps2_device_write_byte
  rw [if_pos ht]
  obtain ⟨n, hn⟩ : ∃ n, write_byte_fuel self = n + 1 := ⟨5 * self.reads.length + 4, rfl⟩
  rw [hn]
  unfold write_byte_loop
  simp only [if_true, h1, Bool.not_true, Bool.false_eq_true, if_false]
  rw [read_ack_byte _ 0xFA rest (h3.trans hreads)]
  have hack : (0xFA : Nat) % 256 = edpsAcknowledge := by decide
  simp only [Bool.not_true, Bool.false_eq_true, if_false, hack, if_true, h2]
  exact ⟨trivial, rfl, trivial, h4⟩

theorem set_scaling_1to1_acked (n : Nat) :
    ∀ (self : FuSynapticsRmiPs2Device) (rest : List ReadResp),
      self.reads = List.replicate n (ReadResp.byte 0xFA) ++ rest →
      (∀ w ∈ self.writes, w = true) →
      (set_scaling_1to1 n self).ok = true ∧
      bytes_written (set_scaling_1to1 n self).trace = List.replicate n 0xE6 ∧
      (set_scaling_1to1 n self).self.reads = rest ∧
      (∀ w ∈ (set_scaling_1to1 n self).self.writes, w = true) := by
  induction n with
  | zero =>
    intro self rest hreads hw
    exact ⟨rfl, rfl, by simpa using hreads, hw⟩
  | succ n ih =>
    intro self rest hreads hw
    rw [List.replicate_succ, List.cons_append] at hreads
    obtain ⟨h1, h2, h3, h4⟩ := write_byte_acked self edpAuxSetScaling1To1 50 _ (by decide)
      hreads hw
    obtain ⟨i1, i2, i3, i4⟩ := ih _ rest h3 h4
    unfold set_scaling_1to1
    obtain ⟨a1, a2, a3⟩ := and_then_of_ok _ (set_scaling_1to1 n) h1
    rw [a1, a2, a3, bytes_written_append, i2, h2]
    exact ⟨i1, rfl, i3, i4⟩

theorem set_resolution_pairs_acked (arg : Nat) (n : Nat) :
    ∀ (self : FuSynapticsRmiPs2Device) (rest : List ReadResp),
      self.reads = List.replicate (2 * n) (ReadResp.byte 0xFA) ++ rest →
      (∀ w ∈ self.writes, w = true) →
      (set_resolution_pairs arg n self).ok = true ∧
      bytes_written (set_resolution_pairs arg n self).trace
        = ((List.range n).reverse.map (fun i => [0xE8, arg / 2 ^ (i * 2) % 4])).flatten ∧
      (set_resolution_pairs arg n self).self.reads = rest ∧
      (∀ w ∈ (set_resolution_pairs arg n self).self.writes, w = true) := by
  induction n with
  | zero =>
    intro self rest hreads hw
    exact ⟨rfl, rfl, by simpa using hreads, hw⟩
  | succ n ih =>
    intro self rest hreads hw
    have h2n : 2 * (n + 1) = (2 * n + 1) + 1 := by omega
    rw [h2n, List.replicate_succ, List.cons_append] at hreads
    obtain ⟨h1, h2, h3, h4⟩ := write_byte_acked self edpAuxSetResolution 50 _ (by decide)
      hreads hw
    rw [List.replicate_succ, List.cons_append] at h3
    obtain ⟨g1, g2, g3, g4⟩ := write_byte_acked _ (arg / 2 ^ (n * 2) % 4) 50 _ (by decide)
      h3 h4
    obtain ⟨i1, i2, i3, i4⟩ := ih _ rest g3 g4
    unfold set_resolution_pairs
    simp only []
    obtain ⟨a1, a2, a3⟩ := and_then_of_ok
      (fu_synaptics_rmi_ps2_device_write_byte self edpAuxSetResolution 50)
      (fun s => fu_synaptics_rmi_ps2_device_write_byte s (arg / 2 ^ (n * 2) % 4) 50) h1
    obtain ⟨b1, b2, b3⟩ := and_then_of_ok _ (set_resolution_pairs arg n) (a1.trans g1)
    rw [b1, b2, b3, a2, a3, bytes_written_append, bytes_written_append, i2, h2, g2]
    refine ⟨i1, ?_, i3, i4⟩
    simp [List.range_succ, bytes_written, edpAuxSetResolution]

theorem shift_mask (a k : Nat) : (a >>> k) &&& 3 = a / 2 ^ k % 4 := by
  rw [Nat.shiftRight_eq_div_pow]
  exact Nat.and_pow_two_sub_one_eq_mod (a / 2 ^ k) 2

theorem mask_low (a : Nat) : a &&& 3 = a % 4 :=
  Nat.and_pow_two_sub_one_eq_mod a 2

/-- C20: for every 8-bit `arg`, when every byte is acknowledged,
`fu_synaptics_rmi_ps2_device_set_resolution_sequence` succeeds and the bytes it
transmits are exactly `0xE6` (twice if `send_e6s`, once otherwise) followed by
`0xE8, (arg>>6)&3, 0xE8, (arg>>4)&3, 0xE8, (arg>>2)&3, 0xE8, arg&3`; the four
two-bit values satisfy `v3*64 + v2*16 + v1*4 + v0 = arg`, so the encoding is
injective in `arg`. -/
theorem set_resolution_sequence_bytes (self : FuSynapticsRmiPs2Device) (arg : Nat)
    (send_e6s : Bool) (rest : List ReadResp)
    (harg : arg < 256)
    (hreads : self.reads
      = List.replicate ((if send_e6s then 2 else 1) + 8) (ReadResp.byte 0xFA) ++ rest)
    (hw : ∀ w ∈ self.writes, w = true) :
    (fu_synaptics_rmi_ps2_device_set_resolution_sequence self arg send_e6s).ok = true ∧
    bytes_written (fu_synaptics_rmi_ps2_device_set_resolution_sequence self arg send_e6s).trace
      = (if send_e6s then [0xE6, 0xE6] else [0xE6]) ++
        [0xE8, (arg >>> 6) &&& 3, 0xE8, (arg >>> 4) &&& 3, 0xE8, (arg >>> 2) &&& 3,
         0xE8, arg &&& 3] ∧
    ((arg >>> 6) &&& 3) * 64 + ((arg >>> 4) &&& 3) * 16 + ((arg >>> 2) &&& 3) * 4
      + (arg &&& 3) = arg ∧
    (∀ arg2, arg2 < 256 →
      resolution_sequence_bytes arg2 send_e6s = resolution_sequence_bytes arg send_e6s →
        arg2 = arg) := by
  rw [List.replicate_add, List.append_assoc] at hreads
  obtain ⟨h1, h2, h3, h4⟩ := set_scaling_1to1_acked (if send_e6s then 2 else 1) self _
    hreads hw
  obtain ⟨g1, g2, _, _⟩ := set_resolution_pairs_acked arg 4 _ rest h3 h4
  unfold fu_synaptics_rmi_ps2_device_set_resolution_sequence
  obtain ⟨a1, _, a3⟩ := and_then_of_ok _ (set_resolution_pairs arg 4) h1
  rw [a1, a3, bytes_written_append, h2, g2]
  refine ⟨g1, ?_, ?_, ?_⟩
  · rw [shift_mask, shift_mask, shift_mask, mask_low]
    cases send_e6s <;> simp [List.range_succ, List.replicate_succ]
  · rw [shift_mask, shift_mask, shift_mask, mask_low]
    omega
  · intro arg2 harg2 heq
    unfold resolution_sequence_bytes at heq
    rw [shift_mask, shift_mask, shift_mask, mask_low, shift_mask, shift_mask, shift_mask,
      mask_low] at heq
    have heq2 := List.append_cancel_left heq
    simp only [List.cons.injEq, true_and, and_true] at heq2
    obtain ⟨e3, e2, e1, e0⟩ := heq2
    omega

/-- Witness of C20: `arg = 0x7F` with one `SET_SCALING_1TO1`. -/
theorem set_resolution_sequence_bytes_witness :
    (fu_synaptics_rmi_ps2_device_set_resolution_sequence acking_device 0x7F false).ok = true ∧
    bytes_written
      (fu_synaptics_rmi_ps2_device_set_resolution_sequence acking_device 0x7F false).trace
      = [0xE6, 0xE8, 1, 0xE8, 3, 0xE8, 3, 0xE8, 3] :=
  have h := set_resolution_sequence_bytes acking_device 0x7F false
    (List.replicate 31 (ReadResp.byte 0xFA)) (by decide) (by decide) (by decide)
  ⟨h.1, h.2.1.trans (by decide)⟩

end Ps2

/-! ## PixArt RF: splitting into objects and payloads -/

theorem fu_chunk_array_go_length (sz : Nat) (hsz : 0 < sz) :
    ∀ (fuel idx addr : Nat) (data : List Nat), data.length ≤ fuel →
      (fu_chunk_array_go sz fuel idx addr data).length = (data.length + sz - 1) / sz := by
  intro fuel
  induction fuel with
  | zero =>
    intro idx addr data h
    have : data = [] := List.length_eq_zero.mp (Nat.le_zero.mp h)
    subst this
    simp only [fu_chunk_array_go, List.length_nil, Nat.zero_add]
    exact (Nat.div_eq_of_lt (by omega)).symm
  | succ fuel ih =>
    intro idx addr data h
    cases data with
    | nil =>
      simp only [fu_chunk_array_go, List.length_nil, Nat.zero_add]
      exact (Nat.div_eq_of_lt (by omega)).symm
    | cons b bs =>
      simp only [fu_chunk_array_go, if_neg (Nat.pos_iff_ne_zero.mp hsz), List.length_cons]
      rw [ih _ _ _ (by simp only [List.length_drop, List.length_cons] at h ⊢; omega)]
      simp only [List.length_drop, List.length_cons]
      by_cases hlt : bs.length + 1 ≤ sz
      · have h1 : bs.length + 1 - sz = 0 := by omega
        rw [h1, Nat.zero_add, Nat.div_eq_of_lt (by omega)]
        exact (Nat.div_eq_of_lt_le (by omega) (by omega)).symm
      · have h2 : bs.length + 1 + sz - 1 = (bs.length + 1 - sz + sz - 1) + sz := by omega
        rw [h2, Nat.add_div_right _ hsz]

theorem fu_chunk_array_go_nil (sz fuel idx addr : Nat) :
    fu_chunk_array_go sz fuel idx addr [] = [] := by
  cases fuel <;> rfl

theorem fu_chunk_array_go_flatten (sz : Nat) :
    ∀ (fuel idx addr : Nat) (data : List Nat), data.length ≤ fuel →
      ((fu_chunk_array_go sz fuel idx addr data).map FuChunk.data).flatten = data := by
  intro fuel
  induction fuel with
  | zero =>
    intro idx addr data h
    have : data = [] := List.length_eq_zero.mp (Nat.le_zero.mp h)
    subst this
    rfl
  | succ fuel ih =>
    intro idx addr data h
    cases data with
    | nil => rfl
    | cons b bs =>
      simp only [fu_chunk_array_go]
      by_cases hsz : sz = 0
      · rw [if_pos hsz]
        simp
      · rw [if_neg hsz, List.map_cons, List.flatten_cons,
          ih _ _ _ (by simp only [List.length_drop, List.length_cons] at h ⊢; omega)]
        exact List.take_append_drop _ _

theorem fu_chunk_array_go_sizes (sz : Nat) (hsz : 0 < sz) :
    ∀ (fuel idx addr : Nat) (data : List Nat),
      ∀ c ∈ fu_chunk_array_go sz fuel idx addr data,
        1 ≤ c.data.length ∧ c.data.length ≤ sz := by
  intro fuel
  induction fuel with
  | zero => intro idx addr data c hc; cases hc
  | succ fuel ih =>
    intro idx addr data c hc
    cases data with
    | nil => cases hc
    | cons b bs =>
      simp only [fu_chunk_array_go, if_neg (Nat.pos_iff_ne_zero.mp hsz)] at hc
      rcases List.mem_cons.mp hc with h | h
      · rw [h]
        simp only [List.length_take, List.length_cons]
        omega
      · exact ih _ _ _ c h

theorem fu_chunk_array_go_full (sz : Nat) (hsz : 0 < sz) :
    ∀ (fuel idx addr : Nat) (data : List Nat),
      ∀ c ∈ (fu_chunk_array_go sz fuel idx addr data).dropLast, c.data.length = sz := by
  intro fuel
  induction fuel with
  | zero => intro idx addr data c hc; cases hc
  | succ fuel ih =>
    intro idx addr data c hc
    cases data with
    | nil => cases hc
    | cons b bs =>
      simp only [fu_chunk_array_go, if_neg (Nat.pos_iff_ne_zero.mp hsz)] at hc
      by_cases hrest : fu_chunk_array_go sz fuel (idx + 1) (addr + sz)
          ((b :: bs).drop sz) = []
      · rw [hrest] at hc
        cases hc
      · rw [List.dropLast_cons_of_ne_nil hrest] at hc
        rcases List.mem_cons.mp hc with h | h
        · rw [h]
          have hd : (b :: bs).drop sz ≠ [] := by
            intro hnil
            rw [hnil, fu_chunk_array_go_nil] at hrest
            exact hrest rfl
          have hlen : sz < (b :: bs).length := by
            by_contra hle
            exact hd (List.drop_eq_nil_of_le (Nat.le_of_not_lt hle))
          simp only [List.length_take]
          omega
        · exact ih _ _ _ c h

theorem fu_chunk_array_go_address (sz : Nat) :
    ∀ (fuel idx addr : Nat) (data : List Nat) (i : Nat) (c : FuChunk),
      (fu_chunk_array_go sz fuel idx addr data)[i]? = some c →
        c.address = (addr + sz * i) % 4294967296 := by
  intro fuel
  induction fuel with
  | zero => intro idx addr data i c hc; simp [fu_chunk_array_go] at hc
  | succ fuel ih =>
    intro idx addr data i c hc
    cases data with
    | nil => simp [fu_chunk_array_go] at hc
    | cons b bs =>
      simp only [fu_chunk_array_go] at hc
      by_cases hsz : sz = 0
      · rw [if_pos hsz] at hc
        cases i with
        | zero =>
          simp only [List.getElem?_cons_zero, Option.some.injEq] at hc
          rw [← hc, hsz]
          rfl
        | succ i => simp at hc
      · rw [if_neg hsz] at hc
        cases i with
        | zero =>
          simp only [List.getElem?_cons_zero, Option.some.injEq] at hc
          rw [← hc]
          rfl
        | succ i =>
          simp only [List.getElem?_cons_succ] at hc
          rw [ih _ _ _ _ _ hc]
          congr 1
          rw [Nat.mul_succ]
          omega

/-! ## PixArt RF: the operations of a successful transfer -/

namespace Pxi

theorem transport_frame (self : FuPxiDevice) (site : Site) (op : HidOp) :
    (transport self site op).1.self.prn_threshold = self.prn_threshold := by
  unfold transport
  split <;> rfl

theorem pwrite_frame (self : FuPxiDevice) (site : Site) (port : Nat) (data : List Nat) :
    (fu_udev_device_pwrite_full self site port data).self.prn_threshold
      = self.prn_threshold :=
  transport_frame self site _

theorem wait_notify_frame (self : FuPxiDevice) (site : Site) (port : Nat) :
    (fu_pxi_device_wait_notify self site port).1.self.prn_threshold
      = self.prn_threshold := by
  unfold fu_pxi_device_wait_notify
  simp only []
  split <;> exact transport_frame _ _ _

/-- The operations of a payload loop that succeeds. -/
theorem write_chunk_payloads_ops (chunks : List FuChunk) (self : FuPxiDevice) (prn : Nat)
    (h : (write_chunk_payloads self prn chunks).ok = true) :
    (write_chunk_payloads self prn chunks).trace.filterMap Event.op?
      = loop_ops self.prn_threshold prn chunks := by
  induction chunks generalizing self prn with
  | nil => rfl
  | cons chk2 rest ih =>
    unfold write_chunk_payloads at h ⊢
    simp only [] at h ⊢
    unfold fu_pxi_device_write_payload at h ⊢
    have hw := pwrite_spec self Site.payload 0x0 (PXI_HID_DEV_OTA_OUTPUT_REPORT_ID :: chk2.data)
    have hwf := pwrite_frame self Site.payload 0x0 (PXI_HID_DEV_OTA_OUTPUT_REPORT_ID :: chk2.data)
    generalize fu_udev_device_pwrite_full self Site.payload 0x0
      (PXI_HID_DEV_OTA_OUTPUT_REPORT_ID :: chk2.data) = w at h hw hwf ⊢
    rcases hw with ⟨h1, h2⟩ | ⟨d, h1, h2⟩
    · simp only [h1, Bool.not_false, if_true] at h
      exact absurd h Bool.false_ne_true
    · simp only [h1, Bool.not_true, Bool.false_eq_true, if_false] at h ⊢
      rw [loop_ops, ← hwf]
      by_cases hthr : (prn + 1) % 4294967296 ≥ w.self.prn_threshold
      · rw [if_pos hthr] at h ⊢
        rw [if_pos hthr]
        have hn := wait_notify_spec w.self Site.prn_notify 0x1
        have hnf := wait_notify_frame w.self Site.prn_notify 0x1
        generalize fu_pxi_device_wait_notify w.self Site.prn_notify 0x1 = n at h hn hnf ⊢
        rcases hn with ⟨h3, h4⟩ | ⟨data, h3, h4, h5⟩
        · simp only [h3, Bool.not_false, if_true] at h
          exact absurd h Bool.false_ne_true
        · simp only [h3, Bool.not_true, Bool.false_eq_true, if_false] at h ⊢
          by_cases hop : notify_status n.2 ≠ FU_PXI_DEVICE_CMD_FW_WRITE
          · rw [if_pos hop] at h
            exact absurd h Bool.false_ne_true
          · rw [if_neg hop] at h ⊢
            simp only [List.filterMap_append, h2, h4, ih _ _ h, hnf]
            rfl
      · rw [if_neg hthr] at h ⊢
        rw [if_neg hthr]
        simp only [List.filterMap_append, h2, ih _ _ h]
        rfl

/-- The operations of an object-create that succeeds. -/
theorem object_create_ops (self : FuPxiDevice) (chk : FuChunk)
    (h : (fu_pxi_device_fw_object_create self chk).ok = true) :
    (fu_pxi_device_fw_object_create self chk).trace.filterMap Event.op?
        = [(Site.object_create,
              HidOp.pwrite 0 ([0x06, 0x25] ++ le32 chk.address ++ le32 chk.data.length)),
            (Site.object_create_reply, HidOp.pread 0 32)] ∧
      (fu_pxi_device_fw_object_create self chk).self.prn_threshold = self.prn_threshold := by
  unfold fu_pxi_device_fw_object_create at h ⊢
  simp only [PXI_HID_DEV_OTA_OUTPUT_REPORT_ID, FU_PXI_DEVICE_CMD_FW_OBJECT_CREATE,
    FuChunk.data_sz, FU_PXI_DEVICE_OTA_BUF_SZ] at h ⊢
  generalize ([0x06, 0x25] ++ le32 chk.address ++ le32 chk.data.length) = req at h ⊢
  have hw := pwrite_spec self Site.object_create 0x0 req
  have hwf := pwrite_frame self Site.object_create 0x0 req
  generalize fu_udev_device_pwrite_full self Site.object_create 0x0 req = w at h hw hwf ⊢
  rcases hw with ⟨h1, h2⟩ | ⟨d, h1, h2⟩
  · simp only [h1, Bool.not_false, if_true] at h
    exact absurd h Bool.false_ne_true
  · simp only [h1, Bool.not_true, Bool.false_eq_true, if_false] at h ⊢
    have hr := transport_spec w.self Site.object_create_reply (HidOp.pread 0x0 32)
    have hrf := transport_frame w.self Site.object_create_reply (HidOp.pread 0x0 32)
    generalize transport w.self Site.object_create_reply (HidOp.pread 0x0 32) = r at h hr hrf ⊢
    rcases hr with ⟨h3, _⟩ | ⟨d2, _, h4, _⟩
    · rw [h3] at h
      exact absurd h Bool.false_ne_true
    · refine ⟨?_, hrf.trans hwf⟩
      simp only [List.filterMap_append, h2, h4]
      rfl

/-- The operations of `fu_pxi_device_write_chunk` when no transport operation
fails and every PRN notification carries the opcode 0x17. -/
theorem write_chunk_ops (self : FuPxiDevice) (chk : FuChunk)
    (hio : ∀ e ∈ (fu_pxi_device_write_chunk self chk).trace, e.transport_ok = true)
    (hprn : ∀ e ∈ (fu_pxi_device_write_chunk self chk).trace, e.prn_ok = true) :
    (fu_pxi_device_write_chunk self chk).trace.filterMap Event.op?
      = [(Site.object_create,
            HidOp.pwrite 0 ([0x06, 0x25] ++ le32 chk.address ++ le32 chk.data.length)),
          (Site.object_create_reply, HidOp.pread 0 32)]
        ++ loop_ops self.prn_threshold 0 (fu_chunk_array_new chk.data chk.address 20)
        ++ [(Site.checksum_notify (fu_pxi_device_calculate_checksum chk.data),
              HidOp.pread 0 32)] := by
  unfold fu_pxi_device_write_chunk at hio hprn ⊢
  simp only [FU_PXI_DEVICE_OTA_PAYLOAD_SZ] at hio hprn ⊢
  have hcf := object_create_fail self chk
  have hco := object_create_ops self chk
  generalize fu_pxi_device_fw_object_create self chk = c at hio hprn hcf hco ⊢
  cases hc : c.ok with
  | false =>
    exfalso
    obtain ⟨e, he, hbad⟩ := hcf hc
    simp only [hc, Bool.not_false, if_true] at hio
    rw [hio e he] at hbad
    exact absurd hbad (by decide)
  | true =>
    simp only [hc, Bool.not_true, Bool.false_eq_true, if_false] at hio hprn ⊢
    obtain ⟨hco1, hco2⟩ := hco hc
    have hlf := write_chunk_payloads_fail
      (fu_chunk_array_new chk.data chk.address 20) c.self 0
    have hlo := write_chunk_payloads_ops
      (fu_chunk_array_new chk.data chk.address 20) c.self 0
    generalize write_chunk_payloads c.self 0
      (fu_chunk_array_new chk.data chk.address 20) = l
      at hio hprn hlf hlo ⊢
    cases hl : l.ok with
    | false =>
      exfalso
      obtain ⟨e, he, hbad⟩ := hlf hl
      simp only [hl, Bool.not_false, if_true] at hio hprn
      have h1 := hio e (List.mem_append_right _ he)
      have h2 := hprn e (List.mem_append_right _ he)
      rw [h1, h2] at hbad
      simp at hbad
    | true =>
      simp only [hl, Bool.not_true, Bool.false_eq_true, if_false] at hio hprn ⊢
      have hlo1 := hlo hl
      rw [hco2] at hlo1
      have hn := wait_notify_spec l.self
        (Site.checksum_notify (fu_pxi_device_calculate_checksum chk.data)) 0x0
      generalize fu_pxi_device_wait_notify l.self
        (Site.checksum_notify (fu_pxi_device_calculate_checksum chk.data)) 0x0 = n
        at hio hprn hn ⊢
      rcases hn with ⟨h3, h4⟩ | ⟨data, h3, h4, h5⟩
      · exfalso
        simp only [h3, Bool.not_false, if_true, h4] at hio
        have := hio (Event.io (Site.checksum_notify (fu_pxi_device_calculate_checksum chk.data))
          (HidOp.pread 0x0 (32 - 0x0)) HidResp.fail)
          (List.mem_append_right _ (List.mem_singleton_self _))
        simp [Event.transport_ok] at this
      · have key : (c.trace ++ l.trace ++ n.1.trace).filterMap Event.op?
            = [(Site.object_create,
                  HidOp.pwrite 0 ([0x06, 0x25] ++ le32 chk.address ++ le32 chk.data.length)),
                (Site.object_create_reply, HidOp.pread 0 32)]
              ++ loop_ops self.prn_threshold 0 (fu_chunk_array_new chk.data chk.address 20)
              ++ [(Site.checksum_notify (fu_pxi_device_calculate_checksum chk.data),
                    HidOp.pread 0 32)] := by
          rw [List.filterMap_append, List.filterMap_append, hco1, hlo1, h4]
          rfl
        simp only [h3, Bool.not_true, Bool.false_eq_true, if_false]
        split <;> exact key

/-- A run that succeeds recorded no failed transport operation and no PRN
notification with a wrong opcode. -/
theorem clean_ok {t : List Event} (h : Clean t) :
    ∀ e ∈ t, e.transport_ok = true ∧ e.prn_ok = true := by
  intro e he
  have := h e he
  unfold Event.failed at this
  cases h1 : e.transport_ok <;> cases h2 : e.prn_ok <;> simp [h1, h2] at this ⊢

/-! ### PRN flow control -/

/-- With a threshold between 1 and 2^32 - 1 the counter of the payload loop is
the number of payloads sent modulo the threshold: a notification is read after
each `t`-th payload. -/
theorem loop_ops_schedule (t : Nat) (ht : 1 ≤ t) (ht2 : t < 4294967296) :
    ∀ (chunks : List FuChunk) (j : Nat),
      loop_ops t (j % t) chunks = prn_schedule t j chunks := by
  intro chunks
  induction chunks with
  | nil => intro j; rfl
  | cons c rest ih =>
    intro j
    have hlt : j % t < t := Nat.mod_lt _ ht
    have hs : (j % t + 1) % t = (j + 1) % t := Nat.mod_add_mod j t 1
    have hsmall : (j % t + 1) % 4294967296 = j % t + 1 := Nat.mod_eq_of_lt (by omega)
    rw [loop_ops, prn_schedule, hsmall]
    by_cases hfull : j % t + 1 = t
    · have h0 : (j + 1) % t = 0 := by rw [← hs, hfull, Nat.mod_self]
      have hrec := ih (j + 1)
      rw [h0] at hrec
      rw [if_pos (by omega), if_pos h0, hrec]
      rfl
    · have hne : (j + 1) % t = j % t + 1 := by
        rw [← hs]
        exact Nat.mod_eq_of_lt (by omega)
      rw [if_neg (by omega), if_neg (by omega), ← hne, ih (j + 1)]
      rfl

theorem prn_schedule_count (t : Nat) :
    ∀ (chunks : List FuChunk) (j : Nat),
      ((prn_schedule t j chunks).filter is_prn_op).length + j / t
        = (j + chunks.length) / t := by
  intro chunks
  induction chunks with
  | nil => intro j; simp [prn_schedule]
  | cons c rest ih =>
    intro j
    have hrec := ih (j + 1)
    have hdiv := Nat.succ_div j t
    have hlen : j + (c :: rest).length = j + 1 + rest.length := by
      simp only [List.length_cons]; omega
    rw [prn_schedule, hlen, ← hrec]
    by_cases h0 : (j + 1) % t = 0
    · rw [if_pos h0]
      rw [if_pos (Nat.dvd_of_mod_eq_zero h0)] at hdiv
      simp only [List.filter_cons, is_prn_op, List.cons_append, List.nil_append,
        List.length_cons, Bool.false_eq_true, if_false, if_true]
      omega
    · rw [if_neg h0]
      rw [if_neg (fun hd => h0 (Nat.mod_eq_zero_of_dvd hd))] at hdiv
      simp only [List.filter_cons, is_prn_op, List.nil_append,
        Bool.false_eq_true, if_false]
      omega

theorem prn_reads_ops (t : List Event) :
    (t.filter Event.is_prn_read).length
      = ((t.filterMap Event.op?).filter is_prn_op).length := by
  induction t with
  | nil => rfl
  | cons e rest ih =>
    cases e with
    | io site op resp =>
      cases site <;>
        simp [List.filter_cons, List.filterMap_cons, Event.is_prn_read, Event.op?,
          is_prn_op, ih]
    | set_status _ =>
      simp [List.filter_cons, List.filterMap_cons, Event.is_prn_read, Event.op?, ih]
    | set_progress _ _ =>
      simp [List.filter_cons, List.filterMap_cons, Event.is_prn_read, Event.op?, ih]

theorem fu_chunk_array_new_length (data : List Nat) (addr sz : Nat) (hsz : 0 < sz) :
    (fu_chunk_array_new data addr sz).length = (data.length + sz - 1) / sz :=
  fu_chunk_array_go_length sz hsz _ _ _ _ (Nat.le_refl _)

/-- C11 (counterexample): an object of 40 bytes with `prn_threshold = 1` is
due two PRN notifications, `floor(ceil(40 / 20) / 1) = 2`; when the first one
carries the opcode 0x16, `fu_pxi_device_write_chunk` fails at once and has read
one notification only, although no transport operation failed. -/
theorem write_chunk_prn_count_wrong_opcode :
    (∀ e ∈ (fu_pxi_device_write_chunk early_wrong_ack_device forty_bytes).trace,
        e.transport_ok = true) ∧
    1 ≤ forty_bytes.data.length ∧ 1 ≤ early_wrong_ack_device.prn_threshold ∧
    ((fu_pxi_device_write_chunk early_wrong_ack_device forty_bytes).trace.filter
        Event.is_prn_read).length = 1 ∧
    ((forty_bytes.data.length + 19) / 20) / early_wrong_ack_device.prn_threshold = 2 ∧
    (fu_pxi_device_write_chunk early_wrong_ack_device forty_bytes).ok = false := by
  refine ⟨by decide, by decide, by decide, by decide, by decide, by decide⟩

/-- C11 (amended): for every object of n >= 1 bytes and every `prn_threshold`
t >= 1 (a 16-bit field), a `fu_pxi_device_write_chunk` that succeeds recorded
no failed transport operation and no PRN notification with an opcode other
than 0x17; and when no transport operation fails and every PRN notification
read carries the opcode 0x17, it reads exactly `floor(ceil(n / 20) / t)` PRN
notifications for the object, one after each t-th payload counted from the
start of the object: its operations are the object-create and the read of its
reply, the payloads with a read on port 1 after payload j exactly when t
divides j, and the read of the terminal notification. -/
theorem write_chunk_prn_flow_control (self : FuPxiDevice) (chk : FuChunk)
    (hn : 1 ≤ chk.data.length) (ht : 1 ≤ self.prn_threshold)
    (ht2 : self.prn_threshold < 65536) :
    ((fu_pxi_device_write_chunk self chk).ok = true →
      ∀ e ∈ (fu_pxi_device_write_chunk self chk).trace,
        e.transport_ok = true ∧ e.prn_ok = true) ∧
    ((∀ e ∈ (fu_pxi_device_write_chunk self chk).trace, e.transport_ok = true) →
      (∀ e ∈ (fu_pxi_device_write_chunk self chk).trace, e.prn_ok = true) →
      ((fu_pxi_device_write_chunk self chk).trace.filter Event.is_prn_read).length
          = ((chk.data.length + 19) / 20) / self.prn_threshold ∧
        (fu_pxi_device_write_chunk self chk).trace.filterMap Event.op?
          = [(Site.object_create,
                HidOp.pwrite 0 ([0x06, 0x25] ++ le32 chk.address ++ le32 chk.data.length)),
              (Site.object_create_reply, HidOp.pread 0 32)]
            ++ prn_schedule self.prn_threshold 0
                (fu_chunk_array_new chk.data chk.address 20)
            ++ [(Site.checksum_notify (fu_pxi_device_calculate_checksum chk.data),
                  HidOp.pread 0 32)]) := by
  refine ⟨fun hok => clean_ok ((write_chunk_stops self chk).1 hok), fun hio hprn => ?_⟩
  have hops := write_chunk_ops self chk hio hprn
  have hsched := loop_ops_schedule self.prn_threshold ht (by omega)
    (fu_chunk_array_new chk.data chk.address 20) 0
  rw [Nat.zero_mod] at hsched
  rw [hsched] at hops
  refine ⟨?_, hops⟩
  rw [prn_reads_ops, hops]
  have hcount := prn_schedule_count self.prn_threshold
    (fu_chunk_array_new chk.data chk.address 20) 0
  rw [Nat.zero_div, Nat.zero_add, Nat.add_zero,
    fu_chunk_array_new_length _ _ 20 (by decide)] at hcount
  have h19 : chk.data.length + 20 - 1 = chk.data.length + 19 := by omega
  rw [h19] at hcount
  rw [← hcount]
  simp [List.filter_append, List.filter_cons, is_prn_op]

/-- Witness of C11 (amended): 40 bytes with `prn_threshold = 2` are sent as two
payloads followed by exactly one PRN notification. -/
theorem write_chunk_prn_flow_control_witness :
    (1 ≤ forty_bytes.data.length ∧ 1 ≤ threshold_two_device.prn_threshold ∧
      threshold_two_device.prn_threshold < 65536) ∧
    (fu_pxi_device_write_chunk threshold_two_device forty_bytes).ok = true ∧
    ((fu_pxi_device_write_chunk threshold_two_device forty_bytes).trace.filter
        Event.is_prn_read).length = 1 ∧
    (fu_pxi_device_write_chunk threshold_two_device forty_bytes).trace.filterMap Event.site?
      = [Site.object_create, Site.object_create_reply, Site.payload, Site.payload,
          Site.prn_notify, Site.checksum_notify 40] ∧
    ((fu_pxi_device_write_chunk threshold_two_device forty_bytes).trace.filter
        Event.is_prn_read).length
      = ((forty_bytes.data.length + 19) / 20) / threshold_two_device.prn_threshold :=
  ⟨⟨by decide, by decide, by decide⟩, by decide, by decide, by decide,
    ((write_chunk_prn_flow_control threshold_two_device forty_bytes
      (by decide) (by decide) (by decide)).2 (by decide) (by decide)).1⟩

/-! ### Order of the status values -/

theorem status_none_of_phase (e : Event) (h : e.phase ≠ 0) : e.status? = none := by
  cases e with
  | io site op resp => rfl
  | set_status _ => exact absurd rfl h
  | set_progress _ _ => rfl

theorem pwrite_status (self : FuPxiDevice) (site : Site) (port : Nat) (data : List Nat) :
    (fu_udev_device_pwrite_full self site port data).trace.filterMap Event.status? = [] :=
  filterMap_none _ _ (pwrite_events self site port data (fun e => e.status? = none)
    (fun _ => rfl))

theorem wait_notify_status (self : FuPxiDevice) (site : Site) (port : Nat) :
    (fu_pxi_device_wait_notify self site port).1.trace.filterMap Event.status? = [] :=
  filterMap_none _ _ (wait_notify_events self site port (fun e => e.status? = none)
    (fun _ => rfl))

theorem ota_init_new_status (self : FuPxiDevice) (fw_sz : Nat) :
    (fu_pxi_device_fw_ota_init_new self fw_sz).trace.filterMap Event.status? = [] := by
  refine filterMap_none _ _ (fun e he => status_none_of_phase e ?_)
  revert e
  unfold fu_pxi_device_fw_ota_init_new
  simp only []
  generalize ([PXI_HID_DEV_OTA_OUTPUT_REPORT_ID, FU_PXI_DEVICE_CMD_FW_OTA_INIT_NEW]
    ++ le32 fw_sz ++ [0x0] ++ List.replicate 10 0) = req
  have hw := pwrite_events self Site.ota_init_new 0x0 req (fun e => e.phase ≠ 0)
    (fun _ => Nat.succ_ne_zero _)
  generalize fu_udev_device_pwrite_full self Site.ota_init_new 0x0 req = w at hw ⊢
  cases hok : w.ok with
  | false => simpa [hok] using hw
  | true =>
    simp only [Bool.not_true, Bool.false_eq_true, if_false]
    have hg := transport_events w.self Site.ota_init_new_feature
      (HidOp.get_feature FU_PXI_DEVICE_OTA_BUF_SZ) (fun e => e.phase ≠ 0)
      (fun _ => Nat.succ_ne_zero _)
    generalize transport w.self Site.ota_init_new_feature
      (HidOp.get_feature FU_PXI_DEVICE_OTA_BUF_SZ) = g at hg ⊢
    cases hgok : g.1.ok with
    | false =>
      simp only [Bool.not_false, if_true]
      exact List.forall_mem_append.mpr ⟨hw, hg⟩
    | true =>
      simp only [Bool.not_true, Bool.false_eq_true, if_false]
      exact List.forall_mem_append.mpr ⟨hw, hg⟩

theorem write_firmware_objects_status (chunks : List FuChunk) (self : FuPxiDevice)
    (len i : Nat) :
    (write_firmware_objects self len i chunks).trace.filterMap Event.status? = [] := by
  induction chunks generalizing self i with
  | nil => rfl
  | cons chk rest ih =>
    unfold write_firmware_objects
    simp only []
    have hc : (fu_pxi_device_write_chunk self chk).trace.filterMap Event.status? = [] :=
      filterMap_none _ _ (fun e he => status_none_of_phase e (by
        rw [(write_chunk_events self chk).1 e he]; decide))
    generalize fu_pxi_device_write_chunk self chk = c at hc ⊢
    cases hcok : c.ok with
    | false =>
      simp only [Bool.not_false, if_true]
      exact hc
    | true =>
      simp only [Bool.not_true, Bool.false_eq_true, if_false]
      rw [List.filterMap_append, hc, List.filterMap_cons]
      simp only [Event.status?, List.nil_append]
      exact ih _ _

theorem reset_status (self : FuPxiDevice) (fw_sz : Nat) :
    (fu_pxi_device_reset self fw_sz).trace.filterMap Event.status?
      = [FwupdStatus.DEVICE_RESTART] := by
  unfold fu_pxi_device_reset
  simp only []
  generalize ([PXI_HID_DEV_OTA_OUTPUT_REPORT_ID, FU_PXI_DEVICE_CMD_FW_MCU_RESET, fw_sz % 256]
    ++ List.replicate (FU_PXI_DEVICE_OTA_BUF_SZ - 3) 0) = req
  have hw := pwrite_status self Site.reset 0 req
  generalize fu_udev_device_pwrite_full self Site.reset 0 req = w at hw ⊢
  cases hok : w.ok with
  | false => simp [hw, Event.status?]
  | true => simp [hw, Event.status?]

theorem fw_upgrade_status (self : FuPxiDevice) (firmware : FuFirmware) :
    ((fu_pxi_device_fw_upgrade self firmware).trace.filterMap Event.status? = [] ∨
      (fu_pxi_device_fw_upgrade self firmware).trace.filterMap Event.status?
        = [FwupdStatus.DEVICE_VERIFY]) ∧
    ((fu_pxi_device_fw_upgrade self firmware).ok = true →
      (fu_pxi_device_fw_upgrade self firmware).trace.filterMap Event.status?
        = [FwupdStatus.DEVICE_VERIFY]) := by
  unfold fu_pxi_device_fw_upgrade
  cases firmware.image_default with
  | none =>
    refine ⟨Or.inl rfl, fun h => ?_⟩
    simp at h
  | some fw_buf =>
    simp only []
    by_cases hv : firmware.version.length ≤ 10
    · rw [if_pos hv]
      generalize fw_upgrade_req fw_buf firmware.version = req
      have hw := pwrite_status self Site.upgrade 0 req
      generalize fu_udev_device_pwrite_full self Site.upgrade 0 req = w at hw ⊢
      have hn := wait_notify_status w.self Site.upgrade_notify 0x1
      generalize fu_pxi_device_wait_notify w.self Site.upgrade_notify 0x1 = n at hn ⊢
      have key : (Event.set_status FwupdStatus.DEVICE_VERIFY :: w.trace ++ n.1.trace).filterMap
          Event.status? = [FwupdStatus.DEVICE_VERIFY] := by
        rw [List.cons_append, List.filterMap_cons, List.filterMap_append, hw, hn]
        rfl
      have key2 : (Event.set_status FwupdStatus.DEVICE_VERIFY :: w.trace).filterMap
          Event.status? = [FwupdStatus.DEVICE_VERIFY] := by
        rw [List.filterMap_cons, hw]
        rfl
      cases hwok : w.ok with
      | false =>
        simp only [Bool.not_false, if_true]
        exact ⟨Or.inr key2, fun _ => key2⟩
      | true =>
        simp only [Bool.not_true, Bool.false_eq_true, if_false]
        cases hnok : n.1.ok with
        | false =>
          simp only [Bool.not_false, if_true]
          exact ⟨Or.inr key, fun _ => key⟩
        | true =>
          simp only [Bool.not_true, Bool.false_eq_true, if_false]
          split
          · exact ⟨Or.inr key, fun _ => key⟩
          · exact ⟨Or.inr key, fun _ => key⟩
    · rw [if_neg hv]
      refine ⟨Or.inl rfl, fun h => ?_⟩
      simp at h

/-- C19: on every successful `fu_pxi_device_write_firmware` the status values
set on the device are exactly BUSY, WRITE, VERIFY, RESTART in that order, and
on every run, also a failing one, the status values set form a prefix of that
sequence. -/
theorem write_firmware_status_order (self : FuPxiDevice) (firmware : FuFirmware) :
    ((fu_pxi_device_write_firmware self firmware).ok = true →
      (fu_pxi_device_write_firmware self firmware).trace.filterMap Event.status?
        = [FwupdStatus.DEVICE_BUSY, FwupdStatus.DEVICE_WRITE, FwupdStatus.DEVICE_VERIFY,
            FwupdStatus.DEVICE_RESTART]) ∧
    (fu_pxi_device_write_firmware self firmware).trace.filterMap Event.status?
      <+: [FwupdStatus.DEVICE_BUSY, FwupdStatus.DEVICE_WRITE, FwupdStatus.DEVICE_VERIFY,
            FwupdStatus.DEVICE_RESTART] := by
  unfold fu_pxi_device_write_firmware
  cases hfw : firmware.image_default with
  | none =>
    refine ⟨fun h => ?_, ⟨_, rfl⟩⟩
    simp at h
  | some fw =>
    simp only []
    have ha : (fu_pxi_device_fw_ota_init self).trace.filterMap Event.status? = [] :=
      pwrite_status _ _ _ _
    generalize fu_pxi_device_fw_ota_init self = a at ha ⊢
    cases haok : a.ok with
    | false =>
      simp only [Bool.not_false, if_true, List.filterMap_append, ha]
      exact ⟨fun h => absurd h Bool.false_ne_true, ⟨_, rfl⟩⟩
    | true =>
      simp only [Bool.not_true, Bool.false_eq_true, if_false]
      have hb := ota_init_new_status a.self fw.length
      generalize fu_pxi_device_fw_ota_init_new a.self fw.length = b at hb ⊢
      cases hbok : b.ok with
      | false =>
        simp only [Bool.not_false, if_true, List.filterMap_append, ha, hb]
        exact ⟨fun h => absurd h Bool.false_ne_true, ⟨_, rfl⟩⟩
      | true =>
        simp only [Bool.not_true, Bool.false_eq_true, if_false]
        have hl := write_firmware_objects_status
          (fu_chunk_array_new fw 0x0 FU_PXI_DEVICE_OBJECT_SIZE_MAX) b.self
          (fu_chunk_array_new fw 0x0 FU_PXI_DEVICE_OBJECT_SIZE_MAX).length 0
        generalize write_firmware_objects b.self
          (fu_chunk_array_new fw 0x0 FU_PXI_DEVICE_OBJECT_SIZE_MAX).length 0
          (fu_chunk_array_new fw 0x0 FU_PXI_DEVICE_OBJECT_SIZE_MAX) = l at hl ⊢
        cases hlok : l.ok with
        | false =>
          simp only [Bool.not_false, if_true, List.filterMap_append, ha, hb, hl]
          exact ⟨fun h => absurd h Bool.false_ne_true, ⟨_, rfl⟩⟩
        | true =>
          simp only [Bool.not_true, Bool.false_eq_true, if_false]
          have hu := fw_upgrade_status l.self firmware
          generalize fu_pxi_device_fw_upgrade l.self firmware = u at hu ⊢
          cases huok : u.ok with
          | false =>
            simp only [Bool.not_false, if_true, List.filterMap_append, ha, hb, hl]
            refine ⟨fun h => absurd h Bool.false_ne_true, ?_⟩
            rcases hu.1 with h | h
            · rw [h]; exact ⟨_, rfl⟩
            · rw [h]; exact ⟨_, rfl⟩
          | true =>
            simp only [Bool.not_true, Bool.false_eq_true, if_false, List.filterMap_append,
              ha, hb, hl, hu.2 huok, reset_status]
            exact ⟨fun _ => rfl, ⟨[], rfl⟩⟩

/-- Witness of C19: the update of `good_device` with `example_firmware` succeeds
and sets the four status values in order. -/
theorem write_firmware_status_order_witness :
    (fu_pxi_device_write_firmware good_device example_firmware).ok = true ∧
    (fu_pxi_device_write_firmware good_device example_firmware).trace.filterMap Event.status?
      = [FwupdStatus.DEVICE_BUSY, FwupdStatus.DEVICE_WRITE, FwupdStatus.DEVICE_VERIFY,
          FwupdStatus.DEVICE_RESTART] :=
  ⟨by decide, (write_firmware_status_order good_device example_firmware).1 (by decide)⟩

/-! ### Objects and payloads of an update -/

theorem payload_eq_bind :
    Event.payload? = fun e => (Event.op? e).bind op_payload? := by
  funext e
  cases e with
  | io site op resp => cases site <;> cases op <;> rfl
  | set_status _ => rfl
  | set_progress _ _ => rfl

theorem object_create_eq_bind :
    Event.object_create? = fun e => (Event.op? e).bind op_object_create? := by
  funext e
  cases e with
  | io site op resp => cases site <;> cases op <;> rfl
  | set_status _ => rfl
  | set_progress _ _ => rfl

theorem filterMap_payload (t : List Event) :
    t.filterMap Event.payload? = (t.filterMap Event.op?).filterMap op_payload? := by
  rw [List.filterMap_filterMap, payload_eq_bind]

theorem filterMap_object_create (t : List Event) :
    t.filterMap Event.object_create?
      = (t.filterMap Event.op?).filterMap op_object_create? := by
  rw [List.filterMap_filterMap, object_create_eq_bind]

theorem loop_ops_packets (t : Nat) :
    ∀ (chunks : List FuChunk) (prn : Nat),
      (loop_ops t prn chunks).filterMap op_payload?
          = chunks.map (fun c => 0x06 :: c.data) ∧
        (loop_ops t prn chunks).filterMap op_object_create? = [] := by
  intro chunks
  induction chunks with
  | nil => intro prn; exact ⟨rfl, rfl⟩
  | cons c rest ih =>
    intro prn
    rw [loop_ops]
    split
    · simp [List.filterMap_cons, op_payload?, op_object_create?, ih]
    · simp [List.filterMap_cons, op_payload?, op_object_create?, ih]

/-- The packets of a `fu_pxi_device_write_chunk` that succeeds: one object-create
command and one payload packet for each chunk of 20 bytes of the object. -/
theorem write_chunk_packets (self : FuPxiDevice) (chk : FuChunk)
    (h : (fu_pxi_device_write_chunk self chk).ok = true) :
    (fu_pxi_device_write_chunk self chk).trace.filterMap Event.payload?
        = (fu_chunk_array_new chk.data chk.address 20).map (fun c => 0x06 :: c.data) ∧
      (fu_pxi_device_write_chunk self chk).trace.filterMap Event.object_create?
        = [[0x06, 0x25] ++ le32 chk.address ++ le32 chk.data.length] := by
  have hc := clean_ok ((write_chunk_stops self chk).1 h)
  have hops := write_chunk_ops self chk (fun e he => (hc e he).1) (fun e he => (hc e he).2)
  have hl := loop_ops_packets self.prn_threshold
    (fu_chunk_array_new chk.data chk.address 20) 0
  constructor
  · rw [filterMap_payload, hops, List.filterMap_append, List.filterMap_append, hl.1]
    simp [List.filterMap_cons, op_payload?]
  · rw [filterMap_object_create, hops, List.filterMap_append, List.filterMap_append, hl.2]
    simp [List.filterMap_cons, op_object_create?]

theorem write_firmware_objects_packets (chunks : List FuChunk) (self : FuPxiDevice)
    (len i : Nat) (h : (write_firmware_objects self len i chunks).ok = true) :
    (write_firmware_objects self len i chunks).trace.filterMap Event.payload?
        = chunks.flatMap (fun o =>
            (fu_chunk_array_new o.data o.address 20).map (fun c => 0x06 :: c.data)) ∧
      (write_firmware_objects self len i chunks).trace.filterMap Event.object_create?
        = chunks.map (fun o => [0x06, 0x25] ++ le32 o.address ++ le32 o.data.length) := by
  induction chunks generalizing self i with
  | nil => exact ⟨rfl, rfl⟩
  | cons chk rest ih =>
    unfold write_firmware_objects at h ⊢
    simp only [] at h ⊢
    have hc := write_chunk_packets self chk
    generalize fu_pxi_device_write_chunk self chk = c at h hc ⊢
    cases hcok : c.ok with
    | false =>
      simp only [hcok, Bool.not_false, if_true] at h
      exact absurd h Bool.false_ne_true
    | true =>
      simp only [hcok, Bool.not_true, Bool.false_eq_true, if_false] at h ⊢
      obtain ⟨hc1, hc2⟩ := hc hcok
      obtain ⟨ih1, ih2⟩ := ih c.self (i + 1) h
      constructor
      · rw [List.filterMap_append, hc1, List.filterMap_cons, ih1]
        simp [Event.payload?]
      · rw [List.filterMap_append, hc2, List.filterMap_cons, ih2]
        simp [Event.object_create?]

/-- What a successful `fu_pxi_device_write_firmware` records of the events of
the object phase is what its object loop recorded, and the loop succeeded. -/
theorem write_firmware_object_phase {β : Type} (f : Event → Option β)
    (hf : ∀ e, e.phase ≠ 2 → f e = none)
    (self : FuPxiDevice) (firmware : FuFirmware) (fw : List Nat)
    (himg : firmware.image_default = some fw)
    (hok : (fu_pxi_device_write_firmware self firmware).ok = true) :
    ∃ s,
      (write_firmware_objects s (fu_chunk_array_new fw 0 4096).length 0
        (fu_chunk_array_new fw 0 4096)).ok = true ∧
      (fu_pxi_device_write_firmware self firmware).trace.filterMap f
        = (write_firmware_objects s (fu_chunk_array_new fw 0 4096).length 0
            (fu_chunk_array_new fw 0 4096)).trace.filterMap f := by
  have hnone : ∀ (t : List Event), (∀ e ∈ t, e.phase ≠ 2) → t.filterMap f = [] :=
    fun t ht => filterMap_none _ _ (fun e he => hf e (ht e he))
  unfold fu_pxi_device_write_firmware at hok ⊢
  rw [himg] at hok ⊢
  simp only [FU_PXI_DEVICE_OBJECT_SIZE_MAX] at hok ⊢
  have ha : (fu_pxi_device_fw_ota_init self).trace.filterMap f = [] :=
    hnone _ (pwrite_events _ _ _ _ (fun e => e.phase ≠ 2) (fun _ => Nat.succ_ne_succ.mpr (Nat.succ_ne_zero 0).symm))
  generalize fu_pxi_device_fw_ota_init self = a at hok ha ⊢
  cases haok : a.ok with
  | false =>
    simp only [haok, Bool.not_false, if_true] at hok
    exact absurd hok Bool.false_ne_true
  | true =>
    simp only [haok, Bool.not_true, Bool.false_eq_true, if_false] at hok ⊢
    have hb : (fu_pxi_device_fw_ota_init_new a.self fw.length).trace.filterMap f = [] :=
      hnone _ (fun e he => by have := ota_init_new_events a.self fw.length e he; omega)
    generalize fu_pxi_device_fw_ota_init_new a.self fw.length = b at hok hb ⊢
    cases hbok : b.ok with
    | false =>
      simp only [hbok, Bool.not_false, if_true] at hok
      exact absurd hok Bool.false_ne_true
    | true =>
      simp only [hbok, Bool.not_true, Bool.false_eq_true, if_false] at hok ⊢
      refine ⟨b.self, ?_⟩
      generalize write_firmware_objects b.self (fu_chunk_array_new fw 0x0 4096).length 0
        (fu_chunk_array_new fw 0x0 4096) = l at hok ⊢
      cases hlok : l.ok with
      | false =>
        simp only [hlok, Bool.not_false, if_true] at hok
        exact absurd hok Bool.false_ne_true
      | true =>
        simp only [hlok, Bool.not_true, Bool.false_eq_true, if_false] at hok ⊢
        have hu : (fu_pxi_device_fw_upgrade l.self firmware).trace.filterMap f = [] :=
          hnone _ (fun e he => by
            rcases (fw_upgrade_events l.self firmware).1 e he with h | h <;> omega)
        generalize fu_pxi_device_fw_upgrade l.self firmware = u at hok hu ⊢
        cases huok : u.ok with
        | false =>
          simp only [huok, Bool.not_false, if_true] at hok
          exact absurd hok Bool.false_ne_true
        | true =>
          simp only [huok, Bool.not_true, Bool.false_eq_true, if_false] at hok ⊢
          have hr : (fu_pxi_device_reset u.self fw.length).trace.filterMap f = [] :=
            hnone _ (fun e he => by
              rcases reset_events u.self fw.length e he with h | h <;> omega)
          refine ⟨trivial, ?_⟩
          simp only [List.filterMap_append, ha, hb, hu, hr, List.filterMap_cons,
            List.filterMap_nil, hf (Event.set_status FwupdStatus.DEVICE_BUSY) (by decide),
            hf (Event.set_status FwupdStatus.DEVICE_WRITE) (by decide),
            List.nil_append, List.append_nil]

theorem payload_data_flatten (objects : List FuChunk) :
    ((objects.flatMap (fun o =>
        (fu_chunk_array_new o.data o.address 20).map (fun c => 0x06 :: c.data))).map
      List.tail).flatten = (objects.map FuChunk.data).flatten := by
  induction objects with
  | nil => rfl
  | cons o rest ih =>
    rw [List.flatMap_cons, List.map_append, List.flatten_append, ih, List.map_cons,
      List.flatten_cons, List.map_map]
    congr 1
    exact fu_chunk_array_go_flatten 20 _ _ _ _ (Nat.le_refl _)

/-- C18: for every non-empty blob, on a successful
`fu_pxi_device_write_firmware` the blob is split into objects of 4096 bytes
(only the last may be shorter; object i has address 4096 * i, kept in 32 bits),
one object-create command is sent for each object, each object is split into
payload packets of the form 0x06 followed by at most 20 data bytes (only the
last of an object may carry fewer than 20), and concatenating the data bytes of
all payload packets in the order sent yields exactly the blob. -/
theorem write_firmware_streams_blob (self : FuPxiDevice) (firmware : FuFirmware)
    (fw : List Nat) (himg : firmware.image_default = some fw) (hne : fw ≠ [])
    (hok : (fu_pxi_device_write_firmware self firmware).ok = true) :
    fu_chunk_array_new fw 0 4096 ≠ [] ∧
    ((fu_chunk_array_new fw 0 4096).map FuChunk.data).flatten = fw ∧
    (∀ o ∈ fu_chunk_array_new fw 0 4096, 1 ≤ o.data.length ∧ o.data.length ≤ 4096) ∧
    (∀ o ∈ (fu_chunk_array_new fw 0 4096).dropLast, o.data.length = 4096) ∧
    (∀ i o, (fu_chunk_array_new fw 0 4096)[i]? = some o →
      o.address = (4096 * i) % 4294967296 ∧
      (fw.length ≤ 4294967296 → o.address = 4096 * i)) ∧
    (fu_pxi_device_write_firmware self firmware).trace.filterMap Event.object_create?
      = (fu_chunk_array_new fw 0 4096).map
          (fun o => [0x06, 0x25] ++ le32 o.address ++ le32 o.data.length) ∧
    (fu_pxi_device_write_firmware self firmware).trace.filterMap Event.payload?
      = (fu_chunk_array_new fw 0 4096).flatMap (fun o =>
          (fu_chunk_array_new o.data o.address 20).map (fun c => 0x06 :: c.data)) ∧
    (∀ o ∈ fu_chunk_array_new fw 0 4096,
      ((fu_chunk_array_new o.data o.address 20).map FuChunk.data).flatten = o.data ∧
      (∀ c ∈ fu_chunk_array_new o.data o.address 20,
        1 ≤ c.data.length ∧ c.data.length ≤ 20) ∧
      (∀ c ∈ (fu_chunk_array_new o.data o.address 20).dropLast, c.data.length = 20)) ∧
    (((fu_pxi_device_write_firmware self firmware).trace.filterMap Event.payload?).map
      List.tail).flatten = fw := by
  have hflat : ((fu_chunk_array_new fw 0 4096).map FuChunk.data).flatten = fw :=
    fu_chunk_array_go_flatten 4096 _ _ _ _ (Nat.le_refl _)
  have hlen := fu_chunk_array_new_length fw 0 4096 (by decide)
  have hpos : 0 < fw.length := List.length_pos.mpr hne
  obtain ⟨s1, hs1, hp⟩ := write_firmware_object_phase Event.payload?
    (fun e he => by
      cases e with
      | io site op resp => cases site <;> first | rfl | exact absurd rfl he
      | set_status _ => rfl
      | set_progress _ _ => rfl)
    self firmware fw himg hok
  obtain ⟨s2, hs2, hc⟩ := write_firmware_object_phase Event.object_create?
    (fun e he => by
      cases e with
      | io site op resp => cases site <;> first | rfl | exact absurd rfl he
      | set_status _ => rfl
      | set_progress _ _ => rfl)
    self firmware fw himg hok
  have hpay := (write_firmware_objects_packets _ s1 _ 0 hs1).1
  have hcre := (write_firmware_objects_packets _ s2 _ 0 hs2).2
  refine ⟨?_, hflat, fu_chunk_array_go_sizes 4096 (by decide) _ _ _ _,
    fu_chunk_array_go_full 4096 (by decide) _ _ _ _, ?_, hc.trans hcre, hp.trans hpay,
    ?_, ?_⟩
  · intro hnil
    rw [hnil] at hlen
    simp only [List.length_nil] at hlen
    omega
  · intro i o hio
    have haddr := fu_chunk_array_go_address 4096 _ _ _ _ i o hio
    rw [Nat.zero_add] at haddr
    refine ⟨haddr, fun hsmall => ?_⟩
    have hi : i < (fu_chunk_array_new fw 0 4096).length := by
      rcases Nat.lt_or_ge i (fu_chunk_array_new fw 0 4096).length with h | h
      · exact h
      · rw [List.getElem?_eq_none h] at hio
        cases hio
    rw [haddr]
    exact Nat.mod_eq_of_lt (by omega)
  · intro o _
    exact ⟨fu_chunk_array_go_flatten 20 _ _ _ _ (Nat.le_refl _),
      fu_chunk_array_go_sizes 20 (by decide) _ _ _ _,
      fu_chunk_array_go_full 20 (by decide) _ _ _ _⟩
  · rw [hp, hpay, payload_data_flatten, hflat]

/-- Witness of C18: the update of `good_device` with `example_firmware`, whose
image is `0xFF 0x01`, sends one object at address 0 and one payload packet
`0x06 0xFF 0x01`. -/
theorem write_firmware_streams_blob_witness :
    (example_firmware.image_default = some [0xFF, 0x01] ∧ [0xFF, 0x01] ≠ ([] : List Nat) ∧
      (fu_pxi_device_write_firmware good_device example_firmware).ok = true) ∧
    (fu_pxi_device_write_firmware good_device example_firmware).trace.filterMap Event.payload?
      = [[0x06, 0xFF, 0x01]] ∧
    (((fu_pxi_device_write_firmware good_device example_firmware).trace.filterMap
      Event.payload?).map List.tail).flatten = [0xFF, 0x01] :=
  ⟨⟨rfl, by decide, by decide⟩, by decide,
    (write_firmware_streams_blob good_device example_firmware [0xFF, 0x01] rfl (by decide)
      (by decide)).2.2.2.2.2.2.2.2⟩

end Pxi

/-! ## PixArt RF: a threshold of zero -/

namespace Pxi

theorem transport_threshold (self : FuPxiDevice) (t : Nat) (site : Site) (op : HidOp) :
    transport (with_threshold self t) site op
      = (retarget t (transport self site op).1, (transport self site op).2) := by
  obtain ⟨_, _, _, _, _, _, _, _, script⟩ := self
  cases script with
  | nil => rfl
  | cons r rest =>
    cases r with
    | fail => rfl
    | ok data => rfl

theorem pwrite_threshold (self : FuPxiDevice) (t : Nat) (site : Site) (port : Nat)
    (data : List Nat) :
    fu_udev_device_pwrite_full (with_threshold self t) site port data
      = retarget t (fu_udev_device_pwrite_full self site port data) := by
  unfold fu_udev_device_pwrite_full
  rw [transport_threshold]

theorem wait_notify_threshold (self : FuPxiDevice) (t : Nat) (site : Site) (port : Nat) :
    fu_pxi_device_wait_notify (with_threshold self t) site port
      = (retarget t (fu_pxi_device_wait_notify self site port).1,
          (fu_pxi_device_wait_notify self site port).2) := by
  unfold fu_pxi_device_wait_notify
  simp only [transport_threshold]
  generalize transport self site (HidOp.pread port (FU_PXI_DEVICE_OTA_BUF_SZ - port)) = r
  cases hok : r.1.ok with
  | false => simp [retarget, hok]
  | true => simp [retarget, hok]

/-- With a threshold of 0 the payload loop runs as with a threshold of 1. -/
theorem write_chunk_payloads_threshold_zero (chunks : List FuChunk) :
    ∀ (self : FuPxiDevice), self.prn_threshold = 1 →
      write_chunk_payloads (with_threshold self 0) 0 chunks
        = retarget 0 (write_chunk_payloads self 0 chunks) := by
  induction chunks with
  | nil => intro self _; rfl
  | cons chk2 rest ih =>
    intro self hs
    unfold write_chunk_payloads
    simp only []
    unfold fu_pxi_device_write_payload
    rw [pwrite_threshold]
    have hwf := pwrite_frame self Site.payload 0x0 (PXI_HID_DEV_OTA_OUTPUT_REPORT_ID :: chk2.data)
    rw [hs] at hwf
    generalize fu_udev_device_pwrite_full self Site.payload 0x0
      (PXI_HID_DEV_OTA_OUTPUT_REPORT_ID :: chk2.data) = w at hwf ⊢
    cases hwok : w.ok with
    | false => simp [retarget, hwok]
    | true =>
      have h0 : (0 + 1) % 4294967296 ≥ (retarget 0 w).self.prn_threshold := Nat.zero_le _
      have h1 : (0 + 1) % 4294967296 ≥ w.self.prn_threshold := by rw [hwf]
      have hr : (retarget 0 w).ok = true := hwok
      simp only [hr, hwok, Bool.not_true, Bool.false_eq_true, if_false]
      rw [if_pos h0, if_pos h1]
      have hself : (retarget 0 w).self = with_threshold w.self 0 := rfl
      rw [hself, wait_notify_threshold]
      have hnf := wait_notify_frame w.self Site.prn_notify 0x1
      rw [hwf] at hnf
      generalize fu_pxi_device_wait_notify w.self Site.prn_notify 0x1 = n at hnf ⊢
      cases hnok : n.1.ok with
      | false => simp [retarget, hnok]
      | true =>
        have hr2 : (retarget 0 n.1).ok = true := hnok
        simp only [hr2, Bool.not_true, Bool.false_eq_true, if_false]
        by_cases hop : notify_status n.2 ≠ FU_PXI_DEVICE_CMD_FW_WRITE
        · rw [if_pos hop, if_pos hop]
          rfl
        · rw [if_neg hop, if_neg hop]
          have hself2 : (retarget 0 n.1).self = with_threshold n.1.self 0 := rfl
          rw [hself2, ih n.1.self hnf]
          rfl

theorem object_create_threshold (self : FuPxiDevice) (t : Nat) (chk : FuChunk) :
    fu_pxi_device_fw_object_create (with_threshold self t) chk
      = retarget t (fu_pxi_device_fw_object_create self chk) := by
  unfold fu_pxi_device_fw_object_create
  simp only []
  rw [pwrite_threshold]
  generalize fu_udev_device_pwrite_full self Site.object_create 0x0
    ([PXI_HID_DEV_OTA_OUTPUT_REPORT_ID, FU_PXI_DEVICE_CMD_FW_OBJECT_CREATE]
      ++ le32 chk.address ++ le32 chk.data_sz) = w
  cases hwok : w.ok with
  | false => simp [retarget, hwok]
  | true =>
    have hr : (retarget t w).ok = true := hwok
    have hself : (retarget t w).self = with_threshold w.self t := rfl
    simp only [hr, Bool.not_true, Bool.false_eq_true, if_false, hself, transport_threshold]
    rfl

/-- With a threshold of 0 `fu_pxi_device_write_chunk` runs as with a threshold
of 1. -/
theorem write_chunk_threshold (self : FuPxiDevice) (chk : FuChunk)
    (hs : self.prn_threshold = 1) :
    fu_pxi_device_write_chunk (with_threshold self 0) chk
      = retarget 0 (fu_pxi_device_write_chunk self chk) := by
  unfold fu_pxi_device_write_chunk
  simp only []
  rw [object_create_threshold]
  have hcf : (fu_pxi_device_fw_object_create self chk).ok = true →
      (fu_pxi_device_fw_object_create self chk).self.prn_threshold = 1 :=
    fun h => ((object_create_ops self chk h).2).trans hs
  generalize fu_pxi_device_fw_object_create self chk = c at hcf ⊢
  cases hcok : c.ok with
  | false => simp [retarget, hcok]
  | true =>
    have hr : (retarget 0 c).ok = true := hcok
    have hself : (retarget 0 c).self = with_threshold c.self 0 := rfl
    simp only [hr, Bool.not_true, Bool.false_eq_true, if_false, hself]
    rw [write_chunk_payloads_threshold_zero _ c.self (hcf hcok)]
    generalize write_chunk_payloads c.self 0
      (fu_chunk_array_new chk.data chk.address FU_PXI_DEVICE_OTA_PAYLOAD_SZ) = l
    cases hlok : l.ok with
    | false => simp [retarget, hlok]
    | true =>
      have hr2 : (retarget 0 l).ok = true := hlok
      have hself2 : (retarget 0 l).self = with_threshold l.self 0 := rfl
      have ht2 : (retarget 0 l).trace = l.trace := rfl
      simp only [hr2, Bool.not_true, Bool.false_eq_true, if_false, hself2, ht2,
        wait_notify_threshold]
      generalize fu_pxi_device_wait_notify l.self
        (Site.checksum_notify (fu_pxi_device_calculate_checksum chk.data)) 0x0 = n
      cases hnok : n.1.ok with
      | false => simp [retarget, hnok]
      | true =>
        have hr3 : (retarget 0 n.1).ok = true := hnok
        simp only [hr3, Bool.not_true, Bool.false_eq_true, if_false]
        split <;> rfl

theorem loop_ops_zero (chunks : List FuChunk) :
    ∀ (prn j : Nat), loop_ops 0 prn chunks = prn_schedule 1 j chunks := by
  induction chunks with
  | nil => intro prn j; rfl
  | cons c rest ih =>
    intro prn j
    rw [loop_ops, prn_schedule, if_pos (Nat.zero_le _), if_pos (Nat.mod_one _), ih 0 (j + 1)]
    rfl

/-- C29: `fu_pxi_device_fw_ota_init_new` stores whatever `prn_threshold` the
feature report carries, 0 included, and succeeds as soon as its two transport
operations do; with `prn_threshold = 0` `fu_pxi_device_write_chunk` returns the
same result, the same error and the same events as with `prn_threshold = 1`,
whatever the device answers; and when no transport operation fails and every
PRN notification carries 0x17 it reads one PRN notification after every
payload, `ceil(n / 20)` of them for an object of n bytes. -/
theorem write_chunk_threshold_zero (self : FuPxiDevice) (chk : FuChunk)
    (dev : FuPxiDevice) (fw_sz : Nat) (d1 d2 : List Nat) (rest : List HidResp) :
    (dev.script = HidResp.ok d1 :: HidResp.ok d2 :: rest →
      (fu_pxi_device_fw_ota_init_new dev fw_sz).ok = true ∧
      (fu_pxi_device_fw_ota_init_new dev fw_sz).self.prn_threshold
        = read_uint16_le (fill_buffer ([0x07, 0x27] ++ List.replicate 30 0) 32 d2) 0xe) ∧
    (fu_pxi_device_write_chunk { self with prn_threshold := 0 } chk).ok
      = (fu_pxi_device_write_chunk { self with prn_threshold := 1 } chk).ok ∧
    (fu_pxi_device_write_chunk { self with prn_threshold := 0 } chk).error
      = (fu_pxi_device_write_chunk { self with prn_threshold := 1 } chk).error ∧
    (fu_pxi_device_write_chunk { self with prn_threshold := 0 } chk).trace
      = (fu_pxi_device_write_chunk { self with prn_threshold := 1 } chk).trace ∧
    ((∀ e ∈ (fu_pxi_device_write_chunk { self with prn_threshold := 0 } chk).trace,
        e.transport_ok = true) →
      (∀ e ∈ (fu_pxi_device_write_chunk { self with prn_threshold := 0 } chk).trace,
        e.prn_ok = true) →
      ((fu_pxi_device_write_chunk { self with prn_threshold := 0 } chk).trace.filter
          Event.is_prn_read).length = (chk.data.length + 19) / 20 ∧
        (fu_pxi_device_write_chunk { self with prn_threshold := 0 } chk).trace.filterMap
            Event.op?
          = [(Site.object_create,
                HidOp.pwrite 0 ([0x06, 0x25] ++ le32 chk.address ++ le32 chk.data.length)),
              (Site.object_create_reply, HidOp.pread 0 32)]
            ++ prn_schedule 1 0 (fu_chunk_array_new chk.data chk.address 20)
            ++ [(Site.checksum_notify (fu_pxi_device_calculate_checksum chk.data),
                  HidOp.pread 0 32)]) := by
  have heq := write_chunk_threshold (with_threshold self 1) chk rfl
  have h0 : with_threshold (with_threshold self 1) 0 = { self with prn_threshold := 0 } := rfl
  have h1 : with_threshold self 1 = { self with prn_threshold := 1 } := rfl
  rw [h0, h1] at heq
  refine ⟨fun hscript => ?_, by rw [heq]; rfl, by rw [heq]; rfl, by rw [heq]; rfl,
    fun hio hprn => ?_⟩
  · unfold fu_pxi_device_fw_ota_init_new fu_udev_device_pwrite_full transport
    simp only [hscript, Bool.not_true, Bool.false_eq_true, if_false,
      PXI_HID_DEV_OTA_FEATURE_REPORT_ID, FU_PXI_DEVICE_CMD_FW_OTA_INIT_NEW,
      FU_PXI_DEVICE_OTA_BUF_SZ]
    exact ⟨trivial, trivial⟩
  · have hops := write_chunk_ops { self with prn_threshold := 0 } chk hio hprn
    have hsched := loop_ops_zero (fu_chunk_array_new chk.data chk.address 20) 0 0
    have hthr : ({ self with prn_threshold := 0 } : FuPxiDevice).prn_threshold = 0 := rfl
    rw [hthr, hsched] at hops
    refine ⟨?_, hops⟩
    rw [prn_reads_ops, hops]
    have hcount := prn_schedule_count 1 (fu_chunk_array_new chk.data chk.address 20) 0
    rw [Nat.zero_div, Nat.zero_add, Nat.add_zero, Nat.div_one,
      fu_chunk_array_new_length _ _ 20 (by decide)] at hcount
    have h19 : chk.data.length + 20 - 1 = chk.data.length + 19 := by omega
    rw [h19] at hcount
    rw [← hcount]
    simp [List.filter_append, List.filter_cons, is_prn_op]

/-- Witness of C29: a device reports `prn_threshold = 0`; the 40 bytes that
follow are sent as two payloads, each followed by a PRN notification. -/
theorem write_chunk_threshold_zero_witness :
    ((fu_pxi_device_fw_ota_init_new zero_threshold_device 40).ok = true ∧
      (fu_pxi_device_fw_ota_init_new zero_threshold_device 40).self = zero_threshold_ready ∧
      zero_threshold_ready.prn_threshold = 0) ∧
    (fu_pxi_device_write_chunk { zero_threshold_ready with prn_threshold := 0 }
      forty_bytes).ok = true ∧
    ((fu_pxi_device_write_chunk { zero_threshold_ready with prn_threshold := 0 }
      forty_bytes).trace.filter Event.is_prn_read).length = 2 ∧
    ((fu_pxi_device_write_chunk { zero_threshold_ready with prn_threshold := 0 }
      forty_bytes).trace.filter Event.is_prn_read).length
        = (forty_bytes.data.length + 19) / 20 :=
  ⟨⟨by decide, by decide, by decide⟩, by decide, by decide,
    ((write_chunk_threshold_zero zero_threshold_ready forty_bytes zero_threshold_device 40 []
      (List.replicate 16 0) two_ack_script).2.2.2.2 (by decide) (by decide)).1⟩

end Pxi

/-! ## PixArt RF: the error of a checksum mismatch -/

namespace Pxi

theorem object_create_all (self : FuPxiDevice) (chk : FuChunk) (P : Event → Prop)
    (h1 : ∀ op resp, P (Event.io Site.object_create op resp))
    (h2 : ∀ op resp, P (Event.io Site.object_create_reply op resp)) :
    ∀ e ∈ (fu_pxi_device_fw_object_create self chk).trace, P e := by
  unfold fu_pxi_device_fw_object_create
  simp only []
  generalize ([PXI_HID_DEV_OTA_OUTPUT_REPORT_ID, FU_PXI_DEVICE_CMD_FW_OBJECT_CREATE]
        ++ le32 chk.address ++ le32 chk.data_sz) = req
  have hw := pwrite_events self Site.object_create 0x0 req P (fun _ => h1 _ _)
  generalize fu_udev_device_pwrite_full self Site.object_create 0x0 req = w at hw ⊢
  cases hok : w.ok with
  | false => simpa [hok] using hw
  | true =>
    simp only [Bool.not_true, Bool.false_eq_true, if_false]
    exact List.forall_mem_append.mpr ⟨hw, transport_events _ _ _ _ (fun _ => h2 _ _)⟩

theorem write_chunk_payloads_all (chunks : List FuChunk) (self : FuPxiDevice) (prn : Nat)
    (P : Event → Prop)
    (h1 : ∀ op resp, P (Event.io Site.payload op resp))
    (h2 : ∀ op resp, P (Event.io Site.prn_notify op resp)) :
    ∀ e ∈ (write_chunk_payloads self prn chunks).trace, P e := by
  induction chunks generalizing self prn with
  | nil => intro e he; cases he
  | cons chk2 rest ih =>
    unfold write_chunk_payloads
    simp only []
    unfold fu_pxi_device_write_payload
    have hw := pwrite_events self Site.payload 0x0 (PXI_HID_DEV_OTA_OUTPUT_REPORT_ID :: chk2.data)
      P (fun _ => h1 _ _)
    generalize fu_udev_device_pwrite_full self Site.payload 0x0
      (PXI_HID_DEV_OTA_OUTPUT_REPORT_ID :: chk2.data) = w at hw ⊢
    cases hok : w.ok with
    | false => simpa [hok] using hw
    | true =>
      simp only [Bool.not_true, Bool.false_eq_true, if_false]
      by_cases hthr : (prn + 1) % 4294967296 ≥ w.self.prn_threshold
      · rw [if_pos hthr]
        have hn := wait_notify_events w.self Site.prn_notify 0x1 P (fun _ => h2 _ _)
        generalize fu_pxi_device_wait_notify w.self Site.prn_notify 0x1 = n at hn ⊢
        cases hnok : n.1.ok with
        | false =>
          simp only [Bool.not_false, if_true]
          exact List.forall_mem_append.mpr ⟨hw, hn⟩
        | true =>
          simp only [Bool.not_true, Bool.false_eq_true, if_false]
          by_cases hop : notify_status n.2 ≠ FU_PXI_DEVICE_CMD_FW_WRITE
          · rw [if_pos hop]
            exact List.forall_mem_append.mpr ⟨hw, hn⟩
          · rw [if_neg hop]
            exact List.forall_mem_append.mpr ⟨List.forall_mem_append.mpr ⟨hw, hn⟩, ih _ _⟩
      · rw [if_neg hthr]
        exact List.forall_mem_append.mpr ⟨hw, ih _ _⟩

theorem mismatch_none_of_phase (e : Event) (h : e.phase ≠ 2) : e.checksum_mismatch? = none := by
  cases e with
  | io site op resp =>
    cases site <;> first | rfl | exact absurd rfl h
  | set_status _ => rfl
  | set_progress _ _ => rfl

/-- The error of a `fu_pxi_device_write_chunk` that read a terminal
notification with a checksum other than the one it computed. -/
theorem write_chunk_mismatch (self : FuPxiDevice) (chk : FuChunk) (g x : Nat)
    (h : ∃ e ∈ (fu_pxi_device_write_chunk self chk).trace, e.checksum_mismatch? = some (g, x)) :
    (fu_pxi_device_write_chunk self chk).ok = false ∧
    (fu_pxi_device_write_chunk self chk).error
      = some ⟨ErrorCode.FWUPD_ERROR_READ, "checksum fail, got %x, expected %x", [g, x]⟩ ∧
    x = fu_pxi_device_calculate_checksum chk.data := by
  obtain ⟨e, he, hm⟩ := h
  unfold fu_pxi_device_write_chunk at he ⊢
  simp only [] at he ⊢
  have hc := object_create_all self chk (fun e => e.checksum_mismatch? = none)
    (fun _ _ => rfl) (fun _ _ => rfl)
  generalize fu_pxi_device_fw_object_create self chk = c at he hc ⊢
  cases hcok : c.ok with
  | false =>
    simp only [hcok, Bool.not_false, if_true] at he
    rw [hc e he] at hm
    exact absurd hm (by simp)
  | true =>
    simp only [hcok, Bool.not_true, Bool.false_eq_true, if_false] at he ⊢
    have hl := write_chunk_payloads_all
      (fu_chunk_array_new chk.data chk.address FU_PXI_DEVICE_OTA_PAYLOAD_SZ) c.self 0
      (fun e => e.checksum_mismatch? = none) (fun _ _ => rfl) (fun _ _ => rfl)
    generalize write_chunk_payloads c.self 0
      (fu_chunk_array_new chk.data chk.address FU_PXI_DEVICE_OTA_PAYLOAD_SZ) = l at he hl ⊢
    have hcl : ∀ e ∈ c.trace ++ l.trace, e.checksum_mismatch? = none :=
      List.forall_mem_append.mpr ⟨hc, hl⟩
    cases hlok : l.ok with
    | false =>
      simp only [hlok, Bool.not_false, if_true] at he
      rw [hcl e he] at hm
      exact absurd hm (by simp)
    | true =>
      simp only [hlok, Bool.not_true, Bool.false_eq_true, if_false] at he ⊢
      have hn := wait_notify_spec l.self
        (Site.checksum_notify (fu_pxi_device_calculate_checksum chk.data)) 0x0
      generalize fu_pxi_device_wait_notify l.self
        (Site.checksum_notify (fu_pxi_device_calculate_checksum chk.data)) 0x0 = n at he hn ⊢
      rcases hn with ⟨h3, h4⟩ | ⟨data, h3, h4, h5⟩
      · simp only [h3, Bool.not_false, if_true, h4] at he
        rcases List.mem_append.mp he with h | h
        · rw [hcl e h] at hm
          exact absurd hm (by simp)
        · rw [List.mem_singleton.mp h] at hm
          simp [Event.checksum_mismatch?] at hm
      · simp only [h3, Bool.not_true, Bool.false_eq_true, if_false] at he ⊢
        have hlast : e ∈ c.trace ++ l.trace ++ n.1.trace := by
          revert he
          split <;> exact id
        have hev : e = Event.io (Site.checksum_notify (fu_pxi_device_calculate_checksum chk.data))
            (HidOp.pread 0x0 (32 - 0x0)) (HidResp.ok data) := by
          rcases List.mem_append.mp hlast with h | h
          · rw [hcl e h] at hm
            exact absurd hm (by simp)
          · rw [h4] at h
            exact List.mem_singleton.mp h
        rw [hev] at hm
        simp only [Event.checksum_mismatch?] at hm
        by_cases hsum : notify_checksum (fill_buffer notify_buffer (32 - 0x0) data)
            = fu_pxi_device_calculate_checksum chk.data
        · rw [if_pos hsum] at hm
          exact absurd hm (by simp)
        · rw [if_neg hsum] at hm
          simp only [Option.some.injEq, Prod.mk.injEq] at hm
          obtain ⟨hg, hx⟩ := hm
          rw [← h5] at hsum hg
          rw [if_pos hsum, hg, ← hx]
          exact ⟨rfl, rfl, rfl⟩

theorem write_firmware_objects_mismatch (chunks : List FuChunk) (self : FuPxiDevice)
    (len i : Nat) (g x : Nat)
    (h : ∃ e ∈ (write_firmware_objects self len i chunks).trace,
      e.checksum_mismatch? = some (g, x)) :
    (write_firmware_objects self len i chunks).ok = false ∧
    (write_firmware_objects self len i chunks).error
      = some ⟨ErrorCode.FWUPD_ERROR_READ, "checksum fail, got %x, expected %x", [g, x]⟩ ∧
    ∃ o ∈ chunks, x = fu_pxi_device_calculate_checksum o.data := by
  induction chunks generalizing self i with
  | nil =>
    obtain ⟨e, he, _⟩ := h
    cases he
  | cons chk rest ih =>
    obtain ⟨e, he, hm⟩ := h
    unfold write_firmware_objects at he ⊢
    simp only [] at he ⊢
    have hc := write_chunk_mismatch self chk g x
    generalize fu_pxi_device_write_chunk self chk = c at he hc ⊢
    cases hcok : c.ok with
    | false =>
      simp only [hcok, Bool.not_false, if_true] at he ⊢
      obtain ⟨h1, h2, h3⟩ := hc ⟨e, he, hm⟩
      exact ⟨trivial, h2, chk, List.mem_cons_self _ _, h3⟩
    | true =>
      simp only [hcok, Bool.not_true, Bool.false_eq_true, if_false] at he ⊢
      rcases List.mem_append.mp he with h | h
      · have := (hc ⟨e, h, hm⟩).1
        rw [hcok] at this
        exact absurd this (by decide)
      · rcases List.mem_cons.mp h with h | h
        · rw [h] at hm
          exact absurd hm (by simp [Event.checksum_mismatch?])
        · obtain ⟨h1, h2, o, ho, h3⟩ := ih c.self (i + 1) ⟨e, h, hm⟩
          exact ⟨h1, h2, o, List.mem_cons_of_mem _ ho, h3⟩

theorem write_firmware_mismatch (self : FuPxiDevice) (firmware : FuFirmware) (g x : Nat)
    (h : ∃ e ∈ (fu_pxi_device_write_firmware self firmware).trace,
      e.checksum_mismatch? = some (g, x)) :
    (fu_pxi_device_write_firmware self firmware).ok = false ∧
    (fu_pxi_device_write_firmware self firmware).error
      = some ⟨ErrorCode.FWUPD_ERROR_READ, "checksum fail, got %x, expected %x", [g, x]⟩ := by
  have hnone : ∀ (t : List Event), (∀ e ∈ t, e.phase ≠ 2) →
      ∀ e ∈ t, e.checksum_mismatch? = some (g, x) → False := by
    intro t ht e he hm
    rw [mismatch_none_of_phase e (ht e he)] at hm
    exact absurd hm (by simp)
  obtain ⟨e, he, hm⟩ := h
  unfold fu_pxi_device_write_firmware at he ⊢
  cases hfw : firmware.image_default with
  | none =>
    rw [hfw] at he
    cases he
  | some fw =>
    rw [hfw] at he
    simp only [] at he ⊢
    have ha : ∀ e ∈ (fu_pxi_device_fw_ota_init self).trace, e.phase ≠ 2 :=
      pwrite_events _ _ _ _ (fun e => e.phase ≠ 2)
        (fun _ => Nat.succ_ne_succ.mpr (Nat.succ_ne_zero 0).symm)
    generalize fu_pxi_device_fw_ota_init self = a at he ha ⊢
    have h0 : ∀ e ∈ [Event.set_status FwupdStatus.DEVICE_BUSY], e.phase ≠ 2 := by
      intro e he; rw [List.mem_singleton.mp he]; decide
    cases haok : a.ok with
    | false =>
      simp only [haok, Bool.not_false, if_true] at he
      exact (hnone _ (List.forall_mem_append.mpr ⟨h0, ha⟩) e he hm).elim
    | true =>
      simp only [haok, Bool.not_true, Bool.false_eq_true, if_false] at he ⊢
      have hb : ∀ e ∈ (fu_pxi_device_fw_ota_init_new a.self fw.length).trace, e.phase ≠ 2 :=
        fun e he => by have := ota_init_new_events a.self fw.length e he; omega
      generalize fu_pxi_device_fw_ota_init_new a.self fw.length = b at he hb ⊢
      cases hbok : b.ok with
      | false =>
        simp only [hbok, Bool.not_false, if_true] at he
        exact (hnone _ (List.forall_mem_append.mpr
          ⟨List.forall_mem_append.mpr ⟨h0, ha⟩, hb⟩) e he hm).elim
      | true =>
        simp only [hbok, Bool.not_true, Bool.false_eq_true, if_false] at he ⊢
        have ht1 : ∀ e ∈ [Event.set_status FwupdStatus.DEVICE_BUSY] ++ a.trace ++ b.trace
            ++ [Event.set_status FwupdStatus.DEVICE_WRITE], e.phase ≠ 2 := by
          refine List.forall_mem_append.mpr
            ⟨List.forall_mem_append.mpr ⟨List.forall_mem_append.mpr ⟨h0, ha⟩, hb⟩, ?_⟩
          intro e he; rw [List.mem_singleton.mp he]; decide
        generalize [Event.set_status FwupdStatus.DEVICE_BUSY] ++ a.trace ++ b.trace
            ++ [Event.set_status FwupdStatus.DEVICE_WRITE] = t1 at he ht1 ⊢
        have hl := write_firmware_objects_mismatch
          (fu_chunk_array_new fw 0x0 FU_PXI_DEVICE_OBJECT_SIZE_MAX) b.self
          (fu_chunk_array_new fw 0x0 FU_PXI_DEVICE_OBJECT_SIZE_MAX).length 0 g x
        generalize write_firmware_objects b.self
          (fu_chunk_array_new fw 0x0 FU_PXI_DEVICE_OBJECT_SIZE_MAX).length 0
          (fu_chunk_array_new fw 0x0 FU_PXI_DEVICE_OBJECT_SIZE_MAX) = l at he hl ⊢
        cases hlok : l.ok with
        | false =>
          simp only [hlok, Bool.not_false, if_true] at he ⊢
          rcases List.mem_append.mp he with h | h
          · exact (hnone _ ht1 e h hm).elim
          · obtain ⟨h1, h2, _⟩ := hl ⟨e, h, hm⟩
            exact ⟨trivial, h2⟩
        | true =>
          exfalso
          simp only [hlok, Bool.not_true, Bool.false_eq_true, if_false] at he
          have hlno : ∀ e ∈ l.trace, e.checksum_mismatch? = some (g, x) → False := by
            intro e2 he2 hm2
            have := (hl ⟨e2, he2, hm2⟩).1
            rw [hlok] at this
            exact absurd this (by decide)
          have hu : ∀ e ∈ (fu_pxi_device_fw_upgrade l.self firmware).trace, e.phase ≠ 2 :=
            fun e he => by
              rcases (fw_upgrade_events l.self firmware).1 e he with h | h <;> omega
          generalize fu_pxi_device_fw_upgrade l.self firmware = u at he hu
          cases huok : u.ok with
          | false =>
            simp only [huok, Bool.not_false, if_true] at he
            rcases List.mem_append.mp he with h | h
            · rcases List.mem_append.mp h with h | h
              · exact hnone _ ht1 e h hm
              · exact hlno e h hm
            · exact hnone _ hu e h hm
          | true =>
            simp only [huok, Bool.not_true, Bool.false_eq_true, if_false] at he
            have hr : ∀ e ∈ (fu_pxi_device_reset u.self fw.length).trace, e.phase ≠ 2 :=
              fun e he => by
                rcases reset_events u.self fw.length e he with h | h <;> omega
            rcases List.mem_append.mp he with h | h
            · rcases List.mem_append.mp h with h | h
              · rcases List.mem_append.mp h with h | h
                · exact hnone _ ht1 e h hm
                · exact hlno e h hm
              · exact hnone _ hu e h hm
            · exact hnone _ hr e h hm

/-- C21 (counterexample): when the terminal notification of the object `[1, 2]`
carries the checksum 4 instead of 3, `fu_pxi_device_write_chunk` fails with the
code `FWUPD_ERROR_READ` and the message "checksum fail, got %x, expected %x";
`fu_pxi_device_write_firmware` fails with the same code when the device reports
257 for an image whose sum is 256. The code is the read error kind, the one a
PRN notification with a wrong opcode gives as well, not a protocol error
kind. -/
theorem checksum_mismatch_is_read_error :
    (fu_pxi_device_write_chunk bad_checksum_chunk_device ⟨0, 0, [1, 2]⟩).ok = false ∧
    (fu_pxi_device_write_chunk bad_checksum_chunk_device ⟨0, 0, [1, 2]⟩).error
      = some ⟨ErrorCode.FWUPD_ERROR_READ, "checksum fail, got %x, expected %x", [4, 3]⟩ ∧
    (fu_pxi_device_write_firmware bad_checksum_device example_firmware).ok = false ∧
    (fu_pxi_device_write_firmware bad_checksum_device example_firmware).error
      = some ⟨ErrorCode.FWUPD_ERROR_READ, "checksum fail, got %x, expected %x", [257, 256]⟩ ∧
    (fu_pxi_device_write_firmware bad_checksum_device example_firmware).error.map
        (fun err => err.code.kind?) = some (some ErrorKind.ReadError) ∧
    (fu_pxi_device_write_firmware bad_checksum_device example_firmware).error.map
        (fun err => err.code.kind?) ≠ some (some ErrorKind.ProtocolError) ∧
    (fu_pxi_device_write_firmware wrong_ack_device example_firmware).error.map
        (fun err => err.code) = some ErrorCode.FWUPD_ERROR_READ := by
  refine ⟨by decide, by decide, by decide, by decide, by decide, by decide, by decide⟩

/-- C21 (amended): whenever `fu_pxi_device_write_chunk` read a terminal
notification whose checksum `g` differs from the wraparound sum `x` of the
object, it fails with an error of code `FWUPD_ERROR_READ` (the read error kind)
whose message is "checksum fail, got %x, expected %x" with the arguments `g` and
`x`; and whenever such a read occurs in `fu_pxi_device_write_firmware`, it fails
with that same error. -/
theorem checksum_mismatch_error (self : FuPxiDevice) (chk : FuChunk)
    (firmware : FuFirmware) (g x : Nat) :
    ((∃ e ∈ (fu_pxi_device_write_chunk self chk).trace, e.checksum_mismatch? = some (g, x)) →
      (fu_pxi_device_write_chunk self chk).ok = false ∧
      (fu_pxi_device_write_chunk self chk).error
        = some ⟨ErrorCode.FWUPD_ERROR_READ, "checksum fail, got %x, expected %x", [g, x]⟩ ∧
      x = (chk.data.map (fun b => b % 256)).sum % 65536 ∧ g ≠ x ∧
      (fu_pxi_device_write_chunk self chk).error.map (fun err => err.code.kind?)
        = some (some ErrorKind.ReadError)) ∧
    ((∃ e ∈ (fu_pxi_device_write_firmware self firmware).trace,
        e.checksum_mismatch? = some (g, x)) →
      (fu_pxi_device_write_firmware self firmware).ok = false ∧
      (fu_pxi_device_write_firmware self firmware).error
        = some ⟨ErrorCode.FWUPD_ERROR_READ, "checksum fail, got %x, expected %x", [g, x]⟩ ∧
      g ≠ x ∧
      (fu_pxi_device_write_firmware self firmware).error.map (fun err => err.code.kind?)
        = some (some ErrorKind.ReadError)) := by
  have hne : ∀ (e : Event), e.checksum_mismatch? = some (g, x) → g ≠ x := by
    intro e hm
    cases e with
    | io site op resp =>
      cases site with
      | checksum_notify cs =>
        cases op with
        | pread port bufsz =>
          cases resp with
          | ok data =>
            simp only [Event.checksum_mismatch?] at hm
            by_cases heq : notify_checksum (fill_buffer notify_buffer bufsz data) = cs
            · rw [if_pos heq] at hm
              exact absurd hm (by simp)
            · rw [if_neg heq] at hm
              simp only [Option.some.injEq, Prod.mk.injEq] at hm
              rw [← hm.1, ← hm.2]
              exact heq
          | fail => exact absurd hm (by simp [Event.checksum_mismatch?])
        | pwrite _ _ => exact absurd hm (by simp [Event.checksum_mismatch?])
        | get_feature _ => exact absurd hm (by simp [Event.checksum_mismatch?])
      | _ => exact absurd hm (by simp [Event.checksum_mismatch?])
    | set_status _ => exact absurd hm (by simp [Event.checksum_mismatch?])
    | set_progress _ _ => exact absurd hm (by simp [Event.checksum_mismatch?])
  constructor
  · intro h
    obtain ⟨h1, h2, h3⟩ := write_chunk_mismatch self chk g x h
    obtain ⟨e, _, hm⟩ := h
    refine ⟨h1, h2, ?_, hne e hm, ?_⟩
    · rw [h3, calculate_checksum_eq]
    · rw [h2]; rfl
  · intro h
    obtain ⟨h1, h2⟩ := write_firmware_mismatch self firmware g x h
    obtain ⟨e, _, hm⟩ := h
    refine ⟨h1, h2, hne e hm, ?_⟩
    rw [h2]; rfl

/-- Witness of C21 (amended): the devices of the counterexample. -/
theorem checksum_mismatch_error_witness :
    (∃ e ∈ (fu_pxi_device_write_firmware bad_checksum_device example_firmware).trace,
        e.checksum_mismatch? = some (257, 256)) ∧
    (fu_pxi_device_write_firmware bad_checksum_device example_firmware).ok = false ∧
    (fu_pxi_device_write_firmware bad_checksum_device example_firmware).error
      = some ⟨ErrorCode.FWUPD_ERROR_READ, "checksum fail, got %x, expected %x", [257, 256]⟩ :=
  have hex : ∃ e ∈ (fu_pxi_device_write_firmware bad_checksum_device example_firmware).trace,
      e.checksum_mismatch? = some (257, 256) := by decide
  have h := (checksum_mismatch_error bad_checksum_device ⟨0, 0, []⟩ example_firmware
    257 256).2 hex
  ⟨hex, h.1, h.2.1⟩

end Pxi

/-! ## Synaptics RMI over PS/2: build id and retry bounds -/

namespace Ps2

/-- C22 (the code departs from the claim): for a touchpad that acknowledges
`READ_SECONDARY_ID` and answers it with a byte that is no Synaptics stick value,
`fu_synaptics_rmi_ps2_device_query_build_id` returns `FALSE` with no error set
and `build_id` 0, without sending `READ_EXTRA_CAPABILITIES_2`: the last byte it
transmits is `READ_SECONDARY_ID` (0xE1). The same happens for a device that is
neither a touchpad nor a Synaptics stick. Only for a Synaptics stick does the
call succeed with the 24-bit response as build id. `in_backdoor` is cleared in
each case. -/
theorem query_build_id_fails_without_stick :
    (fu_synaptics_rmi_ps2_device_query_build_id build_id_tokens touchpad_device).1.ok = false ∧
    (fu_synaptics_rmi_ps2_device_query_build_id build_id_tokens touchpad_device).1.error
      = none ∧
    (fu_synaptics_rmi_ps2_device_query_build_id build_id_tokens touchpad_device).2 = 0 ∧
    bytes_written
        (fu_synaptics_rmi_ps2_device_query_build_id build_id_tokens touchpad_device).1.trace
      = [0xE6, 0xE8, 0, 0xE8, 0, 0xE8, 0, 0xE8, 0, 0xE9, 0xE1] ∧
    (fu_synaptics_rmi_ps2_device_query_build_id build_id_tokens
      touchpad_device).1.self.in_backdoor = false ∧
    (fu_synaptics_rmi_ps2_device_query_build_id build_id_tokens other_stick_device).1.ok
      = false ∧
    (fu_synaptics_rmi_ps2_device_query_build_id build_id_tokens other_stick_device).1.error
      = none ∧
    (fu_synaptics_rmi_ps2_device_query_build_id build_id_tokens synaptics_stick_device).1.ok
      = true ∧
    (fu_synaptics_rmi_ps2_device_query_build_id build_id_tokens synaptics_stick_device).2
      = 0x123456 := by
  refine ⟨by decide, by decide, by decide, by decide, by decide, by decide, by decide,
    by decide, by decide⟩

/-- C24 (the code departs from the claim): when every attempt fails,
`fu_synaptics_rmi_ps2_device_sample_rate_sequence` gives up only when its
counter exceeds 3, that is after 5 attempts, not 4 (the comment in the source
says "allow 3 retries"): against a channel that rejects five writes the trace
is five rejected `SET_SCALING_1TO1` writes, and against a channel that rejects
four writes the fifth attempt is made, with two `SET_SCALING_1TO1`, and the call
succeeds. -/
theorem sample_rate_sequence_fifth_attempt :
    (fu_synaptics_rmi_ps2_device_sample_rate_sequence
      ⟨false, List.replicate 5 false, []⟩ 0x14 0x7F false).ok = false ∧
    (fu_synaptics_rmi_ps2_device_sample_rate_sequence
      ⟨false, List.replicate 5 false, []⟩ 0x14 0x7F false).trace
      = List.replicate 5 (Event.write_raw 0xE6 50 false) ∧
    (fu_synaptics_rmi_ps2_device_sample_rate_sequence
      ⟨false, List.replicate 4 false, List.replicate 12 (ReadResp.byte 0xFA)⟩
      0x14 0x7F false).ok = true ∧
    bytes_written (fu_synaptics_rmi_ps2_device_sample_rate_sequence
      ⟨false, List.replicate 4 false, List.replicate 12 (ReadResp.byte 0xFA)⟩
      0x14 0x7F false).trace
      = [0xE6, 0xE6, 0xE6, 0xE6,
          0xE6, 0xE6, 0xE8, 1, 0xE8, 3, 0xE8, 3, 0xE8, 3, 0xF3, 0x14] := by
  refine ⟨by decide, by decide, by decide, by decide⟩

/-- Whatever the device does, when the first four attempts of
`fu_synaptics_rmi_ps2_device_sample_rate_sequence` fail a fifth one is made, and
its result is the result of the call. -/
theorem sample_rate_sequence_five_attempts (self : FuSynapticsRmiPs2Device)
    (param arg : Nat) (send_e6s : Bool)
    (h1 : (sample_rate_attempt self param arg send_e6s).ok = false)
    (h2 : (sample_rate_attempt (sample_rate_attempt self param arg send_e6s).self
      param arg true).ok = false)
    (h3 : (sample_rate_attempt (sample_rate_attempt
      (sample_rate_attempt self param arg send_e6s).self param arg true).self
      param arg true).ok = false)
    (h4 : (sample_rate_attempt (sample_rate_attempt (sample_rate_attempt
      (sample_rate_attempt self param arg send_e6s).self param arg true).self
      param arg true).self param arg true).ok = false) :
    (fu_synaptics_rmi_ps2_device_sample_rate_sequence self param arg send_e6s).ok
      = (sample_rate_attempt (sample_rate_attempt (sample_rate_attempt (sample_rate_attempt
      (sample_rate_attempt self param arg send_e6s).self param arg true).self
      param arg true).self param arg true).self param arg true).ok ∧
    (fu_synaptics_rmi_ps2_device_sample_rate_sequence self param arg send_e6s).trace
      = (sample_rate_attempt self param arg send_e6s).trace ++
        (sample_rate_attempt (sample_rate_attempt self param arg send_e6s).self
          param arg true).trace ++
        (sample_rate_attempt (sample_rate_attempt
          (sample_rate_attempt self param arg send_e6s).self param arg true).self
          param arg true).trace ++
        (sample_rate_attempt (sample_rate_attempt (sample_rate_attempt
          (sample_rate_attempt self param arg send_e6s).self param arg true).self
          param arg true).self param arg true).trace ++
        (sample_rate_attempt (sample_rate_attempt (sample_rate_attempt (sample_rate_attempt
          (sample_rate_attempt self param arg send_e6s).self param arg true).self
          param arg true).self param arg true).self param arg true).trace := by
  unfold fu_synaptics_rmi_ps2_device_sample_rate_sequence
  simp only [sample_rate_loop, Nat.lt_irrefl, gt_iff_lt, if_false, h1, Bool.not_false, if_true,
    Nat.zero_lt_succ, Nat.zero_add, Nat.reduceAdd, Nat.reduceLT, h2, h3, h4, Option.map_some',
    Option.map, ite_self, List.append_assoc]
  exact ⟨trivial, trivial⟩

/-! ### Acknowledge reads that fail -/

theorem read_raw_nobyte (self : FuSynapticsRmiPs2Device) (pbuf timeout : Nat)
    (h : ∀ x ∈ self.reads, x.is_byte = false) :
    (fu_io_channel_read_raw self pbuf timeout).1.ok = false ∧
    (fu_io_channel_read_raw self pbuf timeout).1.error ≠ none ∧
    (∀ e ∈ (fu_io_channel_read_raw self pbuf timeout).1.trace, e.is_write = false) ∧
    (fu_io_channel_read_raw self pbuf timeout).1.self.writes = self.writes ∧
    (∀ x ∈ (fu_io_channel_read_raw self pbuf timeout).1.self.reads, x.is_byte = false) := by
  have hev : ∀ resp, ∀ e ∈ [Event.read_raw timeout resp], e.is_write = false := by
    intro resp e he
    rw [List.mem_singleton.mp he]
    rfl
  unfold fu_io_channel_read_raw
  split
  · exact ⟨rfl, by simp, hev _, rfl, h⟩
  · rename_i b rest hr
    have := h (ReadResp.byte b) (by rw [hr]; exact List.mem_cons_self _ _)
    exact absurd this (by simp [ReadResp.is_byte])
  · rename_i rest hr
    refine ⟨rfl, by simp, hev _, rfl, fun x hx => h x ?_⟩
    rw [hr]; exact List.mem_cons_of_mem _ hx
  · rename_i rest hr
    refine ⟨rfl, by simp, hev _, rfl, fun x hx => h x ?_⟩
    rw [hr]; exact List.mem_cons_of_mem _ hx

theorem read_ack_loop_nobyte (pbuf : Nat) (n : Nat) :
    ∀ (self : FuSynapticsRmiPs2Device), (∀ x ∈ self.reads, x.is_byte = false) →
      (read_ack_loop pbuf n self).1.ok = false ∧
      (read_ack_loop pbuf n self).1.error ≠ none ∧
      (∀ x ∈ (read_ack_loop pbuf n self).1.self.reads, x.is_byte = false) := by
  induction n with
  | zero =>
    intro self h
    exact ⟨rfl, by simp [read_ack_loop], h⟩
  | succ n ih =>
    intro self h
    unfold read_ack_loop
    simp only []
    obtain ⟨h1, h2, _, _, h5⟩ := read_raw_nobyte self pbuf 60 h
    generalize fu_io_channel_read_raw self pbuf 60 = r at h1 h2 h5 ⊢
    simp only [h1, Bool.false_eq_true, if_false]
    split
    · exact ih r.1.self h5
    · exact ⟨h1, h2, h5⟩

theorem bytes_written_reads (t : List Event) (h : ∀ e ∈ t, e.is_write = false) :
    bytes_written t = [] := by
  unfold bytes_written
  apply Pxi.filterMap_none
  intro e he
  have := h e he
  cases e with
  | write_raw _ _ _ => simp [Event.is_write] at this
  | read_raw _ _ => rfl

/-- The loop of `write_byte` against a device that delivers no byte: it fails,
and it transmits the byte only where `do_write` was set on entry. -/
theorem write_byte_loop_nobyte (buf timeout : Nat) (fuel : Nat) :
    ∀ (self : FuSynapticsRmiPs2Device) (do_write : Bool) (i : Nat) (r : Ps2Run),
      (∀ x ∈ self.reads, x.is_byte = false) →
      write_byte_loop buf timeout fuel self do_write i = some r →
        r.ok = false ∧
        bytes_written r.trace = (if do_write then [buf] else []) ∧
        ((∀ w ∈ self.writes, w = true) →
          ∃ e0, r.error = g_prefix_error (some e0) "read ack failed: " []) := by
  induction fuel with
  | zero => intro self do_write i r _ h; simp [write_byte_loop] at h
  | succ fuel ih =>
    intro self do_write i r hno h
    unfold write_byte_loop at h
    simp only [] at h
    have hw : ∀ w : Ps2Run,
        w = (if do_write = true then fu_io_channel_write_raw self buf timeout
          else (⟨true, none, self, []⟩ : Ps2Run)) →
        w.self.reads = self.reads ∧
        bytes_written w.trace = (if do_write then [buf] else []) ∧
        ((∀ x ∈ self.writes, x = true) → w.ok = true ∧ ∀ x ∈ w.self.writes, x = true) := by
      intro w hw
      cases do_write with
      | false =>
        rw [hw]
        exact ⟨rfl, rfl, fun hacc => ⟨rfl, hacc⟩⟩
      | true =>
        rw [hw]
        simp only [if_true]
        obtain ⟨w1, _, w3⟩ := write_raw_spec self buf timeout
        refine ⟨w1, by rw [w3]; rfl, fun hacc => ?_⟩
        obtain ⟨a1, _, _, a4⟩ := write_raw_accepting self buf timeout hacc
        exact ⟨a1, a4⟩
    obtain ⟨hw1, hw2, hw3⟩ := hw _ rfl
    generalize (if do_write = true then fu_io_channel_write_raw self buf timeout
      else (⟨true, none, self, []⟩ : Ps2Run)) = w at h hw1 hw2 hw3
    cases hwok : w.ok with
    | false =>
      simp only [hwok, Bool.not_false, if_true, Option.some.injEq] at h
      subst h
      refine ⟨hwok, hw2, fun hacc => ?_⟩
      have := (hw3 hacc).1
      rw [hwok] at this
      exact absurd this (by decide)
    | true =>
      simp only [hwok, Bool.not_true, Bool.false_eq_true, if_false] at h
      unfold fu_synaptics_rmi_ps2_device_read_ack at h
      obtain ⟨ha1, ha2, ha3⟩ := read_ack_loop_nobyte 0 60 w.self (by rw [hw1]; exact hno)
      obtain ⟨hb1, hb2, _, _, _⟩ := read_ack_loop_spec 0 60 w.self
      generalize read_ack_loop 0 60 w.self = a at h ha1 ha2 ha3 hb1 hb2
      simp only [ha1, Bool.not_false, if_true] at h
      have hseen : bytes_written (w.trace ++ a.1.trace) = (if do_write then [buf] else []) := by
        rw [bytes_written_append, hw2, bytes_written_reads _ hb1, List.append_nil]
      by_cases hi : i > 3
      · rw [if_pos hi] at h
        simp only [Option.some.injEq] at h
        subst h
        refine ⟨rfl, hseen, fun _ => ?_⟩
        cases herr : a.1.error with
        | none => exact absurd herr ha2
        | some e0 => exact ⟨e0, rfl⟩
      · rw [if_neg hi] at h
        obtain ⟨l, hl, hlr⟩ := Option.map_eq_some'.mp h
        obtain ⟨i1, i2, i3⟩ := ih a.1.self false _ l ha3 hl
        subst hlr
        refine ⟨i1, ?_, fun hacc => ?_⟩
        · show bytes_written (w.trace ++ a.1.trace ++ l.trace) = _
          rw [bytes_written_append, hseen, i2]
          simp
        · exact i3 (by rw [hb2]; exact (hw3 hacc).2)

/-- C23 (counterexample): against a device whose five acknowledge reads fail,
`fu_synaptics_rmi_ps2_device_write_byte` transmits the byte once and then makes
five acknowledge reads before it returns failure: the byte is not transmitted
again after a failed acknowledge read, and the reads are more than 4. -/
theorem write_byte_no_retransmission :
    (fu_synaptics_rmi_ps2_device_write_byte
      ⟨false, [], List.replicate 5 ReadResp.error⟩ 0x11 50).ok = false ∧
    (fu_synaptics_rmi_ps2_device_write_byte
      ⟨false, [], List.replicate 5 ReadResp.error⟩ 0x11 50).trace
      = Event.write_raw 0x11 50 true :: List.replicate 5 (Event.read_raw 60 ReadResp.error) ∧
    bytes_written (fu_synaptics_rmi_ps2_device_write_byte
      ⟨false, [], List.replicate 5 ReadResp.error⟩ 0x11 50).trace = [0x11] := by
  refine ⟨by decide, by decide, by decide⟩

/-- C23 (amended): if every acknowledge read fails (the device delivers no byte),
`fu_synaptics_rmi_ps2_device_write_byte` transmits the byte exactly once, reads
the acknowledge again without transmitting, and returns failure, with the error
of the last read prefixed by "read ack failed: " when the channel accepted the
byte; its loop returns, so the call terminates. -/
theorem write_byte_ack_read_failures (self : FuSynapticsRmiPs2Device) (buf timeout : Nat)
    (ht : timeout > 0) (h : ∀ x ∈ self.reads, x.is_byte = false) :
    (∃ r, write_byte_loop buf timeout (write_byte_fuel self) self true 0 = some r) ∧
    (fu_synaptics_rmi_ps2_device_write_byte self buf timeout).ok = false ∧
    bytes_written (fu_synaptics_rmi_ps2_device_write_byte self buf timeout).trace = [buf] ∧
    ((∀ w ∈ self.writes, w = true) →
      ∃ e0, (fu_synaptics_rmi_ps2_device_write_byte self buf timeout).error
        = g_prefix_error (some e0) "read ack failed: " []) := by
  obtain ⟨r, hr⟩ := write_byte_returns self buf timeout
  obtain ⟨h1, h2, h3⟩ := write_byte_loop_nobyte buf timeout _ self true 0 r h hr
  have hrun : fu_synaptics_rmi_ps2_device_write_byte self buf timeout = r := by
    unfold fu_synaptics_rmi_ps2_device_write_byte
    rw [if_pos ht, hr]
  rw [hrun]
  exact ⟨⟨r, hr⟩, h1, h2, h3⟩

/-- Witness of C23 (amended): a device that is silent (every read times out). -/
theorem write_byte_ack_read_failures_witness :
    (50 > 0 ∧ ∀ x ∈ (⟨false, [], []⟩ : FuSynapticsRmiPs2Device).reads, x.is_byte = false) ∧
    (fu_synaptics_rmi_ps2_device_write_byte ⟨false, [], []⟩ 0x11 50).ok = false ∧
    bytes_written (fu_synaptics_rmi_ps2_device_write_byte ⟨false, [], []⟩ 0x11 50).trace
      = [0x11] :=
  have h := write_byte_ack_read_failures ⟨false, [], []⟩ 0x11 50 (by decide)
    (fun x hx => (nomatch hx))
  ⟨⟨by decide, fun x hx => (nomatch hx)⟩, h.2.1, h.2.2.1⟩

end Ps2

/-! ## Synaptics RMI over PS/2: sequences of commands -/

namespace Ps2

theorem same_refl (r : Ps2Run) : Same r r := ⟨rfl, rfl, rfl⟩

theorem same_symm {r1 r2 : Ps2Run} (h : Same r1 r2) : Same r2 r1 :=
  ⟨h.1.symm, h.2.1.symm, h.2.2.symm⟩

theorem same_trans {r1 r2 r3 : Ps2Run} (h1 : Same r1 r2) (h2 : Same r2 r3) : Same r1 r3 :=
  ⟨h1.1.trans h2.1, h1.2.1.trans h2.2.1, h1.2.2.trans h2.2.2⟩

theorem same_prefix_error (r : Ps2Run) (pfx : String) (args : List Nat) :
    Same (r.prefix_error pfx args) r := by
  unfold Run.prefix_error
  split <;> exact ⟨rfl, rfl, rfl⟩

theorem same_onto (r : Ps2Run) (error : Option GError) : Same (r.onto error) r := by
  unfold Run.onto
  split <;> exact ⟨rfl, rfl, rfl⟩

theorem same_and_then {r1 r2 : Ps2Run} {f1 f2 : FuSynapticsRmiPs2Device → Ps2Run}
    (h : Same r1 r2) (hf : ∀ s, Same (f1 s) (f2 s)) :
    Same (r1.and_then f1) (r2.and_then f2) := by
  obtain ⟨h1, h2, h3⟩ := h
  unfold Run.and_then
  cases hok : r1.ok with
  | false =>
    rw [← h1, hok]
    exact ⟨by simpa using hok.trans (by rw [← hok, h1]), by simpa using h2, by simpa using h3⟩
  | true =>
    rw [← h1, hok]
    obtain ⟨g1, g2, g3⟩ := hf r1.self
    simp only [if_true]
    rw [← h2, ← h3]
    exact ⟨g1, g2, by rw [g3]⟩

theorem same_and_then_assoc (r : Ps2Run) (f g : FuSynapticsRmiPs2Device → Ps2Run) :
    Same ((r.and_then f).and_then g) (r.and_then (fun s => (f s).and_then g)) := by
  unfold Run.and_then
  cases hr : r.ok with
  | false => simp [hr, Same]
  | true =>
    cases hf : (f r.self).ok with
    | false => simp [hf, Same]
    | true => simp [hf, Same, List.append_assoc]

theorem same_and_then_pure (s : FuSynapticsRmiPs2Device)
    (f : FuSynapticsRmiPs2Device → Ps2Run) :
    Same ((⟨true, none, s, []⟩ : Ps2Run).and_then f) (f s) := by
  unfold Run.and_then
  simp [Same]

theorem same_and_then_done (r : Ps2Run) :
    Same (r.and_then (fun s => (⟨true, none, s, []⟩ : Ps2Run))) r := by
  unfold Run.and_then
  cases hr : r.ok with
  | false => simp [Same]
  | true => simp [Same, hr]

theorem and_then_all (P : Event → Prop) (r : Ps2Run) (f : FuSynapticsRmiPs2Device → Ps2Run)
    (h1 : ∀ e ∈ r.trace, P e) (h2 : ∀ s, ∀ e ∈ (f s).trace, P e) :
    ∀ e ∈ (r.and_then f).trace, P e := by
  unfold Run.and_then
  split
  · exact List.forall_mem_append.mpr ⟨h1, h2 _⟩
  · exact h1

theorem read_ack_loop_all (P : Event → Prop) (hr : ∀ resp, P (Event.read_raw 60 resp))
    (pbuf : Nat) (n : Nat) :
    ∀ (self : FuSynapticsRmiPs2Device), ∀ e ∈ (read_ack_loop pbuf n self).1.trace, P e := by
  induction n with
  | zero => intro self e he; cases he
  | succ n ih =>
    intro self
    unfold read_ack_loop
    simp only []
    have hs : ∀ e ∈ (fu_io_channel_read_raw self pbuf 60).1.trace, P e := by
      intro e he
      rcases read_raw_spec self pbuf 60 with ⟨b, _, h2, _, _⟩ | ⟨resp, _, h2, _⟩
      · rw [h2] at he; rw [List.mem_singleton.mp he]; exact hr _
      · rw [h2] at he; rw [List.mem_singleton.mp he]; exact hr _
    generalize fu_io_channel_read_raw self pbuf 60 = r at hs ⊢
    split
    · exact hs
    · split
      · exact List.forall_mem_append.mpr ⟨hs, ih _⟩
      · exact hs

theorem write_byte_loop_all (P : Event → Prop) (buf timeout : Nat)
    (hw : ∀ ok, P (Event.write_raw buf timeout ok))
    (hr : ∀ resp, P (Event.read_raw 60 resp)) (fuel : Nat) :
    ∀ (self : FuSynapticsRmiPs2Device) (do_write : Bool) (i : Nat) (r : Ps2Run),
      write_byte_loop buf timeout fuel self do_write i = some r → ∀ e ∈ r.trace, P e := by
  induction fuel with
  | zero => intro self do_write i r h; simp [write_byte_loop] at h
  | succ fuel ih =>
    intro self do_write i r h
    unfold write_byte_loop at h
    simp only [] at h
    have hwt : ∀ e ∈ (if do_write = true then fu_io_channel_write_raw self buf timeout
        else (⟨true, none, self, []⟩ : Ps2Run)).trace, P e := by
      cases do_write with
      | false => intro e he; cases he
      | true =>
        intro e he
        simp only [if_true] at he
        rw [(write_raw_spec self buf timeout).2.2] at he
        rw [List.mem_singleton.mp he]
        exact hw _
    generalize (if do_write = true then fu_io_channel_write_raw self buf timeout
      else (⟨true, none, self, []⟩ : Ps2Run)) = w at h hwt
    cases hwok : w.ok with
    | false =>
      simp only [hwok, Bool.not_false, if_true, Option.some.injEq] at h
      subst h
      exact hwt
    | true =>
      simp only [hwok, Bool.not_true, Bool.false_eq_true, if_false] at h
      unfold fu_synaptics_rmi_ps2_device_read_ack at h
      have ha := read_ack_loop_all P hr 0 60 w.self
      generalize read_ack_loop 0 60 w.self = a at h ha
      have hseen : ∀ e ∈ w.trace ++ a.1.trace, P e := List.forall_mem_append.mpr ⟨hwt, ha⟩
      have hrec : ∀ dw : Bool,
          Option.map (fun l : Ps2Run => ({ l with trace := w.trace ++ a.1.trace ++ l.trace } : Ps2Run))
            (write_byte_loop buf timeout fuel a.1.self dw ((i + 1) % 4294967296)) = some r →
          ∀ e ∈ r.trace, P e := by
        intro dw hm
        obtain ⟨l, hl, hlr⟩ := Option.map_eq_some'.mp hm
        subst hlr
        exact List.forall_mem_append.mpr ⟨hseen, ih a.1.self dw _ l hl⟩
      cases haok : a.1.ok with
      | false =>
        simp only [haok, Bool.not_false, if_true] at h
        by_cases hi : i > 3
        · rw [if_pos hi] at h
          simp only [Option.some.injEq] at h
          subst h
          exact hseen
        · rw [if_neg hi] at h
          exact hrec false h
      | true =>
        simp only [haok, Bool.not_true, Bool.false_eq_true, if_false] at h
        by_cases hack : a.2 = edpsAcknowledge
        · rw [if_pos hack] at h
          simp only [Option.some.injEq] at h
          subst h
          exact hseen
        · rw [if_neg hack] at h
          by_cases hres : a.2 = edpsResend
          · rw [if_pos hres] at h
            exact hrec true h
          · rw [if_neg hres] at h
            by_cases herr : a.2 = edpsError
            · rw [if_pos herr] at h
              exact hrec true h
            · rw [if_neg herr] at h
              exact hrec false h

/-- The events of a `write_byte`: transmissions of the byte with the timeout of
the call, and acknowledge reads with the timeout 60. -/
theorem write_byte_all (P : Event → Prop) (self : FuSynapticsRmiPs2Device) (buf timeout : Nat)
    (hw : ∀ ok, P (Event.write_raw buf timeout ok))
    (hr : ∀ resp, P (Event.read_raw 60 resp)) :
    ∀ e ∈ (fu_synaptics_rmi_ps2_device_write_byte self buf timeout).trace, P e := by
  unfold fu_synaptics_rmi_ps2_device_write_byte
  split
  · split
    · rename_i r hr2
      exact write_byte_loop_all P buf timeout hw hr _ self true 0 r hr2
    · intro e he; cases he
  · intro e he; cases he

theorem write_bytes_all (P : Event → Prop) (timeout : Nat)
    (hw : ∀ b ok, P (Event.write_raw b timeout ok))
    (hr : ∀ resp, P (Event.read_raw 60 resp)) (cmds : List Nat) :
    ∀ (self : FuSynapticsRmiPs2Device), ∀ e ∈ (write_bytes timeout cmds self).trace, P e := by
  induction cmds with
  | nil => intro self e he; cases he
  | cons b rest ih =>
    intro self
    unfold write_bytes
    exact and_then_all P _ _ (write_byte_all P self b timeout (hw b) hr) ih

theorem write_bytes_acked (timeout : Nat) (ht : timeout > 0) (cmds : List Nat) :
    ∀ (self : FuSynapticsRmiPs2Device) (rest : List ReadResp),
      self.reads = List.replicate cmds.length (ReadResp.byte 0xFA) ++ rest →
      (∀ w ∈ self.writes, w = true) →
      (write_bytes timeout cmds self).ok = true ∧
      bytes_written (write_bytes timeout cmds self).trace = cmds ∧
      (write_bytes timeout cmds self).self.reads = rest ∧
      (∀ w ∈ (write_bytes timeout cmds self).self.writes, w = true) := by
  induction cmds with
  | nil =>
    intro self rest hreads hw
    exact ⟨rfl, rfl, by simpa using hreads, hw⟩
  | cons b bs ih =>
    intro self rest hreads hw
    rw [List.length_cons, List.replicate_succ, List.cons_append] at hreads
    obtain ⟨h1, h2, h3, h4⟩ := write_byte_acked self b timeout _ ht hreads hw
    obtain ⟨i1, i2, i3, i4⟩ := ih _ rest h3 h4
    unfold write_bytes
    obtain ⟨a1, a2, a3⟩ := and_then_of_ok _ (write_bytes timeout bs) h1
    rw [a1, a2, a3, bytes_written_append, i2, h2]
    exact ⟨i1, rfl, i3, i4⟩

theorem shl8_or (a b : Nat) (ha : a < 16777216) (hb : b < 256) :
    Nat.lor ((a * 256) % 4294967296) b = a * 256 + b := by
  rw [Nat.mod_eq_of_lt (by omega)]
  have h := Nat.mul_add_lt_is_or (i := 8) hb a
  have h256 : (2 : Nat) ^ 8 = 256 := by decide
  rw [h256, Nat.mul_comm 256 a] at h
  exact h.symm

theorem le_word_or (r0 r1 r2 : Nat) (h0 : r0 < 256) (h1 : r1 < 256) (h2 : r2 < 256) :
    Nat.lor (Nat.lor (Nat.lor 0 ((r0 * 2 ^ (8 * 0)) % 4294967296))
      ((r1 * 2 ^ (8 * (0 + 1))) % 4294967296)) ((r2 * 2 ^ (8 * (0 + 1 + 1))) % 4294967296)
      = r0 + r1 * 256 + r2 * 65536 := by
  have e0 : (r0 * 2 ^ (8 * 0)) % 4294967296 = r0 := by
    rw [Nat.mul_zero, Nat.pow_zero, Nat.mul_one]; exact Nat.mod_eq_of_lt (by omega)
  have e1 : (r1 * 2 ^ (8 * (0 + 1))) % 4294967296 = 2 ^ 8 * r1 := by
    have : (2 : Nat) ^ (8 * (0 + 1)) = 2 ^ 8 := by decide
    rw [this, Nat.mul_comm]; exact Nat.mod_eq_of_lt (by omega)
  have e2 : (r2 * 2 ^ (8 * (0 + 1 + 1))) % 4294967296 = 2 ^ 16 * r2 := by
    have : (2 : Nat) ^ (8 * (0 + 1 + 1)) = 2 ^ 16 := by decide
    rw [this, Nat.mul_comm]; exact Nat.mod_eq_of_lt (by omega)
  rw [e0, e1, e2]
  show ((0 ||| r0) ||| 2 ^ 8 * r1) ||| 2 ^ 16 * r2 = _
  rw [Nat.zero_or, Nat.or_comm r0, ← Nat.mul_add_lt_is_or (by omega : r0 < 2 ^ 8),
    Nat.or_comm, ← Nat.mul_add_lt_is_or (by omega : 2 ^ 8 * r1 + r0 < 2 ^ 16)]
  omega

/-! ### Reading a register -/

theorem enable_rmi_backdoor_done (k : Tokens) (self : FuSynapticsRmiPs2Device)
    (h : self.in_backdoor = true) :
    fu_synaptics_rmi_ps2_device_enable_rmi_backdoor k self = ⟨true, none, self, []⟩ := by
  unfold fu_synaptics_rmi_ps2_device_enable_rmi_backdoor
  rw [if_pos h]

/-- The four `write_byte` calls of a register read are the sequence
`write_bytes` of the four commands. -/
theorem read_command_same (self : FuSynapticsRmiPs2Device) (a timeout : Nat) (pfx : String) :
    Same (((((fu_synaptics_rmi_ps2_device_write_byte self edpAuxSetScaling2To1 timeout).and_then
        (fun s => fu_synaptics_rmi_ps2_device_write_byte s edpAuxSetSampleRate timeout)).and_then
        (fun s => fu_synaptics_rmi_ps2_device_write_byte s a timeout)).and_then
        (fun s => fu_synaptics_rmi_ps2_device_write_byte s edpAuxStatusRequest timeout)).prefix_error
        pfx [])
      (write_bytes timeout [0xE7, 0xF3, a, 0xE9] self) := by
  refine same_trans (same_prefix_error _ _ _) ?_
  refine same_trans (same_and_then_assoc _ _ _) ?_
  refine same_trans (same_and_then_assoc _ _ _) ?_
  unfold write_bytes
  refine same_and_then (same_refl _) (fun s1 => ?_)
  unfold write_bytes
  refine same_and_then (same_refl _) (fun s2 => ?_)
  unfold write_bytes
  refine same_and_then (same_refl _) (fun s3 => ?_)
  unfold write_bytes
  have hnil : write_bytes timeout [] = fun s => (⟨true, none, s, []⟩ : Ps2Run) := by
    funext s; rfl
  rw [hnil]
  exact same_symm (same_and_then_done _)

theorem read_rmi_register_bytes_ok (s : FuSynapticsRmiPs2Device)
    (h : (read_rmi_register_bytes 3 0 0 s).1.ok = true) :
    ∃ r0 r1 r2 rest, s.reads
      = ReadResp.byte r0 :: ReadResp.byte r1 :: ReadResp.byte r2 :: rest := by
  obtain ⟨bd, ws, rs⟩ := s
  rcases rs with _ | ⟨x, _ | ⟨y, _ | ⟨z, rest⟩⟩⟩
  · simp [read_rmi_register_bytes, fu_synaptics_rmi_ps2_device_read_byte,
      fu_io_channel_read_raw] at h
  · cases x <;> simp [read_rmi_register_bytes, fu_synaptics_rmi_ps2_device_read_byte,
      fu_io_channel_read_raw] at h
  · cases x <;> cases y <;> simp [read_rmi_register_bytes,
      fu_synaptics_rmi_ps2_device_read_byte, fu_io_channel_read_raw] at h
  · cases x <;> cases y <;> cases z <;> simp [read_rmi_register_bytes,
      fu_synaptics_rmi_ps2_device_read_byte, fu_io_channel_read_raw] at h
    exact ⟨_, _, _, rest, rfl⟩

theorem read_rmi_register_bytes_run (s : FuSynapticsRmiPs2Device) (r0 r1 r2 : Nat)
    (rest : List ReadResp)
    (h : s.reads = ReadResp.byte r0 :: ReadResp.byte r1 :: ReadResp.byte r2 :: rest) :
    (read_rmi_register_bytes 3 0 0 s).1.ok = true ∧
    (read_rmi_register_bytes 3 0 0 s).1.trace
      = [Event.read_raw 500 (ReadResp.byte r0), Event.read_raw 500 (ReadResp.byte r1),
          Event.read_raw 500 (ReadResp.byte r2)] ∧
    (read_rmi_register_bytes 3 0 0 s).1.self.reads = rest ∧
    (read_rmi_register_bytes 3 0 0 s).2
      = r0 % 256 + r1 % 256 * 256 + r2 % 256 * 65536 := by
  obtain ⟨bd, ws, rs⟩ := s
  simp only [] at h
  subst h
  refine ⟨rfl, rfl, rfl, ?_⟩
  exact le_word_or (r0 % 256) (r1 % 256) (r2 % 256) (Nat.mod_lt _ (by decide))
    (Nat.mod_lt _ (by decide)) (Nat.mod_lt _ (by decide))

end Ps2
/-! ## Synaptics RMI over PS/2: register read and write -/

namespace Ps2

theorem prefix_error_of_ok (r : Ps2Run) (pfx : String) (args : List Nat) (h : r.ok = true) :
    r.prefix_error pfx args = r := by
  unfold Run.prefix_error
  rw [if_pos h]

theorem prefix_error_trace (r : Ps2Run) (pfx : String) (args : List Nat) :
    (r.prefix_error pfx args).trace = r.trace := (same_prefix_error r pfx args).2.2

theorem and_then_ok_iff (r : Ps2Run) (next : FuSynapticsRmiPs2Device → Ps2Run) :
    (r.and_then next).ok = true ↔ r.ok = true ∧ (next r.self).ok = true := by
  unfold Run.and_then
  cases hr : r.ok with
  | false => simp [hr]
  | true => simp

/-- Once its backdoor-enable step succeeded,
`fu_synaptics_rmi_ps2_device_read_rmi_register` for an 8-bit `addr` issues the
`write_byte` calls for `0xE7, 0xF3, addr, 0xE9` with timeout 50 and nothing else
before the response; when one of them fails it returns failure without a
response read; a call that succeeds then made exactly three response reads,
which delivered `r0, r1, r2`, and returns the low 8 bits of
`r0 + r1 * 256 + r2 * 65536`, that is `r0`; and it does succeed when the three
bytes are delivered. -/
theorem read_rmi_register_after_enable (k : Tokens) (self : FuSynapticsRmiPs2Device)
    (addr buf : Nat) (haddr : addr < 256)
    (he : (fu_synaptics_rmi_ps2_device_enable_rmi_backdoor k self).ok = true) :
    ((write_bytes 50 [0xE7, 0xF3, addr, 0xE9]
        (fu_synaptics_rmi_ps2_device_enable_rmi_backdoor k self).self).ok = false →
      (fu_synaptics_rmi_ps2_device_read_rmi_register k self addr buf).1.ok = false ∧
      (fu_synaptics_rmi_ps2_device_read_rmi_register k self addr buf).1.trace
        = (fu_synaptics_rmi_ps2_device_enable_rmi_backdoor k self).trace
          ++ (write_bytes 50 [0xE7, 0xF3, addr, 0xE9]
            (fu_synaptics_rmi_ps2_device_enable_rmi_backdoor k self).self).trace ∧
      (fu_synaptics_rmi_ps2_device_read_rmi_register k self addr buf).2 = buf) ∧
    ((fu_synaptics_rmi_ps2_device_read_rmi_register k self addr buf).1.ok = true →
      (write_bytes 50 [0xE7, 0xF3, addr, 0xE9]
        (fu_synaptics_rmi_ps2_device_enable_rmi_backdoor k self).self).ok = true ∧
      ∃ r0 r1 r2,
        (fu_synaptics_rmi_ps2_device_read_rmi_register k self addr buf).1.trace
          = (fu_synaptics_rmi_ps2_device_enable_rmi_backdoor k self).trace
            ++ (write_bytes 50 [0xE7, 0xF3, addr, 0xE9]
              (fu_synaptics_rmi_ps2_device_enable_rmi_backdoor k self).self).trace ++
            [Event.read_raw 500 (ReadResp.byte r0), Event.read_raw 500 (ReadResp.byte r1),
              Event.read_raw 500 (ReadResp.byte r2)] ∧
        (fu_synaptics_rmi_ps2_device_read_rmi_register k self addr buf).2
          = (r0 % 256 + r1 % 256 * 256 + r2 % 256 * 65536) % 256 ∧
        (fu_synaptics_rmi_ps2_device_read_rmi_register k self addr buf).2 = r0 % 256) ∧
    ((write_bytes 50 [0xE7, 0xF3, addr, 0xE9]
        (fu_synaptics_rmi_ps2_device_enable_rmi_backdoor k self).self).ok = true →
      ∀ r0 r1 r2 rest,
        (write_bytes 50 [0xE7, 0xF3, addr, 0xE9]
          (fu_synaptics_rmi_ps2_device_enable_rmi_backdoor k self).self).self.reads
          = ReadResp.byte r0 :: ReadResp.byte r1 :: ReadResp.byte r2 :: rest →
        (fu_synaptics_rmi_ps2_device_read_rmi_register k self addr buf).1.ok = true ∧
        (fu_synaptics_rmi_ps2_device_read_rmi_register k self addr buf).2 = r0 % 256) ∧
    (∀ e ∈ (write_bytes 50 [0xE7, 0xF3, addr, 0xE9]
        (fu_synaptics_rmi_ps2_device_enable_rmi_backdoor k self).self).trace,
      e.is_response_read = false) := by
  unfold fu_synaptics_rmi_ps2_device_read_rmi_register
  generalize fu_synaptics_rmi_ps2_device_enable_rmi_backdoor k self = en at he ⊢
  have hc := read_command_same en.self addr 50 "failed to write command in Read RMI register: "
  rw [prefix_error_of_ok en _ _ he, Nat.mod_eq_of_lt haddr]
  simp only [he, Bool.not_true, Bool.false_eq_true, if_false]
  generalize (((((fu_synaptics_rmi_ps2_device_write_byte en.self edpAuxSetScaling2To1 50).and_then
        (fun s => fu_synaptics_rmi_ps2_device_write_byte s edpAuxSetSampleRate 50)).and_then
        (fun s => fu_synaptics_rmi_ps2_device_write_byte s addr 50)).and_then
        (fun s => fu_synaptics_rmi_ps2_device_write_byte s edpAuxStatusRequest 50)).prefix_error
        "failed to write command in Read RMI register: " []) = c at hc ⊢
  obtain ⟨hc1, hc2, hc3⟩ := hc
  rw [← hc1, ← hc2, ← hc3]
  have hmod : ∀ r0 r1 r2 : Nat,
      (r0 % 256 + r1 % 256 * 256 + r2 % 256 * 65536) % 256 = r0 % 256 := by
    intro r0 r1 r2; omega
  refine ⟨?_, ?_, ?_, ?_⟩
  · intro hfail
    simp [hfail]
  · intro hok
    cases hcok : c.ok with
    | false => simp [hcok] at hok
    | true =>
      simp only [hcok, Bool.not_true, Bool.false_eq_true, if_false] at hok ⊢
      cases hrok : (read_rmi_register_bytes 3 0 0 c.self).1.ok with
      | false => simp [hrok] at hok
      | true =>
        obtain ⟨r0, r1, r2, rest, hreads⟩ := read_rmi_register_bytes_ok c.self hrok
        obtain ⟨_, g2, _, g4⟩ := read_rmi_register_bytes_run c.self r0 r1 r2 rest hreads
        simp only [hrok, Bool.not_true, Bool.false_eq_true, if_false]
        refine ⟨trivial, r0, r1, r2, by rw [g2], by rw [g4], by rw [g4, hmod]⟩
  · intro hcok r0 r1 r2 rest hreads
    obtain ⟨g1, _, _, g4⟩ := read_rmi_register_bytes_run c.self r0 r1 r2 rest hreads
    simp only [hcok, g1, Bool.not_true, Bool.false_eq_true, if_false]
    exact ⟨trivial, by rw [g4, hmod]⟩
  · rw [hc3]
    exact write_bytes_all (fun e => e.is_response_read = false) 50 (fun _ _ => rfl)
      (fun _ => rfl) _ en.self

/-- C26 (the code departs from the claim): every
`fu_synaptics_rmi_ps2_device_read_rmi_register` starts with the events of its
backdoor-enable step, and that step never sets `in_backdoor`. So on a fresh
device that acknowledges every byte and answers `12 34 56`, after a successful
`fu_synaptics_rmi_ps2_device_enable_rmi_backdoor` the read of register 0x10
succeeds with the value 0x12 after three response reads, but it transmitted the
12 bytes of the backdoor prefix again before `E7 F3 10 E9`: 16 bytes, not
exactly the four of the claim. -/
theorem read_rmi_register_reemits_prefix :
    (∀ (k : Tokens) (self : FuSynapticsRmiPs2Device) (addr buf : Nat), ∃ rest,
      (fu_synaptics_rmi_ps2_device_read_rmi_register k self addr buf).1.trace
        = (fu_synaptics_rmi_ps2_device_enable_rmi_backdoor k self).trace ++ rest) ∧
    (fu_synaptics_rmi_ps2_device_enable_rmi_backdoor example_tokens register_device).ok = true ∧
    bytes_written
      (fu_synaptics_rmi_ps2_device_enable_rmi_backdoor example_tokens register_device).trace
      = backdoor_prefix ∧
    (fu_synaptics_rmi_ps2_device_enable_rmi_backdoor example_tokens
      register_device).self.in_backdoor = false ∧
    (fu_synaptics_rmi_ps2_device_read_rmi_register example_tokens
      (fu_synaptics_rmi_ps2_device_enable_rmi_backdoor example_tokens register_device).self
      0x10 0).1.ok = true ∧
    (fu_synaptics_rmi_ps2_device_read_rmi_register example_tokens
      (fu_synaptics_rmi_ps2_device_enable_rmi_backdoor example_tokens register_device).self
      0x10 0).2 = 0x12 ∧
    (fu_synaptics_rmi_ps2_device_read_rmi_register example_tokens
      (fu_synaptics_rmi_ps2_device_enable_rmi_backdoor example_tokens register_device).self
      0x10 0).1.trace.filter Event.is_response_read
      = [Event.read_raw 500 (ReadResp.byte 0x12), Event.read_raw 500 (ReadResp.byte 0x34),
          Event.read_raw 500 (ReadResp.byte 0x56)] ∧
    bytes_written (fu_synaptics_rmi_ps2_device_read_rmi_register example_tokens
      (fu_synaptics_rmi_ps2_device_enable_rmi_backdoor example_tokens register_device).self
      0x10 0).1.trace
      = backdoor_prefix ++ [0xE7, 0xF3, 0x10, 0xE9] ∧
    bytes_written (fu_synaptics_rmi_ps2_device_read_rmi_register example_tokens
      (fu_synaptics_rmi_ps2_device_enable_rmi_backdoor example_tokens register_device).self
      0x10 0).1.trace
      ≠ [0xE7, 0xF3, 0x10, 0xE9] := by
  refine ⟨?_, by decide, by decide, by decide, by decide, by decide, by decide, by decide,
    by decide⟩
  intro k self addr buf
  unfold fu_synaptics_rmi_ps2_device_read_rmi_register
  simp only []
  split
  · exact ⟨[], by rw [prefix_error_trace, List.append_nil]⟩
  · split
    · exact ⟨_, by rw [prefix_error_trace]⟩
    · split
      · exact ⟨_, by rw [prefix_error_trace, List.append_assoc]⟩
      · exact ⟨_, by rw [prefix_error_trace, List.append_assoc]⟩

/-! ### Writing a register -/

theorem write_rmi_register_bytes_same (timeout : Nat) (bytes : List Nat) :
    ∀ (i : Nat) (s : FuSynapticsRmiPs2Device),
      Same (write_rmi_register_bytes timeout bytes i s)
        (write_bytes timeout (bytes.flatMap (fun b => [0xF3, b])) s) := by
  induction bytes with
  | nil => intro i s; exact same_refl _
  | cons b rest ih =>
    intro i s
    have hflat : (b :: rest).flatMap (fun b => [0xF3, b])
        = 0xF3 :: b :: rest.flatMap (fun b => [0xF3, b]) := by
      simp [List.flatMap_cons]
    rw [hflat]
    unfold write_rmi_register_bytes
    refine same_trans (same_and_then_assoc _ _ _) ?_
    unfold write_bytes
    refine same_and_then (same_prefix_error _ _ _) (fun s1 => ?_)
    unfold write_bytes
    exact same_and_then (same_prefix_error _ _ _) (fun s2 => ih (i + 1) s2)

/-- The function `write_rmi_register` is its backdoor-enable step followed by
the sequence of `write_byte` calls for the address commands and a
`SET_SAMPLE_RATE` pair for each of the first `buflen mod 256` bytes. -/
theorem write_rmi_register_same (k : Tokens) (s : FuSynapticsRmiPs2Device)
    (a : Nat) (buf : List Nat) (buflen timeout : Nat) (ht : timeout > 0) :
    Same (fu_synaptics_rmi_ps2_device_write_rmi_register k s a buf buflen timeout)
      ((fu_synaptics_rmi_ps2_device_enable_rmi_backdoor k s).and_then
        (write_bytes timeout ([0xE7, 0xF3, a % 256]
          ++ (buf.take (buflen % 256)).flatMap (fun b => [0xF3, b])))) := by
  unfold fu_synaptics_rmi_ps2_device_write_rmi_register
  rw [if_pos ht]
  refine same_trans (same_and_then_assoc _ _ _) ?_
  refine same_trans (same_and_then_assoc _ _ _) ?_
  refine same_trans (same_and_then_assoc _ _ _) ?_
  refine same_and_then (same_prefix_error _ _ _) (fun s0 => ?_)
  simp only [List.cons_append, List.nil_append]
  unfold write_bytes
  refine same_and_then (same_prefix_error _ _ _) (fun s1 => ?_)
  unfold write_bytes
  refine same_and_then (same_prefix_error _ _ _) (fun s2 => ?_)
  unfold write_bytes
  exact same_and_then (same_prefix_error _ _ _)
    (fun s3 => write_rmi_register_bytes_same timeout _ 0 s3)

theorem pairs_length (req : List Nat) :
    (req.flatMap (fun b => [0xF3, b])).length = 2 * req.length := by
  induction req with
  | nil => rfl
  | cons b rest ih =>
    rw [List.flatMap_cons, List.length_append, ih, List.length_cons]
    simp only [List.length_cons, List.length_nil]
    omega

set_option maxRecDepth 16384 in
/-- C27 (counterexample): a request of 256 bytes, all of them 7, written at
address 0x0123 to a fresh device that acknowledges every byte: the call
succeeds, and after the page select (`E7 F3 FF F3 01` behind its backdoor
prefix) the register write transmits, behind its backdoor prefix, only
`E7 F3 23`: three command bytes and none of the 256 bytes of the request
(`buflen` is a `guint8`, 256 becomes 0), not `2 * 256 + 3`. -/
theorem ps2_write_truncates_length :
    (List.replicate 256 7).length = 256 ∧
    acking_device.in_backdoor = false ∧
    (fu_synaptics_rmi_ps2_device_write example_tokens
      (fu_synaptics_rmi_ps2_device_set_page example_tokens)
      acking_device 0x0123 (List.replicate 256 7)).ok = true ∧
    bytes_written (fu_synaptics_rmi_ps2_device_write example_tokens
      (fu_synaptics_rmi_ps2_device_set_page example_tokens)
      acking_device 0x0123 (List.replicate 256 7)).trace
      = ( backdoor_prefix ++ [0xE7, 0xF3, 0xFF, 0xF3, 0x01])
        ++ ( backdoor_prefix ++ [0xE7, 0xF3, 0x23]) ∧
    7 ∉ bytes_written (fu_synaptics_rmi_ps2_device_write example_tokens
      (fu_synaptics_rmi_ps2_device_set_page example_tokens)
      acking_device 0x0123 (List.replicate 256 7)).trace := by
  refine ⟨by decide, by decide, by decide, by decide, by decide⟩

/-- C27 (amended): for every 16-bit `addr` and every request,
`fu_synaptics_rmi_ps2_device_write` succeeds exactly when the page select of
`addr >> 8`, the backdoor-enable step of `write_rmi_register` and the
`write_byte` calls that follow all succeed; those calls are, in this order and
all with timeout 999, the ones for `0xE7, 0xF3, addr & 0xFF` and then for the
pair `0xF3, b` for each of the first `len mod 256` bytes `b` of the request, and
they are everything the call does after the enable step; for a request of fewer
than 256 bytes that covers every byte, `2 * len + 3` commands in total; and when
every command is acknowledged at once these commands are exactly the bytes
transmitted after the enable step. What the enable step transmits is not part
of the statement. -/
theorem ps2_write_commands (k : Tokens)
    (set_page : FuSynapticsRmiPs2Device → Nat → Ps2Run)
    (self : FuSynapticsRmiPs2Device) (addr : Nat) (req : List Nat) :
    ((fu_synaptics_rmi_ps2_device_write k set_page self addr req).ok = true ↔
      (set_page self (addr % 65536 / 256)).ok = true ∧
      (fu_synaptics_rmi_ps2_device_enable_rmi_backdoor k
        (set_page self (addr % 65536 / 256)).self).ok = true ∧
      (write_bytes 999 (register_write_commands addr req)
        (fu_synaptics_rmi_ps2_device_enable_rmi_backdoor k
          (set_page self (addr % 65536 / 256)).self).self).ok = true) ∧
    ((set_page self (addr % 65536 / 256)).ok = true →
      (fu_synaptics_rmi_ps2_device_enable_rmi_backdoor k
        (set_page self (addr % 65536 / 256)).self).ok = true →
      (fu_synaptics_rmi_ps2_device_write k set_page self addr req).trace
        = (set_page self (addr % 65536 / 256)).trace
          ++ (fu_synaptics_rmi_ps2_device_enable_rmi_backdoor k
            (set_page self (addr % 65536 / 256)).self).trace
          ++ (write_bytes 999 (register_write_commands addr req)
            (fu_synaptics_rmi_ps2_device_enable_rmi_backdoor k
              (set_page self (addr % 65536 / 256)).self).self).trace ∧
      (∀ rest,
        (fu_synaptics_rmi_ps2_device_enable_rmi_backdoor k
          (set_page self (addr % 65536 / 256)).self).self.reads
          = List.replicate (register_write_commands addr req).length (ReadResp.byte 0xFA)
            ++ rest →
        (∀ x ∈ (fu_synaptics_rmi_ps2_device_enable_rmi_backdoor k
          (set_page self (addr % 65536 / 256)).self).self.writes, x = true) →
        (fu_synaptics_rmi_ps2_device_write k set_page self addr req).ok = true ∧
        bytes_written (fu_synaptics_rmi_ps2_device_write k set_page self addr req).trace
          = bytes_written (set_page self (addr % 65536 / 256)).trace
            ++ bytes_written (fu_synaptics_rmi_ps2_device_enable_rmi_backdoor k
              (set_page self (addr % 65536 / 256)).self).trace
            ++ register_write_commands addr req)) ∧
    (req.length < 256 →
      register_write_commands addr req
        = [0xE7, 0xF3, addr % 256] ++ req.flatMap (fun b => [0xF3, b]) ∧
      (register_write_commands addr req).length = 2 * req.length + 3) ∧
    (∀ e ∈ (write_bytes 999 (register_write_commands addr req)
        (fu_synaptics_rmi_ps2_device_enable_rmi_backdoor k
          (set_page self (addr % 65536 / 256)).self).self).trace,
      (∃ b ok, e = Event.write_raw b 999 ok) ∨ (∃ resp, e = Event.read_raw 60 resp)) := by
  have hunf : fu_synaptics_rmi_ps2_device_write k set_page self addr req
      = ((set_page self (addr % 65536 / 256)).prefix_error "failed to set RMI page: " []).and_then
        (fun s => (fu_synaptics_rmi_ps2_device_write_rmi_register k s (addr % 256) req
          req.length 999).prefix_error "failed to write register %x: " [addr % 65536]) := rfl
  rw [hunf]
  generalize set_page self (addr % 65536 / 256) = p
  have hcmds : [0xE7, 0xF3, addr % 256 % 256]
      ++ (req.take (req.length % 256)).flatMap (fun b => [0xF3, b])
      = register_write_commands addr req := by
    rw [Nat.mod_mod]; rfl
  have hw : Same ((p.prefix_error "failed to set RMI page: " []).and_then
      (fun s => (fu_synaptics_rmi_ps2_device_write_rmi_register k s (addr % 256) req
        req.length 999).prefix_error "failed to write register %x: " [addr % 65536]))
      (p.and_then (fun s => (fu_synaptics_rmi_ps2_device_enable_rmi_backdoor k s).and_then
        (write_bytes 999 (register_write_commands addr req)))) := by
    refine same_and_then (same_prefix_error _ _ _) (fun s => ?_)
    refine same_trans (same_prefix_error _ _ _) ?_
    have := write_rmi_register_same k s (addr % 256) req req.length 999 (by decide)
    rw [hcmds] at this
    exact this
  obtain ⟨hw1, _, hw3⟩ := hw
  rw [hw1, hw3]
  refine ⟨?_, fun hp he => ?_, fun hlen => ?_, ?_⟩
  · rw [and_then_ok_iff, and_then_ok_iff]
  · obtain ⟨a1, _, a3⟩ := and_then_of_ok p
      (fun s => (fu_synaptics_rmi_ps2_device_enable_rmi_backdoor k s).and_then
        (write_bytes 999 (register_write_commands addr req))) hp
    obtain ⟨b1, _, b3⟩ := and_then_of_ok (fu_synaptics_rmi_ps2_device_enable_rmi_backdoor k p.self)
      (write_bytes 999 (register_write_commands addr req)) he
    rw [a1, a3, b1, b3, ← List.append_assoc]
    refine ⟨rfl, fun rest hreads hacc => ?_⟩
    obtain ⟨h1, h2, _, _⟩ := write_bytes_acked 999 (by decide)
      (register_write_commands addr req)
      (fu_synaptics_rmi_ps2_device_enable_rmi_backdoor k p.self).self rest hreads hacc
    rw [bytes_written_append, bytes_written_append, h2]
    exact ⟨h1, rfl⟩
  · have htake : req.take (req.length % 256) = req := by
      rw [Nat.mod_eq_of_lt hlen, List.take_length]
    unfold register_write_commands
    rw [htake]
    refine ⟨rfl, ?_⟩
    rw [List.length_append, pairs_length]
    simp only [List.length_cons, List.length_nil]
    omega
  · exact write_bytes_all
      (fun e => (∃ b ok, e = Event.write_raw b 999 ok) ∨ (∃ resp, e = Event.read_raw 60 resp))
      999 (fun b ok => Or.inl ⟨b, ok, rfl⟩) (fun resp => Or.inr ⟨resp, rfl⟩) _ _

/-- Witness of C27 (amended): the two bytes `07 08` written at address 0x0123
to a fresh device that acknowledges every byte, after the page select of
`fu_synaptics_rmi_ps2_device_set_page`: the call succeeds and the bytes
transmitted after the enable step are `E7 F3 23 F3 07 F3 08`. -/
theorem ps2_write_commands_witness :
    acking_device.in_backdoor = false ∧
    register_write_commands 0x0123 [7, 8] = [0xE7, 0xF3, 0x23, 0xF3, 7, 0xF3, 8] ∧
    (fu_synaptics_rmi_ps2_device_write example_tokens
      (fu_synaptics_rmi_ps2_device_set_page example_tokens)
      acking_device 0x0123 [7, 8]).ok = true ∧
    bytes_written (fu_synaptics_rmi_ps2_device_write example_tokens
      (fu_synaptics_rmi_ps2_device_set_page example_tokens)
      acking_device 0x0123 [7, 8]).trace
      = bytes_written (fu_synaptics_rmi_ps2_device_set_page example_tokens
          acking_device (0x0123 % 65536 / 256)).trace
        ++ bytes_written (fu_synaptics_rmi_ps2_device_enable_rmi_backdoor example_tokens
          (fu_synaptics_rmi_ps2_device_set_page example_tokens
            acking_device (0x0123 % 65536 / 256)).self).trace
        ++ register_write_commands 0x0123 [7, 8] ∧
    bytes_written (fu_synaptics_rmi_ps2_device_write example_tokens
      (fu_synaptics_rmi_ps2_device_set_page example_tokens)
      acking_device 0x0123 [7, 8]).trace
      = ( backdoor_prefix ++ [0xE7, 0xF3, 0xFF, 0xF3, 0x01])
        ++ ( backdoor_prefix ++ [0xE7, 0xF3, 0x23, 0xF3, 7, 0xF3, 8]) :=
  have h := ((ps2_write_commands example_tokens
    (fu_synaptics_rmi_ps2_device_set_page example_tokens)
    acking_device 0x0123 [7, 8]).2.1 (by decide) (by decide)).2
      (List.replicate 4 (ReadResp.byte 0xFA)) (by decide) (by decide)
  ⟨by decide, by decide, h.1, h.2, by decide⟩

end Ps2

/-! ## Synaptics RMI over PS/2: the status request sequence -/

namespace Ps2

theorem onto_ok (r : Ps2Run) (error : Option GError) : (r.onto error).ok = r.ok :=
  (same_onto r error).1

theorem onto_self (r : Ps2Run) (error : Option GError) : (r.onto error).self = r.self :=
  (same_onto r error).2.1

theorem onto_trace (r : Ps2Run) (error : Option GError) : (r.onto error).trace = r.trace :=
  (same_onto r error).2.2

theorem set_scaling_1to1_all (P : Event → Prop)
    (hw : ∀ b t ok, P (Event.write_raw b t ok)) (hr : ∀ resp, P (Event.read_raw 60 resp))
    (n : Nat) :
    ∀ (self : FuSynapticsRmiPs2Device), ∀ e ∈ (set_scaling_1to1 n self).trace, P e := by
  induction n with
  | zero => intro self e he; cases he
  | succ n ih =>
    intro self
    unfold set_scaling_1to1
    exact and_then_all P _ _ (write_byte_all P self _ _ (hw _ _) hr) ih

theorem set_resolution_pairs_all (P : Event → Prop)
    (hw : ∀ b t ok, P (Event.write_raw b t ok)) (hr : ∀ resp, P (Event.read_raw 60 resp))
    (arg : Nat) (n : Nat) :
    ∀ (self : FuSynapticsRmiPs2Device), ∀ e ∈ (set_resolution_pairs arg n self).trace, P e := by
  induction n with
  | zero => intro self e he; cases he
  | succ n ih =>
    intro self
    unfold set_resolution_pairs
    exact and_then_all P _ _
      (and_then_all P _ _ (write_byte_all P self _ _ (hw _ _) hr)
        (fun s => write_byte_all P s _ _ (hw _ _) hr)) ih

/-- An attempt of the status request sequence makes no response read: its reads
are acknowledge reads. -/
theorem status_request_attempt_all (P : Event → Prop)
    (hw : ∀ b t ok, P (Event.write_raw b t ok)) (hr : ∀ resp, P (Event.read_raw 60 resp))
    (self : FuSynapticsRmiPs2Device) (arg : Nat) :
    ∀ e ∈ (status_request_attempt self arg).trace, P e := by
  unfold status_request_attempt fu_synaptics_rmi_ps2_device_set_resolution_sequence
  exact and_then_all P _ _
    (and_then_all P _ _ (set_scaling_1to1_all P hw hr _ self)
      (fun s => set_resolution_pairs_all P hw hr arg 4 s))
    (fun s => write_byte_all P s _ _ (hw _ _) hr)

/-- The retry loop of the status request sequence makes at most three attempts
and stops at the first one that succeeds. -/
theorem status_request_loop_spec (self : FuSynapticsRmiPs2Device) (arg : Nat) :
    ((status_request_attempt self arg).ok = true ∧
      (status_request_loop arg 3 self none).ok = true ∧
      (status_request_loop arg 3 self none).self = (status_request_attempt self arg).self ∧
      (status_request_loop arg 3 self none).trace = (status_request_attempt self arg).trace) ∨
    ((status_request_attempt self arg).ok = false ∧
      (status_request_attempt (status_request_attempt self arg).self arg).ok = true ∧
      (status_request_loop arg 3 self none).ok = true ∧
      (status_request_loop arg 3 self none).self
        = (status_request_attempt (status_request_attempt self arg).self arg).self ∧
      (status_request_loop arg 3 self none).trace
        = (status_request_attempt self arg).trace
          ++ (status_request_attempt (status_request_attempt self arg).self arg).trace) ∨
    ((status_request_attempt self arg).ok = false ∧
      (status_request_attempt (status_request_attempt self arg).self arg).ok = false ∧
      (status_request_attempt (status_request_attempt
        (status_request_attempt self arg).self arg).self arg).ok = true ∧
      (status_request_loop arg 3 self none).ok = true ∧
      (status_request_loop arg 3 self none).self
        = (status_request_attempt (status_request_attempt
            (status_request_attempt self arg).self arg).self arg).self ∧
      (status_request_loop arg 3 self none).trace
        = (status_request_attempt self arg).trace
          ++ (status_request_attempt (status_request_attempt self arg).self arg).trace
          ++ (status_request_attempt (status_request_attempt
            (status_request_attempt self arg).self arg).self arg).trace) ∨
    ((status_request_attempt self arg).ok = false ∧
      (status_request_attempt (status_request_attempt self arg).self arg).ok = false ∧
      (status_request_attempt (status_request_attempt
        (status_request_attempt self arg).self arg).self arg).ok = false ∧
      (status_request_loop arg 3 self none).ok = false ∧
      (status_request_loop arg 3 self none).trace
        = (status_request_attempt self arg).trace
          ++ (status_request_attempt (status_request_attempt self arg).self arg).trace
          ++ (status_request_attempt (status_request_attempt
            (status_request_attempt self arg).self arg).self arg).trace) := by
  cases h1 : (status_request_attempt self arg).ok with
  | true =>
    left
    simp [status_request_loop, onto_ok, onto_self, onto_trace, h1]
  | false =>
    right
    cases h2 : (status_request_attempt (status_request_attempt self arg).self arg).ok with
    | true =>
      left
      simp [status_request_loop, onto_ok, onto_self, onto_trace, h1, h2]
    | false =>
      right
      cases h3 : (status_request_attempt (status_request_attempt
          (status_request_attempt self arg).self arg).self arg).ok with
      | true =>
        left
        simp [status_request_loop, onto_ok, onto_self, onto_trace, h1, h2, h3]
      | false =>
        right
        simp [status_request_loop, onto_ok, onto_self, onto_trace, h1, h2, h3]

theorem status_request_bytes_ok (s : FuSynapticsRmiPs2Device) (error : Option GError)
    (buf : Nat) (h : (status_request_bytes 3 buf s error).1.ok = true) :
    ∃ b0 b1 b2 rest, s.reads
      = ReadResp.byte b0 :: ReadResp.byte b1 :: ReadResp.byte b2 :: rest := by
  obtain ⟨bd, ws, rs⟩ := s
  rcases rs with _ | ⟨x, _ | ⟨y, _ | ⟨z, rest⟩⟩⟩
  · simp [status_request_bytes, fu_synaptics_rmi_ps2_device_read_byte,
      fu_io_channel_read_raw] at h
  · cases x <;> simp [status_request_bytes, fu_synaptics_rmi_ps2_device_read_byte,
      fu_io_channel_read_raw] at h
  · cases x <;> cases y <;> simp [status_request_bytes,
      fu_synaptics_rmi_ps2_device_read_byte, fu_io_channel_read_raw] at h
  · cases x <;> cases y <;> cases z <;> simp [status_request_bytes,
      fu_synaptics_rmi_ps2_device_read_byte, fu_io_channel_read_raw] at h
    exact ⟨_, _, _, rest, rfl⟩

theorem status_request_bytes_run (s : FuSynapticsRmiPs2Device) (error : Option GError)
    (b0 b1 b2 : Nat) (rest : List ReadResp)
    (h : s.reads = ReadResp.byte b0 :: ReadResp.byte b1 :: ReadResp.byte b2 :: rest) :
    (status_request_bytes 3 0 s error).1.ok = true ∧
    (status_request_bytes 3 0 s error).1.trace
      = [Event.read_raw 10 (ReadResp.byte b0), Event.read_raw 10 (ReadResp.byte b1),
          Event.read_raw 10 (ReadResp.byte b2)] ∧
    (status_request_bytes 3 0 s error).2
      = b0 % 256 * 65536 + b1 % 256 * 256 + b2 % 256 := by
  obtain ⟨bd, ws, rs⟩ := s
  simp only [] at h
  subst h
  refine ⟨rfl, rfl, ?_⟩
  have h0 : b0 % 256 < 256 := Nat.mod_lt _ (by decide)
  have h1 : b1 % 256 < 256 := Nat.mod_lt _ (by decide)
  have h2 : b2 % 256 < 256 := Nat.mod_lt _ (by decide)
  show Nat.lor ((Nat.lor ((Nat.lor ((0 * 256) % 4294967296) (b0 % 256)) * 256 % 4294967296)
    (b1 % 256)) * 256 % 4294967296) (b2 % 256) = _
  rw [shl8_or 0 _ (by decide) h0, shl8_or _ _ (by omega) h1, shl8_or _ _ (by omega) h2]
  omega

theorem status_request_sequence_after (self : FuSynapticsRmiPs2Device) (arg : Nat) :
    ((status_request_loop arg 3 self none).ok = false →
      (fu_synaptics_rmi_ps2_device_status_request_sequence self arg 0 none).1.ok = false ∧
      (fu_synaptics_rmi_ps2_device_status_request_sequence self arg 0 none).1.trace
        = (status_request_loop arg 3 self none).trace ∧
      (fu_synaptics_rmi_ps2_device_status_request_sequence self arg 0 none).2 = 0) ∧
    ((status_request_loop arg 3 self none).ok = true →
      ((fu_synaptics_rmi_ps2_device_status_request_sequence self arg 0 none).1.ok = true →
        ∃ b0 b1 b2 rest, (status_request_loop arg 3 self none).self.reads
          = ReadResp.byte b0 :: ReadResp.byte b1 :: ReadResp.byte b2 :: rest) ∧
      ∀ b0 b1 b2 rest, (status_request_loop arg 3 self none).self.reads
          = ReadResp.byte b0 :: ReadResp.byte b1 :: ReadResp.byte b2 :: rest →
        (fu_synaptics_rmi_ps2_device_status_request_sequence self arg 0 none).1.ok = true ∧
        (fu_synaptics_rmi_ps2_device_status_request_sequence self arg 0 none).1.trace
          = (status_request_loop arg 3 self none).trace
            ++ [Event.read_raw 10 (ReadResp.byte b0), Event.read_raw 10 (ReadResp.byte b1),
                Event.read_raw 10 (ReadResp.byte b2)] ∧
        (fu_synaptics_rmi_ps2_device_status_request_sequence self arg 0 none).2
          = b0 % 256 * 65536 + b1 % 256 * 256 + b2 % 256) := by
  unfold fu_synaptics_rmi_ps2_device_status_request_sequence
  simp only []
  generalize status_request_loop arg 3 self none = l
  constructor
  · intro hl
    simp [hl]
  · intro hl
    simp only [hl, Bool.not_true, Bool.false_eq_true, if_false]
    refine ⟨fun hok => status_request_bytes_ok l.self l.error 0 hok,
      fun b0 b1 b2 rest hreads => ?_⟩
    obtain ⟨g1, g2, g3⟩ := status_request_bytes_run l.self l.error b0 b1 b2 rest hreads
    exact ⟨g1, by rw [g2], g3⟩

/-- C25: `fu_synaptics_rmi_ps2_device_status_request_sequence`, called with
the output word 0, makes at most 3 attempts, each one
`set_resolution_sequence (arg, FALSE)` followed by `STATUS_REQUEST` (0xE9), and
stops at the first that succeeds; if all 3 fail it returns failure having made
no response read; a call that succeeds read, right after the first successful
attempt, exactly 3 response bytes `b0, b1, b2` and returns
`b0 * 65536 + b1 * 256 + b2`, which is below 2^24; and it does succeed whenever
the three bytes are delivered after the first successful attempt. -/
theorem status_request_sequence_spec (self : FuSynapticsRmiPs2Device) (arg : Nat)
    (a1 a2 a3 : Ps2Run)
    (h1 : a1 = (fu_synaptics_rmi_ps2_device_set_resolution_sequence self arg false).and_then
      (fun s => fu_synaptics_rmi_ps2_device_write_byte s 0xE9 10))
    (h2 : a2 = (fu_synaptics_rmi_ps2_device_set_resolution_sequence a1.self arg false).and_then
      (fun s => fu_synaptics_rmi_ps2_device_write_byte s 0xE9 10))
    (h3 : a3 = (fu_synaptics_rmi_ps2_device_set_resolution_sequence a2.self arg false).and_then
      (fun s => fu_synaptics_rmi_ps2_device_write_byte s 0xE9 10)) :
    (a1.ok = false → a2.ok = false → a3.ok = false →
      (fu_synaptics_rmi_ps2_device_status_request_sequence self arg 0 none).1.ok = false ∧
      (fu_synaptics_rmi_ps2_device_status_request_sequence self arg 0 none).1.trace
        = a1.trace ++ a2.trace ++ a3.trace ∧
      (∀ e ∈ (fu_synaptics_rmi_ps2_device_status_request_sequence self arg 0 none).1.trace,
        e.is_response_read = false) ∧
      (fu_synaptics_rmi_ps2_device_status_request_sequence self arg 0 none).2 = 0) ∧
    ((fu_synaptics_rmi_ps2_device_status_request_sequence self arg 0 none).1.ok = true →
      ∃ pre s b0 b1 b2 rest,
        ((a1.ok = true ∧ pre = a1.trace ∧ s = a1.self) ∨
          (a1.ok = false ∧ a2.ok = true ∧ pre = a1.trace ++ a2.trace ∧ s = a2.self) ∨
          (a1.ok = false ∧ a2.ok = false ∧ a3.ok = true ∧
            pre = a1.trace ++ a2.trace ++ a3.trace ∧ s = a3.self)) ∧
        (∀ e ∈ pre, e.is_response_read = false) ∧
        s.reads = ReadResp.byte b0 :: ReadResp.byte b1 :: ReadResp.byte b2 :: rest ∧
        (fu_synaptics_rmi_ps2_device_status_request_sequence self arg 0 none).1.trace
          = pre ++ [Event.read_raw 10 (ReadResp.byte b0), Event.read_raw 10 (ReadResp.byte b1),
              Event.read_raw 10 (ReadResp.byte b2)] ∧
        (fu_synaptics_rmi_ps2_device_status_request_sequence self arg 0 none).2
          = b0 % 256 * 65536 + b1 % 256 * 256 + b2 % 256 ∧
        (fu_synaptics_rmi_ps2_device_status_request_sequence self arg 0 none).2 < 16777216) ∧
    (∀ s b0 b1 b2 rest,
      ((a1.ok = true ∧ s = a1.self) ∨ (a1.ok = false ∧ a2.ok = true ∧ s = a2.self) ∨
        (a1.ok = false ∧ a2.ok = false ∧ a3.ok = true ∧ s = a3.self)) →
      s.reads = ReadResp.byte b0 :: ReadResp.byte b1 :: ReadResp.byte b2 :: rest →
      (fu_synaptics_rmi_ps2_device_status_request_sequence self arg 0 none).1.ok = true ∧
      (fu_synaptics_rmi_ps2_device_status_request_sequence self arg 0 none).2
        = b0 % 256 * 65536 + b1 % 256 * 256 + b2 % 256) := by
  have e1 : status_request_attempt self arg = a1 := h1.symm
  have e2 : status_request_attempt a1.self arg = a2 := h2.symm
  have e3 : status_request_attempt a2.self arg = a3 := h3.symm
  have hno : ∀ s, ∀ e ∈ (status_request_attempt s arg).trace, e.is_response_read = false :=
    fun s => status_request_attempt_all (fun e => e.is_response_read = false)
      (fun _ _ _ => rfl) (fun _ => rfl) s arg
  have hn1 : ∀ e ∈ a1.trace, e.is_response_read = false := e1 ▸ hno self
  have hn2 : ∀ e ∈ a2.trace, e.is_response_read = false := e2 ▸ hno a1.self
  have hn3 : ∀ e ∈ a3.trace, e.is_response_read = false := e3 ▸ hno a2.self
  have hl := status_request_loop_spec self arg
  rw [e1, e2, e3] at hl
  obtain ⟨hfail, hsucc⟩ := status_request_sequence_after self arg
  generalize status_request_loop arg 3 self none = l at hl hfail hsucc
  generalize fu_synaptics_rmi_ps2_device_status_request_sequence self arg 0 none = r
    at hfail hsucc ⊢
  have hval : ∀ b0 b1 b2 : Nat, b0 % 256 * 65536 + b1 % 256 * 256 + b2 % 256 < 16777216 := by
    intro b0 b1 b2
    have := Nat.mod_lt b0 (by decide : 256 > 0)
    have := Nat.mod_lt b1 (by decide : 256 > 0)
    have := Nat.mod_lt b2 (by decide : 256 > 0)
    omega
  have key : ∀ (pre : List Event) (s : FuSynapticsRmiPs2Device),
      l.ok = true → l.self = s → l.trace = pre → (∀ e ∈ pre, e.is_response_read = false) →
      (r.1.ok = true → ∃ b0 b1 b2 rest,
        (∀ e ∈ pre, e.is_response_read = false) ∧
        s.reads = ReadResp.byte b0 :: ReadResp.byte b1 :: ReadResp.byte b2 :: rest ∧
        r.1.trace = pre ++ [Event.read_raw 10 (ReadResp.byte b0),
          Event.read_raw 10 (ReadResp.byte b1), Event.read_raw 10 (ReadResp.byte b2)] ∧
        r.2 = b0 % 256 * 65536 + b1 % 256 * 256 + b2 % 256 ∧ r.2 < 16777216) ∧
      (∀ b0 b1 b2 rest,
        s.reads = ReadResp.byte b0 :: ReadResp.byte b1 :: ReadResp.byte b2 :: rest →
        r.1.ok = true ∧ r.2 = b0 % 256 * 65536 + b1 % 256 * 256 + b2 % 256) := by
    intro pre s hlok hls hlt hpre
    obtain ⟨hs1, hs2⟩ := hsucc hlok
    rw [hls, hlt] at hs2
    rw [hls] at hs1
    refine ⟨fun hok => ?_, fun b0 b1 b2 rest hreads => ?_⟩
    · obtain ⟨b0, b1, b2, rest, hreads⟩ := hs1 hok
      obtain ⟨_, g2, g3⟩ := hs2 b0 b1 b2 rest hreads
      exact ⟨b0, b1, b2, rest, hpre, hreads, g2, g3, by rw [g3]; exact hval _ _ _⟩
    · obtain ⟨g1, _, g3⟩ := hs2 b0 b1 b2 rest hreads
      exact ⟨g1, g3⟩
  have f_ne : ∀ {b : Bool}, b = true → b = false → False := by
    intro b h1 h2; rw [h1] at h2; exact absurd h2 (by decide)
  rcases hl with ⟨c1, l1, l2, l3⟩ | ⟨c1, c2, l1, l2, l3⟩ | ⟨c1, c2, c3, l1, l2, l3⟩ |
    ⟨c1, c2, c3, l1, l3⟩
  · obtain ⟨k1, k2⟩ := key a1.trace a1.self l1 l2 l3 hn1
    refine ⟨fun h _ _ => (f_ne c1 h).elim, fun hok => ?_, ?_⟩
    · obtain ⟨b0, b1, b2, rest, q⟩ := k1 hok
      exact ⟨a1.trace, a1.self, b0, b1, b2, rest, Or.inl ⟨c1, rfl, rfl⟩, q⟩
    · intro s b0 b1 b2 rest hs hreads
      rcases hs with ⟨_, hs⟩ | ⟨h, _⟩ | ⟨h, _⟩
      · rw [hs] at hreads; exact k2 b0 b1 b2 rest hreads
      · exact (f_ne c1 h).elim
      · exact (f_ne c1 h).elim
  · have hpre : ∀ e ∈ a1.trace ++ a2.trace, e.is_response_read = false :=
      List.forall_mem_append.mpr ⟨hn1, hn2⟩
    obtain ⟨k1, k2⟩ := key (a1.trace ++ a2.trace) a2.self l1 l2 l3 hpre
    refine ⟨fun _ h _ => (f_ne c2 h).elim, fun hok => ?_, ?_⟩
    · obtain ⟨b0, b1, b2, rest, q⟩ := k1 hok
      exact ⟨a1.trace ++ a2.trace, a2.self, b0, b1, b2, rest,
        Or.inr (Or.inl ⟨c1, c2, rfl, rfl⟩), q⟩
    · intro s b0 b1 b2 rest hs hreads
      rcases hs with ⟨h, _⟩ | ⟨_, _, hs⟩ | ⟨_, h, _⟩
      · exact (f_ne h c1).elim
      · rw [hs] at hreads; exact k2 b0 b1 b2 rest hreads
      · exact (f_ne c2 h).elim
  · have hpre : ∀ e ∈ a1.trace ++ a2.trace ++ a3.trace, e.is_response_read = false :=
      List.forall_mem_append.mpr ⟨List.forall_mem_append.mpr ⟨hn1, hn2⟩, hn3⟩
    obtain ⟨k1, k2⟩ := key (a1.trace ++ a2.trace ++ a3.trace) a3.self l1 l2 l3 hpre
    refine ⟨fun _ _ h => (f_ne c3 h).elim, fun hok => ?_, ?_⟩
    · obtain ⟨b0, b1, b2, rest, q⟩ := k1 hok
      exact ⟨a1.trace ++ a2.trace ++ a3.trace, a3.self, b0, b1, b2, rest,
        Or.inr (Or.inr ⟨c1, c2, c3, rfl, rfl⟩), q⟩
    · intro s b0 b1 b2 rest hs hreads
      rcases hs with ⟨h, _⟩ | ⟨_, h, _⟩ | ⟨_, _, _, hs⟩
      · exact (f_ne h c1).elim
      · exact (f_ne h c2).elim
      · rw [hs] at hreads; exact k2 b0 b1 b2 rest hreads
  · obtain ⟨g1, g2, g3⟩ := hfail l1
    have hpre : ∀ e ∈ a1.trace ++ a2.trace ++ a3.trace, e.is_response_read = false :=
      List.forall_mem_append.mpr ⟨List.forall_mem_append.mpr ⟨hn1, hn2⟩, hn3⟩
    refine ⟨fun _ _ _ => ⟨g1, by rw [g2, l3], by rw [g2, l3]; exact hpre, g3⟩,
      fun hok => (f_ne hok g1).elim, ?_⟩
    intro s b0 b1 b2 rest hs _
    rcases hs with ⟨h, _⟩ | ⟨_, h, _⟩ | ⟨_, _, h, _⟩
    · exact (f_ne h c1).elim
    · exact (f_ne h c2).elim
    · exact (f_ne h c3).elim

/-- Witness of C25: a device acknowledges the ten commands of the first attempt
and answers `01 02 03`; the value returned is 0x010203. -/
theorem status_request_sequence_spec_witness :
    (fu_synaptics_rmi_ps2_device_status_request_sequence
      ⟨false, [], status_response 1 2 3⟩ 0x0A 0 none).1.ok = true ∧
    (fu_synaptics_rmi_ps2_device_status_request_sequence
      ⟨false, [], status_response 1 2 3⟩ 0x0A 0 none).2 = 0x010203 ∧
    (fu_synaptics_rmi_ps2_device_status_request_sequence
      ⟨false, [], status_response 1 2 3⟩ 0x0A 0 none).2
        = 1 % 256 * 65536 + 2 % 256 * 256 + 3 % 256 :=
  have h := (status_request_sequence_spec ⟨false, [], status_response 1 2 3⟩ 0x0A _ _ _
    rfl rfl rfl).2.2
    ((fu_synaptics_rmi_ps2_device_set_resolution_sequence
      ⟨false, [], status_response 1 2 3⟩ 0x0A false).and_then
      (fun s => fu_synaptics_rmi_ps2_device_write_byte s 0xE9 10)).self 1 2 3 []
    (Or.inl ⟨by decide, rfl⟩) (by decide)
  ⟨h.1, by decide, h.2⟩

end Ps2
/-! ## Synaptics RMI V5: the secure check and the firmware bytes -/

namespace RmiV5

/-- The signature slice exists exactly when the offset
`firmware_size - signature_size` (in 32 bits) plus `signature_size` does not
exceed the length of the `ui` image. -/
theorem secure_check_signature_isSome (firmware : FuSynapticsRmiFirmware) (ui : List Nat) :
    (secure_check_signature firmware ui).isSome = true ↔
      (firmware.firmware_size % 4294967296 + 4294967296
          - firmware.signature_size % 4294967296) % 4294967296
        + firmware.signature_size % 4294967296 ≤ ui.length := by
  unfold secure_check_signature g_bytes_new_from_bytes
  simp only []
  split
  · rename_i h
    simp only [Option.isSome_some, true_iff]
    exact h.2
  · rename_i h
    simp only [Option.isSome_none, Bool.false_eq_true, false_iff]
    intro hle
    exact h ⟨by omega, hle⟩

/-- The bytes of the signature slice: the `signature_size` bytes of the `ui`
image from the offset `firmware_size - signature_size` on. -/
theorem secure_check_signature_bytes (firmware : FuSynapticsRmiFirmware) (ui sig : List Nat)
    (h : secure_check_signature firmware ui = some sig) :
    sig = (ui.drop ((firmware.firmware_size % 4294967296 + 4294967296
        - firmware.signature_size % 4294967296) % 4294967296)).take
      (firmware.signature_size % 4294967296) := by
  unfold secure_check_signature g_bytes_new_from_bytes at h
  simp only [] at h
  split at h
  · exact (Option.some.inj h).symm
  · cases h

/-- C28 (counterexample): the `ui` image exists, the backdoor entry succeeds
and F34 is present, and still `fu_synaptics_rmi_v5_device_secure_check` does
not return success: (1) when the first packet-register read of the key fails,
it dereferences the `NULL` the read returned, for `plain_firmware` and for
`other_firmware` alike; (2) when the header announces a signature of 8 bytes
for a `ui` image of 4 bytes, the signature slice is `NULL` and is dumped with
an uninitialised length after the backdoor entry, before any key is read. -/
theorem secure_check_key_read_fails :
    plain_firmware.ui.isSome = true ∧
    (fu_synaptics_rmi_device_enter_backdoor failing_key_device).ok = true ∧
    (fu_synaptics_rmi_device_get_function failing_key_device 0x34).isSome = true ∧
    (fu_synaptics_rmi_v5_device_secure_check failing_key_device plain_firmware).1.succeeded
      = false ∧
    (fu_synaptics_rmi_v5_device_secure_check failing_key_device plain_firmware).1.result?
      = none ∧
    (fu_synaptics_rmi_v5_device_secure_check failing_key_device other_firmware).1.succeeded
      = false ∧
    oversigned_firmware.ui = some [1, 2, 3, 4] ∧
    secure_check_signature oversigned_firmware [1, 2, 3, 4] = none ∧
    (fu_synaptics_rmi_device_enter_backdoor key_device).ok = true ∧
    (fu_synaptics_rmi_device_get_function key_device 0x34).isSome = true ∧
    (fu_synaptics_rmi_v5_device_secure_check key_device oversigned_firmware).1.succeeded
      = false ∧
    (fu_synaptics_rmi_v5_device_secure_check key_device oversigned_firmware).1.result?
      = none ∧
    (fu_synaptics_rmi_v5_device_secure_check key_device oversigned_firmware).1.trace
      = [Event.op Op.enter_backdoor (Resp.ok [])] := by
  refine ⟨by decide, by decide, by decide, by decide, by decide, by decide, rfl, by decide,
    by decide, by decide, by decide, by decide, by decide⟩

/-- C28 (amended): for any two firmwares with the same `ui`-image length,
`signature_size` and `firmware_size`, whatever their bytes, run against the
same device, `fu_synaptics_rmi_v5_device_secure_check` gives the same outcome,
the same events, the same device state and the same assembled key: of the
firmware it uses only whether the signature slice (the `signature_size` bytes
from the offset `firmware_size - signature_size` of the `ui` image) lies inside
the image, never the bytes of the slice or of the body. The result is success
whenever the `ui` image exists, the signature slice lies inside it, the
backdoor entry succeeds, F34 is present and every packet-register read of the
key returns its 3 bytes. -/
theorem secure_check_ignores_signature (self : FuSynapticsRmiDevice)
    (fw1 fw2 : FuSynapticsRmiFirmware)
    (hlen : fw1.ui.map List.length = fw2.ui.map List.length)
    (hsig : fw1.signature_size = fw2.signature_size)
    (hsz : fw1.firmware_size = fw2.firmware_size) :
    fu_synaptics_rmi_v5_device_secure_check self fw1
      = fu_synaptics_rmi_v5_device_secure_check self fw2 ∧
    (∀ ui1 ui2, fw1.ui = some ui1 → fw2.ui = some ui2 →
      ((secure_check_signature fw1 ui1).isSome = (secure_check_signature fw2 ui2).isSome ∧
        ((secure_check_signature fw1 ui1).isSome = true ↔
          (fw1.firmware_size % 4294967296 + 4294967296
              - fw1.signature_size % 4294967296) % 4294967296
            + fw1.signature_size % 4294967296 ≤ ui1.length))) ∧
    (∀ (ui1 : List Nat) (f34 : FuSynapticsRmiFunction) (b0 : Resp)
        (bursts : List (List Nat)) (rest : List Resp),
      fw1.ui = some ui1 →
      (secure_check_signature fw1 ui1).isSome = true →
      self.script = b0 :: (bursts.map Resp.ok ++ rest) → b0 ≠ Resp.fail →
      fu_synaptics_rmi_device_get_function self 0x34 = some f34 →
      bursts.length = (self.rsa_keylen / 8 + 2) / 3 →
      (∀ b ∈ bursts, b.length = 3) →
      (fu_synaptics_rmi_v5_device_secure_check self fw1).1.succeeded = true ∧
      (fu_synaptics_rmi_v5_device_secure_check self fw2).1.succeeded = true) := by
  have hslice : ∀ ui1 ui2, fw1.ui = some ui1 → fw2.ui = some ui2 →
      (secure_check_signature fw1 ui1).isSome = (secure_check_signature fw2 ui2).isSome := by
    intro ui1 ui2 h1 h2
    have hl : ui1.length = ui2.length := by
      rw [h1, h2] at hlen
      exact Option.some.inj hlen
    have e1 := secure_check_signature_isSome fw1 ui1
    have e2 := secure_check_signature_isSome fw2 ui2
    rw [← hsig, ← hsz, ← hl] at e2
    cases hs1 : (secure_check_signature fw1 ui1).isSome with
    | true => exact (e2.mpr (e1.mp hs1)).symm
    | false =>
      cases hs2 : (secure_check_signature fw2 ui2).isSome with
      | false => rfl
      | true => rw [e1.mpr (e2.mp hs2)] at hs1; cases hs1
  have heq : fu_synaptics_rmi_v5_device_secure_check self fw1
      = fu_synaptics_rmi_v5_device_secure_check self fw2 := by
    unfold fu_synaptics_rmi_v5_device_secure_check
    cases h1 : fw1.ui with
    | none =>
      cases h2 : fw2.ui with
      | none => rfl
      | some u2 => rw [h1, h2] at hlen; cases hlen
    | some u1 =>
      cases h2 : fw2.ui with
      | none => rw [h1, h2] at hlen; cases hlen
      | some u2 =>
        have hsl := hslice u1 u2 h1 h2
        simp only []
        cases hs1 : secure_check_signature fw1 u1 with
        | none =>
          cases hs2 : secure_check_signature fw2 u2 with
          | none => rfl
          | some s2 => rw [hs1, hs2] at hsl; cases hsl
        | some s1 =>
          cases hs2 : secure_check_signature fw2 u2 with
          | none => rw [hs1, hs2] at hsl; cases hsl
          | some s2 => rfl
  refine ⟨heq, fun ui1 ui2 h1 h2 =>
      ⟨hslice ui1 ui2 h1 h2, secure_check_signature_isSome fw1 ui1⟩,
    fun ui1 f34 b0 bursts rest hui hsl hs hb0 hf hn h3 => ?_⟩
  rw [← heq, secure_check_scripted self fw1 ui1 f34 b0 bursts rest hui hsl hs hb0 hf hn h3]
  exact ⟨rfl, rfl⟩

/-- Witness of C28 (amended): `signed_firmware` and `other_signed_firmware`,
whose bodies and signatures differ, against the device with a key of 5 bytes. -/
theorem secure_check_ignores_signature_witness :
    (signed_firmware.ui.map List.length = other_signed_firmware.ui.map List.length ∧
      signed_firmware.signature_size = other_signed_firmware.signature_size ∧
      signed_firmware.firmware_size = other_signed_firmware.firmware_size) ∧
    (secure_check_signature signed_firmware [1, 2, 3, 4] = some [3, 4] ∧
      secure_check_signature other_signed_firmware [7, 8, 9, 10] = some [9, 10]) ∧
    fu_synaptics_rmi_v5_device_secure_check key_device signed_firmware
      = fu_synaptics_rmi_v5_device_secure_check key_device other_signed_firmware ∧
    (fu_synaptics_rmi_v5_device_secure_check key_device signed_firmware).1.succeeded = true ∧
    (fu_synaptics_rmi_v5_device_secure_check key_device other_signed_firmware).1.succeeded
      = true :=
  have h := secure_check_ignores_signature key_device signed_firmware other_signed_firmware
    (by decide) (by decide) (by decide)
  have hs := h.2.2 [1, 2, 3, 4] example_f34 (Resp.ok []) [[1, 2, 3], [4, 5, 6]] [] rfl
    (by decide) rfl (by decide) (by decide) (by decide) (by decide)
  ⟨⟨by decide, by decide, by decide⟩, ⟨by decide, by decide⟩, h.1, hs.1, hs.2⟩

end RmiV5
/-! ## PixArt RF: what was written before the upgrade command -/

namespace Pxi

/-- In a run of `fu_pxi_device_write_firmware` that reached the upgrade command
the object loop succeeded, and what the run records of the events of the object
phase is what the loop recorded. -/
theorem write_firmware_upgrade_phase {β : Type} (f : Event → Option β)
    (hf : ∀ e, e.phase ≠ 2 → f e = none)
    (self : FuPxiDevice) (firmware : FuFirmware)
    (h : ∃ e ∈ (fu_pxi_device_write_firmware self firmware).trace, 3 ≤ e.phase) :
    ∃ s,
      (write_firmware_objects s
        (fu_chunk_array_new (firmware.image_default.getD []) 0 4096).length 0
        (fu_chunk_array_new (firmware.image_default.getD []) 0 4096)).ok = true ∧
      (fu_pxi_device_write_firmware self firmware).trace.filterMap f
        = (write_firmware_objects s
            (fu_chunk_array_new (firmware.image_default.getD []) 0 4096).length 0
            (fu_chunk_array_new (firmware.image_default.getD []) 0 4096)).trace.filterMap f := by
  have hnone : ∀ (t : List Event), (∀ e ∈ t, e.phase ≠ 2) → t.filterMap f = [] :=
    fun t ht => filterMap_none _ _ (fun e he => hf e (ht e he))
  have early : ∀ t : List Event, (∀ e ∈ t, e.phase ≤ 2) → (∃ e ∈ t, 3 ≤ e.phase) → False := by
    rintro t ht ⟨e, he, h3⟩
    have := ht e he
    omega
  cases hfw : firmware.image_default with
  | none =>
    unfold fu_pxi_device_write_firmware at h
    rw [hfw] at h
    exact (early [] (fun e he => (nomatch he)) h).elim
  | some fw =>
    unfold fu_pxi_device_write_firmware at h ⊢
    rw [hfw] at h ⊢
    simp only [Option.getD_some, FU_PXI_DEVICE_OBJECT_SIZE_MAX] at h ⊢
    have h0 : ∀ e ∈ [Event.set_status FwupdStatus.DEVICE_BUSY], e.phase ≤ 1 := by
      intro e he; rw [List.mem_singleton.mp he]; exact Nat.zero_le _
    have ha : ∀ e ∈ (fu_pxi_device_fw_ota_init self).trace, e.phase ≤ 1 :=
      pwrite_events _ _ _ _ (fun e => e.phase ≤ 1) (fun _ => Nat.le_refl _)
    generalize fu_pxi_device_fw_ota_init self = a at h ha ⊢
    cases haok : a.ok with
    | false =>
      simp only [haok, Bool.not_false, if_true] at h
      exact (early _ (fun e he => Nat.le_succ_of_le
        (List.forall_mem_append.mpr ⟨h0, ha⟩ e he)) h).elim
    | true =>
      simp only [haok, Bool.not_true, Bool.false_eq_true, if_false] at h ⊢
      have hb := ota_init_new_events a.self fw.length
      generalize fu_pxi_device_fw_ota_init_new a.self fw.length = b at h hb ⊢
      cases hbok : b.ok with
      | false =>
        simp only [hbok, Bool.not_false, if_true] at h
        exact (early _ (fun e he => Nat.le_succ_of_le
          (List.forall_mem_append.mpr ⟨List.forall_mem_append.mpr ⟨h0, ha⟩, hb⟩ e he)) h).elim
      | true =>
        simp only [hbok, Bool.not_true, Bool.false_eq_true, if_false] at h ⊢
        have ht1 : ∀ e ∈ [Event.set_status FwupdStatus.DEVICE_BUSY] ++ a.trace ++ b.trace
            ++ [Event.set_status FwupdStatus.DEVICE_WRITE], e.phase ≤ 1 := by
          refine List.forall_mem_append.mpr
            ⟨List.forall_mem_append.mpr ⟨List.forall_mem_append.mpr ⟨h0, ha⟩, hb⟩, ?_⟩
          intro e he; rw [List.mem_singleton.mp he]; exact Nat.zero_le _
        generalize [Event.set_status FwupdStatus.DEVICE_BUSY] ++ a.trace ++ b.trace
            ++ [Event.set_status FwupdStatus.DEVICE_WRITE] = t1 at h ht1 ⊢
        have f1 : t1.filterMap f = [] :=
          hnone t1 (fun e he => by have := ht1 e he; omega)
        refine ⟨b.self, ?_⟩
        have hl := (write_firmware_objects_events (fu_chunk_array_new fw 0 4096) b.self
          (fu_chunk_array_new fw 0 4096).length 0).1
        generalize write_firmware_objects b.self (fu_chunk_array_new fw 0 4096).length 0
          (fu_chunk_array_new fw 0 4096) = l at h hl ⊢
        cases hlok : l.ok with
        | false =>
          simp only [hlok, Bool.not_false, if_true] at h
          exact (early _ (List.forall_mem_append.mpr
            ⟨fun e he => Nat.le_succ_of_le (ht1 e he),
              fun e he => by rcases hl e he with h2 | h2 <;> omega⟩) h).elim
        | true =>
          simp only [hlok, Bool.not_true, Bool.false_eq_true, if_false] at h ⊢
          have hu : (fu_pxi_device_fw_upgrade l.self firmware).trace.filterMap f = [] :=
            hnone _ (fun e he => by
              rcases (fw_upgrade_events l.self firmware).1 e he with h2 | h2 <;> omega)
          generalize fu_pxi_device_fw_upgrade l.self firmware = u at h hu ⊢
          cases huok : u.ok with
          | false =>
            simp only [Bool.not_false, if_true]
            simp only [List.filterMap_append, f1, hu, List.nil_append, List.append_nil]
            exact ⟨trivial, trivial⟩
          | true =>
            simp only [Bool.not_true, Bool.false_eq_true, if_false]
            have hr : (fu_pxi_device_reset u.self fw.length).trace.filterMap f = [] :=
              hnone _ (fun e he => by
                rcases reset_events u.self fw.length e he with h2 | h2 <;> omega)
            simp only [List.filterMap_append, f1, hu, hr, List.nil_append, List.append_nil]
            exact ⟨trivial, trivial⟩

/-- C3: in every run of `fu_pxi_device_write_firmware`, (1) a step that fails (a
transport read or write error, a PRN acknowledgement whose opcode is not 0x17, a
checksum mismatch on an object, an upgrade notification whose opcode is not
0x18) is the last event of the run, so no further packet is written, and the
call returns failure; (2) if the upgrade command (0x18) or the reset command
(0x22) was sent then every object of the blob was written and
checksum-verified, in order: the run sent one object-create command for each
object, the payload packets of every object (their data bytes concatenate to
the blob), no step of the object phase failed, and the terminal notification of
every object carried its checksum; (3) if the reset command was sent then the
upgrade notification was read and carried the opcode 0x18. -/
theorem write_firmware_fail_stop (self : FuPxiDevice) (firmware : FuFirmware) :
    (∀ pre e post, (fu_pxi_device_write_firmware self firmware).trace = pre ++ e :: post →
      e.failed = true →
        post = [] ∧ (fu_pxi_device_write_firmware self firmware).ok = false) ∧
    ((∃ e ∈ (fu_pxi_device_write_firmware self firmware).trace,
        e.site? = some Site.upgrade ∨ e.site? = some Site.reset) →
      (fu_pxi_device_write_firmware self firmware).trace.filterMap Event.object_create?
        = (fu_chunk_array_new (firmware.image_default.getD []) 0 4096).map
            (fun o => [0x06, 0x25] ++ le32 o.address ++ le32 o.data.length) ∧
      (fu_pxi_device_write_firmware self firmware).trace.filterMap Event.payload?
        = (fu_chunk_array_new (firmware.image_default.getD []) 0 4096).flatMap (fun o =>
            (fu_chunk_array_new o.data o.address 20).map (fun c => 0x06 :: c.data)) ∧
      (((fu_pxi_device_write_firmware self firmware).trace.filterMap Event.payload?).map
        List.tail).flatten = firmware.image_default.getD [] ∧
      (∀ e ∈ (fu_pxi_device_write_firmware self firmware).trace,
        e.phase = 2 → e.failed = false) ∧
      (fu_pxi_device_write_firmware self firmware).trace.filterMap Event.verified?
        = (fu_chunk_array_new (firmware.image_default.getD []) 0 4096).map
            (fun chk => fu_pxi_device_calculate_checksum chk.data)) ∧
    ((∃ e ∈ (fu_pxi_device_write_firmware self firmware).trace, e.site? = some Site.reset) →
      ∃ data, Event.io Site.upgrade_notify (HidOp.pread 1 31) (HidResp.ok data)
          ∈ (fu_pxi_device_write_firmware self firmware).trace ∧
        notify_status (fill_buffer notify_buffer 31 data) = 0x18) := by
  have hphase : ∀ (e : Event) (s : Site), e.site? = some s → e.phase = s.phase := by
    intro e s h
    cases e with
    | io site op resp =>
      simp only [Event.site?, Option.some.injEq] at h
      rw [← h]; rfl
    | set_status _ => simp [Event.site?] at h
    | set_progress _ _ => simp [Event.site?] at h
  obtain ⟨hs1, hs2⟩ := write_firmware_stops self firmware
  obtain ⟨he1, he2⟩ := write_firmware_events self firmware
  refine ⟨?_, ?_, ?_⟩
  · intro pre e post htr hfail
    have hok : (fu_pxi_device_write_firmware self firmware).ok = false := by
      cases h : (fu_pxi_device_write_firmware self firmware).ok with
      | false => rfl
      | true =>
        have := hs1 h e (by rw [htr]; simp)
        rw [this] at hfail
        exact absurd hfail (by decide)
    refine ⟨?_, hok⟩
    by_contra hpost
    have hmem : e ∈ (fu_pxi_device_write_firmware self firmware).trace.dropLast := by
      rw [htr, List.dropLast_append_of_ne_nil _ (List.cons_ne_nil _ _)]
      apply List.mem_append_right
      cases post with
      | nil => exact absurd rfl hpost
      | cons p ps => simp [List.dropLast]
    have := hs2 e hmem
    rw [this] at hfail
    exact absurd hfail (by decide)
  · intro hsent
    have h3 : ∃ e ∈ (fu_pxi_device_write_firmware self firmware).trace, 3 ≤ e.phase := by
      obtain ⟨e, he, h | h⟩ := hsent
      · exact ⟨e, he, by rw [hphase e _ h]; decide⟩
      · exact ⟨e, he, by rw [hphase e _ h]; decide⟩
    obtain ⟨s1, hs1ok, hp⟩ := write_firmware_upgrade_phase Event.payload?
      (fun e he => by
        cases e with
        | io site op resp => cases site <;> first | rfl | exact absurd rfl he
        | set_status _ => rfl
        | set_progress _ _ => rfl)
      self firmware h3
    obtain ⟨s2, hs2ok, hc⟩ := write_firmware_upgrade_phase Event.object_create?
      (fun e he => by
        cases e with
        | io site op resp => cases site <;> first | rfl | exact absurd rfl he
        | set_status _ => rfl
        | set_progress _ _ => rfl)
      self firmware h3
    obtain ⟨s3, hs3ok, hfl⟩ := write_firmware_upgrade_phase
      (fun e => if e.phase = 2 ∧ e.failed = true then some e else none)
      (fun e he => if_neg (fun hh => he hh.1))
      self firmware h3
    have hpay := (write_firmware_objects_packets _ s1 _ 0 hs1ok).1
    have hcre := (write_firmware_objects_packets _ s2 _ 0 hs2ok).2
    have hflat : ((fu_chunk_array_new (firmware.image_default.getD []) 0 4096).map
        FuChunk.data).flatten = firmware.image_default.getD [] :=
      fu_chunk_array_go_flatten 4096 _ _ _ _ (Nat.le_refl _)
    have hclean := (write_firmware_objects_stops
      (fu_chunk_array_new (firmware.image_default.getD []) 0 4096) s3
      (fu_chunk_array_new (firmware.image_default.getD []) 0 4096).length 0).1 hs3ok
    have hnofail : (fu_pxi_device_write_firmware self firmware).trace.filterMap
        (fun e => if e.phase = 2 ∧ e.failed = true then some e else none) = [] := by
      rw [hfl]
      apply filterMap_none
      intro e he
      have := hclean e he
      exact if_neg (fun hh => by rw [this] at hh; exact absurd hh.2 (by decide))
    refine ⟨hc.trans hcre, hp.trans hpay, ?_, ?_, he1 h3⟩
    · rw [hp, hpay, payload_data_flatten, hflat]
    · intro e he h2
      have hn := List.filterMap_eq_nil_iff.mp hnofail e he
      cases hf : e.failed with
      | false => rfl
      | true =>
        rw [if_pos ⟨h2, hf⟩] at hn
        cases hn
  · rintro ⟨e, he, h⟩
    exact he2 ⟨e, he, by rw [hphase e _ h]; rfl⟩

/-- Witness of C3: a PRN notification with opcode 0x16 is the last event of the
run, the call fails, and neither the upgrade nor the reset command is sent; in
the run of `good_device`, which sends the upgrade command, the object-create
command of the one object and its payload packet `06 FF 01` were written
before, and its checksum 256 was verified. -/
theorem write_firmware_fail_stop_witness :
    (Event.io Site.prn_notify (HidOp.pread 1 31) (HidResp.ok [5, 0x16])).failed = true ∧
    (fu_pxi_device_write_firmware wrong_ack_device example_firmware).trace.getLast?
      = some (Event.io Site.prn_notify (HidOp.pread 1 31) (HidResp.ok [5, 0x16])) ∧
    (fu_pxi_device_write_firmware wrong_ack_device example_firmware).ok = false ∧
    (∀ e ∈ (fu_pxi_device_write_firmware wrong_ack_device example_firmware).trace,
      e.site? ≠ some Site.upgrade ∧ e.site? ≠ some Site.reset) ∧
    (∃ e ∈ (fu_pxi_device_write_firmware good_device example_firmware).trace,
      e.site? = some Site.upgrade ∨ e.site? = some Site.reset) ∧
    (fu_pxi_device_write_firmware good_device example_firmware).trace.filterMap
      Event.object_create? = [[0x06, 0x25, 0, 0, 0, 0, 2, 0, 0, 0]] ∧
    (fu_pxi_device_write_firmware good_device example_firmware).trace.filterMap
      Event.payload? = [[0x06, 0xFF, 0x01]] ∧
    (fu_pxi_device_write_firmware good_device example_firmware).trace.filterMap
      Event.verified? = [256] :=
  have hsent : ∃ e ∈ (fu_pxi_device_write_firmware good_device example_firmware).trace,
      e.site? = some Site.upgrade ∨ e.site? = some Site.reset := by decide
  have h := (write_firmware_fail_stop good_device example_firmware).2.1 hsent
  ⟨by decide, by decide,
    ((write_firmware_fail_stop wrong_ack_device example_firmware).1
      ((fu_pxi_device_write_firmware wrong_ack_device example_firmware).trace.dropLast)
      (Event.io Site.prn_notify (HidOp.pread 1 31) (HidResp.ok [5, 0x16])) []
      (by decide) (by decide)).2,
    by decide, hsent, h.1.trans (by decide), h.2.1.trans (by decide),
    h.2.2.2.2.trans (by decide)⟩

end Pxi
